import Mathlib

/-!
# VRCharacterMovementComponent: a shallow embedding

Source: `VRExpansionPlugin/Private/VRCharacterMovementComponent.cpp`.

Conventions of the embedding.

* `float` values are rationals (`ℚ`); every comparison and arithmetic step of the
  source is kept. Where a property turns on the values computed (the edge tolerance
  tests, `PhysFlying`, the angle compression) each operation is rounded to single
  precision (`F32.round`); elsewhere the arithmetic is exact.
* The movement component, its owner, its capsule and its prediction data are one
  record, `Comp`; a member function becomes a function `Comp → Comp` (or into a
  pair with the returned value).
* Functions of the engine and of the plugin that are defined outside this file
  (sweeps, overlap tests, virtual notification hooks, the physics dispatcher, ...)
  are fields of `Engine`. They are arbitrary functions of the whole `Comp`, so a
  theorem quantified over `Engine` holds whatever those functions do.
* Calls whose number or order a property talks about are recorded in a trace
  (`Sim.log`) which the engine functions cannot touch.
-/

namespace VRMove

/-! ## Vectors, rotations -/

/-- Engine type `FVector`. -/
structure FVector where
  X : ℚ := 0
  Y : ℚ := 0
  Z : ℚ := 0
deriving DecidableEq, Repr

namespace FVector

/-- Engine constant `FVector::ZeroVector`. -/
def ZeroVector : FVector := ⟨0, 0, 0⟩

instance : Inhabited FVector := ⟨ZeroVector⟩

instance : Add FVector := ⟨fun a b => ⟨a.X + b.X, a.Y + b.Y, a.Z + b.Z⟩⟩

instance : Sub FVector := ⟨fun a b => ⟨a.X - b.X, a.Y - b.Y, a.Z - b.Z⟩⟩

instance : Neg FVector := ⟨fun a => ⟨-a.X, -a.Y, -a.Z⟩⟩

/-- Scaling `V * k`. -/
def scale (a : FVector) (k : ℚ) : FVector := ⟨a.X * k, a.Y * k, a.Z * k⟩

/-- Division `V / k`. -/
def div (a : FVector) (k : ℚ) : FVector := ⟨a.X / k, a.Y / k, a.Z / k⟩

/-- Dot product, the source's `A | B`. -/
def dot (a b : FVector) : ℚ := a.X * b.X + a.Y * b.Y + a.Z * b.Z

/-- Exact zero test `FVector::IsZero`. -/
def IsZero (a : FVector) : Bool := a.X == 0 && a.Y == 0 && a.Z == 0

/-- Squared length of the XY part, `FVector::SizeSquared2D`. -/
def SizeSquared2D (a : FVector) : ℚ := a.X * a.X + a.Y * a.Y

/-- Componentwise tolerance test `FVector::IsNearlyZero(Tolerance)`. -/
def IsNearlyZero (a : FVector) (tol : ℚ) : Bool :=
  decide (|a.X| ≤ tol) && decide (|a.Y| ≤ tol) && decide (|a.Z| ≤ tol)

end FVector

/-- Engine type `FRotator` (also standing for the `FQuat` made from it). -/
structure FRotator where
  Pitch : ℚ := 0
  Yaw : ℚ := 0
  Roll : ℚ := 0
deriving DecidableEq, Repr

instance : Inhabited FRotator := ⟨{}⟩

/-! ## Constants -/

/-- Engine constant `KINDA_SMALL_NUMBER` (1e-4). -/
def KINDA_SMALL_NUMBER : ℚ := 1 / 10000

/-- Engine constant `SMALL_NUMBER` (1e-8), the default tolerance of `IsNearlyEqual`. -/
def SMALL_NUMBER : ℚ := 1 / 100000000

/-- Engine constant `UCharacterMovementComponent::MIN_TICK_TIME` (1e-6). -/
def MIN_TICK_TIME : ℚ := 1 / 1000000

/-- Engine constant `UCharacterMovementComponent::MIN_FLOOR_DIST` (1.9). -/
def MIN_FLOOR_DIST : ℚ := 19 / 10

/-- Engine constant `UCharacterMovementComponent::MAX_FLOOR_DIST` (2.4). -/
def MAX_FLOOR_DIST : ℚ := 24 / 10

/-- Source line 50: maximum z value for the normal on the vertical side of steps. -/
def MAX_STEP_SIDE_Z : ℚ := 8 / 100

/-- Engine function `FMath::IsNearlyEqual(A, B)` with its default tolerance. -/
def IsNearlyEqual (a b : ℚ) : Bool := decide (|a - b| ≤ SMALL_NUMBER)

/-! ## Single precision

The source computes with `float`. Where a claim turns on the rounding, the operations are
modelled on the rationals: the exact result is rounded to the nearest value with 24
significant bits, ties to even, with gradual underflow below `2^-126`; a result beyond
the finite range becomes `INF`, which stands for infinity. -/

/-- The integer nearest to `x`, the even one of the two when `x` lies half way. -/
def F32.rne (x : ℚ) : ℤ :=
  if x - ⌊x⌋ < 1 / 2 then ⌊x⌋
  else if 1 / 2 < x - ⌊x⌋ then ⌊x⌋ + 1
  else if ⌊x⌋ % 2 = 0 then ⌊x⌋ else ⌊x⌋ + 1

/-- The position of the leading binary digit of `n`, found by halving (at most `fuel`
times). -/
def F32.log2Fuel : ℕ → ℕ → ℕ
  | 0, _ => 0
  | fuel + 1, n => if n < 2 then 0 else F32.log2Fuel fuel (n / 2) + 1

/-- The position of the leading binary digit of `n`: `floor (log2 n)`, and 0 for 0. -/
def F32.floorLog2 (n : ℕ) : ℕ := F32.log2Fuel n n

/-- The binary exponent of `x`: `floor (log2 |x|)`, and 0 for 0. The difference of the
digit counts of numerator and denominator is right or one too large. -/
def F32.log2 (x : ℚ) : ℤ :=
  if x = 0 then 0
  else
    let d : ℤ := (F32.floorLog2 x.num.natAbs : ℤ) - (F32.floorLog2 x.den : ℤ)
    if (2 : ℚ) ^ d ≤ |x| then d else d - 1

/-- The binary exponent of the binade of `x`, not below that of the least normal value:
denormal values share the spacing of the least normal binade. -/
def F32.exponent (x : ℚ) : ℤ := max (F32.log2 x) (-126)

/-- The spacing of the single-precision values around `x` (24 significant bits). -/
def F32.ulp (x : ℚ) : ℚ := (2 : ℚ) ^ (F32.exponent x - 23)

/-- Round to the nearest single-precision value, ties to even, with no limit on the
exponent. -/
def F32.roundNearest (x : ℚ) : ℚ := F32.rne (x / F32.ulp x) * F32.ulp x

/-- The value that stands for infinity: the first power of two beyond the finite range. -/
def F32.INF : ℚ := 2 ^ 128

/-- The result of a single-precision operation whose exact result is `x`: the nearest
value, and `INF` (or `-INF`) when that is beyond the finite range. -/
def F32.round (x : ℚ) : ℚ := max (-F32.INF) (min F32.INF (F32.roundNearest x))

/-- Single-precision `a + b`. -/
def F32.add (a b : ℚ) : ℚ := F32.round (a + b)

/-- Single-precision `a - b`. -/
def F32.sub (a b : ℚ) : ℚ := F32.round (a - b)

/-- Single-precision `a * b`. -/
def F32.mul (a b : ℚ) : ℚ := F32.round (a * b)

/-- Single-precision `a / b`. -/
def F32.div (a b : ℚ) : ℚ := F32.round (a / b)

/-- Engine `FVector::operator+`, component by component in single precision. -/
def F32.vadd (a b : FVector) : FVector :=
  ⟨F32.add a.X b.X, F32.add a.Y b.Y, F32.add a.Z b.Z⟩

/-- Engine `FVector::operator-`, component by component in single precision. -/
def F32.vsub (a b : FVector) : FVector :=
  ⟨F32.sub a.X b.X, F32.sub a.Y b.Y, F32.sub a.Z b.Z⟩

/-- Engine `FVector::operator*(float)`. -/
def F32.vscale (a : FVector) (k : ℚ) : FVector :=
  ⟨F32.mul a.X k, F32.mul a.Y k, F32.mul a.Z k⟩

/-- Engine `FVector::operator/(float)`: the components are multiplied by the rounded
reciprocal `1.f / Scale`. -/
def F32.vdiv (a : FVector) (k : ℚ) : FVector :=
  let RScale := F32.div 1 k
  ⟨F32.mul a.X RScale, F32.mul a.Y RScale, F32.mul a.Z RScale⟩

/-- Engine `FVector::operator|` (dot product), summed from left to right. -/
def F32.dot (a b : FVector) : ℚ :=
  F32.add (F32.add (F32.mul a.X b.X) (F32.mul a.Y b.Y)) (F32.mul a.Z b.Z)

/-- Engine `FVector::SizeSquared2D`: `X*X + Y*Y` in single precision. -/
def F32.SizeSquared2D (a : FVector) : ℚ := F32.add (F32.mul a.X a.X) (F32.mul a.Y a.Y)

/-- Conversion of a whole single-precision value to `int32` as the x86 conversion has
it: a value outside the range of `int32` gives `0x80000000`. -/
def F32.toInt32 (x : ℤ) : ℤ := if -2 ^ 31 ≤ x ∧ x < 2 ^ 31 then x else -2 ^ 31

/-- The rational `x` is a single-precision value: rounding leaves it as it is. -/
def F32.IsFloat (x : ℚ) : Prop := F32.round x = x

/-- The components of `v` are single-precision values. -/
def F32.IsFloatVector (v : FVector) : Prop :=
  F32.IsFloat v.X ∧ F32.IsFloat v.Y ∧ F32.IsFloat v.Z

/-! ## Hit and floor results -/

/-- Engine type `FHitResult`, the fields the source reads or writes. Components and
actors are referred to by number (weak references). -/
structure FHitResult where
  bBlockingHit : Bool := false
  bStartPenetrating : Bool := false
  Time : ℚ := 1
  Location : FVector := {}
  ImpactPoint : FVector := {}
  Normal : FVector := {}
  ImpactNormal : FVector := {}
  TraceStart : FVector := {}
  TraceEnd : FVector := {}
  Component : Option Nat := none
  Actor : Option Nat := none
  BoneName : Nat := 0
deriving DecidableEq, Repr

instance : Inhabited FHitResult := ⟨{}⟩

/-- Engine inline `FHitResult::IsValidBlockingHit`. -/
def FHitResult.IsValidBlockingHit (h : FHitResult) : Bool :=
  h.bBlockingHit && !h.bStartPenetrating

/-- Engine type `FFindFloorResult`. -/
structure FFindFloorResult where
  bBlockingHit : Bool := false
  bWalkableFloor : Bool := false
  bLineTrace : Bool := false
  FloorDist : ℚ := 0
  LineDist : ℚ := 0
  HitResult : FHitResult := {}
deriving DecidableEq, Repr

instance : Inhabited FFindFloorResult := ⟨{}⟩

namespace FFindFloorResult

/-- Engine inline `FFindFloorResult::IsWalkableFloor`. -/
def IsWalkableFloor (f : FFindFloorResult) : Bool := f.bBlockingHit && f.bWalkableFloor

/-- Engine inline `FFindFloorResult::Clear`. -/
def Clear : FFindFloorResult := {}

/-- Engine inline `FFindFloorResult::GetDistanceToFloor`: the line distance for a
line trace, the sweep distance otherwise. -/
def GetDistanceToFloor (f : FFindFloorResult) : ℚ :=
  if f.bLineTrace then f.LineDist else f.FloorDist

/-- Engine function `FFindFloorResult::SetFromLineTrace`: keeps the sweep's time,
impact point, location and trace ends, takes the rest from the line hit. -/
def SetFromLineTrace (f : FFindFloorResult) (InHit : FHitResult) (InSweepFloorDist InLineDist : ℚ)
    (bIsWalkableFloor : Bool) : FFindFloorResult :=
  if f.HitResult.bBlockingHit && InHit.bBlockingHit then
    { f with
      HitResult := { InHit with
        Time := f.HitResult.Time
        ImpactPoint := f.HitResult.ImpactPoint
        Location := f.HitResult.Location
        TraceStart := f.HitResult.TraceStart
        TraceEnd := f.HitResult.TraceEnd }
      bLineTrace := true
      FloorDist := InSweepFloorDist
      LineDist := InLineDist
      bWalkableFloor := bIsWalkableFloor }
  else f

end FFindFloorResult

/-- Engine type `FStepDownResult`. -/
structure FStepDownResult where
  bComputedFloor : Bool := false
  FloorResult : FFindFloorResult := {}
deriving DecidableEq, Repr

instance : Inhabited FStepDownResult := ⟨{}⟩

/-- Engine enumeration `EMovementMode`. -/
inductive EMovementMode where
  | MOVE_None
  | MOVE_Walking
  | MOVE_NavWalking
  | MOVE_Falling
  | MOVE_Swimming
  | MOVE_Flying
  | MOVE_Custom
deriving DecidableEq, Repr

instance : Inhabited EMovementMode := ⟨EMovementMode.MOVE_None⟩

/-- Engine enumeration `ENetRole`, the values the source tests. -/
inductive ENetRole where
  | ROLE_None
  | ROLE_SimulatedProxy
  | ROLE_AutonomousProxy
  | ROLE_Authority
deriving DecidableEq, Repr

instance : Inhabited ENetRole := ⟨ENetRole.ROLE_Authority⟩

/-- Engine enumeration `ECollisionResponse`. -/
inductive ECollisionResponse where
  | ECR_Ignore
  | ECR_Overlap
  | ECR_Block
deriving DecidableEq, Repr

/-! ## Replicated move payloads and saved moves -/

/-- Plugin type `FVRConditionalMoveRep`: the conditionally replicated VR inputs. -/
structure FVRConditionalMoveRep where
  CustomVRInputVector : FVector := {}
  RequestedVelocity : FVector := {}
  MoveAction : Nat := 0
deriving DecidableEq, Repr

instance : Inhabited FVRConditionalMoveRep := ⟨{}⟩

/-- Plugin type `FVRConditionalMoveRep2`: movement base, bone and compressed view. -/
structure FVRConditionalMoveRep2 where
  ClientMovementBase : Option Nat := none
  ClientBaseBoneName : Nat := 0
  ClientPitch : Nat := 0
  ClientYaw : Nat := 0
  ClientRoll : Nat := 0
deriving DecidableEq, Repr

instance : Inhabited FVRConditionalMoveRep2 := ⟨{}⟩

/-- Plugin type `FSavedMove_VRCharacter` with the inherited `FSavedMove_Character`
fields the source uses. `id` stands for the address of the shared move object. -/
structure SavedMove where
  id : Nat := 0
  TimeStamp : ℚ := 0
  DeltaTime : ℚ := 0
  Acceleration : FVector := {}
  MovementMode : Nat := 0
  bOldTimeStampBeforeReset : Bool := false
  SavedLocation : FVector := {}
  SavedRelativeLocation : FVector := {}
  SavedControlRotation : FRotator := {}
  StartLocation : FVector := {}
  StartRotation : FRotator := {}
  StartVelocity : FVector := {}
  StartBase : Option Nat := none
  StartBoneName : Nat := 0
  StartFloor : FFindFloorResult := {}
  EndBase : Option Nat := none
  EndBoneName : Nat := 0
  RootMotionMontage : Option Nat := none
  VRCapsuleLocation : FVector := {}
  VRCapsuleRotation : FRotator := {}
  LFDiff : FVector := {}
  ConditionalValues : FVRConditionalMoveRep := {}
deriving DecidableEq

instance : Inhabited SavedMove := ⟨{}⟩

/-- Engine type `FNetworkPredictionData_Client_Character`, the fields the source uses. -/
structure ClientData where
  SavedMoves : List SavedMove := []
  PendingMove : Option SavedMove := none
  LastAckedMove : Option SavedMove := none
  ClientUpdateTime : ℚ := 0
  MaxMoveDeltaTime : ℚ := 0
  MeshTranslationOffset : FVector := {}
  OriginalMeshTranslationOffset : FVector := {}
deriving DecidableEq

instance : Inhabited ClientData := ⟨{}⟩

/-- Engine type `FNetworkPredictionData_Server_Character`, the fields the source uses. -/
structure ServerData where
  CurrentClientTimeStamp : ℚ := 0
  ServerTimeStamp : ℚ := 0
  ServerTimeStampLastServerMove : ℚ := 0
deriving DecidableEq, Repr

instance : Inhabited ServerData := ⟨{}⟩

/-- Plugin type `UVRRootComponent`, the members the source reads or writes besides
the capsule size (which is the owner's capsule, see `Comp`). -/
structure UVRRootComponent where
  OffsetComponentToWorld : FVector := {}
  curCameraLoc : FVector := {}
  curCameraRot : FRotator := {}
  DifferenceFromLastFrame : FVector := {}
  bUseWalkingCollisionOverride : Bool := false
  WalkingCollisionOverride : Nat := 0
deriving DecidableEq, Repr

instance : Inhabited UVRRootComponent := ⟨{}⟩

/-- Engine type `FNavLocation`: a location on the navigation mesh and the node it lies
on; node 0 is `INVALID_NAVNODEREF`. -/
structure FNavLocation where
  Location : FVector := {}
  NodeRef : Nat := 0
deriving DecidableEq, Repr

instance : Inhabited FNavLocation := ⟨{}⟩

/-- Engine constant `INVALID_NAVNODEREF`. -/
def INVALID_NAVNODEREF : Nat := 0

/-! ## The component -/

/-- The state a member function of `UVRCharacterMovementComponent` works on: the
component's own members, the updated component's transform, the owner's capsule
(which is the VR root when `VRRootCapsule` is set), the owning character and
controller, and the prediction data. -/
structure Comp where
  -- updated component
  HasUpdatedComponent : Bool := true
  Location : FVector := {}
  Rotation : FRotator := {}
  VRRootCapsule : Option UVRRootComponent := none
  -- owner capsule
  CapsuleRadius : ℚ := 0
  CapsuleHalfHeight : ℚ := 0
  ShapeScale : ℚ := 1
  DefaultCapsuleRadius : ℚ := 0
  DefaultCapsuleHalfHeight : ℚ := 0
  -- movement state
  Velocity : FVector := {}
  Acceleration : FVector := {}
  MovementMode : EMovementMode := EMovementMode.MOVE_None
  GroundMovementMode : EMovementMode := EMovementMode.MOVE_Walking
  CurrentFloor : FFindFloorResult := {}
  MovementBase : Option Nat := none
  bJustTeleported : Bool := false
  bForceNextFloorCheck : Bool := false
  bAlwaysCheckFloor : Bool := false
  bMaintainHorizontalGroundVelocity : Bool := true
  bNotifyApex : Bool := false
  bShrinkProxyCapsule : Bool := false
  bRunPhysicsWithNoController : Bool := false
  bCrouchMaintainsBaseLocation : Bool := false
  bAllowMovementMerging : Bool := false
  bRequestedMoveUseAcceleration : Bool := false
  bCheatFlying : Bool := false
  MaxStepHeight : ℚ := 0
  PerchAdditionalHeight : ℚ := 0
  CrouchedHalfHeight : ℚ := 0
  GroundFriction : ℚ := 0
  BrakingDecelerationWalking : ℚ := 0
  FallingLateralFriction : ℚ := 0
  BrakingDecelerationFalling : ℚ := 0
  JumpZVelocity : ℚ := 0
  AnalogInputModifier : ℚ := 0
  WallRepulsionMultiplier : ℚ := 0
  -- VR members
  VREdgeRejectDistance : ℚ := 0
  VRClimbingEdgeRejectDistance : ℚ := 0
  VRReplicateCapsuleHeight : Bool := false
  AdditionalVRInputVector : FVector := {}
  CustomVRInputVector : FVector := {}
  MoveAction : Nat := 0
  RequestedVelocity : FVector := {}
  bHasRequestedVelocity : Bool := false
  -- navigation mesh walking
  CachedNavLocation : FNavLocation := {}
  bProjectNavMeshWalking : Bool := false
  bSweepWhileNavWalking : Bool := true
  NavMeshProjectionHeightScaleUp : ℚ := 0
  NavMeshProjectionHeightScaleDown : ℚ := 0
  -- owner and controller
  VRRootReference : Option UVRRootComponent := none
  bIsCrouched : Bool := false
  bServerMoveIgnoreRootMotion : Bool := false
  bReplicateMovement : Bool := true
  bUseControllerRotationPitch : Bool := false
  bUseControllerRotationRoll : Bool := false
  Role : ENetRole := ENetRole.ROLE_Authority
  HasController : Bool := true
  HasPlayerController : Bool := false
  HasPathFollowingComp : Bool := false
  ControlRotation : FRotator := {}
  bShouldSendClientSideCameraUpdate : Bool := false
  -- prediction data
  Server : ServerData := {}
  HasClientData : Bool := true
  Client : ClientData := {}
  -- state of the engine the source never looks into (world, physics, time)
  World : Nat := 0

instance : Inhabited Comp := ⟨{}⟩

namespace Comp

/-- Engine inline `UCharacterMovementComponent::IsFalling` (updated component present). -/
def IsFalling (c : Comp) : Bool := c.MovementMode == EMovementMode.MOVE_Falling

/-- Engine inline `UCharacterMovementComponent::IsMovingOnGround`. -/
def IsMovingOnGround (c : Comp) : Bool :=
  c.MovementMode == EMovementMode.MOVE_Walking || c.MovementMode == EMovementMode.MOVE_NavWalking

/-- Engine inline `UCharacterMovementComponent::IsSwimming`. -/
def IsSwimming (c : Comp) : Bool := c.MovementMode == EMovementMode.MOVE_Swimming

/-- Engine inline `UCapsuleComponent::GetScaledCapsuleRadius`. -/
def GetScaledCapsuleRadius (c : Comp) : ℚ := c.CapsuleRadius * c.ShapeScale

/-- Engine inline `UCapsuleComponent::GetScaledCapsuleHalfHeight`. -/
def GetScaledCapsuleHalfHeight (c : Comp) : ℚ := c.CapsuleHalfHeight * c.ShapeScale

/-- Engine function `UCapsuleComponent::SetCapsuleSize`: the half height is never
below the radius, neither is negative. `SetCapsuleSizeVR` of the VR root sets the
same capsule. -/
def SetCapsuleSize (NewRadius NewHalfHeight : ℚ) (c : Comp) : Comp :=
  { c with
    CapsuleHalfHeight := max 0 (max NewHalfHeight NewRadius)
    CapsuleRadius := max 0 NewRadius }

/-- Engine inline `UCapsuleComponent::SetCapsuleHalfHeight`. -/
def SetCapsuleHalfHeight (NewHalfHeight : ℚ) (c : Comp) : Comp :=
  c.SetCapsuleSize c.CapsuleRadius NewHalfHeight

end Comp

/-! ## The engine -/

/-- Collision shape handed to the world's overlap and sweep queries. -/
structure FCollisionShape where
  Radius : ℚ := 0
  HalfHeight : ℚ := 0
deriving DecidableEq, Repr

/-- Engine enumeration `EShrinkCapsuleExtent`, the values the source passes. -/
inductive EShrinkCapsuleExtent where
  | SHRINK_None
  | SHRINK_HeightCustom
deriving DecidableEq, Repr

/-- Everything the source calls that is defined outside the file. Each field is an
arbitrary function; a field that may change state returns the new `Comp`. -/
structure Engine where
  -- validity and configuration queries
  MaxSimulationIterations : Int := 8
  HasValidData : Comp → Bool := fun _ => true
  IsComponentTickEnabled : Comp → Bool := fun _ => true
  IsQueryCollisionEnabled : Comp → Bool := fun _ => true
  IsClimbing : Comp → Bool := fun _ => false
  HasAnimRootMotion : Comp → Bool := fun _ => false
  HasOverrideVelocity : Comp → Bool := fun _ => false
  CanWalkOffLedges : Comp → Bool := fun _ => true
  CanCrouchInCurrentState : Comp → Bool := fun _ => true
  -- collision world
  MoveUpdatedComponent : FVector → FRotator → Bool → FHitResult → Comp → Bool × FHitResult × Comp :=
    fun _ _ _ h c => (true, h, c)
  GetPenetrationAdjustment : FHitResult → Comp → FVector := fun _ _ => {}
  ResolvePenetration : FVector → FHitResult → FRotator → Comp → Bool × Comp := fun _ _ _ c => (false, c)
  OverlapBlockingTestByChannel : FVector → FCollisionShape → Comp → Bool := fun _ _ _ => false
  OverlapTest : FVector → FRotator → FCollisionShape → Comp → Bool := fun _ _ _ _ => false
  SweepSingleByChannel : FVector → FVector → FCollisionShape → Comp → Bool × FHitResult :=
    fun _ _ _ _ => (false, {})
  GetPawnCapsuleCollisionShape : EShrinkCapsuleExtent → ℚ → Comp → FCollisionShape :=
    fun _ _ _ => {}
  MoveComponent : FVector → FRotator → Comp → Comp := fun _ _ c => c
  -- impacts and sliding
  CanStepUp : FHitResult → Comp → Bool := fun _ _ => true
  IsWalkable : FHitResult → Comp → Bool := fun _ _ => true
  HandleImpact : FHitResult → ℚ → FVector → Comp → Comp := fun _ _ _ c => c
  SlideAlongSurface : FVector → ℚ → FVector → FHitResult → Bool → Comp → ℚ × FHitResult × Comp :=
    fun _ _ _ h _ c => (0, h, c)
  OnCharacterStuckInGeometry : FHitResult → Comp → Comp := fun _ c => c
  ComputeGroundMovementDelta : FVector → FHitResult → Bool → Comp → FVector := fun d _ _ _ => d
  HitComponentCanCharacterStepUp : Nat → Comp → Bool := fun _ _ => true
  MovementBaseOwner : Nat → Comp → Option Nat := fun _ _ => none
  -- floor
  ComputeFloorDist : FVector → ℚ → ℚ → FFindFloorResult → ℚ → Option FHitResult → Comp → FFindFloorResult :=
    fun _ _ _ f _ _ _ => f
  ShouldComputePerchResult : FHitResult → Bool → Comp → Bool := fun _ _ _ => false
  ComputePerchResult : ℚ → FHitResult → ℚ → Comp → Bool × FFindFloorResult := fun _ _ _ _ => (false, {})
  GetValidPerchRadius : Comp → ℚ := fun _ => 0
  BaseQueryCollisionEnabled : Nat → Comp → Bool := fun _ _ => true
  BaseResponseToChannel : Nat → Comp → ECollisionResponse := fun _ _ => ECollisionResponse.ECR_Block
  IsDynamicBase : Nat → Comp → Bool := fun _ _ => false
  BaseActorPendingKill : Nat → Comp → Bool := fun _ _ => false
  FloorResponseToChannel : Nat → Nat → Comp → ECollisionResponse :=
    fun _ _ _ => ECollisionResponse.ECR_Block
  -- physics of the movement modes
  GetSimulationTimeStep : ℚ → Int → Comp → ℚ := fun rt _ _ => rt
  GetFallingLateralAcceleration : ℚ → Comp → FVector := fun _ _ => {}
  CalcVelocity : ℚ → ℚ → Bool → ℚ → Comp → Comp := fun _ _ _ _ c => c
  GetGravityZ : Comp → ℚ := fun _ => -980
  NewFallVelocity : FVector → FVector → ℚ → Comp → FVector :=
    fun v g dt _ => v + g.scale dt
  NotifyJumpApex : Comp → Comp := fun c => c
  IsValidLandingSpot : FVector → FHitResult → Comp → Bool := fun _ _ _ => false
  LimitAirControl : ℚ → FVector → FHitResult → Bool → Comp → FVector := fun _ a _ _ _ => a
  ComputeSlideVector : FVector → ℚ → FVector → FHitResult → Comp → FVector :=
    fun d t _ _ _ => d.scale t
  TwoWallAdjust : FVector → FHitResult → FVector → Comp → FVector := fun d _ _ _ => d
  GetPerchRadiusThreshold : Comp → ℚ := fun _ => 0
  GetWalkableFloorZ : Comp → ℚ := fun _ => 71 / 100
  GetMaxSpeed : Comp → ℚ := fun _ => 0
  FRand : Comp → ℚ × Comp := fun c => (0, c)
  GetSafeNormal : FVector → FVector := fun v => v
  GetSafeNormal2D : FVector → FVector := fun v => { v with Z := 0 }
  Size : FVector → ℚ := fun _ => 0
  Size2D : FVector → ℚ := fun _ => 0
  AdjustFloorHeight : Comp → Comp := fun c => c
  RewindVRRelativeMovement : Comp → Comp := fun c => c
  ApplyVRMotionToVelocity : ℚ → Comp → Comp := fun _ c => c
  RestorePreAdditiveVRMotionVelocity : Comp → Comp := fun c => c
  MaintainHorizontalGroundVelocity : Comp → Comp := fun c => c
  SetMovementMode : EMovementMode → Comp → Comp := fun m c => { c with MovementMode := m }
  StartNewPhysics : ℚ → Int → Comp → Comp := fun _ _ c => c
  StartSwimming : FVector → FVector → ℚ → ℚ → Int → Comp → Comp := fun _ _ _ _ _ c => c
  StartFalling : Int → ℚ → ℚ → FVector → FVector → Comp → Comp := fun _ _ _ _ _ c => c
  -- landing
  ShouldNotifyLanded : FHitResult → Comp → Bool := fun _ _ => true
  Landed : FHitResult → Comp → Comp := fun _ c => c
  GetActorFeetLocation : Comp → FVector := fun c => c.Location
  FindNavFloorHasValidNode : FVector → Comp → Bool := fun _ _ => false
  SetGroundMovementMode : EMovementMode → Comp → Comp :=
    fun m c => { c with GroundMovementMode := m }
  SetPostLandedPhysics : FHitResult → Comp → Comp :=
    fun _ c => { c with MovementMode := c.GroundMovementMode }
  PathFollowingOnLanded : Comp → Comp := fun c => c
  -- walking
  GetLedgeMove : FVector → FVector → FVector → Comp → FVector := fun _ _ _ _ => {}
  RevertMoveTo : FVector → Option Nat → FVector → FFindFloorResult → Bool → Comp → Comp :=
    fun l _ _ f _ c => { c with Location := l, CurrentFloor := f }
  CheckFall : FFindFloorResult → FHitResult → FVector → FVector → ℚ → ℚ → Int → Bool → Comp →
      Bool × Comp := fun _ _ _ _ _ _ _ _ c => (false, c)
  ShouldCatchAir : FFindFloorResult → FFindFloorResult → Comp → Bool := fun _ _ _ => false
  OnWalkingOffLedge : FVector → FVector → FVector → ℚ → Comp → Comp := fun _ _ _ _ c => c
  BaseLocation : Nat → Comp → FVector := fun _ _ => {}
  -- crouching
  OnStartCrouch : ℚ → ℚ → Comp → Comp := fun _ _ c => c
  OnEndCrouch : ℚ → ℚ → Comp → Comp := fun _ _ c => c
  AdjustProxyCapsuleSize : Comp → Comp := fun c => c
  -- server side of the move protocol
  VerifyClientTimeStamp : ℚ → Comp → Bool × Comp := fun _ c => (true, c)
  NotifyServerReceivedClientData : ℚ → Comp → Bool × Comp := fun _ c => (true, c)
  GetServerMoveDeltaTime : ℚ → Comp → ℚ := fun _ _ => 0
  GetTimeSeconds : Comp → ℚ := fun _ => 0
  IsPaused : Comp → Bool := fun _ => false
  SetControlRotation : FRotator → Comp → Comp := fun r c => { c with ControlRotation := r }
  UpdateRotation : ℚ → Comp → Comp := fun _ c => c
  GenerateOffsetToWorld : Comp → Comp := fun c => c
  MoveAutonomous : ℚ → ℚ → Nat → FVector → Comp → Comp := fun _ _ _ _ c => c
  ServerMoveHandleClientError : ℚ → ℚ → FVector → FVector → Option Nat → Nat → Nat → Comp → Comp :=
    fun _ _ _ _ _ _ _ c => c
  UnpackAndSetINTRotations : Nat → FVRConditionalMoveRep2 → FVRConditionalMoveRep2 :=
    fun _ r => r
  IsPlayingNetworkedRootMotionMontage : Comp → Bool := fun _ => false
  -- client side of the move protocol
  OwnerIsVRCharacter : Bool := true
  GetCompressedFlags : SavedMove → Nat := fun _ => 0
  UseRelativeLocation : Option Nat → Comp → Bool := fun _ _ => false
  UsesClientSideCameraUpdates : Comp → Bool := fun _ => false
  AcknowledgedPawnIsOwner : Comp → Bool := fun _ => true
  PlayerControllerHasPlayer : Comp → Bool := fun _ => true
  UpdateTimeStampAndDeltaTime : ℚ → Comp → ℚ × Comp := fun dt c => (dt, c)
  IsImportantMove : SavedMove → SavedMove → Comp → Bool := fun _ _ _ => false
  CreateSavedMove : Comp → Option SavedMove × Comp := fun c => (some {}, c)
  SetMoveFor : SavedMove → ℚ → FVector → Comp → SavedMove := fun m _ _ _ => m
  CanCombineWith : SavedMove → SavedMove → ℚ → Comp → Bool := fun _ _ _ _ => false
  GetActorTimeDilation : Comp → ℚ := fun _ => 1
  GetEffectiveTimeDilation : Comp → ℚ := fun _ => 1
  GetRevertedLocation : SavedMove → Comp → FVector := fun m _ => m.StartLocation
  SetWorldLocationAndRotation : FVector → FRotator → Comp → Comp :=
    fun l r c => { c with Location := l, Rotation := r }
  SetBase : Option Nat → Nat → Comp → Comp := fun b _ c => { c with MovementBase := b }
  FaceRotation : FRotator → ℚ → Comp → Comp := fun _ _ c => c
  SaveBaseLocation : Comp → Comp := fun c => c
  GetHMDPureYaw_I : FRotator → FRotator := fun r => { Yaw := r.Yaw }
  Super_SetInitialPosition : SavedMove → Comp → SavedMove := fun m _ => m
  FreeMove : SavedMove → Comp → Comp := fun _ c => c
  ClampAcceleration : FVector → Comp → FVector := fun a _ => a
  ComputeAnalogInputModifier : Comp → ℚ := fun _ => 0
  ClearRootMotion : Comp → Comp := fun c => c
  PerformMovement : ℚ → Comp → Comp := fun _ c => c
  PostUpdate : SavedMove → Comp → SavedMove := fun m _ => m
  NetEnableMoveCombining : Comp → Bool := fun _ => true
  CanDelaySendingMove : SavedMove → Comp → Bool := fun _ _ => true
  GetClientNetSendDeltaTime : SavedMove → Comp → ℚ := fun _ _ => 0
  -- replaying a saved move
  Super_PrepMoveFor : SavedMove → Comp → Comp := fun _ c => c
  -- navigation mesh
  FindNavFloor : FVector → Comp → Bool × FNavLocation := fun _ _ => (false, {})
  ProjectLocationFromNavMesh : ℚ → FVector → FVector → ℚ → ℚ → Comp → FVector × Comp :=
    fun _ _ t _ _ c => (t, c)
  -- flying
  FluidFriction : Comp → ℚ := fun _ => 0
  GetMaxBrakingDeceleration : Comp → ℚ := fun _ => 0
  -- walkable slopes
  ModifyWalkableFloorZ : Nat → ℚ → Comp → ℚ := fun _ z _ => z

/-! ## Walkable surfaces (engine base class) -/

namespace UCharacterMovementComponent

/-- The walkable floor Z a hit is tested against in the engine's `IsWalkable`: the
component's `WalkableFloorZ`, modified by the slope override of the component that was
hit. -/
def TestWalkableZ (env : Engine) (Hit : FHitResult) (c : Comp) : ℚ :=
  match Hit.Component with
  | some comp => env.ModifyWalkableFloorZ comp (env.GetWalkableFloorZ c) c
  | none => env.GetWalkableFloorZ c

/-- Engine function `UCharacterMovementComponent::IsWalkable` of the base class, which
this file calls (lines 367, 1732, 1928, 2161) and does not override; its source is not in
this file. A hit is walkable when it is a valid blocking hit whose impact normal is not
vertical and not steeper than the walkable floor Z (`KINDA_SMALL_NUMBER` is the `float`
literal `1.e-4f`). -/
def IsWalkable (env : Engine) (Hit : FHitResult) (c : Comp) : Bool :=
  -- No hit, or starting in penetration
  if !Hit.IsValidBlockingHit then false
  -- Never walk up vertical surfaces.
  else if Hit.ImpactNormal.Z < F32.round KINDA_SMALL_NUMBER then false
  -- Can't walk on this surface if it is too steep.
  else if Hit.ImpactNormal.Z < TestWalkableZ env Hit c then false
  else true

end UCharacterMovementComponent

/-! ## Scoped movement update -/

/-- The transform a `FVRCharacterScopedMovementUpdate` remembers when it is opened on
the updated component. -/
structure ScopedMovementUpdate where
  InitialLocation : FVector
  InitialRotation : FRotator
deriving DecidableEq, Repr

/-- Constructor of `FVRCharacterScopedMovementUpdate(UpdatedComponent, DeferredUpdates)`. -/
def ScopedMovementUpdate.start (c : Comp) : ScopedMovementUpdate :=
  ⟨c.Location, c.Rotation⟩

/-- Modelled from the spec: `FVRCharacterScopedMovementUpdate::RevertMove` is declared
outside this file; the spec has the sub-moves "performed against a deferred/scoped
transform so a rejected step-up can be atomically reverted": the updated component
gets back the transform it had when the scope was opened. -/
def ScopedMovementUpdate.RevertMove (sc : ScopedMovementUpdate) (c : Comp) : Comp :=
  { c with Location := sc.InitialLocation, Rotation := sc.InitialRotation }

/-! ## Edge tolerance (source lines 1999-2011) -/

/-- `UVRCharacterMovementComponent::IsWithinEdgeTolerance`, in single precision as the
source computes it: the differences, the squares, their sum and the reduced radius are
each rounded, and `KINDA_SMALL_NUMBER` is the `float` literal `1.e-4f`. -/
def IsWithinEdgeTolerance (c : Comp) (CapsuleLocation TestImpactPoint : FVector)
    (CapsuleRadius : ℚ) : Bool :=
  let DistFromCenterSq := F32.SizeSquared2D (F32.vsub TestImpactPoint CapsuleLocation)
  let m := max (F32.add c.VREdgeRejectDistance (F32.round KINDA_SMALL_NUMBER))
    (F32.sub CapsuleRadius c.VREdgeRejectDistance)
  let ReducedRadiusSq := F32.mul m m
  decide (DistFromCenterSq < ReducedRadiusSq)

/-- `UVRCharacterMovementComponent::IsWithinClimbingEdgeTolerance`, in single precision
like `IsWithinEdgeTolerance`. -/
def IsWithinClimbingEdgeTolerance (c : Comp) (CapsuleLocation TestImpactPoint : FVector)
    (CapsuleRadius : ℚ) : Bool :=
  let DistFromCenterSq := F32.SizeSquared2D (F32.vsub TestImpactPoint CapsuleLocation)
  let m := max (F32.add c.VRClimbingEdgeRejectDistance (F32.round KINDA_SMALL_NUMBER))
    (F32.sub CapsuleRadius c.VRClimbingEdgeRejectDistance)
  let ReducedRadiusSq := F32.mul m m
  decide (DistFromCenterSq < ReducedRadiusSq)

/-! ## FindFloor (source lines 2402-2529) -/

/-- The sweep part of `FindFloor` (lines 2429-2470): the floor result, whether it still
needs validation, and the component with `bForceNextFloorCheck` updated. -/
def FindFloor_sweep (env : Engine) (UseCapsuleLocation : FVector) (FloorLineTraceDist
    FloorSweepTraceDist : ℚ) (OutFloorResult : FFindFloorResult) (bZeroDelta : Bool)
    (DownwardSweepResult : Option FHitResult) (c : Comp) : FFindFloorResult × Bool × Comp :=
  if FloorLineTraceDist > 0 ∨ FloorSweepTraceDist > 0 then
    if c.bAlwaysCheckFloor || !bZeroDelta || c.bForceNextFloorCheck || c.bJustTeleported then
      let c1 := { c with bForceNextFloorCheck := false }
      (env.ComputeFloorDist UseCapsuleLocation FloorLineTraceDist FloorSweepTraceDist
        OutFloorResult c1.GetScaledCapsuleRadius DownwardSweepResult c1, true, c1)
    else
      -- Force floor check if base has collision disabled or if it does not block us.
      let c1 : Comp :=
        match c.MovementBase with
        | some b =>
          { c with bForceNextFloorCheck :=
              !env.BaseQueryCollisionEnabled b c
              || decide (env.BaseResponseToChannel b c ≠ ECollisionResponse.ECR_Block)
              || env.IsDynamicBase b c }
        | none => c
      let IsActorBasePendingKill : Bool :=
        match c.MovementBase with
        | some b => env.BaseActorPendingKill b c1
        | none => false
      if !c1.bForceNextFloorCheck && !IsActorBasePendingKill && c.MovementBase.isSome then
        (c1.CurrentFloor, false, c1)
      else
        let c2 := { c1 with bForceNextFloorCheck := false }
        (env.ComputeFloorDist UseCapsuleLocation FloorLineTraceDist FloorSweepTraceDist
          OutFloorResult c2.GetScaledCapsuleRadius DownwardSweepResult c2, true, c2)
  else
    (OutFloorResult, true, c)

/-- The walking-collision-override part of `FindFloor` (lines 2474-2490). -/
def FindFloor_override (env : Engine) (LastFloor Out : FFindFloorResult) (c : Comp) :
    FFindFloorResult :=
  match c.VRRootCapsule with
  | some root =>
    if root.bUseWalkingCollisionOverride && Out.bBlockingHit && decide (Out.FloorDist ≤ 0) then
      if Out.FloorDist ≤ -(max MAX_FLOOR_DIST c.GetScaledCapsuleRadius) then
        match Out.HitResult.Component with
        | some comp =>
          let FloorResponse := env.FloorResponseToChannel comp root.WalkingCollisionOverride c
          if FloorResponse = ECollisionResponse.ECR_Ignore
              ∨ FloorResponse = ECollisionResponse.ECR_Overlap then LastFloor else Out
        | none => Out
      else Out
    else Out
  | none => Out

/-- The perch part of `FindFloor` (lines 2494-2528). -/
def FindFloor_perch (env : Engine) (HeightCheckAdjust : ℚ) (bNeedToValidateFloor : Bool)
    (Out : FFindFloorResult) (c : Comp) : FFindFloorResult :=
  if bNeedToValidateFloor && Out.bBlockingHit && !Out.bLineTrace then
    if env.ShouldComputePerchResult Out.HitResult true c then
      let MaxPerchFloorDist0 := max MAX_FLOOR_DIST (c.MaxStepHeight + HeightCheckAdjust)
      let MaxPerchFloorDist :=
        if c.IsMovingOnGround || env.IsClimbing c then
          MaxPerchFloorDist0 + max 0 c.PerchAdditionalHeight
        else MaxPerchFloorDist0
      let perch := env.ComputePerchResult (env.GetValidPerchRadius c) Out.HitResult MaxPerchFloorDist c
      if perch.1 then
        let PerchFloorResult := perch.2
        let AvgFloorDist := (MIN_FLOOR_DIST + MAX_FLOOR_DIST) * (1 / 2)
        let MoveUpDist := AvgFloorDist - Out.FloorDist
        let Out1 :=
          if MoveUpDist + PerchFloorResult.FloorDist ≥ MaxPerchFloorDist then
            { Out with FloorDist := AvgFloorDist }
          else Out
        if !Out1.bWalkableFloor then
          Out1.SetFromLineTrace PerchFloorResult.HitResult Out1.FloorDist
            (min PerchFloorResult.FloorDist PerchFloorResult.LineDist) true
        else Out1
      else
        { Out with bWalkableFloor := false }
    else Out
  else Out

/-- `UVRCharacterMovementComponent::FindFloor`. The function is `const` in the source
but writes `bForceNextFloorCheck` through a cast, so the component is returned too. -/
def FindFloor (env : Engine) (CapsuleLocation : FVector) (OutFloorResult : FFindFloorResult)
    (bZeroDelta : Bool) (DownwardSweepResult : Option FHitResult) (c : Comp) :
    FFindFloorResult × Comp :=
  if !env.HasValidData c || !env.IsQueryCollisionEnabled c then
    (FFindFloorResult.Clear, c)
  else
    let UseCapsuleLocation :=
      match c.VRRootCapsule with
      | some root => root.OffsetComponentToWorld
      | none => CapsuleLocation
    let HeightCheckAdjust :=
      if c.IsMovingOnGround || env.IsClimbing c then MAX_FLOOR_DIST + KINDA_SMALL_NUMBER
      else -MAX_FLOOR_DIST
    let FloorSweepTraceDist := max MAX_FLOOR_DIST (c.MaxStepHeight + HeightCheckAdjust)
    let FloorLineTraceDist := FloorSweepTraceDist
    let LastFloor := c.CurrentFloor
    let sw := FindFloor_sweep env UseCapsuleLocation FloorLineTraceDist FloorSweepTraceDist
      OutFloorResult bZeroDelta DownwardSweepResult c
    let Out1 := FindFloor_override env LastFloor sw.1 sw.2.2
    (FindFloor_perch env HeightCheckAdjust sw.2.1 Out1 sw.2.2, sw.2.2)

/-- The height adjustment of the floor check (line 2420). -/
def FindFloor_HeightCheckAdjust (env : Engine) (c : Comp) : ℚ :=
  if c.IsMovingOnGround || env.IsClimbing c then MAX_FLOOR_DIST + KINDA_SMALL_NUMBER
  else -MAX_FLOOR_DIST

/-- The state in which a `FindFloor` call with valid data reaches its perch part (line
2494): the floor result after the sweep and the walking collision override, whether it
needs validation, and the component. -/
def FindFloor_beforePerch (env : Engine) (CapsuleLocation : FVector)
    (OutFloorResult : FFindFloorResult) (bZeroDelta : Bool)
    (DownwardSweepResult : Option FHitResult) (c : Comp) : FFindFloorResult × Bool × Comp :=
  let UseCapsuleLocation :=
    match c.VRRootCapsule with
    | some root => root.OffsetComponentToWorld
    | none => CapsuleLocation
  let FloorSweepTraceDist := max MAX_FLOOR_DIST (c.MaxStepHeight + FindFloor_HeightCheckAdjust env c)
  let sw := FindFloor_sweep env UseCapsuleLocation FloorSweepTraceDist FloorSweepTraceDist
    OutFloorResult bZeroDelta DownwardSweepResult c
  (FindFloor_override env c.CurrentFloor sw.1 sw.2.2, sw.2.1, sw.2.2)

/-- Whether a `FindFloor` call with valid data makes the perch check (lines 2494-2497):
the floor result needs validation, is a blocking hit of the sweep (not of the line
trace), and `ShouldComputePerchResult` holds for its hit. -/
def FindFloor_checksPerch (env : Engine) (CapsuleLocation : FVector)
    (OutFloorResult : FFindFloorResult) (bZeroDelta : Bool)
    (DownwardSweepResult : Option FHitResult) (c : Comp) : Bool :=
  let bp := FindFloor_beforePerch env CapsuleLocation OutFloorResult bZeroDelta
    DownwardSweepResult c
  (bp.2.1 && bp.1.bBlockingHit && !bp.1.bLineTrace)
    && env.ShouldComputePerchResult bp.1.HitResult true bp.2.2

/-- The largest floor distance the perch check accepts (lines 2499-2503). -/
def FindFloor_MaxPerchFloorDist (env : Engine) (HeightCheckAdjust : ℚ) (c : Comp) : ℚ :=
  if c.IsMovingOnGround || env.IsClimbing c then
    max MAX_FLOOR_DIST (c.MaxStepHeight + HeightCheckAdjust) + max 0 c.PerchAdditionalHeight
  else max MAX_FLOOR_DIST (c.MaxStepHeight + HeightCheckAdjust)

/-- The `ComputePerchResult` call of line 2506, at the valid perch radius: whether it
succeeded, and the perch floor it found. -/
def FindFloor_perchResult (env : Engine) (CapsuleLocation : FVector)
    (OutFloorResult : FFindFloorResult) (bZeroDelta : Bool)
    (DownwardSweepResult : Option FHitResult) (c : Comp) : Bool × FFindFloorResult :=
  let bp := FindFloor_beforePerch env CapsuleLocation OutFloorResult bZeroDelta
    DownwardSweepResult c
  env.ComputePerchResult (env.GetValidPerchRadius bp.2.2) bp.1.HitResult
    (FindFloor_MaxPerchFloorDist env (FindFloor_HeightCheckAdjust env c) bp.2.2) bp.2.2

/-! ## StepUp (source lines 1776-1997) -/

/-- The capsule location `StepUp` starts from (lines 1785-1790). -/
def StepUp_OldLocation (c : Comp) : FVector :=
  match c.VRRootCapsule with
  | some root => root.OffsetComponentToWorld
  | none => c.Location

/-- Sweep heights and floor point of `StepUp` (lines 1816-1840):
`(StepTravelUpHeight, StepTravelDownHeight, PawnFloorPointZ)`. -/
def StepUp_heights (c : Comp) (InHit : FHitResult) (OldLocation : FVector)
    (PawnRadius PawnHalfHeight : ℚ) : ℚ × ℚ × ℚ :=
  let StepTravelUpHeight := c.MaxStepHeight
  let StepTravelDownHeight := StepTravelUpHeight
  let PawnInitialFloorBaseZ := OldLocation.Z - PawnHalfHeight
  let PawnFloorPointZ := PawnInitialFloorBaseZ
  if c.IsMovingOnGround && c.CurrentFloor.IsWalkableFloor then
    let FloorDist := max 0 c.CurrentFloor.FloorDist
    let StepTravelUpHeight1 := max (StepTravelUpHeight - FloorDist) 0
    let StepTravelDownHeight1 := c.MaxStepHeight + MAX_FLOOR_DIST * 2
    let bHitVerticalFace := !IsWithinEdgeTolerance c InHit.Location InHit.ImpactPoint PawnRadius
    if !c.CurrentFloor.bLineTrace && !bHitVerticalFace then
      (StepTravelUpHeight1, StepTravelDownHeight1, c.CurrentFloor.HitResult.ImpactPoint.Z)
    else
      (StepTravelUpHeight1, StepTravelDownHeight1, PawnFloorPointZ - c.CurrentFloor.FloorDist)
  else
    (StepTravelUpHeight, StepTravelDownHeight, PawnFloorPointZ)

/-- The landing validation of `StepUp` after a valid blocking downward hit (lines
1916-1985); `edgeOk` is the edge tolerance test of the caller (`StepUp` and
`VRClimbStepUp` differ only there). The first component is `none` on a rejection
(the caller then reverts and returns false), else the step-down result. -/
def StepUp_validateLanding (env : Engine) (edgeOk : Bool) (Delta : FVector) (Hit : FHitResult)
    (OldLocation : FVector) (PawnFloorPointZ StepSideZ : ℚ) (OutStepDownResult : Bool)
    (c : Comp) : Option FStepDownResult × Comp :=
  -- See if this step sequence would have allowed us to travel higher than our max step height allows.
  let DeltaZ := Hit.ImpactPoint.Z - PawnFloorPointZ
  if DeltaZ > c.MaxStepHeight then (none, c)
  else
    -- Reject unwalkable surface normals here.
    let unwalkableReject : Bool :=
      if !env.IsWalkable Hit c then
        -- Reject if normal opposes movement direction
        let bNormalTowardsMe := decide (Delta.dot Hit.ImpactNormal < 0)
        if bNormalTowardsMe then true
        -- Also reject if we would end up being higher than our starting location by stepping down.
        else if Hit.Location.Z > OldLocation.Z then true
        else false
      else false
    if unwalkableReject then (none, c)
    -- Reject moves where the downward sweep hit something very close to the edge of the capsule.
    else if !edgeOk then (none, c)
    -- Don't step up onto invalid surfaces if traveling higher.
    else if decide (DeltaZ > 0) && !env.CanStepUp Hit c then (none, c)
    else if OutStepDownResult then
      let ff := FindFloor env c.Location {} false (some Hit) c
      if decide (Hit.Location.Z > OldLocation.Z)
          && (!ff.1.bBlockingHit && decide (StepSideZ < MAX_STEP_SIDE_Z)) then (none, ff.2)
      else (some { bComputedFloor := true, FloorResult := ff.1 }, ff.2)
    else (some {}, c)

/-- How the forward sweep of a step-up ends: the call returns (`done`), or goes on to
the downward sweep with the current hit (`goOn`). -/
inductive StepOutcome where
  | done (result : Bool) (c : Comp)
  | goOn (Hit : FHitResult) (c : Comp)

/-- The forward-hit handling of `StepUp` (lines 1863-1903), entered with the state
after the forward sweep. -/
def StepUp_forward (env : Engine) (sc : ScopedMovementUpdate) (Delta : FVector)
    (SweepUpHit Hit : FHitResult) (c : Comp) : StepOutcome :=
  if Hit.bBlockingHit then
    if Hit.bStartPenetrating then
      -- Undo movement
      StepOutcome.done false (sc.RevertMove c)
    else
      let c1 :=
        if SweepUpHit.bBlockingHit && Hit.bBlockingHit then env.HandleImpact SweepUpHit 0 {} c
        else c
      -- pawn ran into a wall
      let c2 := env.HandleImpact Hit 0 {} c1
      if c2.IsFalling then StepOutcome.done true c2
      else
        -- adjust and try again
        let ForwardHitTime := Hit.Time
        let sl := env.SlideAlongSurface Delta (1 - Hit.Time) Hit.Normal Hit true c2
        let ForwardSlideAmount := sl.1
        if sl.2.2.IsFalling then StepOutcome.done false (sc.RevertMove sl.2.2)
        -- If both the forward hit and the deflection got us nowhere, there is no point in this step up.
        else if ForwardHitTime = 0 ∧ ForwardSlideAmount = 0 then
          StepOutcome.done false (sc.RevertMove sl.2.2)
        else StepOutcome.goOn sl.2.1 sl.2.2
  else StepOutcome.goOn Hit c

/-- The downward sweep and landing of a step-up (lines 1905-1996), shared by `StepUp`
and `VRClimbStepUp`, which pass their own edge tolerance test. -/
def StepUp_down (env : Engine) (sc : ScopedMovementUpdate)
    (edgeTest : Comp → FVector → FVector → ℚ → Bool) (GravDir Delta : FVector)
    (StepTravelDownHeight PawnRadius PawnFloorPointZ StepSideZ : ℚ) (OldLocation : FVector)
    (OutStepDownResult : Bool) (Hit : FHitResult) (c : Comp) :
    Bool × Option FStepDownResult × Comp :=
  -- Step down
  let dn := env.MoveUpdatedComponent (GravDir.scale StepTravelDownHeight) c.Rotation true Hit c
  let HitDown := dn.2.1
  -- If step down was initially penetrating abort the step up
  if HitDown.bStartPenetrating then (false, none, sc.RevertMove dn.2.2)
  else
    let landed : Option FStepDownResult × Comp :=
      if HitDown.IsValidBlockingHit then
        StepUp_validateLanding env
          (edgeTest dn.2.2 HitDown.Location HitDown.ImpactPoint PawnRadius)
          Delta HitDown OldLocation PawnFloorPointZ StepSideZ OutStepDownResult dn.2.2
      else (some {}, dn.2.2)
    match landed.1 with
    | none => (false, none, sc.RevertMove landed.2)
    | some StepDownResult =>
      -- Copy step down result.
      (true, if OutStepDownResult then some StepDownResult else none,
        -- Don't recalculate velocity based on this height adjustment
        { landed.2 with
          bJustTeleported := landed.2.bJustTeleported || !landed.2.bMaintainHorizontalGroundVelocity })

/-- `UVRCharacterMovementComponent::StepUp`. `OutStepDownResult` tells whether the
caller passed a result to fill; the second component is what was written to it. -/
def StepUp (env : Engine) (GravDir Delta : FVector) (InHit : FHitResult)
    (OutStepDownResult : Bool) (c : Comp) : Bool × Option FStepDownResult × Comp :=
  if !env.CanStepUp InHit c || decide (c.MaxStepHeight ≤ 0) then (false, none, c)
  else
    let OldLocation := StepUp_OldLocation c
    let PawnRadius := c.GetScaledCapsuleRadius
    let PawnHalfHeight := c.GetScaledCapsuleHalfHeight
    let InitialImpactZ := InHit.ImpactPoint.Z
    -- Don't bother stepping up if top of capsule is hitting something.
    if InitialImpactZ > OldLocation.Z + (PawnHalfHeight - PawnRadius) then (false, none, c)
    -- Don't step up if the impact is below us
    else if InitialImpactZ ≤ OldLocation.Z - PawnHalfHeight then (false, none, c)
    else if GravDir.IsZero then (false, none, c)
    else
      let hs := StepUp_heights c InHit OldLocation PawnRadius PawnHalfHeight
      let StepTravelUpHeight := hs.1
      let StepTravelDownHeight := hs.2.1
      let PawnFloorPointZ := hs.2.2
      let StepSideZ := -1 * InHit.ImpactNormal.dot GravDir
      -- Scope our movement updates, and do not apply them until all intermediate moves are completed.
      let ScopedStepUpMovement := ScopedMovementUpdate.start c
      -- step up - treat as vertical wall
      let PawnRotation := c.Rotation
      let up := env.MoveUpdatedComponent ((-GravDir).scale StepTravelUpHeight) PawnRotation true
        { Time := 1 } c
      let SweepUpHit := up.2.1
      if SweepUpHit.bStartPenetrating then
        -- Undo movement
        (false, none, ScopedStepUpMovement.RevertMove up.2.2)
      else
        -- step fwd
        let fwd := env.MoveUpdatedComponent Delta PawnRotation true { Time := 1 } up.2.2
        match StepUp_forward env ScopedStepUpMovement Delta SweepUpHit fwd.2.1 fwd.2.2 with
        | StepOutcome.done r c3 => (r, none, c3)
        | StepOutcome.goOn Hit c3 =>
          StepUp_down env ScopedStepUpMovement IsWithinEdgeTolerance GravDir Delta
            StepTravelDownHeight PawnRadius PawnFloorPointZ StepSideZ OldLocation
            OutStepDownResult Hit c3

/-- Whether a `StepUp` call is turned away by its entry checks (lines 1780-1811), before
the scoped update is opened and the first sweep is made. -/
def StepUp_entryRejects (env : Engine) (GravDir : FVector) (InHit : FHitResult) (c : Comp) :
    Bool :=
  (!env.CanStepUp InHit c || decide (c.MaxStepHeight ≤ 0))
    || decide (InHit.ImpactPoint.Z
        > (StepUp_OldLocation c).Z + (c.GetScaledCapsuleHalfHeight - c.GetScaledCapsuleRadius))
    || decide (InHit.ImpactPoint.Z ≤ (StepUp_OldLocation c).Z - c.GetScaledCapsuleHalfHeight)
    || GravDir.IsZero

/-- The state in which a `StepUp` call makes its downward sweep (line 1906), when it gets
there: the hit and the component left by the forward sweep and its handling. -/
def StepUp_beforeDown (env : Engine) (GravDir Delta : FVector) (InHit : FHitResult) (c : Comp) :
    Option (FHitResult × Comp) :=
  if StepUp_entryRejects env GravDir InHit c then none
  else
    let hs := StepUp_heights c InHit (StepUp_OldLocation c) c.GetScaledCapsuleRadius
      c.GetScaledCapsuleHalfHeight
    let up := env.MoveUpdatedComponent ((-GravDir).scale hs.1) c.Rotation true { Time := 1 } c
    if up.2.1.bStartPenetrating then none
    else
      let fwd := env.MoveUpdatedComponent Delta c.Rotation true { Time := 1 } up.2.2
      match StepUp_forward env (ScopedMovementUpdate.start c) Delta up.2.1 fwd.2.1 fwd.2.2 with
      | StepOutcome.done _ _ => none
      | StepOutcome.goOn Hit c3 => some (Hit, c3)

/-- The downward sweep of a `StepUp` call (line 1906), when the call gets there: the
hit it reports and the component after it. -/
def StepUp_downSweep (env : Engine) (GravDir Delta : FVector) (InHit : FHitResult) (c : Comp) :
    Option (FHitResult × Comp) :=
  match StepUp_beforeDown env GravDir Delta InHit c with
  | none => none
  | some (Hit, c3) =>
    let hs := StepUp_heights c InHit (StepUp_OldLocation c) c.GetScaledCapsuleRadius
      c.GetScaledCapsuleHalfHeight
    some (env.MoveUpdatedComponent (GravDir.scale hs.2.1) c3.Rotation true Hit c3).2

/-- The deltas a `StepUp` call passes to `MoveUpdatedComponent` itself, in call order:
the sweep up (line 1848), the sweep forward (line 1860) and the sweep down (line 1906),
as far as the call gets. -/
def StepUp_sweeps (env : Engine) (GravDir Delta : FVector) (InHit : FHitResult) (c : Comp) :
    List FVector :=
  if StepUp_entryRejects env GravDir InHit c then []
  else
    let hs := StepUp_heights c InHit (StepUp_OldLocation c) c.GetScaledCapsuleRadius
      c.GetScaledCapsuleHalfHeight
    let up := env.MoveUpdatedComponent ((-GravDir).scale hs.1) c.Rotation true { Time := 1 } c
    if up.2.1.bStartPenetrating then [(-GravDir).scale hs.1]
    else
      match StepUp_beforeDown env GravDir Delta InHit c with
      | none => [(-GravDir).scale hs.1, Delta]
      | some _ => [(-GravDir).scale hs.1, Delta, GravDir.scale hs.2.1]

/-- The upward sweep of a `StepUp` call that got past its entry checks (line 1848). -/
def StepUp_upSweep (env : Engine) (GravDir : FVector) (InHit : FHitResult) (c : Comp) :
    Bool × FHitResult × Comp :=
  let hs := StepUp_heights c InHit (StepUp_OldLocation c) c.GetScaledCapsuleRadius
    c.GetScaledCapsuleHalfHeight
  env.MoveUpdatedComponent ((-GravDir).scale hs.1) c.Rotation true { Time := 1 } c

/-- The forward sweep of a `StepUp` call that got past its upward sweep (line 1860). -/
def StepUp_forwardSweep (env : Engine) (GravDir Delta : FVector) (InHit : FHitResult)
    (c : Comp) : Bool × FHitResult × Comp :=
  env.MoveUpdatedComponent Delta c.Rotation true { Time := 1 }
    (StepUp_upSweep env GravDir InHit c).2.2

/-- The component after the impact notifications of a blocking forward hit (lines
1875-1881): the upward hit is notified first when it was blocking too. -/
def StepUp_afterImpact (env : Engine) (GravDir Delta : FVector) (InHit : FHitResult)
    (c : Comp) : Comp :=
  env.HandleImpact (StepUp_forwardSweep env GravDir Delta InHit c).2.1 0 {}
    (if (StepUp_upSweep env GravDir InHit c).2.1.bBlockingHit = true then
      env.HandleImpact (StepUp_upSweep env GravDir InHit c).2.1 0 {}
        (StepUp_forwardSweep env GravDir Delta InHit c).2.2
    else (StepUp_forwardSweep env GravDir Delta InHit c).2.2)

/-- What a step-up makes of the result `dn` of its downward sweep (lines 1908-1996): the
part of `StepUp_down` after the sweep. -/
def StepUp_land (env : Engine) (sc : ScopedMovementUpdate)
    (edgeTest : Comp → FVector → FVector → ℚ → Bool) (Delta : FVector)
    (PawnRadius PawnFloorPointZ StepSideZ : ℚ) (OldLocation : FVector)
    (OutStepDownResult : Bool) (dn : Bool × FHitResult × Comp) :
    Bool × Option FStepDownResult × Comp :=
  let HitDown := dn.2.1
  -- If step down was initially penetrating abort the step up
  if HitDown.bStartPenetrating then (false, none, sc.RevertMove dn.2.2)
  else
    let landed : Option FStepDownResult × Comp :=
      if HitDown.IsValidBlockingHit then
        StepUp_validateLanding env
          (edgeTest dn.2.2 HitDown.Location HitDown.ImpactPoint PawnRadius)
          Delta HitDown OldLocation PawnFloorPointZ StepSideZ OutStepDownResult dn.2.2
      else (some {}, dn.2.2)
    match landed.1 with
    | none => (false, none, sc.RevertMove landed.2)
    | some StepDownResult =>
      -- Copy step down result.
      (true, if OutStepDownResult then some StepDownResult else none,
        -- Don't recalculate velocity based on this height adjustment
        { landed.2 with
          bJustTeleported := landed.2.bJustTeleported || !landed.2.bMaintainHorizontalGroundVelocity })

/-! ## VRClimbStepUp (source lines 2013-2229) -/

/-- The forward-hit handling of `VRClimbStepUp` (lines 2091-2136): a blocking forward
hit never goes on to the downward sweep. -/
def VRClimbStepUp_forward (env : Engine) (sc : ScopedMovementUpdate)
    (SweepUpHit Hit : FHitResult) (c : Comp) : StepOutcome :=
  if Hit.bBlockingHit then
    if Hit.bStartPenetrating then
      -- Undo movement
      StepOutcome.done false (sc.RevertMove c)
    else
      let c1 :=
        if SweepUpHit.bBlockingHit && Hit.bBlockingHit then env.HandleImpact SweepUpHit 0 {} c
        else c
      -- pawn ran into a wall
      let c2 := env.HandleImpact Hit 0 {} c1
      if c2.IsFalling then StepOutcome.done true c2
      -- Don't adjust for VR, it doesn't work correctly
      else StepOutcome.done false (sc.RevertMove c2)
  else StepOutcome.goOn Hit c

/-- `UVRCharacterMovementComponent::VRClimbStepUp`. -/
def VRClimbStepUp (env : Engine) (GravDir Delta : FVector) (InHit : FHitResult)
    (OutStepDownResult : Bool) (c : Comp) : Bool × Option FStepDownResult × Comp :=
  if !env.CanStepUp InHit c || decide (c.MaxStepHeight ≤ 0) then (false, none, c)
  else
    let OldLocation := StepUp_OldLocation c
    let PawnRadius := c.GetScaledCapsuleRadius
    let PawnHalfHeight := c.GetScaledCapsuleHalfHeight
    let InitialImpactZ := InHit.ImpactPoint.Z
    -- Don't bother stepping up if top of capsule is hitting something.
    if InitialImpactZ > OldLocation.Z + (PawnHalfHeight - PawnRadius) then (false, none, c)
    -- Don't step up if the impact is below us
    else if InitialImpactZ ≤ OldLocation.Z - PawnHalfHeight then (false, none, c)
    else if GravDir.IsZero then (false, none, c)
    else
      let StepTravelUpHeight := c.MaxStepHeight
      let StepTravelDownHeight := StepTravelUpHeight
      let StepSideZ := -1 * InHit.ImpactNormal.dot GravDir
      let PawnInitialFloorBaseZ := OldLocation.Z - PawnHalfHeight
      let PawnFloorPointZ := PawnInitialFloorBaseZ
      -- Scope our movement updates, and do not apply them until all intermediate moves are completed.
      let ScopedStepUpMovement := ScopedMovementUpdate.start c
      -- step up - treat as vertical wall
      let PawnRotation := c.Rotation
      let up := env.MoveUpdatedComponent ((-GravDir).scale StepTravelUpHeight) PawnRotation true
        { Time := 1 } c
      let SweepUpHit := up.2.1
      if SweepUpHit.bStartPenetrating then
        -- Undo movement
        (false, none, ScopedStepUpMovement.RevertMove up.2.2)
      else
        -- step fwd
        let fwd := env.MoveUpdatedComponent Delta PawnRotation true { Time := 1 } up.2.2
        match VRClimbStepUp_forward env ScopedStepUpMovement SweepUpHit fwd.2.1 fwd.2.2 with
        | StepOutcome.done r c3 => (r, none, c3)
        | StepOutcome.goOn Hit c3 =>
          StepUp_down env ScopedStepUpMovement IsWithinClimbingEdgeTolerance GravDir Delta
            StepTravelDownHeight PawnRadius PawnFloorPointZ StepSideZ OldLocation
            OutStepDownResult Hit c3

/-! ## Trace of observable calls -/

/-- The calls a property may count or order: the server move RPCs sent by the client,
and the engine entry points and notifications invoked by the source. -/
inductive Call where
  | ServerMoveOld (OldTimeStamp : ℚ) (OldAccel : FVector) (OldMoveFlags : Nat)
  | ServerMoveVR (TimeStamp : ℚ) (InAccel ClientLoc CapsuleLoc : FVector)
      (ConditionalReps : FVRConditionalMoveRep) (LFDiff : FVector) (CapsuleYaw MoveFlags : Nat)
      (MoveReps : FVRConditionalMoveRep2) (ClientMovementMode : Nat)
  | ServerMoveVRExLight (TimeStamp : ℚ) (ClientLoc CapsuleLoc : FVector)
      (ConditionalReps : FVRConditionalMoveRep) (LFDiff : FVector) (CapsuleYaw MoveFlags : Nat)
      (MoveReps : FVRConditionalMoveRep2) (ClientMovementMode : Nat)
  | ServerMoveVRDual (TimeStamp0 : ℚ) (InAccel0 : FVector) (PendingFlags View0 : Nat)
      (OldCapsuleLoc : FVector) (OldConditionalReps : FVRConditionalMoveRep) (OldLFDiff : FVector)
      (OldCapsuleYaw : Nat) (TimeStamp : ℚ) (InAccel ClientLoc CapsuleLoc : FVector)
      (ConditionalReps : FVRConditionalMoveRep) (LFDiff : FVector) (CapsuleYaw NewFlags : Nat)
      (MoveReps : FVRConditionalMoveRep2) (ClientMovementMode : Nat)
  | ServerMoveVRDualExLight (TimeStamp0 : ℚ) (PendingFlags View0 : Nat)
      (OldCapsuleLoc : FVector) (OldConditionalReps : FVRConditionalMoveRep) (OldLFDiff : FVector)
      (OldCapsuleYaw : Nat) (TimeStamp : ℚ) (ClientLoc CapsuleLoc : FVector)
      (ConditionalReps : FVRConditionalMoveRep) (LFDiff : FVector) (CapsuleYaw NewFlags : Nat)
      (MoveReps : FVRConditionalMoveRep2) (ClientMovementMode : Nat)
  | ServerMoveVRDualHybridRootMotion (TimeStamp0 : ℚ) (InAccel0 : FVector)
      (PendingFlags View0 : Nat) (OldCapsuleLoc : FVector)
      (OldConditionalReps : FVRConditionalMoveRep) (OldLFDiff : FVector) (OldCapsuleYaw : Nat)
      (TimeStamp : ℚ) (InAccel ClientLoc CapsuleLoc : FVector)
      (ConditionalReps : FVRConditionalMoveRep) (LFDiff : FVector) (CapsuleYaw NewFlags : Nat)
      (MoveReps : FVRConditionalMoveRep2) (ClientMovementMode : Nat)
  | SetControlRotation (ViewRot : FRotator)
  | UpdateRotation (DeltaTime : ℚ)
  | MoveAutonomous (TimeStamp DeltaTime : ℚ) (MoveFlags : Nat) (Accel : FVector)
  | ServerMoveHandleClientError (TimeStamp DeltaTime : ℚ) (Accel ClientLoc : FVector)
      (ClientMovementBase : Option Nat) (ClientBaseBoneName ClientMovementMode : Nat)
  | PerformMovement (DeltaTime : ℚ)
  | FreeMove (id : Nat)
  | ProcessLanded (Hit : FHitResult) (remainingTime : ℚ) (Iterations : Int)
  | Landed (Hit : FHitResult)
  | SetPostLandedPhysics (Hit : FHitResult)
  | OnLanded
  | StartNewPhysics (remainingTime : ℚ) (Iterations : Int)
  | StartSwimming (remainingTime : ℚ) (Iterations : Int)
  | StartFalling (remainingTime : ℚ) (Iterations : Int)
  | RewindVRRelativeMovement
  | ApplyVRMotionToVelocity (deltaTime : ℚ)
  | RestorePreAdditiveVRMotionVelocity
deriving DecidableEq

/-- A component together with the trace of the calls made so far. -/
structure Sim where
  comp : Comp := {}
  log : List Call := []

/-- Record a call and apply its effect on the component. -/
def Sim.call (s : Sim) (ev : Call) (effect : Comp → Comp) : Sim :=
  { comp := effect s.comp, log := s.log ++ [ev] }

/-! ## Angle compression (engine `FRotator`) -/

/-- Engine function `FRotator::DecompressAxisFromShort`. -/
def DecompressAxisFromShort (Angle : Nat) : ℚ := (Angle : ℚ) * 360 / 65536

/-- Engine function `FRotator::DecompressAxisFromByte`. -/
def DecompressAxisFromByte (Angle : Nat) : ℚ := (Angle : ℚ) * 360 / 256

/-- Engine function `FMath::RoundToInt` (`FloorToInt(F + 0.5f)`): the sum is rounded
to single precision, and the conversion to `int32` of a value out of range gives
`0x80000000`. -/
def RoundToInt (F : ℚ) : ℤ := F32.toInt32 ⌊F32.add F (1 / 2)⌋

/-- Engine function `FRotator::CompressAxisToShort`:
`RoundToInt(Angle * 65536.f / 360.f) & 0xFFFF`, product and quotient in single
precision. -/
def CompressAxisToShort (Angle : ℚ) : Nat :=
  (RoundToInt (F32.div (F32.mul Angle 65536) 360) % 65536).toNat

/-- Engine function `FRotator::CompressAxisToByte`:
`RoundToInt(Angle * 256.f / 360.f) & 0xFF`. -/
def CompressAxisToByte (Angle : ℚ) : Nat :=
  (RoundToInt (F32.div (F32.mul Angle 256) 360) % 256).toNat

/-! ## Server move handlers (source lines 515-741) -/

/-- The "perform actual movement" block of `ServerMoveVR_Implementation` up to the call
of `MoveAutonomous` (lines 689-731): rotation update, requested velocity, custom VR
inputs, and the VR capsule state taken from the move. -/
def ServerMoveVR_prepare (env : Engine) (DeltaTime : ℚ) (PC : Bool) (CapsuleLoc : FVector)
    (ConditionalReps : FVRConditionalMoveRep) (LFDiff : FVector) (CapsuleYaw : Nat) (s : Sim) :
    Sim :=
  let s1 := if PC then s.call (Call.UpdateRotation DeltaTime) (env.UpdateRotation DeltaTime) else s
  let c1 := s1.comp
  let c2 : Comp :=
    if !ConditionalReps.RequestedVelocity.IsZero then
      { c1 with RequestedVelocity := ConditionalReps.RequestedVelocity, bHasRequestedVelocity := true }
    else c1
  let c3 : Comp :=
    { c2 with CustomVRInputVector := ConditionalReps.CustomVRInputVector
              MoveAction := ConditionalReps.MoveAction }
  -- Set capsule location prior to testing movement
  let c4 : Comp :=
    match c3.VRRootCapsule with
    | some root =>
      let root1 : UVRRootComponent :=
        { root with
          curCameraLoc := CapsuleLoc
          curCameraRot := ⟨0, DecompressAxisFromShort CapsuleYaw, 0⟩
          DifferenceFromLastFrame := ⟨LFDiff.X, LFDiff.Y, 0⟩ }
      let c5 : Comp :=
        { c3 with VRRootCapsule := some root1
                  AdditionalVRInputVector := root1.DifferenceFromLastFrame }
      let c6 :=
        if c5.VRReplicateCapsuleHeight && !IsNearlyEqual LFDiff.Z c5.CapsuleHalfHeight then
          c5.SetCapsuleHalfHeight LFDiff.Z
        else c5
      env.GenerateOffsetToWorld c6
    | none => c3
  { s1 with comp := c4 }

/-- `UVRCharacterMovementComponent::ServerMoveVR_Implementation`. -/
def ServerMoveVR_Implementation (env : Engine) (TimeStamp : ℚ)
    (InAccel ClientLoc CapsuleLoc : FVector) (ConditionalReps : FVRConditionalMoveRep)
    (LFDiff : FVector) (CapsuleYaw MoveFlags : Nat) (MoveReps : FVRConditionalMoveRep2)
    (ClientMovementMode : Nat) (s : Sim) : Sim :=
  if !env.HasValidData s.comp || !env.IsComponentTickEnabled s.comp then s
  else
    let v := env.VerifyClientTimeStamp TimeStamp s.comp
    if !v.1 then { s with comp := v.2 }
    else
      let PC := v.2.HasPlayerController
      let n := if PC then env.NotifyServerReceivedClientData TimeStamp v.2 else (true, v.2)
      let bServerReadyForClient := n.1
      let InAccel1 := if PC && !bServerReadyForClient then FVector.ZeroVector else InAccel
      let Accel := InAccel1
      -- Save move parameters.
      let DeltaTime := env.GetServerMoveDeltaTime TimeStamp n.2
      let now := env.GetTimeSeconds n.2
      let c1 : Comp :=
        { n.2 with Server :=
            { n.2.Server with
              CurrentClientTimeStamp := TimeStamp
              ServerTimeStamp := now
              ServerTimeStampLastServerMove := now } }
      let ViewRot : FRotator :=
        ⟨DecompressAxisFromShort MoveReps.ClientPitch, DecompressAxisFromShort MoveReps.ClientYaw,
          DecompressAxisFromByte MoveReps.ClientRoll⟩
      let s1 : Sim := { s with comp := c1 }
      let s2 := if PC then s1.call (Call.SetControlRotation ViewRot) (env.SetControlRotation ViewRot)
        else s1
      if !bServerReadyForClient then s2
      else
        -- Perform actual movement
        let s3 :=
          if !env.IsPaused s2.comp && decide (DeltaTime > 0) then
            let s4 := ServerMoveVR_prepare env DeltaTime PC CapsuleLoc ConditionalReps LFDiff
              CapsuleYaw s2
            let s5 := s4.call (Call.MoveAutonomous TimeStamp DeltaTime MoveFlags Accel)
              (env.MoveAutonomous TimeStamp DeltaTime MoveFlags Accel)
            { s5 with comp := { s5.comp with bHasRequestedVelocity := false } }
          else s2
        s3.call
          (Call.ServerMoveHandleClientError TimeStamp DeltaTime Accel ClientLoc
            MoveReps.ClientMovementBase MoveReps.ClientBaseBoneName ClientMovementMode)
          (env.ServerMoveHandleClientError TimeStamp DeltaTime Accel ClientLoc
            MoveReps.ClientMovementBase MoveReps.ClientBaseBoneName ClientMovementMode)

/-- Where `ServerMoveVR_Implementation` stands when it computes the delta time of a move
whose time stamp was accepted (line 666): whether the server is ready for the client,
and the component after `VerifyClientTimeStamp` and, with a player controller,
`NotifyServerReceivedClientData`; `CurrentClientTimeStamp` is overwritten only after
that (line 668). -/
def ServerMoveVR_received (env : Engine) (TimeStamp : ℚ) (c : Comp) : Bool × Comp :=
  let v := env.VerifyClientTimeStamp TimeStamp c
  if v.2.HasPlayerController then env.NotifyServerReceivedClientData TimeStamp v.2
  else (true, v.2)

/-- The delta time `ServerMoveVR_Implementation` gives an accepted move (line 666). -/
def ServerMoveVR_DeltaTime (env : Engine) (TimeStamp : ℚ) (c : Comp) : ℚ :=
  env.GetServerMoveDeltaTime TimeStamp (ServerMoveVR_received env TimeStamp c).2

/-- The server state after the time stamps of an accepted move are written and the
control rotation is set (lines 668-679), where the pause check of line 687 is made. -/
def ServerMoveVR_stamped (env : Engine) (TimeStamp : ℚ) (MoveReps : FVRConditionalMoveRep2)
    (s : Sim) : Sim :=
  let n := ServerMoveVR_received env TimeStamp s.comp
  let now := env.GetTimeSeconds n.2
  let c1 : Comp :=
    { n.2 with Server :=
        { n.2.Server with
          CurrentClientTimeStamp := TimeStamp
          ServerTimeStamp := now
          ServerTimeStampLastServerMove := now } }
  let ViewRot : FRotator :=
    ⟨DecompressAxisFromShort MoveReps.ClientPitch, DecompressAxisFromShort MoveReps.ClientYaw,
      DecompressAxisFromByte MoveReps.ClientRoll⟩
  let s1 : Sim := { s with comp := c1 }
  if (env.VerifyClientTimeStamp TimeStamp s.comp).2.HasPlayerController then
    s1.call (Call.SetControlRotation ViewRot) (env.SetControlRotation ViewRot)
  else s1

/-- Whether a call of the trace is `MoveAutonomous`. -/
def Call.isMoveAutonomous : Call → Bool
  | Call.MoveAutonomous .. => true
  | _ => false

/-- The engine calls `ServerMoveVR_Implementation` makes after it has written the time
stamps leave the server's record of the client time stamp alone. -/
def Engine.KeepsClientTimeStamp (env : Engine) : Prop :=
  (∀ r c, (env.SetControlRotation r c).Server.CurrentClientTimeStamp
      = c.Server.CurrentClientTimeStamp)
  ∧ (∀ d c, (env.UpdateRotation d c).Server.CurrentClientTimeStamp
      = c.Server.CurrentClientTimeStamp)
  ∧ (∀ c, (env.GenerateOffsetToWorld c).Server.CurrentClientTimeStamp
      = c.Server.CurrentClientTimeStamp)
  ∧ (∀ t d f a c, (env.MoveAutonomous t d f a c).Server.CurrentClientTimeStamp
      = c.Server.CurrentClientTimeStamp)
  ∧ (∀ t d a l b n m c,
      (env.ServerMoveHandleClientError t d a l b n m c).Server.CurrentClientTimeStamp
        = c.Server.CurrentClientTimeStamp)

/-- The old move's `FVRConditionalMoveRep2` built by the dual handlers: the new move's
base and bone, the view unpacked from `View0`. -/
def MoveRepsOld (env : Engine) (View0 : Nat) (MoveReps : FVRConditionalMoveRep2) :
    FVRConditionalMoveRep2 :=
  env.UnpackAndSetINTRotations View0
    { ClientBaseBoneName := MoveReps.ClientBaseBoneName
      ClientMovementBase := MoveReps.ClientMovementBase }

/-- `UVRCharacterMovementComponent::ServerMoveVRDual_Implementation`. -/
def ServerMoveVRDual_Implementation (env : Engine) (TimeStamp0 : ℚ) (InAccel0 : FVector)
    (PendingFlags View0 : Nat) (OldCapsuleLoc : FVector)
    (OldConditionalReps : FVRConditionalMoveRep) (OldLFDiff : FVector) (OldCapsuleYaw : Nat)
    (TimeStamp : ℚ) (InAccel ClientLoc CapsuleLoc : FVector)
    (ConditionalReps : FVRConditionalMoveRep) (LFDiff : FVector) (CapsuleYaw NewFlags : Nat)
    (MoveReps : FVRConditionalMoveRep2) (ClientMovementMode : Nat) (s : Sim) : Sim :=
  -- Keep new moves base and bone, but use the View of the old move
  let MoveRepsOld := MoveRepsOld env View0 MoveReps
  let s1 := ServerMoveVR_Implementation env TimeStamp0 InAccel0 ⟨1, 2, 3⟩ OldCapsuleLoc
    OldConditionalReps OldLFDiff OldCapsuleYaw PendingFlags MoveRepsOld ClientMovementMode s
  ServerMoveVR_Implementation env TimeStamp InAccel ClientLoc CapsuleLoc ConditionalReps LFDiff
    CapsuleYaw NewFlags MoveReps ClientMovementMode s1

/-- `UVRCharacterMovementComponent::ServerMoveVRDualHybridRootMotion_Implementation`. -/
def ServerMoveVRDualHybridRootMotion_Implementation (env : Engine) (TimeStamp0 : ℚ)
    (InAccel0 : FVector) (PendingFlags View0 : Nat) (OldCapsuleLoc : FVector)
    (OldConditionalReps : FVRConditionalMoveRep) (OldLFDiff : FVector) (OldCapsuleYaw : Nat)
    (TimeStamp : ℚ) (InAccel ClientLoc CapsuleLoc : FVector)
    (ConditionalReps : FVRConditionalMoveRep) (LFDiff : FVector) (CapsuleYaw NewFlags : Nat)
    (MoveReps : FVRConditionalMoveRep2) (ClientMovementMode : Nat) (s : Sim) : Sim :=
  -- Keep new moves base and bone, but use the View of the old move
  let MoveRepsOld := MoveRepsOld env View0 MoveReps
  -- First move received didn't use root motion, process it as such.
  let s0 : Sim :=
    { s with comp :=
      { s.comp with bServerMoveIgnoreRootMotion := env.IsPlayingNetworkedRootMotionMontage s.comp } }
  let s1 := ServerMoveVR_Implementation env TimeStamp0 InAccel0 ⟨1, 2, 3⟩ OldCapsuleLoc
    OldConditionalReps OldLFDiff OldCapsuleYaw PendingFlags MoveRepsOld ClientMovementMode s0
  let s2 : Sim := { s1 with comp := { s1.comp with bServerMoveIgnoreRootMotion := false } }
  ServerMoveVR_Implementation env TimeStamp InAccel ClientLoc CapsuleLoc ConditionalReps LFDiff
    CapsuleYaw NewFlags MoveReps ClientMovementMode s2

/-- `UVRCharacterMovementComponent::ServerMoveVRDualExLight_Implementation`. -/
def ServerMoveVRDualExLight_Implementation (env : Engine) (TimeStamp0 : ℚ)
    (PendingFlags View0 : Nat) (OldCapsuleLoc : FVector)
    (OldConditionalReps : FVRConditionalMoveRep) (OldLFDiff : FVector) (OldCapsuleYaw : Nat)
    (TimeStamp : ℚ) (ClientLoc CapsuleLoc : FVector)
    (ConditionalReps : FVRConditionalMoveRep) (LFDiff : FVector) (CapsuleYaw NewFlags : Nat)
    (MoveReps : FVRConditionalMoveRep2) (ClientMovementMode : Nat) (s : Sim) : Sim :=
  -- Keep new moves base and bone, but use the View of the old move
  let MoveRepsOld := MoveRepsOld env View0 MoveReps
  let s1 := ServerMoveVR_Implementation env TimeStamp0 FVector.ZeroVector ⟨1, 2, 3⟩ OldCapsuleLoc
    OldConditionalReps OldLFDiff OldCapsuleYaw PendingFlags MoveRepsOld ClientMovementMode s
  ServerMoveVR_Implementation env TimeStamp FVector.ZeroVector ClientLoc CapsuleLoc
    ConditionalReps LFDiff CapsuleYaw NewFlags MoveReps ClientMovementMode s1

/-- `UVRCharacterMovementComponent::ServerMoveVRExLight_Implementation`. -/
def ServerMoveVRExLight_Implementation (env : Engine) (TimeStamp : ℚ)
    (ClientLoc CapsuleLoc : FVector) (ConditionalReps : FVRConditionalMoveRep)
    (LFDiff : FVector) (CapsuleYaw MoveFlags : Nat) (MoveReps : FVRConditionalMoveRep2)
    (ClientMovementMode : Nat) (s : Sim) : Sim :=
  ServerMoveVR_Implementation env TimeStamp FVector.ZeroVector ClientLoc CapsuleLoc
    ConditionalReps LFDiff CapsuleYaw MoveFlags MoveReps ClientMovementMode s

/-! ## CallServerMove (source lines 744-929) -/

/-- The `FVRConditionalMoveRep2` of the new move (lines 777-787): base, bone, and the
saved control rotation compressed, pitch and roll only when the owner uses them. -/
def NewMoveConds (c : Comp) (NewMove : SavedMove) : FVRConditionalMoveRep2 :=
  let usePitchRoll := c.bUseControllerRotationRoll || c.bUseControllerRotationPitch
  { ClientMovementBase := NewMove.EndBase
    ClientBaseBoneName := NewMove.EndBoneName
    ClientPitch := if usePitchRoll then CompressAxisToShort NewMove.SavedControlRotation.Pitch else 0
    ClientRoll := if usePitchRoll then CompressAxisToByte NewMove.SavedControlRotation.Roll else 0
    ClientYaw := CompressAxisToShort NewMove.SavedControlRotation.Yaw }

/-- The packed view of the pending move (lines 795-802): pitch in the high 16 bits (zero
unless the owner uses controller pitch), yaw in the low 16 bits. -/
def OldClientYawPitchINT (c : Comp) (PendingMove : SavedMove) : Nat :=
  let cPitch := if c.bUseControllerRotationPitch then
    CompressAxisToShort PendingMove.SavedControlRotation.Pitch else 0
  let cYaw := CompressAxisToShort PendingMove.SavedControlRotation.Yaw
  (cPitch <<< 16) ||| cYaw

/-- The new-move RPC `CallServerMove` issues (lines 789-920). -/
def CallServerMove_rpc (env : Engine) (c : Comp) (NewMove : SavedMove) : Call :=
  let CapsuleYawShort := CompressAxisToShort NewMove.VRCapsuleRotation.Yaw
  -- Determine if we send absolute or relative location
  let SendLocation :=
    if env.UseRelativeLocation NewMove.EndBase c then NewMove.SavedRelativeLocation
    else NewMove.SavedLocation
  let NewMoveConds := NewMoveConds c NewMove
  match c.Client.PendingMove with
  | some PendingMove =>
    let OldClientYawPitchINT := OldClientYawPitchINT c PendingMove
    let OldCapsuleYawShort := CompressAxisToShort PendingMove.VRCapsuleRotation.Yaw
    -- If we delayed a move without root motion, and our new move has root motion, send these
    -- through a special function, so the server knows how to process them.
    if PendingMove.RootMotionMontage = none ∧ NewMove.RootMotionMontage ≠ none then
      Call.ServerMoveVRDualHybridRootMotion PendingMove.TimeStamp PendingMove.Acceleration
        (env.GetCompressedFlags PendingMove) OldClientYawPitchINT PendingMove.VRCapsuleLocation
        PendingMove.ConditionalValues PendingMove.LFDiff OldCapsuleYawShort NewMove.TimeStamp
        NewMove.Acceleration SendLocation NewMove.VRCapsuleLocation NewMove.ConditionalValues
        NewMove.LFDiff CapsuleYawShort (env.GetCompressedFlags NewMove) NewMoveConds
        NewMove.MovementMode
    -- send two moves simultaneously
    else if PendingMove.Acceleration.IsZero && NewMove.Acceleration.IsZero then
      Call.ServerMoveVRDualExLight PendingMove.TimeStamp
        (env.GetCompressedFlags PendingMove) OldClientYawPitchINT PendingMove.VRCapsuleLocation
        PendingMove.ConditionalValues PendingMove.LFDiff OldCapsuleYawShort NewMove.TimeStamp
        SendLocation NewMove.VRCapsuleLocation NewMove.ConditionalValues
        NewMove.LFDiff CapsuleYawShort (env.GetCompressedFlags NewMove) NewMoveConds
        NewMove.MovementMode
    else
      Call.ServerMoveVRDual PendingMove.TimeStamp PendingMove.Acceleration
        (env.GetCompressedFlags PendingMove) OldClientYawPitchINT PendingMove.VRCapsuleLocation
        PendingMove.ConditionalValues PendingMove.LFDiff OldCapsuleYawShort NewMove.TimeStamp
        NewMove.Acceleration SendLocation NewMove.VRCapsuleLocation NewMove.ConditionalValues
        NewMove.LFDiff CapsuleYawShort (env.GetCompressedFlags NewMove) NewMoveConds
        NewMove.MovementMode
  | none =>
    if NewMove.Acceleration.IsZero then
      Call.ServerMoveVRExLight NewMove.TimeStamp SendLocation NewMove.VRCapsuleLocation
        NewMove.ConditionalValues NewMove.LFDiff CapsuleYawShort (env.GetCompressedFlags NewMove)
        NewMoveConds NewMove.MovementMode
    else
      Call.ServerMoveVR NewMove.TimeStamp NewMove.Acceleration SendLocation
        NewMove.VRCapsuleLocation NewMove.ConditionalValues NewMove.LFDiff CapsuleYawShort
        (env.GetCompressedFlags NewMove) NewMoveConds NewMove.MovementMode

/-- `UVRCharacterMovementComponent::CallServerMove`. Sending an RPC leaves the client
component as it is and is recorded in the trace. -/
def CallServerMove (env : Engine) (NewMove : SavedMove) (OldMove : Option SavedMove) (s : Sim) :
    Sim :=
  -- send old move if it exists
  let s1 :=
    match OldMove with
    | some Old =>
      s.call (Call.ServerMoveOld Old.TimeStamp Old.Acceleration (env.GetCompressedFlags Old)) id
    | none => s
  let s2 := s1.call (CallServerMove_rpc env s1.comp NewMove) id
  if env.UsesClientSideCameraUpdates s2.comp then
    { s2 with comp := { s2.comp with bShouldSendClientSideCameraUpdate := true } }
  else s2

/-- The send variants of the spec: full move, light move, dual move, light dual move,
root-motion hybrid dual move. -/
inductive MoveVariant where
  | Full
  | Light
  | Dual
  | DualLight
  | DualHybrid
deriving DecidableEq, Repr

/-- The variant of a new-move RPC; `none` for every other call. -/
def Call.newMoveVariant : Call → Option MoveVariant
  | Call.ServerMoveVR .. => some MoveVariant.Full
  | Call.ServerMoveVRExLight .. => some MoveVariant.Light
  | Call.ServerMoveVRDual .. => some MoveVariant.Dual
  | Call.ServerMoveVRDualExLight .. => some MoveVariant.DualLight
  | Call.ServerMoveVRDualHybridRootMotion .. => some MoveVariant.DualHybrid
  | _ => none

/-- The selection table as the specification words it: without a pending move, light
iff the new acceleration is exactly zero, else full; with a pending move, hybrid iff the
pending move has no root-motion montage and the new one has, else dual, light iff both
accelerations are exactly zero. -/
def specVariant (PendingMove : Option SavedMove) (NewMove : SavedMove) : MoveVariant :=
  match PendingMove with
  | none => if NewMove.Acceleration = FVector.ZeroVector then MoveVariant.Light else MoveVariant.Full
  | some Pending =>
    if Pending.RootMotionMontage = none ∧ NewMove.RootMotionMontage ≠ none then
      MoveVariant.DualHybrid
    else if Pending.Acceleration = FVector.ZeroVector ∧ NewMove.Acceleration = FVector.ZeroVector
    then MoveVariant.DualLight
    else MoveVariant.Dual

/-! ## Saved moves and ReplicateMoveToServer (source lines 442-464, 1286-1479) -/

/-- `FSavedMove_VRCharacter::SetInitialPosition`: for a VR character the capsule
location, rotation and `LFDiff` are taken from the root reference (zero without one),
then the base class captures its part. -/
def SavedMove.SetInitialPosition (env : Engine) (m : SavedMove) (c : Comp) : SavedMove :=
  let m1 : SavedMove :=
    if env.OwnerIsVRCharacter then
      match c.VRRootReference with
      | some root =>
        { m with
          VRCapsuleLocation := root.curCameraLoc
          VRCapsuleRotation := env.GetHMDPureYaw_I root.curCameraRot
          LFDiff := root.DifferenceFromLastFrame }
      | none =>
        { m with
          VRCapsuleLocation := FVector.ZeroVector
          VRCapsuleRotation := {}
          LFDiff := FVector.ZeroVector }
    else m
  env.Super_SetInitialPosition m1 c

/-- `FSavedMove_VRCharacter::PrepMoveFor`, on the movement component of the character
the move is replayed for: the VR capsule state is taken from the saved move, the
capsule height from `LFDiff.Z` when heights are replicated, the offset is regenerated,
then the base class prepares its part. -/
def SavedMove.PrepMoveFor (env : Engine) (m : SavedMove) (c : Comp) : Comp :=
  -- Set capsule location prior to testing movement
  let c1 : Comp :=
    match c.VRRootCapsule with
    | some root =>
      let root1 : UVRRootComponent :=
        { root with
          curCameraLoc := m.VRCapsuleLocation
          curCameraRot := m.VRCapsuleRotation
          DifferenceFromLastFrame := ⟨m.LFDiff.X, m.LFDiff.Y, 0⟩ }
      let c5 : Comp :=
        { c with VRRootCapsule := some root1
                 AdditionalVRInputVector := root1.DifferenceFromLastFrame }
      let c6 :=
        if c5.VRReplicateCapsuleHeight && !IsNearlyEqual m.LFDiff.Z c5.CapsuleHalfHeight then
          c5.SetCapsuleHalfHeight m.LFDiff.Z
        else c5
      env.GenerateOffsetToWorld c6
    | none => c
  env.Super_PrepMoveFor m c1

/-- The start of `ReplicateMoveToServer` (lines 1289-1338): the early returns, the
delta time update, the oldest important move, and the new move set up for this tick.
`none` when the function returns early. -/
def ReplicateMoveToServer_setup (env : Engine) (DeltaTime : ℚ) (NewAcceleration : FVector)
    (c : Comp) : Option (SavedMove × Option SavedMove) × Comp :=
  let PC := c.HasPlayerController
  -- Can only start sending moves if our controllers are synced up over the network
  if PC && !env.AcknowledgedPawnIsOwner c then (none, c)
  -- Bail out if our character's controller doesn't have a Player.
  else if PC && !env.PlayerControllerHasPlayer c then (none, c)
  else if !c.HasClientData then (none, c)
  else
    -- Update our delta time for physics simulation.
    let u := env.UpdateTimeStampAndDeltaTime DeltaTime c
    let c1 := u.2
    -- Find the oldest (unacknowledged) important move (OldMove).
    -- Don't include the last move because it may be combined with the next new move.
    let OldMove : Option SavedMove :=
      match c1.Client.LastAckedMove with
      | some acked => c1.Client.SavedMoves.dropLast.find? fun m => env.IsImportantMove m acked c1
      | none => none
    -- Get a SavedMove object to store the movement in.
    let cr := env.CreateSavedMove c1
    match cr.1 with
    | none => (none, cr.2)
    | some fresh => (some (env.SetMoveFor fresh u.1 NewAcceleration cr.2, OldMove), cr.2)

/-- The two sums of the merge (lines 1371-1380): the pending move's delta time is
added to the new move's, and the X and Y of its `LFDiff` to the new move's. -/
def CombineMoveSums (PendingMove NewMove : SavedMove) : SavedMove :=
  { NewMove with
    DeltaTime := NewMove.DeltaTime + PendingMove.DeltaTime
    LFDiff := ⟨NewMove.LFDiff.X + PendingMove.LFDiff.X, NewMove.LFDiff.Y + PendingMove.LFDiff.Y,
      NewMove.LFDiff.Z⟩ }

/-- The start location the merge tests for overlaps (lines 1350-1353). -/
def CombineOldStartLocation (env : Engine) (PendingMove : SavedMove) (c : Comp) : FVector :=
  match c.VRRootCapsule with
  | some root => env.GetRevertedLocation PendingMove c + (root.OffsetComponentToWorld - c.Location)
  | none => env.GetRevertedLocation PendingMove c

/-- The condition under which `ReplicateMoveToServer` merges the pending move into the
new one (the two tests of lines 1345 and 1355). -/
def ShouldCombine (env : Engine) (PendingMove NewMove : SavedMove) (c : Comp) : Bool :=
  (c.bAllowMovementMerging && !PendingMove.bOldTimeStampBeforeReset
    && env.CanCombineWith PendingMove NewMove
        (c.Client.MaxMoveDeltaTime * env.GetActorTimeDilation c) c)
  && !env.OverlapTest (CombineOldStartLocation env PendingMove c) PendingMove.StartRotation
        (env.GetPawnCapsuleCollisionShape EShrinkCapsuleExtent.SHRINK_None 0 c) c

/-- The body of the merge (lines 1357-1398): the pawn is put back to the pending move's
start, the sums are made, the new move's initial position is captured again, and the
pending move is taken off the list and freed. -/
def CombineMove (env : Engine) (PendingMove NewMove : SavedMove) (s : Sim) : SavedMove × Sim :=
  let c := s.comp
  let PC := c.HasPlayerController
  -- to combine move, first revert pawn position to PendingMove start position
  let c1 := env.SetWorldLocationAndRotation (env.GetRevertedLocation PendingMove c)
    PendingMove.StartRotation c
  let c2 := { c1 with Velocity := PendingMove.StartVelocity }
  let c3 := env.SetBase PendingMove.StartBase PendingMove.StartBoneName c2
  let c4 := { c3 with CurrentFloor := PendingMove.StartFloor }
  -- prepare a new move from that position, applied over the combined time
  let NewMove1 := CombineMoveSums PendingMove NewMove
  let c5 := if PC then env.FaceRotation c4.ControlRotation NewMove1.DeltaTime c4 else c4
  let c6 := env.SaveBaseLocation c5
  let NewMove2 := NewMove1.SetInitialPosition env c6
  -- Remove pending move from move list. It would have to be the last move on the list.
  let popped : List SavedMove :=
    match c6.Client.SavedMoves.getLast? with
    | some last => if last.id = PendingMove.id then c6.Client.SavedMoves.dropLast
      else c6.Client.SavedMoves
    | none => c6.Client.SavedMoves
  let c7 : Comp := { c6 with Client := { c6.Client with SavedMoves := popped } }
  let s1 := ({ s with comp := c7 } : Sim).call (Call.FreeMove PendingMove.id)
    (env.FreeMove PendingMove)
  (NewMove2, { s1 with comp := { s1.comp with Client := { s1.comp.Client with PendingMove := none } } })

/-- The merge step of `ReplicateMoveToServer` (lines 1345-1404). -/
def ReplicateMoveToServer_merge (env : Engine) (NewMove : SavedMove) (s : Sim) : SavedMove × Sim :=
  match s.comp.Client.PendingMove with
  | some PendingMove =>
    if ShouldCombine env PendingMove NewMove s.comp then CombineMove env PendingMove NewMove s
    else (NewMove, s)
  | none => (NewMove, s)

/-- Engine function `FMath::Clamp`. -/
def Clamp (x lo hi : ℚ) : ℚ := if x < lo then lo else if x < hi then x else hi

/-- The local move of `ReplicateMoveToServer` (lines 1406-1413): the acceleration is
taken from the move and the move is performed with the move's delta time. -/
def ReplicateMoveToServer_local (env : Engine) (NewMove : SavedMove) (s : Sim) : Sim :=
  let c := s.comp
  -- Acceleration should match what we send to the server
  let c1 := { c with Acceleration := env.ClampAcceleration NewMove.Acceleration c }
  let c2 := { c1 with AnalogInputModifier := env.ComputeAnalogInputModifier c1 }
  -- Perform the move locally
  let c3 := env.ClearRootMotion c2
  ({ s with comp := c3 } : Sim).call (Call.PerformMovement NewMove.DeltaTime)
    (env.PerformMovement NewMove.DeltaTime)

/-- The statement `ClientData->PendingMove = NULL`. -/
def clearPendingMove (t : Sim) : Sim :=
  { t with comp := { t.comp with Client := { t.comp.Client with PendingMove := none } } }

/-- The statement `ClientData->SavedMoves.Push(NewMove)`. -/
def pushSavedMove (m : SavedMove) (c : Comp) : Comp :=
  { c with Client := { c.Client with SavedMoves := c.Client.SavedMoves ++ [m] } }

/-- The statement `ClientData->PendingMove = NewMove`. -/
def holdPendingMove (m : SavedMove) (c : Comp) : Comp :=
  { c with Client := { c.Client with PendingMove := some m } }

/-- The statement `ClientData->ClientUpdateTime = MyWorld->TimeSeconds`. -/
def stampClientUpdateTime (env : Engine) (c : Comp) : Comp :=
  { c with Client := { c.Client with ClientUpdateTime := env.GetTimeSeconds c } }

/-- The end of `ReplicateMoveToServer` (lines 1415-1478): the performed move is
recorded, and then held back as the pending move or sent. -/
def ReplicateMoveToServer_record (env : Engine) (NewMove : SavedMove) (OldMove : Option SavedMove)
    (s1 : Sim) : Sim :=
  let NewMove1 := env.PostUpdate NewMove s1.comp
  -- Add NewMove to the list
  if s1.comp.bReplicateMovement then
    let c4 := pushSavedMove NewMove1 s1.comp
    let bCanDelayMove := env.NetEnableMoveCombining c4 && env.CanDelaySendingMove NewMove1 c4
    let NetMoveDelta := Clamp (env.GetClientNetSendDeltaTime NewMove1 c4) (1 / 120) (1 / 15)
    if (bCanDelayMove && c4.Client.PendingMove.isNone)
        && decide ((env.GetTimeSeconds c4 - c4.Client.ClientUpdateTime)
            * env.GetEffectiveTimeDilation c4 < NetMoveDelta) then
      -- Delay sending this move.
      { s1 with comp := holdPendingMove NewMove1 c4 }
    else
      -- Send move to server if this character is replicating movement
      clearPendingMove
        (CallServerMove env NewMove1 OldMove { s1 with comp := stampClientUpdateTime env c4 })
  else clearPendingMove s1

/-- The end of `ReplicateMoveToServer` (lines 1406-1478): local move, then record. -/
def ReplicateMoveToServer_perform (env : Engine) (NewMove : SavedMove) (OldMove : Option SavedMove)
    (s : Sim) : Sim :=
  ReplicateMoveToServer_record env NewMove OldMove (ReplicateMoveToServer_local env NewMove s)

/-- `UVRCharacterMovementComponent::ReplicateMoveToServer`. -/
def ReplicateMoveToServer (env : Engine) (DeltaTime : ℚ) (NewAcceleration : FVector) (s : Sim) :
    Sim :=
  let st := ReplicateMoveToServer_setup env DeltaTime NewAcceleration s.comp
  match st.1 with
  | none => { s with comp := st.2 }
  | some (NewMove, OldMove) =>
    let m := ReplicateMoveToServer_merge env NewMove { s with comp := st.2 }
    ReplicateMoveToServer_perform env m.1 OldMove m.2

/-- `UVRCharacterMovementComponent::UVRCharacterMovementComponent`: the members the
constructor sets (lines 1495-1502), on top of the defaults of the base class. -/
def constructed (c : Comp) : Comp :=
  { c with
    VRRootCapsule := none
    WallRepulsionMultiplier := 1 / 100
    bAllowMovementMerging := false
    bRequestedMoveUseAcceleration := false }

/-- The engine calls made between the capture of a move and its recording leave the
client prediction data (saved moves, pending move) as it is: they move the pawn. -/
def Engine.KeepsClientData (env : Engine) : Prop :=
  (∀ l r c, (env.SetWorldLocationAndRotation l r c).Client = c.Client)
  ∧ (∀ b n c, (env.SetBase b n c).Client = c.Client)
  ∧ (∀ r d c, (env.FaceRotation r d c).Client = c.Client)
  ∧ (∀ c, (env.SaveBaseLocation c).Client = c.Client)
  ∧ (∀ m c, (env.FreeMove m c).Client = c.Client)
  ∧ (∀ c, (env.ClearRootMotion c).Client = c.Client)
  ∧ (∀ d c, (env.PerformMovement d c).Client = c.Client)

/-- The engine calls at the start of `ReplicateMoveToServer` (the time stamp update and
the allocation of the saved move) do not touch the configuration flag
`bAllowMovementMerging`, and `SetMoveFor` stores the delta time it is given. -/
def Engine.KeepsMergingFlag (env : Engine) : Prop :=
  (∀ dt c, (env.UpdateTimeStampAndDeltaTime dt c).2.bAllowMovementMerging
      = c.bAllowMovementMerging)
  ∧ (∀ c, (env.CreateSavedMove c).2.bAllowMovementMerging = c.bAllowMovementMerging)
  ∧ (∀ m dt a c, (env.SetMoveFor m dt a c).DeltaTime = dt)

/-! ## SafeMoveUpdatedComponent (source lines 1672-1701) -/

/-- `UVRCharacterMovementComponent::SafeMoveUpdatedComponent`: the move, and when it
started in penetration and the penetration could be resolved, the move once more. -/
def SafeMoveUpdatedComponent (env : Engine) (Delta : FVector) (NewRotation : FRotator)
    (bSweep : Bool) (OutHit : FHitResult) (c : Comp) : Bool × FHitResult × Comp :=
  if !c.HasUpdatedComponent then
    (false, { Time := 1, TraceStart := OutHit.TraceStart, TraceEnd := OutHit.TraceEnd }, c)
  else
    let m := env.MoveUpdatedComponent Delta NewRotation bSweep OutHit c
    -- Handle initial penetrations
    if m.2.1.bStartPenetrating && m.2.2.HasUpdatedComponent then
      let RequestedAdjustment := env.GetPenetrationAdjustment m.2.1 m.2.2
      let rp := env.ResolvePenetration RequestedAdjustment m.2.1 NewRotation m.2.2
      if rp.1 then
        -- Retry original move
        let m2 := env.MoveUpdatedComponent Delta NewRotation bSweep {} rp.2
        let TempHit := m2.2.1
        -- Remove start penetrating if this is a clean move, otherwise use the last moves hit
        if TempHit.bStartPenetrating then (m2.1, TempHit, m2.2.2)
        else (m2.1, { m.2.1 with bStartPenetrating := TempHit.bStartPenetrating }, m2.2.2)
      else (m.1, m.2.1, rp.2)
    else m

/-! ## Landing (source lines 957-974, 3294-3329) -/

/-- Engine function `FVector::Equals` with its default tolerance. -/
def FVector.Equals (a b : FVector) : Bool :=
  decide (|a.X - b.X| ≤ KINDA_SMALL_NUMBER) && decide (|a.Y - b.Y| ≤ KINDA_SMALL_NUMBER)
    && decide (|a.Z - b.Z| ≤ KINDA_SMALL_NUMBER)

/-- `UVRCharacterMovementComponent::ShouldCheckForValidLandingSpot`. -/
def ShouldCheckForValidLandingSpot (c : Comp) (Hit : FHitResult) : Bool :=
  -- See if we hit an edge of a surface on the lower portion of the capsule.
  if decide (Hit.Normal.Z > KINDA_SMALL_NUMBER) && !Hit.Normal.Equals Hit.ImpactNormal then
    let PawnLocation :=
      match c.VRRootCapsule with
      | some root => root.OffsetComponentToWorld
      | none => c.Location
    IsWithinEdgeTolerance c PawnLocation Hit.ImpactPoint c.GetScaledCapsuleRadius
  else false

/-- The notification of `ProcessLanded` (lines 3296-3299). -/
def ProcessLanded_notify (env : Engine) (Hit : FHitResult) (s : Sim) : Sim :=
  if env.ShouldNotifyLanded Hit s.comp then s.call (Call.Landed Hit) (env.Landed Hit) else s

/-- The mode change of `ProcessLanded` (lines 3300-3322): when still falling, the
ground mode falls back from nav walking to walking without a nav mesh, and
`SetPostLandedPhysics` picks the mode after landing. -/
def ProcessLanded_postLanded (env : Engine) (Hit : FHitResult) (s : Sim) : Sim :=
  if s.comp.IsFalling then
    let c1 :=
      if s.comp.GroundMovementMode = EMovementMode.MOVE_NavWalking then
        -- verify navmesh projection and current floor
        let TestLocation := env.GetActorFeetLocation s.comp
        if !env.FindNavFloorHasValidNode TestLocation s.comp then
          env.SetGroundMovementMode EMovementMode.MOVE_Walking s.comp
        else s.comp
      else s.comp
    ({ s with comp := c1 } : Sim).call (Call.SetPostLandedPhysics Hit) (env.SetPostLandedPhysics Hit)
  else s

/-- `UVRCharacterMovementComponent::ProcessLanded`. Entering the function is recorded
in the trace. -/
def ProcessLanded (env : Engine) (Hit : FHitResult) (remainingTime : ℚ) (Iterations : Int)
    (s : Sim) : Sim :=
  let s0 := s.call (Call.ProcessLanded Hit remainingTime Iterations) id
  let s1 := ProcessLanded_notify env Hit s0
  let s2 := ProcessLanded_postLanded env Hit s1
  let s3 :=
    if s2.comp.HasPathFollowingComp then s2.call Call.OnLanded env.PathFollowingOnLanded else s2
  s3.call (Call.StartNewPhysics remainingTime Iterations)
    (env.StartNewPhysics remainingTime Iterations)

/-! ## PhysFalling (source lines 2863-3145) -/

/-- Source line 51: slope is vertical if `Abs(Normal.Z)` is below this threshold. -/
def VERTICAL_SLOPE_NORMAL_Z : ℚ := 1 / 1000

/-- How one pass through the body of a time-slicing loop ends: the function returns,
the loop goes on with the remaining time, the loop is left, or the pass dereferences
the VR root capsule while there is none. -/
inductive LoopStep where
  | returned (s : Sim)
  | again (remainingTime : ℚ) (s : Sim)
  | leave (remainingTime : ℚ) (s : Sim)
  | nullRoot

/-- The values one falling sub-step computes before it moves the capsule. -/
structure FallingStep where
  timeTick : ℚ
  remainingTime : ℚ
  Iterations : Int
  OldLocation : FVector
  PawnRotation : FRotator
  OldVelocity : FVector
  VelocityNoAirControl : FVector
  AirControlAccel : FVector

/-- The lateral velocity update of a falling sub-step (lines 2895-2923): the velocity
without air control and the new velocity; `Acceleration` is put back after each
`CalcVelocity`. -/
def PhysFalling_input (env : Engine) (timeTick : ℚ) (bHasAirControl : Bool)
    (FallAcceleration OldVelocity : FVector) (c : Comp) : FVector × Comp :=
  if !env.HasAnimRootMotion c && !env.HasOverrideVelocity c then
    -- Compute VelocityNoAirControl
    let na : FVector × Comp :=
      if bHasAirControl then
        -- Find velocity *without* acceleration.
        let c1 := { c with Acceleration := FVector.ZeroVector, Velocity := { c.Velocity with Z := 0 } }
        let c2 := env.CalcVelocity timeTick c.FallingLateralFriction false
          c.BrakingDecelerationFalling c1
        (⟨c2.Velocity.X, c2.Velocity.Y, OldVelocity.Z⟩,
          { c2 with Acceleration := c.Acceleration, Velocity := c.Velocity })
      else (c.Velocity, c)
    -- Compute Velocity: Acceleration = FallAcceleration for CalcVelocity(), restored after
    let c3 := na.2
    let c4 := { c3 with Acceleration := FallAcceleration, Velocity := { c3.Velocity with Z := 0 } }
    let c5 := env.CalcVelocity timeTick c3.FallingLateralFriction false
      c3.BrakingDecelerationFalling c4
    let c6 := { c5 with Velocity := { c5.Velocity with Z := OldVelocity.Z },
                        Acceleration := c3.Acceleration }
    -- Just copy Velocity to VelocityNoAirControl if they are the same (ie no acceleration).
    (if !bHasAirControl then c6.Velocity else na.1, c6)
  else (c.Velocity, c)

/-- A falling sub-step up to the move (lines 2882-2938): time slice, input, gravity and
the jump apex notification. -/
def PhysFalling_integrate (env : Engine) (bHasAirControl : Bool) (FallAcceleration : FVector)
    (remainingTime : ℚ) (Iterations : Int) (c : Comp) : FallingStep × Comp :=
  let Iterations1 := Iterations + 1
  let timeTick := env.GetSimulationTimeStep remainingTime Iterations1 c
  let remainingTime1 := remainingTime - timeTick
  let OldLocation := c.Location
  let PawnRotation := c.Rotation
  let c0 := { c with bJustTeleported := false }
  let OldVelocity := c0.Velocity
  -- Apply input
  let inp := PhysFalling_input env timeTick bHasAirControl FallAcceleration OldVelocity c0
  -- Apply gravity
  let Gravity : FVector := ⟨0, 0, env.GetGravityZ inp.2⟩
  let c1 := { inp.2 with Velocity := env.NewFallVelocity inp.2.Velocity Gravity timeTick inp.2 }
  let VelocityNoAirControl := env.NewFallVelocity inp.1 Gravity timeTick c1
  let AirControlAccel := (c1.Velocity - VelocityNoAirControl).div timeTick
  let c2 :=
    if c1.bNotifyApex && c1.HasController && decide (c1.Velocity.Z ≤ 0) then
      -- Just passed jump apex since now going down
      env.NotifyJumpApex { c1 with bNotifyApex := false }
    else c1
  ({ timeTick := timeTick, remainingTime := remainingTime1, Iterations := Iterations1,
     OldLocation := OldLocation, PawnRotation := PawnRotation, OldVelocity := OldVelocity,
     VelocityNoAirControl := VelocityNoAirControl, AirControlAccel := AirControlAccel }, c2)

/-- The velocity after a deflection (lines 3014-3018 and 3071-3075). -/
def PhysFalling_deflectVelocity (env : Engine) (Delta : FVector) (subTimeTickRemaining : ℚ)
    (c : Comp) : Comp :=
  if decide (subTimeTickRemaining > KINDA_SMALL_NUMBER) && !c.bJustTeleported then
    let NewVelocity := Delta.div subTimeTickRemaining
    { c with Velocity :=
        if env.HasAnimRootMotion c && !env.HasOverrideVelocity c then
          ⟨c.Velocity.X, c.Velocity.Y, NewVelocity.Z⟩
        else NewVelocity }
  else c

/-- The end of a sub-step (lines 3139-3143), reached when the sub-step did not return. -/
def PhysFalling_endOfStep (remainingTime : ℚ) (s : Sim) : LoopStep :=
  if s.comp.Velocity.SizeSquared2D ≤ KINDA_SMALL_NUMBER * 10 then
    LoopStep.again remainingTime
      { s with comp := { s.comp with Velocity := { s.comp.Velocity with X := 0, Y := 0 } } }
  else LoopStep.again remainingTime s

/-- The second wall of a falling sub-step (lines 3025-3112), entered after the deflected
move hit something. -/
def PhysFalling_secondWall (env : Engine) (bHasAirControl : Bool) (st : FallingStep)
    (OldHitNormal OldHitImpactNormal Delta : FVector) (subTimeTickRemaining0 : ℚ)
    (Hit : FHitResult) (s : Sim) : LoopStep :=
  -- hit second wall
  let LastMoveTimeSlice := subTimeTickRemaining0
  let subTimeTickRemaining := subTimeTickRemaining0 * (1 - Hit.Time)
  match s.comp.VRRootCapsule with
  | none => LoopStep.nullRoot
  | some root =>
    if env.IsValidLandingSpot root.OffsetComponentToWorld Hit s.comp then
      LoopStep.returned
        (ProcessLanded env Hit (st.remainingTime + subTimeTickRemaining) st.Iterations s)
    else
      let c1 := env.HandleImpact Hit LastMoveTimeSlice Delta s.comp
      -- If we've changed physics mode, abort.
      if !env.HasValidData c1 || !c1.IsFalling then LoopStep.returned { s with comp := c1 }
      else
        -- Act as if there was no air control on the last move when computing new deflection.
        let Delta1 :=
          if bHasAirControl && decide (Hit.Normal.Z > VERTICAL_SLOPE_NORMAL_Z) then
            let LastMoveNoAirControl := st.VelocityNoAirControl.scale LastMoveTimeSlice
            env.ComputeSlideVector LastMoveNoAirControl 1 OldHitNormal Hit c1
          else Delta
        let Delta2 := env.TwoWallAdjust Delta1 Hit OldHitNormal c1
        -- Limit air control, but allow a slide along the second wall.
        let Delta3 :=
          if bHasAirControl then
            let AirControlDeltaV :=
              (env.LimitAirControl subTimeTickRemaining st.AirControlAccel Hit false c1).scale
                subTimeTickRemaining
            -- Only allow if not back in to first wall
            if AirControlDeltaV.dot OldHitNormal > 0 then
              Delta2 + AirControlDeltaV.scale subTimeTickRemaining
            else Delta2
          else Delta2
        -- Compute velocity after deflection (only gravity component for RootMotion)
        let c2 := PhysFalling_deflectVelocity env Delta3 subTimeTickRemaining c1
        -- bDitch=true means that pawn is straddling two slopes, neither of which he can stand on
        let bDitch : Bool :=
          decide (OldHitImpactNormal.Z > 0) && decide (Hit.ImpactNormal.Z > 0)
            && decide (|Delta3.Z| ≤ KINDA_SMALL_NUMBER)
            && decide (Hit.ImpactNormal.dot OldHitImpactNormal < 0)
        let m := SafeMoveUpdatedComponent env Delta3 st.PawnRotation true Hit c2
        let m1 : FHitResult × Comp :=
          if m.2.1.Time = 0 then
            -- if we are stuck then try to side step
            let SideDelta0 := env.GetSafeNormal2D (OldHitNormal + m.2.1.ImpactNormal)
            let SideDelta :=
              if SideDelta0.IsNearlyZero KINDA_SMALL_NUMBER then
                env.GetSafeNormal ⟨OldHitNormal.Y, -OldHitNormal.X, 0⟩
              else SideDelta0
            (SafeMoveUpdatedComponent env SideDelta st.PawnRotation true m.2.1 m.2.2).2
          else m.2
        let Hit2 := m1.1
        let s2 : Sim := { s with comp := m1.2 }
        if bDitch then LoopStep.returned (ProcessLanded env Hit2 0 st.Iterations s2)
        else
          match s2.comp.VRRootCapsule with
          | none => LoopStep.nullRoot
          | some root2 =>
            if env.IsValidLandingSpot root2.OffsetComponentToWorld Hit2 s2.comp
                || decide (Hit2.Time = 0) then
              LoopStep.returned (ProcessLanded env Hit2 0 st.Iterations s2)
            else if decide (env.GetPerchRadiusThreshold s2.comp > 0) && decide (Hit2.Time = 1)
                && decide (OldHitImpactNormal.Z ≥ env.GetWalkableFloorZ s2.comp) then
              -- We might be in a virtual 'ditch' within our perch radius. This is rare.
              let PawnLocation := s2.comp.Location
              let ZMovedDist := |PawnLocation.Z - st.OldLocation.Z|
              let MovedDist2DSq := (PawnLocation - st.OldLocation).SizeSquared2D
              if ZMovedDist ≤ (2 / 10) * st.timeTick ∧ MovedDist2DSq ≤ 4 * st.timeTick then
                let r1 := env.FRand s2.comp
                let c3 := { r1.2 with Velocity := { r1.2.Velocity with
                  X := r1.2.Velocity.X + (25 / 100) * env.GetMaxSpeed r1.2 * (r1.1 - 1 / 2) } }
                let r2 := env.FRand c3
                let c4 := { r2.2 with Velocity := { r2.2.Velocity with
                  Y := r2.2.Velocity.Y + (25 / 100) * env.GetMaxSpeed r2.2 * (r2.1 - 1 / 2) } }
                let c5 := { c4 with Velocity := { c4.Velocity with
                  Z := max (c4.JumpZVelocity * (25 / 100)) 1 } }
                let Delta4 := c5.Velocity.scale st.timeTick
                let m3 := SafeMoveUpdatedComponent env Delta4 st.PawnRotation true Hit2 c5
                PhysFalling_endOfStep st.remainingTime { s2 with comp := m3.2.2 }
              else PhysFalling_endOfStep st.remainingTime s2
            else PhysFalling_endOfStep st.remainingTime s2

/-- The deflection of a falling sub-step (lines 2969-3114), entered after a blocking
hit that is not a valid landing spot. -/
def PhysFalling_deflect (env : Engine) (bHasAirControl : Bool) (st : FallingStep)
    (subTimeTickRemaining : ℚ) (Hit : FHitResult) (s : Sim) : LoopStep :=
  let LastMoveTimeSlice := st.timeTick
  -- Compute impact deflection based on final velocity, not integration step.
  let Adjusted := s.comp.Velocity.scale st.timeTick
  -- See if we can convert a normally invalid landing spot to a usable one.
  let converted : Option (FHitResult × Comp) × Comp :=
    if !Hit.bStartPenetrating && ShouldCheckForValidLandingSpot s.comp Hit then
      let PawnLocation :=
        match s.comp.VRRootCapsule with
        | some root => root.OffsetComponentToWorld
        | none => s.comp.Location
      let ff := FindFloor env PawnLocation {} false none s.comp
      if ff.1.IsWalkableFloor && env.IsValidLandingSpot PawnLocation ff.1.HitResult ff.2 then
        (some (ff.1.HitResult, ff.2), ff.2)
      else (none, ff.2)
    else (none, s.comp)
  match converted.1 with
  | some (FloorHit, c0) =>
    LoopStep.returned (ProcessLanded env FloorHit (st.remainingTime + subTimeTickRemaining)
      st.Iterations { s with comp := c0 })
  | none =>
    let c1 := env.HandleImpact Hit LastMoveTimeSlice Adjusted converted.2
    -- If we've changed physics mode, abort.
    if !env.HasValidData c1 || !c1.IsFalling then LoopStep.returned { s with comp := c1 }
    else
      -- Limit air control based on what we hit.
      let Adjusted1 :=
        if bHasAirControl then
          let AirControlDeltaV :=
            (env.LimitAirControl LastMoveTimeSlice st.AirControlAccel Hit false c1).scale
              LastMoveTimeSlice
          (st.VelocityNoAirControl + AirControlDeltaV).scale LastMoveTimeSlice
        else Adjusted
      let OldHitNormal := Hit.Normal
      let OldHitImpactNormal := Hit.ImpactNormal
      let Delta := env.ComputeSlideVector Adjusted1 (1 - Hit.Time) OldHitNormal Hit c1
      -- Compute velocity after deflection (only gravity component for RootMotion)
      let c2 := PhysFalling_deflectVelocity env Delta subTimeTickRemaining c1
      if decide (subTimeTickRemaining > KINDA_SMALL_NUMBER) && decide (Delta.dot Adjusted1 > 0) then
        -- Move in deflected direction.
        let m := SafeMoveUpdatedComponent env Delta st.PawnRotation true Hit c2
        if m.2.1.bBlockingHit then
          PhysFalling_secondWall env bHasAirControl st OldHitNormal OldHitImpactNormal Delta
            subTimeTickRemaining m.2.1 { s with comp := m.2.2 }
        else PhysFalling_endOfStep st.remainingTime { s with comp := m.2.2 }
      else PhysFalling_endOfStep st.remainingTime { s with comp := c2 }

/-- The floor check of a falling sub-step whose move hit nothing (lines 3116-3137). The
penetration adjustment is asked for the sweep's `Hit` with its trace end raised, the
penetration is resolved with the copy `Hitt` of the floor hit, as the source has it. -/
def PhysFalling_floor (env : Engine) (Hit : FHitResult) (c : Comp) : Comp :=
  let ff := FindFloor env c.Location c.CurrentFloor false none c
  let c1 := { ff.2 with CurrentFloor := ff.1 }
  if c1.CurrentFloor.IsWalkableFloor then
    let c2 :=
      if c1.CurrentFloor.GetDistanceToFloor < (MIN_FLOOR_DIST + MAX_FLOOR_DIST) / 2 then
        env.AdjustFloorHeight c1
      else c1
    env.SetBase c2.CurrentFloor.HitResult.Component c2.CurrentFloor.HitResult.BoneName c2
  else if c1.CurrentFloor.HitResult.bStartPenetrating then
    -- The floor check failed because it started in penetration
    let Hitt := c1.CurrentFloor.HitResult
    let Hit1 := { Hit with TraceEnd := Hit.TraceStart + ⟨0, 0, MAX_FLOOR_DIST⟩ }
    let RequestedAdjustment := env.GetPenetrationAdjustment Hit1 c1
    let rp := env.ResolvePenetration RequestedAdjustment Hitt c1.Rotation c1
    { rp.2 with bForceNextFloorCheck := true }
  else c1

/-- A falling sub-step from the state after the move (lines 2947-3143). -/
def PhysFalling_afterMove (env : Engine) (bHasAirControl : Bool) (st : FallingStep)
    (Hit : FHitResult) (s : Sim) : LoopStep :=
  if !env.HasValidData s.comp then LoopStep.returned s
  else
    let subTimeTickRemaining := st.timeTick * (1 - Hit.Time)
    if s.comp.IsSwimming then
      -- just entered water
      let remainingTime := st.remainingTime + subTimeTickRemaining
      LoopStep.returned (s.call (Call.StartSwimming remainingTime st.Iterations)
        (env.StartSwimming st.OldLocation st.OldVelocity st.timeTick remainingTime st.Iterations))
    else if Hit.bBlockingHit then
      match s.comp.VRRootCapsule with
      | none => LoopStep.nullRoot
      | some root =>
        if env.IsValidLandingSpot root.OffsetComponentToWorld Hit s.comp then
          let remainingTime := st.remainingTime + subTimeTickRemaining
          LoopStep.returned (ProcessLanded env Hit remainingTime st.Iterations s)
        else PhysFalling_deflect env bHasAirControl st subTimeTickRemaining Hit s
    else
      PhysFalling_endOfStep st.remainingTime { s with comp := PhysFalling_floor env Hit s.comp }

/-- A falling sub-step up to and with the move (lines 2882-2945): the values computed,
the hit of the sweep, and the component after it. -/
def PhysFalling_sweep (env : Engine) (deltaTime : ℚ) (bHasAirControl : Bool)
    (FallAcceleration : FVector) (remainingTime : ℚ) (Iterations : Int) (c : Comp) :
    FallingStep × FHitResult × Comp :=
  let ig := PhysFalling_integrate env bHasAirControl FallAcceleration remainingTime Iterations c
  let st := ig.1
  -- Move: adding in the vector here because velocity doesn't care
  let Adjusted := ((st.OldVelocity + ig.2.Velocity).scale (1 / 2)).scale st.timeTick
    + (ig.2.AdditionalVRInputVector.div deltaTime).scale st.timeTick
  let m := SafeMoveUpdatedComponent env Adjusted st.PawnRotation true { Time := 1 } ig.2
  (st, m.2.1, m.2.2)

/-- One pass through the loop body of `PhysFalling` (lines 2882-3144). -/
def PhysFalling_step (env : Engine) (deltaTime : ℚ) (bHasAirControl : Bool)
    (FallAcceleration : FVector) (remainingTime : ℚ) (Iterations : Int) (s : Sim) : LoopStep :=
  let sw := PhysFalling_sweep env deltaTime bHasAirControl FallAcceleration remainingTime
    Iterations s.comp
  PhysFalling_afterMove env bHasAirControl sw.1 sw.2.1 { s with comp := sw.2.2 }

/-- Whether a call of the trace is the `Landed` notification. -/
def Call.isLanded : Call → Bool
  | Call.Landed _ => true
  | _ => false

/-- Whether a call of the trace is an entry into `ProcessLanded`. -/
def Call.isProcessLanded : Call → Bool
  | Call.ProcessLanded .. => true
  | _ => false

/-- The loop of `PhysFalling` (line 2880). `none` stands for a dereference of the VR
root capsule while there is none. -/
def PhysFalling_loop (env : Engine) (deltaTime : ℚ) (bHasAirControl : Bool)
    (FallAcceleration : FVector) (remainingTime : ℚ) (Iterations : Int) (s : Sim) : Option Sim :=
  if _h : remainingTime ≥ MIN_TICK_TIME ∧ Iterations < env.MaxSimulationIterations then
    match PhysFalling_step env deltaTime bHasAirControl FallAcceleration remainingTime
        Iterations s with
    | LoopStep.returned s1 => some s1
    | LoopStep.leave _ s1 => some s1
    | LoopStep.nullRoot => none
    | LoopStep.again remainingTime1 s1 =>
      PhysFalling_loop env deltaTime bHasAirControl FallAcceleration remainingTime1
        (Iterations + 1) s1
  else some s
termination_by (env.MaxSimulationIterations - Iterations).toNat
decreasing_by
  have := _h.2
  omega

/-- `UVRCharacterMovementComponent::PhysFalling`. -/
def PhysFalling (env : Engine) (deltaTime : ℚ) (Iterations : Int) (s : Sim) : Option Sim :=
  if deltaTime < MIN_TICK_TIME then some s
  else
    let FallAcceleration0 := env.GetFallingLateralAcceleration deltaTime s.comp
    let FallAcceleration := { FallAcceleration0 with Z := 0 }
    let bHasAirControl := decide (FallAcceleration.SizeSquared2D > 0)
    -- Rewind the players position by the new capsule location
    let s1 := s.call Call.RewindVRRelativeMovement env.RewindVRRelativeMovement
    PhysFalling_loop env deltaTime bHasAirControl FallAcceleration deltaTime Iterations s1

/-! ## MoveAlongFloor (source lines 1703-1774) -/

/-- The barrier handling of `MoveAlongFloor` (lines 1744-1772): step up when allowed,
else slide. -/
def MoveAlongFloor_barrier (env : Engine) (Delta RampVector : FVector)
    (PercentTimeApplied LastMoveTimeSlice : ℚ) (Hit : FHitResult) (Out : FStepDownResult)
    (c : Comp) : FStepDownResult × Comp :=
  let baseOwnsHit : Bool :=
    match c.MovementBase with
    | some b => decide (env.MovementBaseOwner b c = Hit.Actor)
    | none => false
  if env.CanStepUp Hit c || baseOwnsHit then
    -- hit a barrier, try to step up
    let GravDir : FVector := ⟨0, 0, -1⟩
    let su := StepUp env GravDir (Delta.scale (1 - PercentTimeApplied)) Hit true c
    if !su.1 then
      let c1 := env.HandleImpact Hit LastMoveTimeSlice RampVector su.2.2
      (Out, (env.SlideAlongSurface Delta (1 - PercentTimeApplied) Hit.Normal Hit true c1).2.2)
    else
      -- Don't recalculate velocity based on this height adjustment
      (su.2.1.getD Out,
        { su.2.2 with
          bJustTeleported := su.2.2.bJustTeleported || !su.2.2.bMaintainHorizontalGroundVelocity })
  else
    match Hit.Component with
    | some comp =>
      if !env.HitComponentCanCharacterStepUp comp c then
        let c1 := env.HandleImpact Hit LastMoveTimeSlice RampVector c
        (Out, (env.SlideAlongSurface Delta (1 - PercentTimeApplied) Hit.Normal Hit true c1).2.2)
      else (Out, c)
    | none => (Out, c)

/-- `UVRCharacterMovementComponent::MoveAlongFloor`, called with a step-down result to
fill; the first component is that result after the call. -/
def MoveAlongFloor (env : Engine) (InVelocity : FVector) (DeltaSeconds : ℚ)
    (Out : FStepDownResult) (c : Comp) : FStepDownResult × Comp :=
  if !c.CurrentFloor.IsWalkableFloor then (Out, c)
  else
    -- Move along the current floor
    let Delta := (⟨InVelocity.X, InVelocity.Y, 0⟩ : FVector).scale DeltaSeconds
    let RampVector := env.ComputeGroundMovementDelta Delta c.CurrentFloor.HitResult
      c.CurrentFloor.bLineTrace c
    let m := SafeMoveUpdatedComponent env RampVector c.Rotation true { Time := 1 } c
    let Hit := m.2.1
    let LastMoveTimeSlice := DeltaSeconds
    if Hit.bStartPenetrating then
      -- Allow this hit to be used as an impact we can deflect off
      let c1 := env.HandleImpact Hit 0 {} m.2.2
      let sl := env.SlideAlongSurface Delta 1 Hit.Normal Hit true c1
      if sl.2.1.bStartPenetrating then (Out, env.OnCharacterStuckInGeometry sl.2.1 sl.2.2)
      else (Out, sl.2.2)
    else if Hit.IsValidBlockingHit then
      -- We impacted something (most likely another ramp, but possibly a barrier).
      let PercentTimeApplied := Hit.Time
      if decide (Hit.Time > 0) && decide (Hit.Normal.Z > KINDA_SMALL_NUMBER)
          && env.IsWalkable Hit m.2.2 then
        -- Another walkable ramp.
        let InitialPercentRemaining := 1 - PercentTimeApplied
        let RampVector1 := env.ComputeGroundMovementDelta (Delta.scale InitialPercentRemaining)
          Hit false m.2.2
        let LastMoveTimeSlice1 := InitialPercentRemaining * LastMoveTimeSlice
        let m2 := SafeMoveUpdatedComponent env RampVector1 m.2.2.Rotation true Hit m.2.2
        let SecondHitPercent := m2.2.1.Time * InitialPercentRemaining
        let PercentTimeApplied1 := Clamp (PercentTimeApplied + SecondHitPercent) 0 1
        if m2.2.1.IsValidBlockingHit then
          MoveAlongFloor_barrier env Delta RampVector1 PercentTimeApplied1 LastMoveTimeSlice1
            m2.2.1 Out m2.2.2
        else (Out, m2.2.2)
      else
        MoveAlongFloor_barrier env Delta RampVector PercentTimeApplied LastMoveTimeSlice Hit Out
          m.2.2
    else (Out, m.2.2)

/-! ## PhysWalking (source lines 976-1239) -/

/-- The condition under which `PhysWalking` simulates at all (lines 985 and 1009): a
controller, or physics without one, root motion, or a simulated proxy. -/
def PhysWalking_canSimulate (env : Engine) (c : Comp) : Bool :=
  c.HasController || c.bRunPhysicsWithNoController || env.HasAnimRootMotion c
    || env.HasOverrideVelocity c || decide (c.Role = ENetRole.ROLE_SimulatedProxy)

/-- How one pass through the loop body of `PhysWalking` ends. -/
inductive WalkStep where
  | returned (s : Sim)
  | again (remainingTime : ℚ) (bCheckedFall bTriedLedgeMove : Bool) (s : Sim)
  | leave (s : Sim)

/-- The values one walking sub-step keeps from its start. -/
structure WalkingStep where
  timeTick : ℚ
  Iterations : Int
  OldBase : Option Nat
  PreviousBaseLocation : FVector
  OldLocation : FVector
  OldCapsuleLocation : FVector
  OldFloor : FFindFloorResult
  OldVelocity : FVector

/-- The statement `RestorePreAdditiveVRMotionVelocity()`. -/
def restoreVRVelocity (env : Engine) (s : Sim) : Sim :=
  s.call Call.RestorePreAdditiveVRMotionVelocity env.RestorePreAdditiveVRMotionVelocity

/-- A walking sub-step up to the velocity (lines 1011-1044): saved values, horizontal
velocity, acceleration, and the HMD motion added to the velocity. -/
def PhysWalking_velocity (env : Engine) (remainingTime : ℚ) (Iterations : Int) (s : Sim) :
    WalkingStep × Sim :=
  let Iterations1 := Iterations + 1
  let c0 := { s.comp with bJustTeleported := false }
  let timeTick := env.GetSimulationTimeStep remainingTime Iterations1 c0
  -- Save current values
  let OldBase := c0.MovementBase
  let PreviousBaseLocation :=
    match OldBase with
    | some b => env.BaseLocation b c0
    | none => FVector.ZeroVector
  let OldLocation := c0.Location
  -- Used for ledge check
  let OldCapsuleLocation :=
    match c0.VRRootCapsule with
    | some root => root.OffsetComponentToWorld
    | none => OldLocation
  let OldFloor := c0.CurrentFloor
  -- Ensure velocity is horizontal.
  let c1 := env.MaintainHorizontalGroundVelocity c0
  let OldVelocity := c1.Velocity
  let c2 := { c1 with Acceleration := { c1.Acceleration with Z := 0 } }
  -- Apply acceleration
  let c3 :=
    if !env.HasAnimRootMotion c2 && !env.HasOverrideVelocity c2 then
      env.CalcVelocity timeTick c2.GroundFriction false c2.BrakingDecelerationWalking c2
    else c2
  let s1 := ({ s with comp := c3 } : Sim).call (Call.ApplyVRMotionToVelocity timeTick)
    (env.ApplyVRMotionToVelocity timeTick)
  ({ timeTick := timeTick, Iterations := Iterations1, OldBase := OldBase,
     PreviousBaseLocation := PreviousBaseLocation, OldLocation := OldLocation,
     OldCapsuleLocation := OldCapsuleLocation, OldFloor := OldFloor,
     OldVelocity := OldVelocity }, s1)

/-- Whether the pawn must jump off (lines 1148 and 1203, without `bJustTeleported`). -/
def PhysWalking_mustJump (env : Engine) (st : WalkingStep) (bZeroDelta : Bool) (c : Comp) : Bool :=
  bZeroDelta ||
    (match st.OldBase with
      | none => true
      | some b => !env.BaseQueryCollisionEnabled b c && env.IsDynamicBase b c)

/-- The end of a walking sub-step (lines 1214-1232): the velocity is made to reflect the
actual move, and the loop is left when the pawn did not move at all. -/
def PhysWalking_finish (env : Engine) (st : WalkingStep) (remainingTime : ℚ)
    (bCheckedFall bTriedLedgeMove : Bool) (s : Sim) : WalkStep :=
  -- Allow overlap events and such to change physics state and velocity
  let s1 : Sim :=
    if s.comp.IsMovingOnGround
        && (!s.comp.bJustTeleported && !env.HasAnimRootMotion s.comp
          && !env.HasOverrideVelocity s.comp && decide (st.timeTick ≥ MIN_TICK_TIME)) then
      -- Make velocity reflect actual move
      restoreVRVelocity env
        { s with comp := { s.comp with
            Velocity := (s.comp.Location - st.OldLocation).div st.timeTick } }
    else s
  -- If we didn't move at all this iteration then abort
  if s1.comp.Location = st.OldLocation then WalkStep.leave (restoreVRVelocity env s1)
  else WalkStep.again remainingTime bCheckedFall bTriedLedgeMove s1

/-- The ledge handling of a walking sub-step (lines 1125-1162), entered when ledges are
checked and the floor found is not walkable. -/
def PhysWalking_ledge (env : Engine) (st : WalkingStep) (Delta : FVector) (bZeroDelta : Bool)
    (remainingTime : ℚ) (bCheckedFall bTriedLedgeMove : Bool) (s : Sim) : WalkStep :=
  -- calculate possible alternate movement
  let GravDir : FVector := ⟨0, 0, -1⟩
  let NewDelta :=
    if bTriedLedgeMove then FVector.ZeroVector
    else env.GetLedgeMove st.OldCapsuleLocation Delta GravDir s.comp
  if !NewDelta.IsZero then
    -- first revert this move
    let c1 := env.RevertMoveTo st.OldLocation st.OldBase st.PreviousBaseLocation st.OldFloor
      false s.comp
    -- Try new movement direction
    let c2 := { c1 with Velocity := NewDelta.div st.timeTick }
    WalkStep.again (remainingTime + st.timeTick) bCheckedFall true
      (restoreVRVelocity env { s with comp := c2 })
  else
    -- see if it is OK to jump
    let bMustJump := PhysWalking_mustJump env st bZeroDelta s.comp
    let cf : Bool × Comp :=
      if bMustJump || !bCheckedFall then
        env.CheckFall st.OldFloor s.comp.CurrentFloor.HitResult Delta st.OldLocation remainingTime
          st.timeTick st.Iterations bMustJump s.comp
      else (false, s.comp)
    if cf.1 then WalkStep.returned (restoreVRVelocity env { s with comp := cf.2 })
    else
      -- revert this move
      let c1 := env.RevertMoveTo st.OldLocation st.OldBase st.PreviousBaseLocation st.OldFloor
        true cf.2
      WalkStep.leave (restoreVRVelocity env { s with comp := c1 })

/-- The floor validation of a walking sub-step (lines 1165-1211), entered when ledges
are not checked or the floor found is walkable. -/
def PhysWalking_validateFloor (env : Engine) (st : WalkingStep) (Delta : FVector)
    (bZeroDelta : Bool) (remainingTime : ℚ) (bCheckedFall bTriedLedgeMove : Bool) (s : Sim) :
    WalkStep :=
  let caught : Bool := s.comp.CurrentFloor.IsWalkableFloor
    && env.ShouldCatchAir st.OldFloor s.comp.CurrentFloor s.comp
  if caught then
    let s1 := restoreVRVelocity env s
    let c1 := env.OnWalkingOffLedge st.OldFloor.HitResult.ImpactNormal st.OldFloor.HitResult.Normal
      st.OldLocation st.timeTick s1.comp
    let s2 : Sim := { s1 with comp := c1 }
    if c1.IsMovingOnGround then
      -- If still walking, then fall.
      WalkStep.returned (s2.call (Call.StartFalling remainingTime st.Iterations)
        (env.StartFalling st.Iterations remainingTime st.timeTick Delta st.OldLocation))
    else WalkStep.returned s2
  else
    let c1 : Comp :=
      if s.comp.CurrentFloor.IsWalkableFloor then
        let c2 := env.AdjustFloorHeight s.comp
        env.SetBase c2.CurrentFloor.HitResult.Component c2.CurrentFloor.HitResult.BoneName c2
      else if s.comp.CurrentFloor.HitResult.bStartPenetrating && decide (remainingTime ≤ 0) then
        let Hit0 := s.comp.CurrentFloor.HitResult
        let Hit := { Hit0 with TraceEnd := Hit0.TraceStart + ⟨0, 0, MAX_FLOOR_DIST⟩ }
        let RequestedAdjustment := env.GetPenetrationAdjustment Hit s.comp
        let rp := env.ResolvePenetration RequestedAdjustment Hit s.comp.Rotation s.comp
        { rp.2 with bForceNextFloorCheck := true }
      else s.comp
    let s1 : Sim := { s with comp := c1 }
    -- check if just entered water
    if c1.IsSwimming then
      let s2 := restoreVRVelocity env s1
      WalkStep.returned (s2.call (Call.StartSwimming remainingTime st.Iterations)
        (env.StartSwimming st.OldLocation s2.comp.Velocity st.timeTick remainingTime
          st.Iterations))
    -- See if we need to start falling.
    else if !c1.CurrentFloor.IsWalkableFloor && !c1.CurrentFloor.HitResult.bStartPenetrating then
      let bMustJump := c1.bJustTeleported || PhysWalking_mustJump env st bZeroDelta c1
      let cf : Bool × Comp :=
        if bMustJump || !bCheckedFall then
          env.CheckFall st.OldFloor c1.CurrentFloor.HitResult Delta st.OldLocation remainingTime
            st.timeTick st.Iterations bMustJump c1
        else (false, c1)
      if cf.1 then WalkStep.returned (restoreVRVelocity env { s1 with comp := cf.2 })
      else PhysWalking_finish env st remainingTime true bTriedLedgeMove { s1 with comp := cf.2 }
    else PhysWalking_finish env st remainingTime bCheckedFall bTriedLedgeMove s1

/-- The floor update of a walking sub-step and what follows (lines 1112-1232). -/
def PhysWalking_floor (env : Engine) (st : WalkingStep) (Delta : FVector) (bZeroDelta : Bool)
    (StepDownResult : FStepDownResult) (remainingTime : ℚ)
    (bCheckedFall bTriedLedgeMove : Bool) (s : Sim) : WalkStep :=
  -- Update floor. StepUp might have already done it for us.
  let c1 : Comp :=
    if StepDownResult.bComputedFloor then
      { s.comp with CurrentFloor := StepDownResult.FloorResult }
    else
      let ff := FindFloor env s.comp.Location s.comp.CurrentFloor bZeroDelta none s.comp
      { ff.2 with CurrentFloor := ff.1 }
  let s1 : Sim := { s with comp := c1 }
  -- check for ledges here
  let bCheckLedges := !env.CanWalkOffLedges c1
  if bCheckLedges && !c1.CurrentFloor.IsWalkableFloor then
    PhysWalking_ledge env st Delta bZeroDelta remainingTime bCheckedFall bTriedLedgeMove s1
  else
    PhysWalking_validateFloor env st Delta bZeroDelta remainingTime bCheckedFall
      bTriedLedgeMove s1

/-- The move of a walking sub-step and what follows (lines 1048-1232), entered after
the velocity of the sub-step is known. -/
def PhysWalking_move (env : Engine) (st : WalkingStep) (remainingTime0 : ℚ)
    (bCheckedFall bTriedLedgeMove : Bool) (s : Sim) : WalkStep :=
  let remainingTime := remainingTime0 - st.timeTick
  if s.comp.IsFalling then
    -- Root motion could have put us into Falling.
    WalkStep.returned (s.call (Call.StartNewPhysics (remainingTime + st.timeTick)
        (st.Iterations - 1))
      (env.StartNewPhysics (remainingTime + st.timeTick) (st.Iterations - 1)))
  else
    -- Compute move parameters
    let MoveVelocity := s.comp.Velocity
    let Delta := MoveVelocity.scale st.timeTick
    let bZeroDelta := Delta.IsNearlyZero KINDA_SMALL_NUMBER
    if bZeroDelta then
      PhysWalking_floor env st Delta bZeroDelta {} 0 bCheckedFall bTriedLedgeMove s
    else
      -- try to move forward
      let mv := MoveAlongFloor env MoveVelocity st.timeTick {} s.comp
      let s1 : Sim := { s with comp := mv.2 }
      if mv.2.IsFalling then
        -- pawn decided to jump up
        let DesiredDist := env.Size Delta
        let remainingTime1 :=
          if DesiredDist > KINDA_SMALL_NUMBER then
            let ActualDist := env.Size2D (mv.2.Location - st.OldLocation)
            remainingTime + st.timeTick * (1 - min 1 (ActualDist / DesiredDist))
          else remainingTime
        let s2 := restoreVRVelocity env s1
        WalkStep.returned (s2.call (Call.StartNewPhysics remainingTime1 st.Iterations)
          (env.StartNewPhysics remainingTime1 st.Iterations))
      else if mv.2.IsSwimming then
        -- just entered water
        let s2 := restoreVRVelocity env s1
        WalkStep.returned (s2.call (Call.StartSwimming remainingTime st.Iterations)
          (env.StartSwimming st.OldLocation st.OldVelocity st.timeTick remainingTime
            st.Iterations))
      else
        PhysWalking_floor env st Delta bZeroDelta mv.1 remainingTime bCheckedFall
          bTriedLedgeMove s1

/-- One pass through the loop body of `PhysWalking` (lines 1011-1232). -/
def PhysWalking_step (env : Engine) (remainingTime : ℚ) (Iterations : Int)
    (bCheckedFall bTriedLedgeMove : Bool) (s : Sim) : WalkStep :=
  let v := PhysWalking_velocity env remainingTime Iterations s
  PhysWalking_move env v.1 remainingTime bCheckedFall bTriedLedgeMove v.2

/-- The end of `PhysWalking` after the loop (lines 1235-1238). -/
def PhysWalking_end (env : Engine) (s : Sim) : Sim :=
  if s.comp.IsMovingOnGround then
    { s with comp := env.MaintainHorizontalGroundVelocity s.comp }
  else s

/-- The loop of `PhysWalking` (line 1009). -/
def PhysWalking_loop (env : Engine) (remainingTime : ℚ) (Iterations : Int)
    (bCheckedFall bTriedLedgeMove : Bool) (s : Sim) : Sim :=
  if _h : (remainingTime ≥ MIN_TICK_TIME ∧ Iterations < env.MaxSimulationIterations)
      ∧ PhysWalking_canSimulate env s.comp = true then
    match PhysWalking_step env remainingTime Iterations bCheckedFall bTriedLedgeMove s with
    | WalkStep.returned s1 => s1
    | WalkStep.leave s1 => PhysWalking_end env s1
    | WalkStep.again remainingTime1 bCheckedFall1 bTriedLedgeMove1 s1 =>
      PhysWalking_loop env remainingTime1 (Iterations + 1) bCheckedFall1 bTriedLedgeMove1 s1
  else PhysWalking_end env s
termination_by (env.MaxSimulationIterations - Iterations).toNat
decreasing_by
  have := _h.1.2
  omega

/-- `UVRCharacterMovementComponent::PhysWalking`. The owner is taken to exist. -/
def PhysWalking (env : Engine) (deltaTime : ℚ) (Iterations : Int) (s : Sim) : Sim :=
  if deltaTime < MIN_TICK_TIME then s
  else if !PhysWalking_canSimulate env s.comp then
    { s with comp := { s.comp with Acceleration := FVector.ZeroVector
                                   Velocity := FVector.ZeroVector } }
  else if !env.IsQueryCollisionEnabled s.comp then
    { s with comp := env.SetMovementMode EMovementMode.MOVE_Walking s.comp }
  else
    let s1 : Sim := { s with comp := { s.comp with bJustTeleported := false } }
    -- Rewind the players position by the new capsule location
    let s2 := s1.call Call.RewindVRRelativeMovement env.RewindVRRelativeMovement
    PhysWalking_loop env deltaTime Iterations false false s2

/-- The number of passes through the loop body that `PhysWalking_loop` makes: the loop
of `PhysWalking` (line 1009) run from the same state, counting instead of simulating. -/
def PhysWalking_iterations (env : Engine) (remainingTime : ℚ) (Iterations : Int)
    (bCheckedFall bTriedLedgeMove : Bool) (s : Sim) : Nat :=
  if _h : (remainingTime ≥ MIN_TICK_TIME ∧ Iterations < env.MaxSimulationIterations)
      ∧ PhysWalking_canSimulate env s.comp = true then
    match PhysWalking_step env remainingTime Iterations bCheckedFall bTriedLedgeMove s with
    | WalkStep.returned _ => 1
    | WalkStep.leave _ => 1
    | WalkStep.again remainingTime1 bCheckedFall1 bTriedLedgeMove1 s1 =>
      1 + PhysWalking_iterations env remainingTime1 (Iterations + 1) bCheckedFall1
        bTriedLedgeMove1 s1
  else 0
termination_by (env.MaxSimulationIterations - Iterations).toNat
decreasing_by
  have := _h.1.2
  omega

/-- The number of passes through the loop body that `PhysFalling_loop` makes: the loop
of `PhysFalling` (line 2880) run from the same state, counting instead of simulating. -/
def PhysFalling_iterations (env : Engine) (deltaTime : ℚ) (bHasAirControl : Bool)
    (FallAcceleration : FVector) (remainingTime : ℚ) (Iterations : Int) (s : Sim) : Nat :=
  if _h : remainingTime ≥ MIN_TICK_TIME ∧ Iterations < env.MaxSimulationIterations then
    match PhysFalling_step env deltaTime bHasAirControl FallAcceleration remainingTime
        Iterations s with
    | LoopStep.returned _ => 1
    | LoopStep.leave _ _ => 1
    | LoopStep.nullRoot => 1
    | LoopStep.again remainingTime1 s1 =>
      1 + PhysFalling_iterations env deltaTime bHasAirControl FallAcceleration remainingTime1
        (Iterations + 1) s1
  else 0
termination_by (env.MaxSimulationIterations - Iterations).toNat
decreasing_by
  have := _h.2
  omega

/-- Whether a call of the trace is `RewindVRRelativeMovement`. -/
def Call.isRewind : Call → Bool
  | Call.RewindVRRelativeMovement => true
  | _ => false

/-- The trace of `s1` is the trace of `s` followed by calls none of which is
`RewindVRRelativeMovement`. -/
def Sim.NoRewindSince (s s1 : Sim) : Prop :=
  ∃ l, s1.log = s.log ++ l ∧ ∀ e ∈ l, Call.isRewind e = false

/-- The state a pass through the walking loop ends with. -/
def WalkStep.sim : WalkStep → Sim
  | WalkStep.returned s1 => s1
  | WalkStep.again _ _ _ s1 => s1
  | WalkStep.leave s1 => s1

/-- The state a pass through the falling loop ends with; `d` for a pass that
dereferenced the VR root capsule while there is none. -/
def LoopStep.simOr (d : Sim) : LoopStep → Sim
  | LoopStep.returned s1 => s1
  | LoopStep.again _ s1 => s1
  | LoopStep.leave _ s1 => s1
  | LoopStep.nullRoot => d

/-- Engine function `UCharacterMovementComponent::StartNewPhysics` (its source is not in
this file), for the two modes whose physics this file holds: it returns at once for a
time below `MIN_TICK_TIME`, at the iteration limit or without valid data, and else runs
the Phys function of the movement mode, `PhysWalking` in Walking and `PhysFalling` in
Falling mode (`none`: the VR root capsule was dereferenced while there is none). The
physics of the other modes is `env.StartNewPhysics`, and so are the dispatches made from
inside the function that is run. -/
def StartNewPhysics (env : Engine) (deltaTime : ℚ) (Iterations : Int) (s : Sim) : Option Sim :=
  if deltaTime < MIN_TICK_TIME ∨ Iterations ≥ env.MaxSimulationIterations
      ∨ env.HasValidData s.comp = false then some s
  else
    match s.comp.MovementMode with
    | EMovementMode.MOVE_Walking => some (PhysWalking env deltaTime Iterations s)
    | EMovementMode.MOVE_Falling => PhysFalling env deltaTime Iterations s
    | _ => some { s with comp := env.StartNewPhysics deltaTime Iterations s.comp }

/-! ## PhysNavWalking (source lines 3148-3291) -/

/-- Whether the feet still stand on the cached navigation location (lines 3199-3217). -/
def PhysNavWalking_sameNavLocation (OldLocation : FVector) (c : Comp) : Bool :=
  if c.CachedNavLocation.NodeRef ≠ INVALID_NAVNODEREF then
    if c.bProjectNavMeshWalking then
      let DistSq2D := (OldLocation - c.CachedNavLocation.Location).SizeSquared2D
      let DistZ := |OldLocation.Z - c.CachedNavLocation.Location.Z|
      let TotalCapsuleHeight := c.GetScaledCapsuleHalfHeight * 2
      let ProjectionScale :=
        if OldLocation.Z > c.CachedNavLocation.Location.Z then c.NavMeshProjectionHeightScaleUp
        else c.NavMeshProjectionHeightScaleDown
      let DistZThr := TotalCapsuleHeight * max 0 ProjectionScale
      decide (DistSq2D ≤ KINDA_SMALL_NUMBER) && decide (DistZ < DistZThr)
    else c.CachedNavLocation.Location.Equals OldLocation
  else false

/-- The velocity of a nav-walking tick (lines 3165-3184): the rewind of the HMD offset,
horizontal velocity, acceleration, and the HMD motion added to the velocity. -/
def PhysNavWalking_velocity (env : Engine) (deltaTime : ℚ) (s : Sim) : Sim :=
  -- Rewind the players position by the new capsule location
  let s1 := s.call Call.RewindVRRelativeMovement env.RewindVRRelativeMovement
  -- Ensure velocity is horizontal.
  let c1 := env.MaintainHorizontalGroundVelocity s1.comp
  -- bound acceleration
  let c2 := { c1 with Acceleration := { c1.Acceleration with Z := 0 } }
  let c3 := env.CalcVelocity deltaTime c2.GroundFriction false c2.BrakingDecelerationWalking c2
  ({ s1 with comp := c3 } : Sim).call (Call.ApplyVRMotionToVelocity deltaTime)
    (env.ApplyVRMotionToVelocity deltaTime)

/-- The values `PhysNavWalking` works out from the velocity before it looks for the
navigation floor (lines 3189-3217). -/
structure NavWalkingStep where
  OldLocation : FVector
  DeltaMove : FVector
  bSameNavLocation : Bool

/-- Lines 3189-3217 on the component the velocity stage left. -/
def PhysNavWalking_plan (env : Engine) (deltaTime : ℚ) (c : Comp) : NavWalkingStep :=
  let DesiredMove : FVector := { c.Velocity with Z := 0 }
  let OldLocation := env.GetActorFeetLocation c
  { OldLocation := OldLocation
    DeltaMove := DesiredMove.scale deltaTime
    bSameNavLocation := PhysNavWalking_sameNavLocation OldLocation c }

/-- The destination handed to `FindNavFloor` (lines 3196, 3232-3235). -/
def PhysNavWalking_queryDest (st : NavWalkingStep) (c : Comp) : FVector :=
  let AdjustedDest := st.OldLocation + st.DeltaMove
  -- Start the trace from the Z location of the last valid trace.
  if st.bSameNavLocation && c.bProjectNavMeshWalking then
    { AdjustedDest with Z := c.CachedNavLocation.Location.Z }
  else AdjustedDest

/-- The move of a nav-walking tick once the navigation location of the destination is
known (lines 3249-3290). -/
def PhysNavWalking_move (env : Engine) (deltaTime : ℚ) (Iterations : Int) (st : NavWalkingStep)
    (AdjustedDest : FVector) (DestNavLocation : FNavLocation) (s : Sim) : Sim :=
  let s1 : Sim :=
    if DestNavLocation.NodeRef ≠ INVALID_NAVNODEREF then
      let NewLocation0 : FVector := ⟨AdjustedDest.X, AdjustedDest.Y, DestNavLocation.Location.Z⟩
      let p : FVector × Comp :=
        if s.comp.bProjectNavMeshWalking then
          let TotalCapsuleHeight := s.comp.GetScaledCapsuleHalfHeight * 2
          let UpOffset := TotalCapsuleHeight * max 0 s.comp.NavMeshProjectionHeightScaleUp
          let DownOffset := TotalCapsuleHeight * max 0 s.comp.NavMeshProjectionHeightScaleDown
          env.ProjectLocationFromNavMesh deltaTime st.OldLocation NewLocation0 UpOffset DownOffset
            s.comp
        else (NewLocation0, s.comp)
      let AdjustedDelta := p.1 - st.OldLocation
      let c1 :=
        if !AdjustedDelta.IsNearlyZero KINDA_SMALL_NUMBER then
          (SafeMoveUpdatedComponent env AdjustedDelta p.2.Rotation p.2.bSweepWhileNavWalking {}
            p.2).2.2
        else p.2
      -- Update velocity to reflect actual move
      let c2 :=
        if !c1.bJustTeleported then
          env.MaintainHorizontalGroundVelocity
            { c1 with Velocity := (env.GetActorFeetLocation c1 - st.OldLocation).div deltaTime }
        else c1
      { s with comp := { c2 with bJustTeleported := false } }
    else
      s.call (Call.StartFalling deltaTime Iterations)
        (env.StartFalling Iterations deltaTime deltaTime st.DeltaMove st.OldLocation)
  restoreVRVelocity env s1

/-- `UVRCharacterMovementComponent::PhysNavWalking`, for a component with an owner (the
source dereferences `CharacterOwner` at line 3207 also when it runs physics without a
controller). -/
def PhysNavWalking (env : Engine) (deltaTime : ℚ) (Iterations : Int) (s : Sim) : Sim :=
  if deltaTime < MIN_TICK_TIME then s
  else if !s.comp.HasController && !s.comp.bRunPhysicsWithNoController then
    { s with comp := { s.comp with Acceleration := FVector.ZeroVector
                                   Velocity := FVector.ZeroVector } }
  else
    let s1 := PhysNavWalking_velocity env deltaTime s
    let Iterations1 := Iterations + 1
    let st := PhysNavWalking_plan env deltaTime s1.comp
    if st.DeltaMove.IsNearlyZero KINDA_SMALL_NUMBER && st.bSameNavLocation then
      PhysNavWalking_move env deltaTime Iterations1 st (st.OldLocation + st.DeltaMove)
        s1.comp.CachedNavLocation s1
    else
      let AdjustedDest := PhysNavWalking_queryDest st s1.comp
      -- Find the point on the NavMesh
      let q := env.FindNavFloor AdjustedDest s1.comp
      if !q.1 then
        let s2 := restoreVRVelocity env s1
        { s2 with comp := env.SetMovementMode EMovementMode.MOVE_Walking s2.comp }
      else
        PhysNavWalking_move env deltaTime Iterations1 st AdjustedDest q.2
          { s1 with comp := { s1.comp with CachedNavLocation := q.2 } }

/-- What the fallback of `PhysNavWalking` relies on in the engine and in the header of the
component: the velocity helpers and `SetMovementMode` leave the cached navigation
location alone, the helpers called after the rewind leave the updated component where it
is, and `SetMovementMode` sets the mode. -/
structure NavFallbackLaws (env : Engine) : Prop where
  rewindNav : ∀ c, (env.RewindVRRelativeMovement c).CachedNavLocation = c.CachedNavLocation
  maintainKeeps : ∀ c,
    (env.MaintainHorizontalGroundVelocity c).CachedNavLocation = c.CachedNavLocation
      ∧ (env.MaintainHorizontalGroundVelocity c).Location = c.Location
  calcKeeps : ∀ dt fr fl br c,
    (env.CalcVelocity dt fr fl br c).CachedNavLocation = c.CachedNavLocation
      ∧ (env.CalcVelocity dt fr fl br c).Location = c.Location
  applyKeeps : ∀ dt c,
    (env.ApplyVRMotionToVelocity dt c).CachedNavLocation = c.CachedNavLocation
      ∧ (env.ApplyVRMotionToVelocity dt c).Location = c.Location
  restoreKeeps : ∀ c,
    (env.RestorePreAdditiveVRMotionVelocity c).CachedNavLocation = c.CachedNavLocation
      ∧ (env.RestorePreAdditiveVRMotionVelocity c).Location = c.Location
  setModeKeeps : ∀ m c,
    (env.SetMovementMode m c).CachedNavLocation = c.CachedNavLocation
      ∧ (env.SetMovementMode m c).Location = c.Location
      ∧ (env.SetMovementMode m c).MovementMode = m

/-- The recovery from a floor check that started in penetration, in the words of C27
(the spec side of the comparison): the floor hit is copied with its trace end put
`MAX_FLOOR_DIST` above its trace start, the penetration adjustment is computed from that
hit, the penetration is resolved with that same hit, and `bForceNextFloorCheck` is set. -/
def penetrationRecovery (env : Engine) (c : Comp) : Comp :=
  let FloorHit := c.CurrentFloor.HitResult
  let Hit := { FloorHit with TraceEnd := FloorHit.TraceStart + ⟨0, 0, MAX_FLOOR_DIST⟩ }
  let RequestedAdjustment := env.GetPenetrationAdjustment Hit c
  { (env.ResolvePenetration RequestedAdjustment Hit c.Rotation c).2 with
    bForceNextFloorCheck := true }

/-! ## PhysFlying (source lines 2798-2861) -/

/-- The velocity of a flying tick (lines 2805-2825): the rewind of the HMD offset, then
the velocity from the acceleration unless root motion or an override velocity drives the
character; no HMD motion is added to the velocity here. -/
def PhysFlying_velocity (env : Engine) (deltaTime : ℚ) (s : Sim) : Sim :=
  -- Rewind the players position by the new capsule location
  let s1 := s.call Call.RewindVRRelativeMovement env.RewindVRRelativeMovement
  let c1 :=
    if !env.HasAnimRootMotion s1.comp && !env.HasOverrideVelocity s1.comp then
      let c2 :=
        if s1.comp.bCheatFlying && s1.comp.Acceleration.IsZero then
          { s1.comp with Velocity := FVector.ZeroVector }
        else s1.comp
      let Friction := F32.mul (1 / 2) (env.FluidFriction c2)
      env.CalcVelocity deltaTime Friction true (env.GetMaxBrakingDeceleration c2) c2
    else s1.comp
  { s1 with comp := { c1 with bJustTeleported := false } }

/-- The sweep of a flying tick (lines 2827-2830): the velocity over the tick plus the
HMD offset of the tick, both in single precision. -/
def PhysFlying_sweep (env : Engine) (deltaTime : ℚ) (s : Sim) : Bool × FHitResult × Comp :=
  let c := (PhysFlying_velocity env deltaTime s).comp
  let Adjusted := F32.vscale c.Velocity deltaTime
  SafeMoveUpdatedComponent env (F32.vadd Adjusted c.AdditionalVRInputVector) c.Rotation true
    { Time := 1 } c

/-- The handling of an obstructed sweep (lines 2832-2855): a step up against a steep
face when flying about level, else impact and slide. The first component is
`OldLocation`, whose Z a step up adjusts. `0.2f` is the `float` nearest to 0.2. -/
def PhysFlying_blocked (env : Engine) (deltaTime : ℚ) (Adjusted OldLocation : FVector)
    (Hit : FHitResult) (c : Comp) : FVector × Comp :=
  if Hit.Time < 1 then
    let GravDir : FVector := ⟨0, 0, -1⟩
    let VelDir := env.GetSafeNormal c.Velocity
    let UpDown := F32.dot GravDir VelDir
    let stepped : Bool × FVector × Comp :=
      if decide (|Hit.ImpactNormal.Z| < F32.round (2 / 10)) && decide (UpDown < 1 / 2)
          && decide (UpDown > -F32.round (2 / 10)) && env.CanStepUp Hit c then
        let stepZ := c.Location.Z
        let su := StepUp env GravDir
          (F32.vscale (F32.vadd Adjusted c.AdditionalVRInputVector) (F32.sub 1 Hit.Time)) Hit
          false c
        if su.1 then
          (true,
            { OldLocation with Z := F32.add su.2.2.Location.Z (F32.sub OldLocation.Z stepZ) },
            su.2.2)
        else (false, OldLocation, su.2.2)
      else (false, OldLocation, c)
    if !stepped.1 then
      -- adjust and try again
      let c1 := env.HandleImpact Hit deltaTime Adjusted stepped.2.2
      (stepped.2.1,
        (env.SlideAlongSurface Adjusted (F32.sub 1 Hit.Time) Hit.Normal Hit true c1).2.2)
    else (stepped.2.1, stepped.2.2)
  else (OldLocation, c)

/-- `UVRCharacterMovementComponent::PhysFlying`, its arithmetic in single precision
(`MIN_TICK_TIME` is the `float` literal `1e-6f`). The iteration count is incremented
(line 2824) and not read again. -/
def PhysFlying (env : Engine) (deltaTime : ℚ) (_Iterations : Int) (s : Sim) : Sim :=
  if deltaTime < F32.round MIN_TICK_TIME then s
  else
    let s1 := PhysFlying_velocity env deltaTime s
    let OldLocation := s1.comp.Location
    let Adjusted := F32.vscale s1.comp.Velocity deltaTime
    let m := PhysFlying_sweep env deltaTime s
    let b := PhysFlying_blocked env deltaTime Adjusted OldLocation m.2.1 m.2.2
    if !b.2.bJustTeleported && !env.HasAnimRootMotion b.2 && !env.HasOverrideVelocity b.2 then
      { s1 with comp := { b.2 with
          Velocity :=
            F32.vdiv (F32.vsub (F32.vsub b.2.Location b.1) b.2.AdditionalVRInputVector)
              deltaTime } }
    else { s1 with comp := b.2 }

/-! ## Engine behaviour at rest -/

/-- What `PhysWalking` needs of the engine functions it calls, for a character at rest:
the three VR velocity helpers do nothing without an HMD delta
(`AdditionalVRInputVector`), `MaintainHorizontalGroundVelocity` leaves a horizontal
velocity alone, `CalcVelocity` leaves a character with no velocity, acceleration or
requested velocity alone, `ShouldCatchAir` is the engine's constant `false`,
`AdjustFloorHeight` does nothing on a swept walkable floor at a distance within
`[MIN_FLOOR_DIST, MAX_FLOOR_DIST]`, and `SetBase` only stores the base. -/
structure RestLaws (env : Engine) : Prop where
  rewindLaw : ∀ c, c.AdditionalVRInputVector = FVector.ZeroVector →
    env.RewindVRRelativeMovement c = c
  maintainLaw : ∀ c, c.Velocity.Z = 0 → env.MaintainHorizontalGroundVelocity c = c
  calcLaw : ∀ dt fr br c, c.Velocity = FVector.ZeroVector → c.Acceleration = FVector.ZeroVector →
    c.bHasRequestedVelocity = false → env.CalcVelocity dt fr false br c = c
  applyLaw : ∀ dt c, c.AdditionalVRInputVector = FVector.ZeroVector →
    env.ApplyVRMotionToVelocity dt c = c
  restoreLaw : ∀ c, c.AdditionalVRInputVector = FVector.ZeroVector →
    env.RestorePreAdditiveVRMotionVelocity c = c
  catchAirLaw : ∀ a b c, env.ShouldCatchAir a b c = false
  adjustLaw : ∀ c, c.CurrentFloor.IsWalkableFloor = true → c.CurrentFloor.bLineTrace = false →
    MIN_FLOOR_DIST ≤ c.CurrentFloor.FloorDist → c.CurrentFloor.FloorDist ≤ MAX_FLOOR_DIST →
    env.AdjustFloorHeight c = c
  setBaseLaw : ∀ b n c, env.SetBase b n c = { c with MovementBase := b }

/-! ## Crouch and UnCrouch (source lines 60-325) -/

/-- The capsule location the crouch code tests at (lines 119-125, 201-206). -/
def CrouchCapLocation (c : Comp) : FVector :=
  match c.VRRootCapsule with
  | some root => root.OffsetComponentToWorld
  | none => c.Location

/-- The end of `Crouch` and `UnCrouch` for a simulated proxy (lines 163-171, 316-324):
the mesh offset is moved by `MeshAdjust` without smoothing. -/
def CrouchMeshAdjust (bClientSimulation : Bool) (MeshAdjust : ℚ) (c : Comp) : Comp :=
  if bClientSimulation && decide (c.Role = ENetRole.ROLE_SimulatedProxy) then
    if c.HasClientData && decide (c.Client.MeshTranslationOffset.Z ≠ 0) then
      let off := c.Client.MeshTranslationOffset + ⟨0, 0, MeshAdjust⟩
      { c with Client :=
          { c.Client with MeshTranslationOffset := off, OriginalMeshTranslationOffset := off } }
    else c
  else c

/-- The end of `Crouch` (lines 151-171), reached unless the encroachment test cancels
the crouch. -/
def Crouch_finish (env : Engine) (bClientSimulation : Bool)
    (ClampedCrouchedHalfHeight ComponentScale ScaledHalfHeightAdjust : ℚ) (c3 : Comp) : Comp :=
  let c4 := { c3 with bForceNextFloorCheck := true }
  -- OnStartCrouch takes the change from the Default size, not the current one
  let MeshAdjust := ScaledHalfHeightAdjust
  let HalfHeightAdjust1 := c4.DefaultCapsuleHalfHeight - ClampedCrouchedHalfHeight
  let ScaledHalfHeightAdjust1 := HalfHeightAdjust1 * ComponentScale
  let c5 := env.AdjustProxyCapsuleSize c4
  let c6 := env.OnStartCrouch HalfHeightAdjust1 ScaledHalfHeightAdjust1 c5
  CrouchMeshAdjust bClientSimulation (-MeshAdjust) c6

/-- The start of `Crouch` for a simulated proxy (lines 83-93): restore collision size
before crouching. -/
def Crouch_restoreProxy (bClientSimulation : Bool) (c : Comp) : Comp :=
  if bClientSimulation && decide (c.Role = ENetRole.ROLE_SimulatedProxy) then
    { c.SetCapsuleSize c.DefaultCapsuleRadius c.DefaultCapsuleHalfHeight with
      bShrinkProxyCapsule := true }
  else c

/-- `UVRCharacterMovementComponent::Crouch`. The first component of the result is not
in the source: it reports what the encroachment test (line 127) returned, `none` when
the call did not make the test. -/
def Crouch (env : Engine) (bClientSimulation : Bool) (c : Comp) : Option Bool × Comp :=
  if !env.HasValidData c then (none, c)
  else if !env.CanCrouchInCurrentState c then (none, c)
  -- See if collision is already at desired size.
  else if c.CapsuleHalfHeight = c.CrouchedHalfHeight then
    let c1 := if !bClientSimulation then { c with bIsCrouched := true } else c
    (none, env.OnStartCrouch 0 0 c1)
  else
    let c1 := Crouch_restoreProxy bClientSimulation c
    -- Change collision size to crouching dimensions
    let ComponentScale := c1.ShapeScale
    let OldUnscaledHalfHeight := c1.CapsuleHalfHeight
    let OldUnscaledRadius := c1.CapsuleRadius
    -- Height is not allowed to be smaller than radius.
    let ClampedCrouchedHalfHeight := max (max 0 OldUnscaledRadius) c1.CrouchedHalfHeight
    let c2 := c1.SetCapsuleSize OldUnscaledRadius ClampedCrouchedHalfHeight
    let HalfHeightAdjust := OldUnscaledHalfHeight - ClampedCrouchedHalfHeight
    let ScaledHalfHeightAdjust := HalfHeightAdjust * ComponentScale
    if !bClientSimulation then
      -- Crouching to a larger height? (this is rare)
      if ClampedCrouchedHalfHeight > OldUnscaledHalfHeight then
        let capLocation := CrouchCapLocation c2
        let bEncroached := env.OverlapBlockingTestByChannel
          (capLocation - ⟨0, 0, ScaledHalfHeightAdjust⟩)
          (env.GetPawnCapsuleCollisionShape EShrinkCapsuleExtent.SHRINK_None 0 c2) c2
        -- If encroached, cancel
        if bEncroached then
          (some true, c2.SetCapsuleSize OldUnscaledRadius OldUnscaledHalfHeight)
        else
          (some false, Crouch_finish env bClientSimulation ClampedCrouchedHalfHeight
            ComponentScale ScaledHalfHeightAdjust { c2 with bIsCrouched := true })
      else
        (none, Crouch_finish env bClientSimulation ClampedCrouchedHalfHeight ComponentScale
          ScaledHalfHeightAdjust { c2 with bIsCrouched := true })
    else
      (none, Crouch_finish env bClientSimulation ClampedCrouchedHalfHeight ComponentScale
        ScaledHalfHeightAdjust c2)

/-- The encroachment test of `UnCrouch` (lines 211-290): the final value of
`bEncroached`, and the component, which is moved when the retry from the base of the
capsule fits, or flagged for a floor check when the capsule fits with its base kept. -/
def UnCrouch_encroached (env : Engine) (c : Comp) : Bool × Comp :=
  let CurrentCrouchedHalfHeight := c.GetScaledCapsuleHalfHeight
  let ComponentScale := c.ShapeScale
  let OldUnscaledHalfHeight := c.CapsuleHalfHeight
  let HalfHeightAdjust := c.DefaultCapsuleHalfHeight - OldUnscaledHalfHeight
  let ScaledHalfHeightAdjust := HalfHeightAdjust * ComponentScale
  let PawnLocation := CrouchCapLocation c
  -- Try to stay in place and see if the larger capsule fits.
  let SweepInflation := KINDA_SMALL_NUMBER * 10
  -- Shrink by negative amount, so actually grow it.
  let StandingCapsuleShape := env.GetPawnCapsuleCollisionShape
    EShrinkCapsuleExtent.SHRINK_HeightCustom (-SweepInflation - ScaledHalfHeightAdjust) c
  if !c.bCrouchMaintainsBaseLocation then
    -- Expand in place
    if env.OverlapBlockingTestByChannel PawnLocation StandingCapsuleShape c then
      -- Try adjusting capsule position to see if we can avoid encroachment.
      if ScaledHalfHeightAdjust > 0 then
        -- Shrink to a short capsule, sweep down to base to find where that would hit something
        let PawnRadius := c.GetScaledCapsuleRadius
        let PawnHalfHeight := c.GetScaledCapsuleHalfHeight
        let ShrinkHalfHeight := PawnHalfHeight - PawnRadius
        let TraceDist := PawnHalfHeight - ShrinkHalfHeight
        let Down : FVector := ⟨0, 0, -TraceDist⟩
        let ShortCapsuleShape := env.GetPawnCapsuleCollisionShape
          EShrinkCapsuleExtent.SHRINK_HeightCustom ShrinkHalfHeight c
        let Hit := (env.SweepSingleByChannel PawnLocation (PawnLocation + Down) ShortCapsuleShape c).2
        if Hit.bStartPenetrating then (true, c)
        else
          -- Compute where the base of the sweep ended up, and see if we can stand there
          let DistanceToBase := Hit.Time * TraceDist + ShortCapsuleShape.HalfHeight
          let NewLoc : FVector :=
            ⟨PawnLocation.X, PawnLocation.Y,
              PawnLocation.Z - DistanceToBase + PawnHalfHeight + SweepInflation + MIN_FLOOR_DIST / 2⟩
          if env.OverlapBlockingTestByChannel NewLoc StandingCapsuleShape c then (true, c)
          else (false, env.MoveComponent (NewLoc - PawnLocation) c.Rotation c)
      else (true, c)
    else (false, c)
  else
    -- Expand while keeping base location the same.
    let StandingLocation : FVector :=
      PawnLocation + ⟨0, 0, StandingCapsuleShape.HalfHeight - CurrentCrouchedHalfHeight⟩
    let e1 := env.OverlapBlockingTestByChannel StandingLocation StandingCapsuleShape c
    let MinFloorDist := KINDA_SMALL_NUMBER * 10
    let e2 :=
      if e1 && c.IsMovingOnGround
          && (c.CurrentFloor.bBlockingHit && decide (c.CurrentFloor.FloorDist > MinFloorDist)) then
        -- Something might be just barely overhead, try moving down closer to the floor to avoid it.
        env.OverlapBlockingTestByChannel
          { StandingLocation with Z := StandingLocation.Z - (c.CurrentFloor.FloorDist - MinFloorDist) }
          StandingCapsuleShape c
      else e1
    if !e2 then (false, { c with bForceNextFloorCheck := true }) else (true, c)

/-- The end of `UnCrouch` (lines 305-324), reached unless the capsule is still
encroached. -/
def UnCrouch_finish (env : Engine) (bClientSimulation : Bool)
    (HalfHeightAdjust ScaledHalfHeightAdjust : ℚ) (c1 : Comp) : Comp :=
  -- Now call SetCapsuleSize() to cause touch/untouch events and actually grow the capsule
  let c2 := c1.SetCapsuleSize c1.DefaultCapsuleRadius c1.DefaultCapsuleHalfHeight
  let MeshAdjust := ScaledHalfHeightAdjust
  let c3 := env.AdjustProxyCapsuleSize c2
  let c4 := env.OnEndCrouch HalfHeightAdjust ScaledHalfHeightAdjust c3
  CrouchMeshAdjust bClientSimulation MeshAdjust c4

/-- `UVRCharacterMovementComponent::UnCrouch`. The first component of the result is not
in the source: it reports the value of `bEncroached` at the abort check (line 293),
`none` when the call did not make the test. -/
def UnCrouch (env : Engine) (bClientSimulation : Bool) (c : Comp) : Option Bool × Comp :=
  if !env.HasValidData c then (none, c)
  -- See if collision is already at desired size.
  else if c.CapsuleHalfHeight = c.DefaultCapsuleHalfHeight then
    let c1 := if !bClientSimulation then { c with bIsCrouched := false } else c
    (none, env.OnEndCrouch 0 0 c1)
  else
    let ComponentScale := c.ShapeScale
    let OldUnscaledHalfHeight := c.CapsuleHalfHeight
    let HalfHeightAdjust := c.DefaultCapsuleHalfHeight - OldUnscaledHalfHeight
    let ScaledHalfHeightAdjust := HalfHeightAdjust * ComponentScale
    if !bClientSimulation then
      let e := UnCrouch_encroached env c
      -- If still encroached then abort.
      if e.1 then (some true, e.2)
      else
        (some false, UnCrouch_finish env bClientSimulation HalfHeightAdjust ScaledHalfHeightAdjust
          { e.2 with bIsCrouched := false })
    else
      (none, UnCrouch_finish env bClientSimulation HalfHeightAdjust ScaledHalfHeightAdjust
        { c with bShrinkProxyCapsule := true })

/-! ## Concrete worlds used to exercise the theorems -/

/-- A world in which every sweep moves the component by the requested delta and
reports that it started in penetration. -/
def penetratingWorld : Engine :=
  { MoveUpdatedComponent := fun d _ _ h c =>
      (false, { h with bBlockingHit := true, bStartPenetrating := true },
        { c with Location := c.Location + d }) }

/-- A standing character with a 20 x 90 capsule and a step height of 45. -/
def standingComp : Comp :=
  { CapsuleRadius := 20, CapsuleHalfHeight := 90, MaxStepHeight := 45,
    MovementMode := EMovementMode.MOVE_Walking }

/-- A server whose time stamp check accepts exactly the time stamps greater than the
last accepted one and never changes the component, with a fixed move delta time. -/
def monotoneServer : Engine :=
  { VerifyClientTimeStamp := fun ts c => (decide (ts > c.Server.CurrentClientTimeStamp), c)
    GetServerMoveDeltaTime := fun _ _ => 1 / 60 }

/-- A server-side component that last accepted time stamp 5. -/
def serverComp : Comp :=
  { Server := { CurrentClientTimeStamp := 5 }, HasPlayerController := true,
    VRRootCapsule := some {} }

/-- A world in which every overlap test reports a blocking overlap. -/
def crampedWorld : Engine :=
  { OverlapBlockingTestByChannel := fun _ _ _ => true }

/-- A standing character whose crouched half height (95) is above its current one. -/
def tallCrouchComp : Comp :=
  { CapsuleRadius := 20, CapsuleHalfHeight := 90, CrouchedHalfHeight := 95,
    DefaultCapsuleRadius := 20, DefaultCapsuleHalfHeight := 90,
    MovementMode := EMovementMode.MOVE_Walking }

/-- A crouched character (half height 40) whose standing half height is 90. -/
def crouchedComp : Comp :=
  { CapsuleRadius := 20, CapsuleHalfHeight := 40, CrouchedHalfHeight := 40,
    DefaultCapsuleRadius := 20, DefaultCapsuleHalfHeight := 90, bIsCrouched := true,
    MovementMode := EMovementMode.MOVE_Walking }

/-- A client on which every pending move can be combined with the new move, whose
new moves get id 2 and the tick's delta time, at world time 10. -/
def combiningClient : Engine :=
  { CanCombineWith := fun _ _ _ _ => true
    CreateSavedMove := fun c => (some { id := 2 }, c)
    SetMoveFor := fun m dt a _ => { m with DeltaTime := dt, Acceleration := a, TimeStamp := 2 }
    GetTimeSeconds := fun _ => 10 }

/-- The same client with an owner that is not a VR character. -/
def plainOwnerClient : Engine :=
  { combiningClient with OwnerIsVRCharacter := false }

/-- A pending move of 10 ms with HMD delta (1, 2) and capsule half height 3. -/
def moveA : SavedMove :=
  { id := 1, TimeStamp := 1, DeltaTime := 1 / 100, LFDiff := ⟨1, 2, 3⟩ }

/-- A new move of 20 ms with HMD delta (10, 20) and capsule half height 30. -/
def moveB : SavedMove :=
  { id := 2, TimeStamp := 2, DeltaTime := 1 / 50, LFDiff := ⟨10, 20, 30⟩ }

/-- A client component holding `moveA` as pending move, with merging switched on. -/
def mergingComp : Comp :=
  { bAllowMovementMerging := true
    VRRootReference := some { DifferenceFromLastFrame := ⟨10, 20, 30⟩ }
    Client := { SavedMoves := [moveA], PendingMove := some moveA } }

/-- The same client component as the constructor configures it (merging off). -/
def constructedComp : Comp := constructed mergingComp

/-- A world in which every sweep ends on a blocking hit at half of the move, and every
blocking hit is a valid landing spot. -/
def landingWorld : Engine :=
  { MoveUpdatedComponent := fun d _ _ h c =>
      (false, { h with bBlockingHit := true, Time := 1 / 2, ImpactNormal := ⟨0, 0, 1⟩,
                       Normal := ⟨0, 0, 1⟩ },
        { c with Location := c.Location + d.scale (1 / 2) })
    IsValidLandingSpot := fun _ h _ => h.bBlockingHit
    SetPostLandedPhysics := fun _ c => { c with MovementMode := EMovementMode.MOVE_Walking }
    GetSimulationTimeStep := fun rt _ _ => rt }

/-- A character falling at 500 units per second with a VR root capsule. -/
def fallingComp : Comp :=
  { MovementMode := EMovementMode.MOVE_Falling, Velocity := ⟨0, 0, -500⟩,
    VRRootCapsule := some {}, CapsuleRadius := 20, CapsuleHalfHeight := 90 }

/-- A flat walkable floor, normal straight up, two units below the capsule. -/
def flatFloor : FFindFloorResult :=
  { bBlockingHit := true, bWalkableFloor := true, FloorDist := 2,
    HitResult := { bBlockingHit := true, Normal := ⟨0, 0, 1⟩, ImpactNormal := ⟨0, 0, 1⟩,
                   Component := some 1 } }

/-- A world with that floor under every location, in which the velocity is integrated
from the acceleration and kept horizontal on the ground. -/
def restWorld : Engine :=
  { ComputeFloorDist := fun _ _ _ _ _ _ _ => flatFloor
    CalcVelocity := fun dt _ _ _ c => { c with Velocity := c.Velocity + c.Acceleration.scale dt }
    MaintainHorizontalGroundVelocity := fun c =>
      { c with Velocity := { c.Velocity with Z := 0 } } }

/-- A controlled character at rest in Walking mode on the flat floor. -/
def restingComp : Comp :=
  { CapsuleRadius := 20, CapsuleHalfHeight := 90, MaxStepHeight := 45,
    MovementMode := EMovementMode.MOVE_Walking, HasController := true,
    CurrentFloor := flatFloor }

/-- A world in which sweeps that do not go down move the capsule freely, and every
downward sweep is stopped half way by a ledge right under the capsule centre. -/
def stepWorld : Engine :=
  { MoveUpdatedComponent := fun d _ _ h c =>
      if d.Z < 0 then
        (true,
          { h with bBlockingHit := true, Time := 1 / 2, Normal := ⟨0, 0, 1⟩,
                   ImpactNormal := ⟨0, 0, 1⟩, Location := c.Location + d.scale (1 / 2),
                   ImpactPoint := c.Location + d.scale (1 / 2) + ⟨0, 0, -c.CapsuleHalfHeight⟩ },
          { c with Location := c.Location + d.scale (1 / 2) })
      else (true, h, { c with Location := c.Location + d }) }

/-- A world in which every movement base is dynamic. -/
def dynamicBaseWorld : Engine :=
  { IsDynamicBase := fun _ _ => true }

/-- A character standing on the movement base 7, with no floor check pending. -/
def basedComp : Comp :=
  { CapsuleRadius := 20, CapsuleHalfHeight := 90, MaxStepHeight := 45,
    MovementMode := EMovementMode.MOVE_Walking, HasController := true,
    CurrentFloor := flatFloor, MovementBase := some 7 }

/-- A server-side character with a 20 x 90 capsule that replicates the capsule height. -/
def heightReplicatingComp : Comp :=
  { CapsuleRadius := 20, CapsuleHalfHeight := 90, VRReplicateCapsuleHeight := true,
    VRRootCapsule := some {} }

/-- A world with the flat floor under every location and nothing in the way of a move,
in which a root motion animation is playing and the HMD offset of the tick is added to
the velocity as `AdditionalVRInputVector / deltaTime`. -/
def rootMotionWorld : Engine :=
  { HasAnimRootMotion := fun _ => true
    ComputeFloorDist := fun _ _ _ _ _ _ _ => flatFloor
    MoveUpdatedComponent := fun d _ _ h c => (true, h, { c with Location := c.Location + d })
    ApplyVRMotionToVelocity := fun dt c =>
      { c with Velocity := c.Velocity + c.AdditionalVRInputVector.div dt } }

/-- A controlled character at rest in Walking mode on the flat floor whose HMD moved two
units forward in the tick. -/
def hmdWalkingComp : Comp :=
  { CapsuleRadius := 20, CapsuleHalfHeight := 90, MaxStepHeight := 45,
    MovementMode := EMovementMode.MOVE_Walking, HasController := true,
    CurrentFloor := flatFloor, AdditionalVRInputVector := ⟨2, 0, 0⟩ }

/-- A controlled character in NavWalking mode with no cached navigation location, in a
world without navigation data (the engine defaults). -/
def navWalkingComp : Comp :=
  { MovementMode := EMovementMode.MOVE_NavWalking, Location := ⟨10, 20, 30⟩,
    Velocity := ⟨100, 0, 0⟩ }

/-- A world in which the forward sweep of a step-up is stopped half way by a wall, sweeps
in other directions move the capsule freely, and the impact on a wall throws the
character into Falling (as an impact handler of the owner may). -/
def knockingWorld : Engine :=
  { MoveUpdatedComponent := fun d _ _ h c =>
      if d.X ≠ 0 then
        (true,
          { h with bBlockingHit := true, Time := 1 / 2, Normal := ⟨-1, 0, 0⟩,
                   ImpactNormal := ⟨-1, 0, 0⟩ },
          { c with Location := c.Location + d.scale (1 / 2) })
      else (true, h, { c with Location := c.Location + d })
    HandleImpact := fun _ _ _ c => { c with MovementMode := EMovementMode.MOVE_Falling } }

/-- A character with no movement base whose floor check was forced for the next call. -/
def forcedCheckComp : Comp :=
  { CapsuleRadius := 20, CapsuleHalfHeight := 90, MaxStepHeight := 45,
    MovementMode := EMovementMode.MOVE_Walking, HasController := true,
    CurrentFloor := flatFloor, bForceNextFloorCheck := true }

/-- The sweep result on the rim of a ledge: a blocking hit whose surface cannot be walked
on, two units below the capsule. -/
def ledgeRimFloor : FFindFloorResult :=
  { bBlockingHit := true, bWalkableFloor := false, FloorDist := 2,
    HitResult := { bBlockingHit := true, Normal := ⟨1, 0, 0⟩, ImpactNormal := ⟨1, 0, 0⟩,
                   ImpactPoint := ⟨19, 0, -92⟩, Component := some 1 } }

/-- The floor a line trace at the perch radius finds on top of the ledge. -/
def ledgeTopFloor : FFindFloorResult :=
  { bBlockingHit := true, bWalkableFloor := true, bLineTrace := true, FloorDist := 1,
    LineDist := 3,
    HitResult := { bBlockingHit := true, Normal := ⟨0, 0, 1⟩, ImpactNormal := ⟨0, 0, 1⟩,
                   ImpactPoint := ⟨15, 0, -93⟩, Component := some 2 } }

/-- A world in which every floor sweep ends on the rim of a ledge and the perch check
succeeds with the floor on top of the ledge. -/
def perchWorld : Engine :=
  { ComputeFloorDist := fun _ _ _ _ _ _ _ => ledgeRimFloor
    ShouldComputePerchResult := fun _ _ _ => true
    ComputePerchResult := fun _ _ _ _ => (true, ledgeTopFloor) }

/-- The result of a floor check that started in penetration: the capsule is sunk in the
floor, whose surface points up. -/
def sunkFloor : FFindFloorResult :=
  { bBlockingHit := false, bWalkableFloor := false,
    HitResult := { bBlockingHit := true, bStartPenetrating := true, Normal := ⟨0, 0, 1⟩,
                   ImpactNormal := ⟨0, 0, 1⟩, TraceStart := ⟨0, 0, 10⟩, TraceEnd := ⟨0, 0, -40⟩,
                   Component := some 1 } }

/-- A world without gravity in which moves are free, every floor check starts in
penetration, the penetration adjustment of a hit that started in penetration is five
units along its normal (none for any other hit, as in the engine), and resolving a
penetration moves the capsule by the adjustment. -/
def sunkWorld : Engine :=
  { MoveUpdatedComponent := fun d _ _ h c => (true, h, { c with Location := c.Location + d })
    GetGravityZ := fun _ => 0
    ComputeFloorDist := fun _ _ _ _ _ _ _ => sunkFloor
    GetPenetrationAdjustment := fun h _ =>
      if h.bStartPenetrating then h.Normal.scale 5 else FVector.ZeroVector
    ResolvePenetration := fun adj _ _ c =>
      (!adj.IsZero, { c with Location := c.Location + adj }) }

/-- A character in Falling mode, at rest, with a VR root capsule. -/
def sunkComp : Comp :=
  { MovementMode := EMovementMode.MOVE_Falling, VRRootCapsule := some {},
    CapsuleRadius := 20, CapsuleHalfHeight := 90, MaxStepHeight := 45 }

/-- A character falling at 500 units per second whose updated component is not a VR
root capsule. -/
def rootlessFallingComp : Comp :=
  { MovementMode := EMovementMode.MOVE_Falling, Velocity := ⟨0, 0, -500⟩,
    VRRootCapsule := none, CapsuleRadius := 20, CapsuleHalfHeight := 90 }

/-- A world in which moves are free (the capsule ends at its location plus the delta, in
single precision) and the velocity is integrated from the acceleration. -/
def flyWorld : Engine :=
  { MoveUpdatedComponent := fun d _ _ h c =>
      (true, h, { c with Location := F32.vadd c.Location d })
    CalcVelocity := fun dt _ _ _ c => { c with Velocity := c.Velocity + c.Acceleration.scale dt } }

/-- A character flying at 100 units per second along X, accelerating at 256 units per
second squared, whose HMD moved by (3, 4) in the tick. -/
def flyingComp : Comp :=
  { MovementMode := EMovementMode.MOVE_Flying, Velocity := ⟨100, 0, 0⟩,
    Acceleration := ⟨256, 0, 0⟩, AdditionalVRInputVector := ⟨3, 4, 0⟩,
    CapsuleRadius := 20, CapsuleHalfHeight := 90 }

/-- The same character at X = 0.375 with an HMD offset of 2^24 units along X in the
tick. -/
def farHmdComp : Comp :=
  { flyingComp with Location := ⟨3 / 8, 0, 0⟩, AdditionalVRInputVector := ⟨16777216, 0, 0⟩ }

/-- A world whose `IsWalkable` is the engine's, with the engine's default walkable floor
Z of 0.71 and no slope overrides. -/
def slopeWorld : Engine :=
  { IsWalkable := fun Hit c => UCharacterMovementComponent.IsWalkable {} Hit c }

/-- A downward hit on a flat floor whose impact point lies on the rim of a capsule of
radius 20: 20 units away from the capsule axis. -/
def rimHit : FHitResult :=
  { bBlockingHit := true, Time := 1 / 2, Location := ⟨0, 0, 0⟩, ImpactPoint := ⟨20, 0, -90⟩,
    Normal := ⟨0, 0, 1⟩, ImpactNormal := ⟨0, 0, 1⟩ }

/-- A world like `stepWorld` in which the ledge that stops the downward sweep touches the
capsule on its rim, 20 units from the axis, and `IsWalkable` is the engine's. -/
def rimWorld : Engine :=
  { MoveUpdatedComponent := fun d _ _ h c =>
      if d.Z < 0 then
        (true,
          { h with bBlockingHit := true, Time := 1 / 2, Normal := ⟨0, 0, 1⟩,
                   ImpactNormal := ⟨0, 0, 1⟩, Location := c.Location + d.scale (1 / 2),
                   ImpactPoint := c.Location + d.scale (1 / 2) + ⟨20, 0, -c.CapsuleHalfHeight⟩ },
          { c with Location := c.Location + d.scale (1 / 2) })
      else (true, h, { c with Location := c.Location + d })
    IsWalkable := fun Hit c => UCharacterMovementComponent.IsWalkable {} Hit c }

/-- A world with something overhead: a standing capsule centred 50 units or more above
the origin overlaps it. Collision shapes are the capsule with its half height reduced by
the shrink amount. -/
def lowCeilingWorld : Engine :=
  { OverlapBlockingTestByChannel := fun loc _ _ => decide (loc.Z ≥ 50)
    GetPawnCapsuleCollisionShape := fun _ ShrinkAmount c =>
      { Radius := c.GetScaledCapsuleRadius,
        HalfHeight := c.GetScaledCapsuleHalfHeight - ShrinkAmount } }

/-- A crouched character (half height 40, standing 90) at the origin that keeps its base
when it stands up, walking two units above the flat floor. -/
def lowCeilingComp : Comp :=
  { CapsuleRadius := 20, CapsuleHalfHeight := 40, CrouchedHalfHeight := 40,
    DefaultCapsuleRadius := 20, DefaultCapsuleHalfHeight := 90, bIsCrouched := true,
    MovementMode := EMovementMode.MOVE_Walking, bCrouchMaintainsBaseLocation := true,
    CurrentFloor := flatFloor }

/-! # Theorems -/

/-! ## Single precision -/

theorem F32.log2Fuel_eq (fuel n : ℕ) (h : n ≤ fuel) : F32.log2Fuel fuel n = Nat.log2 n := by
  induction fuel generalizing n with
  | zero =>
    have : n = 0 := by omega
    subst this
    rw [Nat.log2]
    simp [F32.log2Fuel]
  | succ f ih =>
    unfold F32.log2Fuel
    rw [Nat.log2]
    by_cases h2 : n < 2
    · rw [if_pos h2, if_neg (by omega)]
    · rw [if_neg h2, if_pos (by omega), ih (n / 2) (by omega)]

theorem F32.floorLog2_eq (n : ℕ) : F32.floorLog2 n = Nat.log2 n :=
  F32.log2Fuel_eq n n le_rfl

theorem F32.two_zpow_pos (z : ℤ) : (0 : ℚ) < 2 ^ z := zpow_pos (by norm_num) z

theorem F32.log_lt_of_lt {x : ℚ} {z : ℤ} (hx : 0 < x) (h : x < 2 ^ z) : Int.log 2 x < z := by
  have := (Int.lt_zpow_iff_log_lt (R := ℚ) (b := 2) (by norm_num) (x := z) hx).1
    (by simpa using h)
  exact this

theorem F32.le_log_of_le {x : ℚ} {z : ℤ} (hx : 0 < x) (h : 2 ^ z ≤ x) : z ≤ Int.log 2 x := by
  have := (Int.zpow_le_iff_le_log (R := ℚ) (b := 2) (by norm_num) (x := z) hx).1
    (by simpa using h)
  exact this

theorem F32.natCast_bounds (n : ℕ) (hn : n ≠ 0) :
    (2 : ℚ) ^ (Nat.log2 n : ℤ) ≤ n ∧ (n : ℚ) < 2 ^ ((Nat.log2 n : ℤ) + 1) := by
  constructor
  · rw [zpow_natCast]
    exact_mod_cast Nat.log2_self_le hn
  · have h : ((Nat.log2 n : ℤ) + 1) = ((Nat.log2 n + 1 : ℕ) : ℤ) := by push_cast; rfl
    rw [h, zpow_natCast]
    exact_mod_cast Nat.lt_log2_self

theorem F32.log2_eq_log (x : ℚ) : F32.log2 x = Int.log 2 |x| := by
  unfold F32.log2
  by_cases hx : x = 0
  · rw [if_pos hx, hx, abs_zero, Int.log_zero_right]
  · rw [if_neg hx]
    simp only [F32.floorLog2_eq]
    have hp0 : x.num.natAbs ≠ 0 := by
      rw [Ne, Int.natAbs_eq_zero, Rat.num_eq_zero]
      exact hx
    have hq0 : x.den ≠ 0 := x.den_nz
    obtain ⟨hp1, hp2⟩ := F32.natCast_bounds _ hp0
    obtain ⟨hq1, hq2⟩ := F32.natCast_bounds _ hq0
    have hqpos : (0 : ℚ) < x.den := by exact_mod_cast Nat.pos_of_ne_zero hq0
    have hxa : |x| = (x.num.natAbs : ℚ) / x.den := by
      conv_lhs => rw [← Rat.num_div_den x]
      rw [abs_div, abs_of_pos hqpos, Nat.cast_natAbs, Int.cast_abs]
    have hxpos : 0 < |x| := abs_pos.mpr hx
    have hup : |x| < 2 ^ ((Nat.log2 x.num.natAbs : ℤ) - (Nat.log2 x.den : ℤ) + 1) := by
      rw [hxa, div_lt_iff₀ hqpos]
      calc (x.num.natAbs : ℚ) < 2 ^ ((Nat.log2 x.num.natAbs : ℤ) + 1) := hp2
        _ = 2 ^ ((Nat.log2 x.num.natAbs : ℤ) - (Nat.log2 x.den : ℤ) + 1)
            * 2 ^ (Nat.log2 x.den : ℤ) := by
            rw [← zpow_add₀ (by norm_num)]
            congr 1
            ring
        _ ≤ 2 ^ ((Nat.log2 x.num.natAbs : ℤ) - (Nat.log2 x.den : ℤ) + 1) * x.den :=
            mul_le_mul_of_nonneg_left hq1 (le_of_lt (F32.two_zpow_pos _))
    have hlo : (2 : ℚ) ^ ((Nat.log2 x.num.natAbs : ℤ) - (Nat.log2 x.den : ℤ) - 1) ≤ |x| := by
      rw [hxa, le_div_iff₀ hqpos]
      calc (2 : ℚ) ^ ((Nat.log2 x.num.natAbs : ℤ) - (Nat.log2 x.den : ℤ) - 1) * x.den
          ≤ 2 ^ ((Nat.log2 x.num.natAbs : ℤ) - (Nat.log2 x.den : ℤ) - 1)
            * 2 ^ ((Nat.log2 x.den : ℤ) + 1) :=
            mul_le_mul_of_nonneg_left (le_of_lt hq2) (le_of_lt (F32.two_zpow_pos _))
        _ = 2 ^ (Nat.log2 x.num.natAbs : ℤ) := by
            rw [← zpow_add₀ (by norm_num)]
            congr 1
            ring
        _ ≤ x.num.natAbs := hp1
    by_cases hd : (2 : ℚ) ^ ((Nat.log2 x.num.natAbs : ℤ) - (Nat.log2 x.den : ℤ)) ≤ |x|
    · rw [if_pos hd]
      have h1 := F32.le_log_of_le hxpos hd
      have h2 := F32.log_lt_of_lt hxpos hup
      omega
    · rw [if_neg hd]
      have h1 := F32.le_log_of_le hxpos hlo
      have h2 := F32.log_lt_of_lt hxpos (not_le.mp hd)
      omega

theorem F32.exponent_eq (x : ℚ) : F32.exponent x = max (Int.log 2 |x|) (-126) := by
  unfold F32.exponent
  rw [F32.log2_eq_log]

theorem F32.floor_le_rne (x : ℚ) : ⌊x⌋ ≤ F32.rne x := by
  unfold F32.rne
  split_ifs <;> omega

theorem F32.rne_le_floor_succ (x : ℚ) : F32.rne x ≤ ⌊x⌋ + 1 := by
  unfold F32.rne
  split_ifs <;> omega

theorem F32.rne_intCast (n : ℤ) : F32.rne (n : ℚ) = n := by
  unfold F32.rne
  simp

theorem F32.rne_mono {x y : ℚ} (h : x ≤ y) : F32.rne x ≤ F32.rne y := by
  have hf : ⌊x⌋ ≤ ⌊y⌋ := Int.floor_mono h
  rcases hf.lt_or_eq with hlt | heq
  · exact le_trans (F32.rne_le_floor_succ x) (le_trans (by omega) (F32.floor_le_rne y))
  · unfold F32.rne
    rw [heq]
    have hxy : x - (⌊y⌋ : ℚ) ≤ y - ⌊y⌋ := by linarith
    split_ifs <;> first | omega | (exfalso; linarith)

theorem F32.rne_neg (x : ℚ) : F32.rne (-x) = -F32.rne x := by
  by_cases hx : (⌊x⌋ : ℚ) = x
  · rw [← hx, ← Int.cast_neg, F32.rne_intCast, F32.rne_intCast]
  · have h1 : (⌊x⌋ : ℚ) < x := lt_of_le_of_ne (Int.floor_le x) hx
    have h2 : x < ⌊x⌋ + 1 := Int.lt_floor_add_one x
    have hfl : ⌊-x⌋ = -⌊x⌋ - 1 := by
      rw [Int.floor_eq_iff]
      push_cast
      constructor <;> linarith
    unfold F32.rne
    rw [hfl]
    push_cast
    split_ifs <;> first | omega | (exfalso; linarith)

theorem F32.rne_eq_of_near (x : ℚ) (n : ℤ) (h1 : (n : ℚ) - 1 / 2 < x) (h2 : x < n + 1 / 2) :
    F32.rne x = n := by
  have hlo : n - 1 ≤ ⌊x⌋ := by
    rw [Int.le_floor]
    push_cast
    linarith
  have hhi : ⌊x⌋ ≤ n := by
    have : ⌊x⌋ < n + 1 := by
      rw [Int.floor_lt]
      push_cast
      linarith
    omega
  have hl := Int.floor_le x
  have hr := Int.lt_floor_add_one x
  rcases hhi.lt_or_eq with hlt | heq
  · have hf : ⌊x⌋ = n - 1 := by omega
    unfold F32.rne
    rw [hf]
    rw [hf] at hl hr
    push_cast at hl hr ⊢
    split_ifs <;> first | omega | (exfalso; linarith)
  · unfold F32.rne
    rw [heq]
    rw [heq] at hl hr
    split_ifs <;> first | omega | (exfalso; linarith)

theorem F32.rne_tie_down (x : ℚ) (n : ℤ) (h : x = n + 1 / 2) (he : n % 2 = 0) :
    F32.rne x = n := by
  have hf : ⌊x⌋ = n := by
    rw [Int.floor_eq_iff]
    constructor <;> linarith
  unfold F32.rne
  rw [hf, h]
  split_ifs <;> first | omega | (exfalso; linarith)

theorem F32.rne_tie_up (x : ℚ) (n : ℤ) (h : x = n - 1 / 2) (he : n % 2 = 0) :
    F32.rne x = n := by
  have hf : ⌊x⌋ = n - 1 := by
    rw [Int.floor_eq_iff]
    push_cast
    constructor <;> linarith
  unfold F32.rne
  rw [hf, h]
  push_cast
  split_ifs <;> first | omega | (exfalso; linarith)


theorem F32.ulp_pos (x : ℚ) : 0 < F32.ulp x := F32.two_zpow_pos _

theorem F32.exponent_neg (x : ℚ) : F32.exponent (-x) = F32.exponent x := by
  rw [F32.exponent_eq, F32.exponent_eq, abs_neg]

theorem F32.ulp_neg (x : ℚ) : F32.ulp (-x) = F32.ulp x := by
  unfold F32.ulp
  rw [F32.exponent_neg]

theorem F32.roundNearest_neg (x : ℚ) : F32.roundNearest (-x) = -F32.roundNearest x := by
  unfold F32.roundNearest
  rw [F32.ulp_neg, neg_div, F32.rne_neg]
  push_cast
  ring

theorem F32.INF_pos : (0 : ℚ) < F32.INF := by
  unfold F32.INF
  positivity

theorem F32.round_neg (x : ℚ) : F32.round (-x) = -F32.round x := by
  unfold F32.round
  rw [F32.roundNearest_neg]
  have h := F32.INF_pos
  rcases le_total (F32.roundNearest x) F32.INF with h1 | h1 <;>
    rcases le_total (-F32.INF) (F32.roundNearest x) with h2 | h2
  · rw [min_eq_right h1, max_eq_right h2, min_eq_right (by linarith), max_eq_right (by linarith)]
  · rw [min_eq_right h1, max_eq_left h2, min_eq_left (by linarith), max_eq_right (by linarith),
      neg_neg]
  · rw [min_eq_right (by linarith), max_eq_left (by linarith), min_eq_left h1,
      max_eq_right (by linarith)]
  · exfalso
    linarith

theorem F32.exponent_of_bounds (x : ℚ) (E : ℤ) (hE : -126 ≤ E) (h1 : 2 ^ E ≤ |x|)
    (h2 : |x| < 2 ^ (E + 1)) : F32.exponent x = E := by
  have hx : 0 < |x| := lt_of_lt_of_le (F32.two_zpow_pos E) h1
  have ha := F32.log_lt_of_lt hx h2
  have hb := F32.le_log_of_le hx h1
  rw [F32.exponent_eq]
  rw [max_eq_left (by omega)]
  omega

theorem F32.exponent_of_small (x : ℚ) (hx : x ≠ 0) (h : |x| < 2 ^ (-126 : ℤ)) :
    F32.exponent x = -126 := by
  rw [F32.exponent_eq]
  have ha := F32.log_lt_of_lt (abs_pos.mpr hx) h
  rw [max_eq_right (by omega)]

theorem F32.abs_lt_exponent (x : ℚ) : |x| < 2 ^ (F32.exponent x + 1) := by
  have h := Int.lt_zpow_succ_log_self (R := ℚ) (b := 2) (by norm_num) |x|
  have h2 : ((2 : ℕ) : ℚ) = 2 := by norm_num
  rw [h2] at h
  refine lt_of_lt_of_le h ?_
  apply zpow_le_zpow_right₀ (by norm_num)
  rw [F32.exponent_eq]
  have := le_max_left (Int.log 2 |x|) (-126)
  omega

theorem F32.roundNearest_eq (x : ℚ) (E n : ℤ) (hexp : F32.exponent x = E)
    (hn : F32.rne (x / 2 ^ (E - 23)) = n) : F32.roundNearest x = n * 2 ^ (E - 23) := by
  unfold F32.roundNearest F32.ulp
  rw [hexp, hn]

theorem F32.round_of_abs_le (x : ℚ) (h : |F32.roundNearest x| ≤ F32.INF) :
    F32.round x = F32.roundNearest x := by
  unfold F32.round
  rw [abs_le] at h
  rw [min_eq_right h.2, max_eq_right h.1]


theorem F32.roundNearest_zero : F32.roundNearest 0 = 0 := by
  unfold F32.roundNearest
  rw [zero_div]
  have h : F32.rne 0 = 0 := by
    have := F32.rne_intCast 0
    simpa using this
  rw [h]
  simp

theorem F32.roundNearest_of_int_mul (x : ℚ) (n : ℤ) (h : x = n * F32.ulp x) :
    F32.roundNearest x = x := by
  unfold F32.roundNearest
  have hd : x / F32.ulp x = n := by
    rw [div_eq_iff (ne_of_gt (F32.ulp_pos x))]
    exact h
  rw [hd, F32.rne_intCast]
  exact h.symm

theorem F32.roundNearest_representable (m k : ℤ) (hm : |m| < 2 ^ 24) (hk : -149 ≤ k) :
    F32.roundNearest (m * 2 ^ k) = m * 2 ^ k := by
  by_cases h0 : m = 0
  · rw [h0]
    simp [F32.roundNearest_zero]
  · have hmq : |(m : ℚ)| < 2 ^ 24 := by
      rw [← Int.cast_abs]
      exact_mod_cast hm
    have hxpos : 0 < |(m : ℚ) * 2 ^ k| := by
      rw [abs_pos]
      exact mul_ne_zero (Int.cast_ne_zero.mpr h0) (ne_of_gt (F32.two_zpow_pos k))
    have hx : |(m : ℚ) * 2 ^ k| < 2 ^ (k + 24) := by
      rw [abs_mul, abs_of_pos (F32.two_zpow_pos k), zpow_add₀ (by norm_num), mul_comm]
      exact mul_lt_mul_of_pos_left (by exact_mod_cast hmq) (F32.two_zpow_pos k)
    have hE : F32.exponent ((m : ℚ) * 2 ^ k) ≤ k + 23 := by
      rw [F32.exponent_eq]
      have := F32.log_lt_of_lt hxpos hx
      exact max_le (by omega) (by omega)
    obtain ⟨j, hj⟩ := Int.eq_ofNat_of_zero_le
      (show 0 ≤ k - (F32.exponent ((m : ℚ) * 2 ^ k) - 23) by omega)
    apply F32.roundNearest_of_int_mul _ (m * 2 ^ j)
    unfold F32.ulp
    have hk2 : k = (j : ℤ) + (F32.exponent ((m : ℚ) * 2 ^ k) - 23) := by omega
    push_cast
    rw [mul_assoc, ← zpow_natCast, ← zpow_add₀ (by norm_num), ← hk2]

theorem F32.roundNearest_nonneg {x : ℚ} (hx : 0 ≤ x) : 0 ≤ F32.roundNearest x := by
  unfold F32.roundNearest
  have h : F32.rne 0 ≤ F32.rne (x / F32.ulp x) :=
    F32.rne_mono (div_nonneg hx (le_of_lt (F32.ulp_pos x)))
  have h0 : F32.rne 0 = 0 := by
    have := F32.rne_intCast 0
    simpa using this
  rw [h0] at h
  exact mul_nonneg (by exact_mod_cast h) (le_of_lt (F32.ulp_pos x))

theorem F32.roundNearest_le_pow (x : ℚ) :
    F32.roundNearest x ≤ 2 ^ (F32.exponent x + 1) := by
  have h1 : x / F32.ulp x ≤ ((2 ^ 24 : ℤ) : ℚ) := by
    rw [div_le_iff₀ (F32.ulp_pos x)]
    unfold F32.ulp
    push_cast
    have h2 : (2 : ℚ) ^ 24 * 2 ^ (F32.exponent x - 23) = 2 ^ (F32.exponent x + 1) := by
      rw [← zpow_natCast, ← zpow_add₀ (by norm_num)]
      congr 1
      push_cast
      ring
    have h2n : (16777216 : ℚ) * 2 ^ (F32.exponent x - 23) = 2 ^ (F32.exponent x + 1) := by
      rw [← h2]
      norm_num
    rw [h2n]
    exact le_of_lt (lt_of_le_of_lt (le_abs_self x) (F32.abs_lt_exponent x))
  have h3 := F32.rne_mono h1
  rw [F32.rne_intCast] at h3
  unfold F32.roundNearest
  have h4 : ((F32.rne (x / F32.ulp x) : ℤ) : ℚ) ≤ 2 ^ 24 := by exact_mod_cast h3
  calc (F32.rne (x / F32.ulp x) : ℚ) * F32.ulp x ≤ 2 ^ 24 * F32.ulp x :=
        mul_le_mul_of_nonneg_right h4 (le_of_lt (F32.ulp_pos x))
    _ = 2 ^ (F32.exponent x + 1) := by
        unfold F32.ulp
        rw [← zpow_natCast, ← zpow_add₀ (by norm_num)]
        congr 1
        push_cast
        ring

theorem F32.pow_le_roundNearest (y : ℚ) (hy : 0 < y) (hE : -126 < F32.exponent y) :
    2 ^ F32.exponent y ≤ F32.roundNearest y := by
  have hlog : F32.exponent y = Int.log 2 |y| := by
    rw [F32.exponent_eq] at hE ⊢
    rcases le_total (Int.log 2 |y|) (-126) with h | h
    · rw [max_eq_right h] at hE
      omega
    · rw [max_eq_left h]
  have hle : (2 : ℚ) ^ F32.exponent y ≤ y := by
    rw [hlog, abs_of_pos hy]
    have := Int.zpow_log_le_self (R := ℚ) (b := 2) (by norm_num) hy
    simpa using this
  have h1 : ((2 ^ 23 : ℤ) : ℚ) ≤ y / F32.ulp y := by
    rw [le_div_iff₀ (F32.ulp_pos y)]
    unfold F32.ulp
    push_cast
    have h2 : (2 : ℚ) ^ 23 * 2 ^ (F32.exponent y - 23) = 2 ^ F32.exponent y := by
      rw [← zpow_natCast, ← zpow_add₀ (by norm_num)]
      congr 1
      push_cast
      ring
    have h2n : (8388608 : ℚ) * 2 ^ (F32.exponent y - 23) = 2 ^ F32.exponent y := by
      rw [← h2]
      norm_num
    rw [h2n]
    exact hle
  have h3 := F32.rne_mono h1
  rw [F32.rne_intCast] at h3
  unfold F32.roundNearest
  have h4 : (2 : ℚ) ^ 23 ≤ ((F32.rne (y / F32.ulp y) : ℤ) : ℚ) := by exact_mod_cast h3
  calc (2 : ℚ) ^ F32.exponent y = 2 ^ 23 * F32.ulp y := by
        unfold F32.ulp
        rw [← zpow_natCast, ← zpow_add₀ (by norm_num)]
        congr 1
        push_cast
        ring
    _ ≤ (F32.rne (y / F32.ulp y) : ℚ) * F32.ulp y :=
        mul_le_mul_of_nonneg_right h4 (le_of_lt (F32.ulp_pos y))

theorem F32.exponent_mono {x y : ℚ} (hx : 0 < x) (h : x ≤ y) :
    F32.exponent x ≤ F32.exponent y := by
  rw [F32.exponent_eq, F32.exponent_eq]
  rw [abs_of_pos hx, abs_of_pos (lt_of_lt_of_le hx h)]
  exact max_le_max (Int.log_mono_right hx h) le_rfl

theorem F32.exponent_ge (x : ℚ) : -126 ≤ F32.exponent x := le_max_right _ _

theorem F32.roundNearest_mono_pos {x y : ℚ} (hx : 0 < x) (h : x ≤ y) :
    F32.roundNearest x ≤ F32.roundNearest y := by
  rcases (F32.exponent_mono hx h).lt_or_eq with hlt | heq
  · have h1 := F32.roundNearest_le_pow x
    have h2 := F32.pow_le_roundNearest y (lt_of_lt_of_le hx h)
      (lt_of_le_of_lt (F32.exponent_ge x) hlt)
    have h3 : (2 : ℚ) ^ (F32.exponent x + 1) ≤ 2 ^ F32.exponent y :=
      zpow_le_zpow_right₀ (by norm_num) (by omega)
    linarith
  · unfold F32.roundNearest F32.ulp
    rw [heq]
    have hu : (0 : ℚ) < 2 ^ (F32.exponent y - 23) := F32.two_zpow_pos _
    have h1 := F32.rne_mono (div_le_div_of_nonneg_right h (le_of_lt hu))
    exact mul_le_mul_of_nonneg_right (by exact_mod_cast h1) (le_of_lt hu)

theorem F32.roundNearest_mono {x y : ℚ} (h : x ≤ y) :
    F32.roundNearest x ≤ F32.roundNearest y := by
  rcases lt_trichotomy 0 x with hx | hx | hx
  · exact F32.roundNearest_mono_pos hx h
  · rw [← hx, F32.roundNearest_zero]
    exact F32.roundNearest_nonneg (by rw [← hx] at h; exact h)
  · have hxn : F32.roundNearest x ≤ 0 := by
      have := F32.roundNearest_nonneg (show 0 ≤ -x by linarith)
      rw [F32.roundNearest_neg] at this
      linarith
    rcases le_or_lt 0 y with hy | hy
    · exact le_trans hxn (F32.roundNearest_nonneg hy)
    · have := F32.roundNearest_mono_pos (show 0 < -y by linarith) (show -y ≤ -x by linarith)
      rw [F32.roundNearest_neg, F32.roundNearest_neg] at this
      linarith

theorem F32.round_mono {x y : ℚ} (h : x ≤ y) : F32.round x ≤ F32.round y := by
  unfold F32.round
  exact max_le_max le_rfl (min_le_min le_rfl (F32.roundNearest_mono h))

theorem F32.round_representable (m k : ℤ) (hm : |m| < 2 ^ 24) (hk : -149 ≤ k)
    (hk2 : k ≤ 104) : F32.round (m * 2 ^ k) = m * 2 ^ k := by
  rw [F32.round_of_abs_le, F32.roundNearest_representable m k hm hk]
  rw [F32.roundNearest_representable m k hm hk]
  have hmq : |(m : ℚ)| ≤ 2 ^ 24 := by
    rw [← Int.cast_abs]
    exact_mod_cast le_of_lt hm
  rw [abs_mul, abs_of_pos (F32.two_zpow_pos k)]
  unfold F32.INF
  calc |(m : ℚ)| * 2 ^ k ≤ 2 ^ 24 * 2 ^ (104 : ℤ) :=
        mul_le_mul hmq (zpow_le_zpow_right₀ (by norm_num) hk2) (le_of_lt (F32.two_zpow_pos k))
          (by norm_num)
    _ = 2 ^ 128 := by norm_num


theorem F32.round_eval (x : ℚ) (E n : ℤ) (hE : -126 ≤ E) (hE2 : E ≤ 127) (h1 : 2 ^ E ≤ x)
    (h2 : x < 2 ^ (E + 1)) (hn : F32.rne (x / 2 ^ (E - 23)) = n) (hb : |n| ≤ 2 ^ 24) :
    F32.round x = n * 2 ^ (E - 23) := by
  have hx : 0 < x := lt_of_lt_of_le (F32.two_zpow_pos E) h1
  have hexp : F32.exponent x = E :=
    F32.exponent_of_bounds x E hE (by rw [abs_of_pos hx]; exact h1)
      (by rw [abs_of_pos hx]; exact h2)
  have hr := F32.roundNearest_eq x E n hexp hn
  rw [F32.round_of_abs_le, hr]
  rw [hr, abs_mul, abs_of_pos (F32.two_zpow_pos _)]
  have hnq : |(n : ℚ)| ≤ 2 ^ 24 := by
    rw [← Int.cast_abs]
    exact_mod_cast hb
  unfold F32.INF
  calc |(n : ℚ)| * 2 ^ (E - 23) ≤ 2 ^ 24 * 2 ^ (104 : ℤ) :=
        mul_le_mul hnq (zpow_le_zpow_right₀ (by norm_num) (by omega))
          (le_of_lt (F32.two_zpow_pos _)) (by norm_num)
    _ = 2 ^ 128 := by norm_num

theorem F32.round_intCast (n : ℤ) (h : |n| < 2 ^ 24) : F32.round (n : ℚ) = n := by
  have := F32.round_representable n 0 h (by norm_num) (by norm_num)
  simpa using this

theorem F32.round_natCast (n : ℕ) (h : n < 2 ^ 24) : F32.round (n : ℚ) = n := by
  have := F32.round_intCast (n : ℤ) (by rw [Int.abs_natCast]; exact_mod_cast h)
  simpa using this

theorem F32.round_zero : F32.round 0 = 0 := by
  have := F32.round_natCast 0 (by norm_num)
  simpa using this

theorem F32.round_one : F32.round 1 = 1 := by
  have := F32.round_natCast 1 (by norm_num)
  simpa using this

theorem F32.round_ofNat (n : ℕ) [n.AtLeastTwo] (h : n < 16777216) :
    F32.round (no_index (OfNat.ofNat n)) = OfNat.ofNat n := by
  have := F32.round_natCast n (by norm_num; exact h)
  simpa using this

/-- The `float` literal `1.e-4f`. -/
theorem F32.round_KINDA_SMALL_NUMBER :
    F32.round KINDA_SMALL_NUMBER = 13743895 / 137438953472 := by
  have h := F32.round_eval KINDA_SMALL_NUMBER (-14) 13743895 (by norm_num) (by norm_num)
    (by norm_num [KINDA_SMALL_NUMBER]) (by norm_num [KINDA_SMALL_NUMBER])
    (F32.rne_eq_of_near _ _ (by norm_num [KINDA_SMALL_NUMBER])
      (by norm_num [KINDA_SMALL_NUMBER])) (by norm_num)
  rw [h]
  norm_num

theorem F32.round_kinda_small_value :
    F32.round (13743895 / 137438953472) = 13743895 / 137438953472 := by
  have h := F32.round_representable 13743895 (-37) (by norm_num) (by norm_num) (by norm_num)
  have e : ((13743895 : ℤ) : ℚ) * 2 ^ (-37 : ℤ) = 13743895 / 137438953472 := by norm_num
  rw [e] at h
  exact h

theorem RevertMove_Location (sc : ScopedMovementUpdate) (c : Comp) :
    (sc.RevertMove c).Location = sc.InitialLocation := rfl

theorem RevertMove_Rotation (sc : ScopedMovementUpdate) (c : Comp) :
    (sc.RevertMove c).Rotation = sc.InitialRotation := rfl

theorem StepUp_down_reject (env : Engine) (sc : ScopedMovementUpdate)
    (edgeTest : Comp → FVector → FVector → ℚ → Bool) (GravDir Delta : FVector)
    (a b d e : ℚ) (OldLocation : FVector) (out : Bool) (Hit : FHitResult) (c : Comp)
    (h : (StepUp_down env sc edgeTest GravDir Delta a b d e OldLocation out Hit c).1 = false) :
    ∃ c1, (StepUp_down env sc edgeTest GravDir Delta a b d e OldLocation out Hit c).2.2
      = sc.RevertMove c1 := by
  unfold StepUp_down at h ⊢
  simp only at h ⊢
  split
  · exact ⟨_, rfl⟩
  · split
    · exact ⟨_, rfl⟩
    · rename_i h1 _ _ h2
      rw [if_neg h1] at h
      simp only [h2] at h
      simp at h

theorem StepUp_forward_reject (env : Engine) (sc : ScopedMovementUpdate) (Delta : FVector)
    (SweepUpHit Hit : FHitResult) (c c3 : Comp)
    (h : StepUp_forward env sc Delta SweepUpHit Hit c = StepOutcome.done false c3) :
    ∃ c1, c3 = sc.RevertMove c1 := by
  unfold StepUp_forward at h
  simp only at h
  split_ifs at h <;> first
    | exact ⟨_, (StepOutcome.done.inj h).2.symm⟩
    | simp at h

theorem VRClimbStepUp_forward_reject (env : Engine) (sc : ScopedMovementUpdate)
    (SweepUpHit Hit : FHitResult) (c c3 : Comp)
    (h : VRClimbStepUp_forward env sc SweepUpHit Hit c = StepOutcome.done false c3) :
    ∃ c1, c3 = sc.RevertMove c1 := by
  unfold VRClimbStepUp_forward at h
  simp only at h
  split_ifs at h <;> first
    | exact ⟨_, (StepOutcome.done.inj h).2.symm⟩
    | simp at h

theorem StepUp_reject_cases (env : Engine) (GravDir Delta : FVector) (InHit : FHitResult)
    (out : Bool) (c : Comp) (h : (StepUp env GravDir Delta InHit out c).1 = false) :
    (StepUp env GravDir Delta InHit out c).2.2 = c
      ∨ ∃ c1, (StepUp env GravDir Delta InHit out c).2.2
          = (ScopedMovementUpdate.start c).RevertMove c1 := by
  unfold StepUp at h ⊢
  simp only at h ⊢
  split_ifs at h ⊢
  · exact Or.inl rfl
  · exact Or.inl rfl
  · exact Or.inl rfl
  · exact Or.inl rfl
  · exact Or.inr ⟨_, rfl⟩
  · right
    generalize hf : StepUp_forward env _ Delta _ _ _ = o at h ⊢
    cases o with
    | done r c3 =>
      simp only at h ⊢
      subst h
      exact StepUp_forward_reject _ _ _ _ _ _ _ hf
    | goOn Hit c3 => exact StepUp_down_reject _ _ _ _ _ _ _ _ _ _ _ _ _ h

theorem VRClimbStepUp_reject_cases (env : Engine) (GravDir Delta : FVector) (InHit : FHitResult)
    (out : Bool) (c : Comp) (h : (VRClimbStepUp env GravDir Delta InHit out c).1 = false) :
    (VRClimbStepUp env GravDir Delta InHit out c).2.2 = c
      ∨ ∃ c1, (VRClimbStepUp env GravDir Delta InHit out c).2.2
          = (ScopedMovementUpdate.start c).RevertMove c1 := by
  unfold VRClimbStepUp at h ⊢
  simp only at h ⊢
  split_ifs at h ⊢
  · exact Or.inl rfl
  · exact Or.inl rfl
  · exact Or.inl rfl
  · exact Or.inl rfl
  · exact Or.inr ⟨_, rfl⟩
  · right
    generalize hf : VRClimbStepUp_forward env _ _ _ _ = o at h ⊢
    cases o with
    | done r c3 =>
      simp only at h ⊢
      subst h
      exact VRClimbStepUp_forward_reject _ _ _ _ _ _ hf
    | goOn Hit c3 => exact StepUp_down_reject _ _ _ _ _ _ _ _ _ _ _ _ _ h

/-- C1. A call of `StepUp` or `VRClimbStepUp` that returns false leaves the updated
component's transform (location and rotation) as it was before the call: the final
state is either the untouched initial state (rejections before the scoped update) or
the result of `RevertMove` on the scope opened at the start (every later rejection). -/
theorem StepUp_rejected_keeps_transform (env : Engine) (GravDir Delta : FVector)
    (InHit : FHitResult) (out : Bool) (c : Comp) :
    ((StepUp env GravDir Delta InHit out c).1 = false →
      ((StepUp env GravDir Delta InHit out c).2.2 = c
        ∨ ∃ c1, (StepUp env GravDir Delta InHit out c).2.2
            = (ScopedMovementUpdate.start c).RevertMove c1)
      ∧ (StepUp env GravDir Delta InHit out c).2.2.Location = c.Location
      ∧ (StepUp env GravDir Delta InHit out c).2.2.Rotation = c.Rotation)
    ∧ ((VRClimbStepUp env GravDir Delta InHit out c).1 = false →
      ((VRClimbStepUp env GravDir Delta InHit out c).2.2 = c
        ∨ ∃ c1, (VRClimbStepUp env GravDir Delta InHit out c).2.2
            = (ScopedMovementUpdate.start c).RevertMove c1)
      ∧ (VRClimbStepUp env GravDir Delta InHit out c).2.2.Location = c.Location
      ∧ (VRClimbStepUp env GravDir Delta InHit out c).2.2.Rotation = c.Rotation) := by
  constructor
  · intro h
    have hc := StepUp_reject_cases env GravDir Delta InHit out c h
    refine ⟨hc, ?_, ?_⟩
    · rcases hc with hc | ⟨c1, hc⟩
      · rw [hc]
      · rw [hc]; rfl
    · rcases hc with hc | ⟨c1, hc⟩
      · rw [hc]
      · rw [hc]; rfl
  · intro h
    have hc := VRClimbStepUp_reject_cases env GravDir Delta InHit out c h
    refine ⟨hc, ?_, ?_⟩
    · rcases hc with hc | ⟨c1, hc⟩
      · rw [hc]
      · rw [hc]; rfl
    · rcases hc with hc | ⟨c1, hc⟩
      · rw [hc]
      · rw [hc]; rfl

theorem StepUp_penetrating_rejects :
    (StepUp penetratingWorld ⟨0, 0, -1⟩ ⟨10, 0, 0⟩ { ImpactPoint := ⟨20, 0, -80⟩ } true
      standingComp).1 = false := by
  norm_num [StepUp, penetratingWorld, standingComp, StepUp_OldLocation,
    Comp.GetScaledCapsuleRadius, Comp.GetScaledCapsuleHalfHeight, FVector.IsZero]

theorem VRClimbStepUp_penetrating_rejects :
    (VRClimbStepUp penetratingWorld ⟨0, 0, -1⟩ ⟨10, 0, 0⟩ { ImpactPoint := ⟨20, 0, -80⟩ } true
      standingComp).1 = false := by
  norm_num [VRClimbStepUp, penetratingWorld, standingComp, StepUp_OldLocation,
    Comp.GetScaledCapsuleRadius, Comp.GetScaledCapsuleHalfHeight, FVector.IsZero]

/-- Witness for C1: in a world where the upward sweep moves the capsule and starts in
penetration, both step-ups reject and the location is the one before the call. -/
theorem StepUp_rejected_keeps_transform_witness :
    ((StepUp penetratingWorld ⟨0, 0, -1⟩ ⟨10, 0, 0⟩ { ImpactPoint := ⟨20, 0, -80⟩ } true
        standingComp).1 = false
      ∧ (StepUp penetratingWorld ⟨0, 0, -1⟩ ⟨10, 0, 0⟩ { ImpactPoint := ⟨20, 0, -80⟩ } true
        standingComp).2.2.Location = standingComp.Location)
    ∧ ((VRClimbStepUp penetratingWorld ⟨0, 0, -1⟩ ⟨10, 0, 0⟩ { ImpactPoint := ⟨20, 0, -80⟩ } true
        standingComp).1 = false
      ∧ (VRClimbStepUp penetratingWorld ⟨0, 0, -1⟩ ⟨10, 0, 0⟩ { ImpactPoint := ⟨20, 0, -80⟩ }
        true standingComp).2.2.Location = standingComp.Location) :=
  ⟨⟨StepUp_penetrating_rejects,
      ((StepUp_rejected_keeps_transform penetratingWorld ⟨0, 0, -1⟩ ⟨10, 0, 0⟩
        { ImpactPoint := ⟨20, 0, -80⟩ } true standingComp).1 StepUp_penetrating_rejects).2.1⟩,
    ⟨VRClimbStepUp_penetrating_rejects,
      ((StepUp_rejected_keeps_transform penetratingWorld ⟨0, 0, -1⟩ ⟨10, 0, 0⟩
        { ImpactPoint := ⟨20, 0, -80⟩ } true standingComp).2
          VRClimbStepUp_penetrating_rejects).2.1⟩⟩

/-! ## Server move handlers -/

theorem Sim.eta (s : Sim) : ({ comp := s.comp, log := s.log } : Sim) = s := rfl

theorem ServerMoveVR_prepare_log (env : Engine) (DeltaTime : ℚ) (PC : Bool) (CapsuleLoc : FVector)
    (ConditionalReps : FVRConditionalMoveRep) (LFDiff : FVector) (CapsuleYaw : Nat) (s : Sim) :
    (ServerMoveVR_prepare env DeltaTime PC CapsuleLoc ConditionalReps LFDiff CapsuleYaw s).log
      = s.log ++ (if PC then [Call.UpdateRotation DeltaTime] else []) := by
  unfold ServerMoveVR_prepare
  cases PC <;> simp [Sim.call]

/-- The events a single-move handler appends to the trace. -/
theorem ServerMoveVR_log_append (env : Engine) (TimeStamp : ℚ)
    (InAccel ClientLoc CapsuleLoc : FVector) (ConditionalReps : FVRConditionalMoveRep)
    (LFDiff : FVector) (CapsuleYaw MoveFlags : Nat) (MoveReps : FVRConditionalMoveRep2)
    (ClientMovementMode : Nat) (s : Sim) :
    ∃ l, (ServerMoveVR_Implementation env TimeStamp InAccel ClientLoc CapsuleLoc ConditionalReps
      LFDiff CapsuleYaw MoveFlags MoveReps ClientMovementMode s).log = s.log ++ l := by
  unfold ServerMoveVR_Implementation
  simp only
  split_ifs <;> (try simp only [Sim.call, ServerMoveVR_prepare_log, List.append_assoc]) <;>
    first
    | exact ⟨_, rfl⟩
    | exact ⟨[], (List.append_nil _).symm⟩

/-- C2. When `VerifyClientTimeStamp` rejects the time stamp, `ServerMoveVR_Implementation`
returns without a mutation of its own: no call is made (so neither `MoveAutonomous` nor
`ServerMoveHandleClientError`), and the component is the one `VerifyClientTimeStamp`
left; when that check leaves the component alone, as a rejection does, the whole state
(time stamps, control rotation, requested velocity, VR inputs and capsule fields) is
the state before the call. -/
theorem ServerMoveVR_rejected_no_mutation (env : Engine) (TimeStamp : ℚ)
    (InAccel ClientLoc CapsuleLoc : FVector) (ConditionalReps : FVRConditionalMoveRep)
    (LFDiff : FVector) (CapsuleYaw MoveFlags : Nat) (MoveReps : FVRConditionalMoveRep2)
    (ClientMovementMode : Nat) (s : Sim)
    (h : (env.VerifyClientTimeStamp TimeStamp s.comp).1 = false) :
    (ServerMoveVR_Implementation env TimeStamp InAccel ClientLoc CapsuleLoc ConditionalReps
        LFDiff CapsuleYaw MoveFlags MoveReps ClientMovementMode s).log = s.log
    ∧ ((ServerMoveVR_Implementation env TimeStamp InAccel ClientLoc CapsuleLoc ConditionalReps
          LFDiff CapsuleYaw MoveFlags MoveReps ClientMovementMode s).comp = s.comp
      ∨ (ServerMoveVR_Implementation env TimeStamp InAccel ClientLoc CapsuleLoc ConditionalReps
          LFDiff CapsuleYaw MoveFlags MoveReps ClientMovementMode s).comp
        = (env.VerifyClientTimeStamp TimeStamp s.comp).2)
    ∧ ((env.VerifyClientTimeStamp TimeStamp s.comp).2 = s.comp →
        ServerMoveVR_Implementation env TimeStamp InAccel ClientLoc CapsuleLoc ConditionalReps
          LFDiff CapsuleYaw MoveFlags MoveReps ClientMovementMode s = s) := by
  unfold ServerMoveVR_Implementation
  by_cases hv : (!env.HasValidData s.comp || !env.IsComponentTickEnabled s.comp) = true
  · rw [if_pos hv]
    exact ⟨rfl, Or.inl rfl, fun _ => rfl⟩
  · rw [if_neg hv]
    simp only [h, Bool.not_false, ↓reduceIte, or_true, true_and]
    intro hp
    rw [hp]

/-- Witness for C2: a move stamped 3 arrives after the move stamped 5 was accepted. -/
theorem ServerMoveVR_rejected_no_mutation_witness :
    (monotoneServer.VerifyClientTimeStamp 3 serverComp).1 = false
    ∧ ServerMoveVR_Implementation monotoneServer 3 ⟨100, 0, 0⟩ ⟨7, 8, 9⟩ ⟨1, 1, 1⟩
        { RequestedVelocity := ⟨5, 0, 0⟩ } ⟨2, 2, 40⟩ 100 1 {} 1 { comp := serverComp }
      = { comp := serverComp } :=
  have h : (monotoneServer.VerifyClientTimeStamp 3 serverComp).1 = false := by
    norm_num [monotoneServer, serverComp]
  ⟨h, (ServerMoveVR_rejected_no_mutation monotoneServer 3 ⟨100, 0, 0⟩ ⟨7, 8, 9⟩ ⟨1, 1, 1⟩
    { RequestedVelocity := ⟨5, 0, 0⟩ } ⟨2, 2, 40⟩ 100 1 {} 1 { comp := serverComp } h).2.2 rfl⟩

/-! ## Crouch and UnCrouch -/

theorem SetCapsuleSize_restore (c : Comp) (r h r1 h1 : ℚ) (hr : 0 ≤ r) (hrh : r ≤ h) :
    ((c.SetCapsuleSize r1 h1).SetCapsuleSize r h).CapsuleHalfHeight = h
    ∧ ((c.SetCapsuleSize r1 h1).SetCapsuleSize r h).CapsuleRadius = r
    ∧ ((c.SetCapsuleSize r1 h1).SetCapsuleSize r h).bIsCrouched = c.bIsCrouched := by
  simp only [Comp.SetCapsuleSize]
  refine ⟨?_, ?_, trivial⟩
  · rw [max_eq_left hrh, max_eq_right (le_trans hr hrh)]
  · exact max_eq_right hr

theorem UnCrouch_encroached_keeps (env : Engine) (c : Comp)
    (h : (UnCrouch_encroached env c).1 = true) : (UnCrouch_encroached env c).2 = c := by
  unfold UnCrouch_encroached at h ⊢
  simp only at h ⊢
  split_ifs at h ⊢ <;> rfl

theorem Crouch_cancelled (env : Engine) (c : Comp)
    (hr : 0 ≤ c.CapsuleRadius) (hrh : c.CapsuleRadius ≤ c.CapsuleHalfHeight)
    (h : (Crouch env false c).1 = some true) :
    (Crouch env false c).2.CapsuleHalfHeight = c.CapsuleHalfHeight
    ∧ (Crouch env false c).2.CapsuleRadius = c.CapsuleRadius
    ∧ (Crouch env false c).2.bIsCrouched = c.bIsCrouched := by
  unfold Crouch at h ⊢
  simp only [Crouch_restoreProxy, Bool.false_and, Bool.not_false, Bool.false_eq_true,
    ↓reduceIte] at h ⊢
  split_ifs at h ⊢ <;> first
    | exact SetCapsuleSize_restore c _ _ _ _ hr hrh
    | simp at h

theorem UnCrouch_aborted (env : Engine) (c : Comp)
    (h : (UnCrouch env false c).1 = some true) : (UnCrouch env false c).2 = c := by
  unfold UnCrouch at h ⊢
  simp only [Bool.not_false, ↓reduceIte] at h ⊢
  split_ifs at h ⊢ <;> first
    | exact UnCrouch_encroached_keeps env c (by assumption)
    | simp at h

/-- C3, as the code has it. In a non-client-simulation call of `Crouch` or `UnCrouch`
whose encroachment test ends with a blocking overlap (for `UnCrouch`: `bEncroached` is
still true at the abort check of line 293, after the retry at an adjusted location), the
capsule's unscaled half height and radius and the owner's `bIsCrouched` are what they
were before the call (`UnCrouch` changes nothing at all). The capsule is a valid one: its
radius is not negative and not above its half height, as `SetCapsuleSize` keeps it. -/
theorem Crouch_UnCrouch_atomic (env : Engine) (c : Comp)
    (hr : 0 ≤ c.CapsuleRadius) (hrh : c.CapsuleRadius ≤ c.CapsuleHalfHeight) :
    ((Crouch env false c).1 = some true →
      (Crouch env false c).2.CapsuleHalfHeight = c.CapsuleHalfHeight
      ∧ (Crouch env false c).2.CapsuleRadius = c.CapsuleRadius
      ∧ (Crouch env false c).2.bIsCrouched = c.bIsCrouched)
    ∧ ((UnCrouch env false c).1 = some true →
      (UnCrouch env false c).2 = c
      ∧ (UnCrouch env false c).2.CapsuleHalfHeight = c.CapsuleHalfHeight
      ∧ (UnCrouch env false c).2.CapsuleRadius = c.CapsuleRadius
      ∧ (UnCrouch env false c).2.bIsCrouched = c.bIsCrouched) := by
  refine ⟨Crouch_cancelled env c hr hrh, fun h => ?_⟩
  have hu := UnCrouch_aborted env c h
  exact ⟨hu, by rw [hu], by rw [hu], by rw [hu]⟩

theorem Crouch_cramped_cancels : (Crouch crampedWorld false tallCrouchComp).1 = some true := by
  norm_num [Crouch, Crouch_restoreProxy, crampedWorld, tallCrouchComp, Comp.SetCapsuleSize]

theorem UnCrouch_cramped_aborts : (UnCrouch crampedWorld false crouchedComp).1 = some true := by
  norm_num [UnCrouch, UnCrouch_encroached, crampedWorld, crouchedComp, KINDA_SMALL_NUMBER,
    Comp.GetScaledCapsuleRadius, Comp.GetScaledCapsuleHalfHeight]

/-- Witness for C3: in a cramped world a crouch to a taller capsule is cancelled with
half height 90 kept, and an uncrouch from half height 40 is aborted with 40 kept. -/
theorem Crouch_UnCrouch_atomic_witness :
    ((Crouch crampedWorld false tallCrouchComp).1 = some true
      ∧ (Crouch crampedWorld false tallCrouchComp).2.CapsuleHalfHeight = 90)
    ∧ ((UnCrouch crampedWorld false crouchedComp).1 = some true
      ∧ (UnCrouch crampedWorld false crouchedComp).2.CapsuleHalfHeight = 40) :=
  ⟨⟨Crouch_cramped_cancels,
      ((Crouch_UnCrouch_atomic crampedWorld tallCrouchComp (by norm_num [tallCrouchComp])
        (by norm_num [tallCrouchComp])).1 Crouch_cramped_cancels).1⟩,
    ⟨UnCrouch_cramped_aborts,
      ((Crouch_UnCrouch_atomic crampedWorld crouchedComp (by norm_num [crouchedComp])
        (by norm_num [crouchedComp])).2 UnCrouch_cramped_aborts).2.1⟩⟩

/-! ## CallServerMove and the light and dual handlers -/

theorem FVector.IsZero_iff (a : FVector) : a.IsZero = true ↔ a = FVector.ZeroVector := by
  cases a with
  | mk x y z =>
    simp [FVector.IsZero, FVector.ZeroVector, and_assoc]

theorem CallServerMove_rpc_variant (env : Engine) (c : Comp) (NewMove : SavedMove) :
    (CallServerMove_rpc env c NewMove).newMoveVariant
      = some (specVariant c.Client.PendingMove NewMove) := by
  unfold CallServerMove_rpc specVariant
  cases hp : c.Client.PendingMove with
  | none =>
    simp only
    by_cases hz : NewMove.Acceleration.IsZero = true
    · rw [if_pos hz, if_pos ((FVector.IsZero_iff _).1 hz)]; rfl
    · rw [if_neg hz, if_neg (fun h => hz ((FVector.IsZero_iff _).2 h))]; rfl
  | some Pending =>
    simp only
    by_cases hh : Pending.RootMotionMontage = none ∧ NewMove.RootMotionMontage ≠ none
    · rw [if_pos hh, if_pos hh]; rfl
    · rw [if_neg hh, if_neg hh]
      by_cases hz : Pending.Acceleration = FVector.ZeroVector
          ∧ NewMove.Acceleration = FVector.ZeroVector
      · rw [if_pos hz, if_pos (by
          simp [(FVector.IsZero_iff _).2 hz.1, (FVector.IsZero_iff _).2 hz.2])]
        rfl
      · rw [if_neg hz, if_neg (by
          intro h
          rw [Bool.and_eq_true] at h
          exact hz ⟨(FVector.IsZero_iff _).1 h.1, (FVector.IsZero_iff _).1 h.2⟩)]
        rfl

theorem newMoveVariant_ServerMoveOld (t : ℚ) (a : FVector) (f : Nat) :
    (Call.ServerMoveOld t a f).newMoveVariant = none := rfl

/-- C8. Every `CallServerMove` call issues exactly one new-move RPC (after the optional
`ServerMoveOld`), and its variant is the one of the selection table: light or full
without a pending move, hybrid, light dual or dual with one. -/
theorem CallServerMove_one_rpc (env : Engine) (NewMove : SavedMove) (OldMove : Option SavedMove)
    (s : Sim) :
    ∃ l, (CallServerMove env NewMove OldMove s).log = s.log ++ l
      ∧ l.filterMap Call.newMoveVariant = [specVariant s.comp.Client.PendingMove NewMove]
      ∧ (l.filter fun ev => (ev.newMoveVariant).isSome).length = 1 := by
  unfold CallServerMove
  cases OldMove with
  | none =>
    refine ⟨[CallServerMove_rpc env s.comp NewMove], ?_, ?_, ?_⟩
    · simp only [Sim.call, id]; split_ifs <;> rfl
    · simp [List.filterMap_cons, CallServerMove_rpc_variant]
    · simp [List.filter_cons, CallServerMove_rpc_variant]
  | some Old =>
    refine ⟨[Call.ServerMoveOld Old.TimeStamp Old.Acceleration (env.GetCompressedFlags Old),
      CallServerMove_rpc env s.comp NewMove], ?_, ?_, ?_⟩
    · simp only [Sim.call, id]; split_ifs <;> simp
    · simp [List.filterMap_cons, CallServerMove_rpc_variant, newMoveVariant_ServerMoveOld]
    · simp [List.filter_cons, CallServerMove_rpc_variant, newMoveVariant_ServerMoveOld]

/-- C9. The light handlers are the full handlers with zero acceleration, for all
arguments; so for accelerations that are exactly zero (the only case in which the client
picks a light variant) the light handler does what the full handler does with the
client's accelerations. -/
theorem light_handlers_equal_full (env : Engine) (a0 a : FVector)
    (h0 : a0.IsZero = true) (h : a.IsZero = true)
    (TimeStamp0 : ℚ) (PendingFlags View0 : Nat) (OldCapsuleLoc : FVector)
    (OldConditionalReps : FVRConditionalMoveRep) (OldLFDiff : FVector) (OldCapsuleYaw : Nat)
    (TimeStamp : ℚ) (ClientLoc CapsuleLoc : FVector)
    (ConditionalReps : FVRConditionalMoveRep) (LFDiff : FVector) (CapsuleYaw NewFlags : Nat)
    (MoveReps : FVRConditionalMoveRep2) (ClientMovementMode : Nat) (s : Sim) :
    ServerMoveVRExLight_Implementation env TimeStamp ClientLoc CapsuleLoc ConditionalReps LFDiff
        CapsuleYaw NewFlags MoveReps ClientMovementMode s
      = ServerMoveVR_Implementation env TimeStamp FVector.ZeroVector ClientLoc CapsuleLoc
          ConditionalReps LFDiff CapsuleYaw NewFlags MoveReps ClientMovementMode s
    ∧ ServerMoveVRDualExLight_Implementation env TimeStamp0 PendingFlags View0 OldCapsuleLoc
        OldConditionalReps OldLFDiff OldCapsuleYaw TimeStamp ClientLoc CapsuleLoc ConditionalReps
        LFDiff CapsuleYaw NewFlags MoveReps ClientMovementMode s
      = ServerMoveVRDual_Implementation env TimeStamp0 FVector.ZeroVector PendingFlags View0
          OldCapsuleLoc OldConditionalReps OldLFDiff OldCapsuleYaw TimeStamp FVector.ZeroVector
          ClientLoc CapsuleLoc ConditionalReps LFDiff CapsuleYaw NewFlags MoveReps
          ClientMovementMode s
    ∧ ServerMoveVRExLight_Implementation env TimeStamp ClientLoc CapsuleLoc ConditionalReps LFDiff
        CapsuleYaw NewFlags MoveReps ClientMovementMode s
      = ServerMoveVR_Implementation env TimeStamp a ClientLoc CapsuleLoc
          ConditionalReps LFDiff CapsuleYaw NewFlags MoveReps ClientMovementMode s
    ∧ ServerMoveVRDualExLight_Implementation env TimeStamp0 PendingFlags View0 OldCapsuleLoc
        OldConditionalReps OldLFDiff OldCapsuleYaw TimeStamp ClientLoc CapsuleLoc ConditionalReps
        LFDiff CapsuleYaw NewFlags MoveReps ClientMovementMode s
      = ServerMoveVRDual_Implementation env TimeStamp0 a0 PendingFlags View0
          OldCapsuleLoc OldConditionalReps OldLFDiff OldCapsuleYaw TimeStamp a
          ClientLoc CapsuleLoc ConditionalReps LFDiff CapsuleYaw NewFlags MoveReps
          ClientMovementMode s := by
  rw [(FVector.IsZero_iff a0).1 h0, (FVector.IsZero_iff a).1 h]
  exact ⟨rfl, rfl, rfl, rfl⟩

/-- Witness for C9, at the zero acceleration written as `⟨0, 0, 0⟩`. -/
theorem light_handlers_equal_full_witness :
    ServerMoveVRExLight_Implementation monotoneServer 7 ⟨7, 8, 9⟩ ⟨1, 1, 1⟩ {} ⟨2, 2, 40⟩ 100 1
        {} 1 { comp := serverComp }
      = ServerMoveVR_Implementation monotoneServer 7 ⟨0, 0, 0⟩ ⟨7, 8, 9⟩ ⟨1, 1, 1⟩ {} ⟨2, 2, 40⟩
          100 1 {} 1 { comp := serverComp } :=
  (light_handlers_equal_full monotoneServer ⟨0, 0, 0⟩ ⟨0, 0, 0⟩ rfl rfl 6 0 0 ⟨1, 1, 1⟩ {}
    ⟨2, 2, 40⟩ 100 7 ⟨7, 8, 9⟩ ⟨1, 1, 1⟩ {} ⟨2, 2, 40⟩ 100 1 {} 1 { comp := serverComp }).2.2.1

/-- C10. A dual RPC is handled as the old move (time stamp `TimeStamp0`, the view
unpacked from `View0` with the new move's base and bone) followed by the new move; the
hybrid handler does the same with `bServerMoveIgnoreRootMotion` set for the old move
only. In the trace the calls made for the old move all come before those made for the
new move. -/
theorem dual_handler_is_old_then_new (env : Engine) (TimeStamp0 : ℚ) (InAccel0 : FVector)
    (PendingFlags View0 : Nat) (OldCapsuleLoc : FVector)
    (OldConditionalReps : FVRConditionalMoveRep) (OldLFDiff : FVector) (OldCapsuleYaw : Nat)
    (TimeStamp : ℚ) (InAccel ClientLoc CapsuleLoc : FVector)
    (ConditionalReps : FVRConditionalMoveRep) (LFDiff : FVector) (CapsuleYaw NewFlags : Nat)
    (MoveReps : FVRConditionalMoveRep2) (ClientMovementMode : Nat) (s : Sim) :
    ServerMoveVRDual_Implementation env TimeStamp0 InAccel0 PendingFlags View0 OldCapsuleLoc
        OldConditionalReps OldLFDiff OldCapsuleYaw TimeStamp InAccel ClientLoc CapsuleLoc
        ConditionalReps LFDiff CapsuleYaw NewFlags MoveReps ClientMovementMode s
      = ServerMoveVR_Implementation env TimeStamp InAccel ClientLoc CapsuleLoc ConditionalReps
          LFDiff CapsuleYaw NewFlags MoveReps ClientMovementMode
          (ServerMoveVR_Implementation env TimeStamp0 InAccel0 ⟨1, 2, 3⟩ OldCapsuleLoc
            OldConditionalReps OldLFDiff OldCapsuleYaw PendingFlags
            (env.UnpackAndSetINTRotations View0
              { ClientBaseBoneName := MoveReps.ClientBaseBoneName
                ClientMovementBase := MoveReps.ClientMovementBase })
            ClientMovementMode s)
    ∧ (∃ lOld lNew,
        (ServerMoveVR_Implementation env TimeStamp0 InAccel0 ⟨1, 2, 3⟩ OldCapsuleLoc
            OldConditionalReps OldLFDiff OldCapsuleYaw PendingFlags
            (MoveRepsOld env View0 MoveReps) ClientMovementMode s).log = s.log ++ lOld
        ∧ (ServerMoveVRDual_Implementation env TimeStamp0 InAccel0 PendingFlags View0
            OldCapsuleLoc OldConditionalReps OldLFDiff OldCapsuleYaw TimeStamp InAccel ClientLoc
            CapsuleLoc ConditionalReps LFDiff CapsuleYaw NewFlags MoveReps ClientMovementMode
            s).log = s.log ++ lOld ++ lNew)
    ∧ ServerMoveVRDualHybridRootMotion_Implementation env TimeStamp0 InAccel0 PendingFlags View0
        OldCapsuleLoc OldConditionalReps OldLFDiff OldCapsuleYaw TimeStamp InAccel ClientLoc
        CapsuleLoc ConditionalReps LFDiff CapsuleYaw NewFlags MoveReps ClientMovementMode s
      = ServerMoveVR_Implementation env TimeStamp InAccel ClientLoc CapsuleLoc ConditionalReps
          LFDiff CapsuleYaw NewFlags MoveReps ClientMovementMode
          (let s1 := ServerMoveVR_Implementation env TimeStamp0 InAccel0 ⟨1, 2, 3⟩ OldCapsuleLoc
            OldConditionalReps OldLFDiff OldCapsuleYaw PendingFlags
            (MoveRepsOld env View0 MoveReps) ClientMovementMode
            { s with comp := { s.comp with
                bServerMoveIgnoreRootMotion := env.IsPlayingNetworkedRootMotionMontage s.comp } }
           { s1 with comp := { s1.comp with bServerMoveIgnoreRootMotion := false } }) := by
  refine ⟨rfl, ?_, rfl⟩
  obtain ⟨lOld, hOld⟩ := ServerMoveVR_log_append env TimeStamp0 InAccel0 ⟨1, 2, 3⟩ OldCapsuleLoc
    OldConditionalReps OldLFDiff OldCapsuleYaw PendingFlags (MoveRepsOld env View0 MoveReps)
    ClientMovementMode s
  obtain ⟨lNew, hNew⟩ := ServerMoveVR_log_append env TimeStamp InAccel ClientLoc CapsuleLoc
    ConditionalReps LFDiff CapsuleYaw NewFlags MoveReps ClientMovementMode
    (ServerMoveVR_Implementation env TimeStamp0 InAccel0 ⟨1, 2, 3⟩ OldCapsuleLoc
      OldConditionalReps OldLFDiff OldCapsuleYaw PendingFlags (MoveRepsOld env View0 MoveReps)
      ClientMovementMode s)
  refine ⟨lOld, lNew, hOld, ?_⟩
  unfold ServerMoveVRDual_Implementation
  simp only
  rw [hNew, hOld]

/-! ## ReplicateMoveToServer -/

theorem CallServerMove_comp_Client (env : Engine) (NewMove : SavedMove)
    (OldMove : Option SavedMove) (s : Sim) :
    (CallServerMove env NewMove OldMove s).comp.Client = s.comp.Client := by
  unfold CallServerMove
  cases OldMove <;> simp only [Sim.call, id] <;> split_ifs <;> rfl

theorem CallServerMove_log (env : Engine) (NewMove : SavedMove) (OldMove : Option SavedMove)
    (s : Sim) :
    ∃ pre, (CallServerMove env NewMove OldMove s).log
        = s.log ++ pre ++ [CallServerMove_rpc env s.comp NewMove]
      ∧ pre.filterMap Call.newMoveVariant = [] := by
  unfold CallServerMove
  cases OldMove with
  | none =>
    refine ⟨[], ?_, rfl⟩
    simp only [Sim.call, id]; split_ifs <;> simp
  | some Old =>
    refine ⟨[Call.ServerMoveOld Old.TimeStamp Old.Acceleration (env.GetCompressedFlags Old)],
      ?_, ?_⟩
    · simp only [Sim.call, id]; split_ifs <;> simp
    · simp [List.filterMap_cons, newMoveVariant_ServerMoveOld]

theorem merge_when_combinable (env : Engine) (A B : SavedMove) (s : Sim)
    (hp : s.comp.Client.PendingMove = some A) (hc : ShouldCombine env A B s.comp = true) :
    ReplicateMoveToServer_merge env B s = CombineMove env A B s := by
  unfold ReplicateMoveToServer_merge
  rw [hp]
  simp only [hc, if_true]

theorem merge_when_not_combinable (env : Engine) (A B : SavedMove) (s : Sim)
    (hp : s.comp.Client.PendingMove = some A) (hc : ShouldCombine env A B s.comp = false) :
    ReplicateMoveToServer_merge env B s = (B, s) := by
  unfold ReplicateMoveToServer_merge
  rw [hp]
  simp [hc]

theorem local_log (env : Engine) (M : SavedMove) (s : Sim) :
    (ReplicateMoveToServer_local env M s).log = s.log ++ [Call.PerformMovement M.DeltaTime] := rfl

theorem record_log (env : Engine) (M : SavedMove) (OldMove : Option SavedMove) (s : Sim) :
    ∃ l, (ReplicateMoveToServer_record env M OldMove s).log = s.log ++ l
      ∧ (l.filterMap Call.newMoveVariant = []
        ∨ l.filterMap Call.newMoveVariant
            = [specVariant s.comp.Client.PendingMove (env.PostUpdate M s.comp)]) := by
  unfold ReplicateMoveToServer_record
  simp only []
  split_ifs
  · exact ⟨[], (List.append_nil _).symm, Or.inl rfl⟩
  · obtain ⟨pre, h, hv⟩ := CallServerMove_log env (env.PostUpdate M s.comp) OldMove
      { s with comp := stampClientUpdateTime env (pushSavedMove (env.PostUpdate M s.comp) s.comp) }
    refine ⟨pre ++ [CallServerMove_rpc env
      (stampClientUpdateTime env (pushSavedMove (env.PostUpdate M s.comp) s.comp))
      (env.PostUpdate M s.comp)], ?_, Or.inr ?_⟩
    · rw [← List.append_assoc]
      exact h
    · rw [List.filterMap_append, hv]
      simp only [List.filterMap_cons, List.filterMap_nil, CallServerMove_rpc_variant,
        List.nil_append]
      rfl
  · exact ⟨[], (List.append_nil _).symm, Or.inl rfl⟩

theorem record_saved (env : Engine) (M : SavedMove) (OldMove : Option SavedMove) (s : Sim)
    (hr : s.comp.bReplicateMovement = true) :
    (ReplicateMoveToServer_record env M OldMove s).comp.Client.SavedMoves
      = s.comp.Client.SavedMoves ++ [env.PostUpdate M s.comp] := by
  unfold ReplicateMoveToServer_record
  simp only [hr, if_true]
  split_ifs
  · rfl
  · simp only [clearPendingMove]
    rw [CallServerMove_comp_Client]
    rfl

theorem SetInitialPosition_DeltaTime (env : Engine) (m : SavedMove) (c : Comp)
    (hS : ∀ m c, (env.Super_SetInitialPosition m c).DeltaTime = m.DeltaTime) :
    (m.SetInitialPosition env c).DeltaTime = m.DeltaTime := by
  unfold SavedMove.SetInitialPosition
  simp only []
  rw [hS]
  split_ifs
  · cases c.VRRootReference <;> rfl
  · rfl

theorem SetInitialPosition_LFDiff_plain (env : Engine) (m : SavedMove) (c : Comp)
    (hv : env.OwnerIsVRCharacter = false)
    (hL : ∀ m c, (env.Super_SetInitialPosition m c).LFDiff = m.LFDiff) :
    (m.SetInitialPosition env c).LFDiff = m.LFDiff := by
  unfold SavedMove.SetInitialPosition
  simp only [hv, Bool.false_eq_true, if_false]
  rw [hL]

/-- The state in which the merge captures the new move's initial position again. -/
theorem CombineMove_move (env : Engine) (A B : SavedMove) (s : Sim) :
    ∃ c, (CombineMove env A B s).1 = (CombineMoveSums A B).SetInitialPosition env c :=
  ⟨_, rfl⟩

theorem CombineMove_log (env : Engine) (A B : SavedMove) (s : Sim) :
    (CombineMove env A B s).2.log = s.log ++ [Call.FreeMove A.id] := rfl

theorem CombineMove_pending (env : Engine) (A B : SavedMove) (s : Sim) :
    (CombineMove env A B s).2.comp.Client.PendingMove = none := rfl

theorem CombineMove_saved (env : Engine) (A B : SavedMove) (rest : List SavedMove) (s : Sim)
    (hK : env.KeepsClientData) (hl : s.comp.Client.SavedMoves = rest ++ [A]) :
    (CombineMove env A B s).2.comp.Client.SavedMoves = rest := by
  obtain ⟨h1, h2, h3, h4, h5, _, _⟩ := hK
  have hc6 : ∀ c6 : Comp, c6.Client = s.comp.Client →
      (match c6.Client.SavedMoves.getLast? with
        | some last => if last.id = A.id then c6.Client.SavedMoves.dropLast
          else c6.Client.SavedMoves
        | none => c6.Client.SavedMoves) = rest := by
    intro c6 h
    rw [h, hl]
    simp
  unfold CombineMove
  simp only [Sim.call]
  rw [h5]
  simp only []
  apply hc6
  rw [h4]
  split_ifs
  · rw [h3]; show (env.SetBase _ _ _).Client = _; rw [h2]
    show (env.SetWorldLocationAndRotation _ _ _).Client = _; rw [h1]
  · show (env.SetBase _ _ _).Client = _; rw [h2]
    show (env.SetWorldLocationAndRotation _ _ _).Client = _; rw [h1]

theorem local_client (env : Engine) (M : SavedMove) (s : Sim) (hK : env.KeepsClientData) :
    (ReplicateMoveToServer_local env M s).comp.Client = s.comp.Client := by
  obtain ⟨_, _, _, _, _, h6, h7⟩ := hK
  unfold ReplicateMoveToServer_local
  simp only [Sim.call]
  rw [h7, h6]

/-- C4, the claim as stated fails. With merging on and `moveA` (HMD delta (1, 2, 3))
pending, the new move `moveB` (HMD delta (10, 20, 30)) is merged, and the merged move's
`LFDiff` is not the componentwise sum (11, 22, 33): for a VR character it is the root's
`DifferenceFromLastFrame`, captured again by `SetInitialPosition`; for another owner it
is (11, 22, 30), the Z component never being summed. -/
theorem merged_LFDiff_is_not_the_sum :
    (mergingComp.Client.PendingMove = some moveA
      ∧ ShouldCombine combiningClient moveA moveB mergingComp = true
      ∧ (ReplicateMoveToServer_merge combiningClient moveB { comp := mergingComp }).1.LFDiff
          = ⟨10, 20, 30⟩
      ∧ (ReplicateMoveToServer_merge plainOwnerClient moveB { comp := mergingComp }).1.LFDiff
          = ⟨11, 22, 30⟩)
    ∧ (ReplicateMoveToServer_merge combiningClient moveB { comp := mergingComp }).1.LFDiff
        ≠ moveA.LFDiff + moveB.LFDiff
    ∧ (ReplicateMoveToServer_merge plainOwnerClient moveB { comp := mergingComp }).1.LFDiff
        ≠ moveA.LFDiff + moveB.LFDiff := by
  have h1 : ShouldCombine combiningClient moveA moveB mergingComp = true := by
    simp [ShouldCombine, combiningClient, mergingComp, moveA]
  have h2 : ShouldCombine plainOwnerClient moveA moveB mergingComp = true := by
    simp [ShouldCombine, plainOwnerClient, combiningClient, mergingComp, moveA]
  have e1 : (ReplicateMoveToServer_merge combiningClient moveB { comp := mergingComp }).1.LFDiff
      = ⟨10, 20, 30⟩ := by
    rw [merge_when_combinable _ moveA _ _ rfl h1]
    simp [CombineMove, SavedMove.SetInitialPosition, combiningClient, mergingComp]
  have e2 : (ReplicateMoveToServer_merge plainOwnerClient moveB { comp := mergingComp }).1.LFDiff
      = ⟨11, 22, 30⟩ := by
    rw [merge_when_combinable _ moveA _ _ rfl h2]
    simp [CombineMove, SavedMove.SetInitialPosition, plainOwnerClient, combiningClient,
      CombineMoveSums, moveA, moveB]
    norm_num
  refine ⟨⟨rfl, h1, e1, e2⟩, ?_, ?_⟩
  · rw [e1]
    show (⟨10, 20, 30⟩ : FVector) ≠ ⟨1 + 10, 2 + 20, 3 + 30⟩
    intro h
    have := congrArg FVector.X h
    norm_num at this
  · rw [e2]
    show (⟨11, 22, 30⟩ : FVector) ≠ ⟨1 + 10, 2 + 20, 3 + 30⟩
    intro h
    have := congrArg FVector.Z h
    norm_num at this

/-- C4, amended. When `ReplicateMoveToServer` merges the pending move `A` into the new
move `B`, the merged move has `DeltaTime = A.DeltaTime + B.DeltaTime`, it is the delta
time `PerformMovement` is called with, and the move recorded in `SavedMoves` has it;
the merge's own sum of the HMD offset delta adds X and Y and keeps B's Z, and that is
the merged `LFDiff` whenever the owner is not a VR character. The base class part of
`SetInitialPosition` and `PostUpdate` are taken not to write `DeltaTime`. -/
theorem merged_move_adds_time (env : Engine) (A B : SavedMove) (s : Sim)
    (hS : ∀ m c, (env.Super_SetInitialPosition m c).DeltaTime = m.DeltaTime)
    (hP : ∀ m c, (env.PostUpdate m c).DeltaTime = m.DeltaTime)
    (hp : s.comp.Client.PendingMove = some A)
    (hc : ShouldCombine env A B s.comp = true) :
    (ReplicateMoveToServer_merge env B s).1.DeltaTime = A.DeltaTime + B.DeltaTime
    ∧ (CombineMoveSums A B).LFDiff
        = ⟨A.LFDiff.X + B.LFDiff.X, A.LFDiff.Y + B.LFDiff.Y, B.LFDiff.Z⟩
    ∧ (env.OwnerIsVRCharacter = false →
        (∀ m c, (env.Super_SetInitialPosition m c).LFDiff = m.LFDiff) →
        (ReplicateMoveToServer_merge env B s).1.LFDiff
          = ⟨A.LFDiff.X + B.LFDiff.X, A.LFDiff.Y + B.LFDiff.Y, B.LFDiff.Z⟩)
    ∧ ∀ OldMove,
        (∃ l, (ReplicateMoveToServer_perform env (ReplicateMoveToServer_merge env B s).1 OldMove
              (ReplicateMoveToServer_merge env B s).2).log
            = (ReplicateMoveToServer_merge env B s).2.log
              ++ Call.PerformMovement (A.DeltaTime + B.DeltaTime) :: l)
        ∧ ((ReplicateMoveToServer_local env (ReplicateMoveToServer_merge env B s).1
              (ReplicateMoveToServer_merge env B s).2).comp.bReplicateMovement = true →
            ∃ last, (ReplicateMoveToServer_perform env (ReplicateMoveToServer_merge env B s).1
                OldMove (ReplicateMoveToServer_merge env B s).2).comp.Client.SavedMoves.getLast?
                  = some last
              ∧ last.DeltaTime = A.DeltaTime + B.DeltaTime) := by
  rw [merge_when_combinable env A B s hp hc]
  obtain ⟨c6, hm⟩ := CombineMove_move env A B s
  have hsum : (CombineMoveSums A B).LFDiff
      = ⟨A.LFDiff.X + B.LFDiff.X, A.LFDiff.Y + B.LFDiff.Y, B.LFDiff.Z⟩ := by
    show (⟨B.LFDiff.X + A.LFDiff.X, B.LFDiff.Y + A.LFDiff.Y, B.LFDiff.Z⟩ : FVector) = _
    rw [add_comm B.LFDiff.X, add_comm B.LFDiff.Y]
  have hdt : (CombineMove env A B s).1.DeltaTime = A.DeltaTime + B.DeltaTime := by
    rw [hm, SetInitialPosition_DeltaTime env _ _ hS]
    show B.DeltaTime + A.DeltaTime = _
    exact add_comm _ _
  refine ⟨hdt, hsum, ?_, ?_⟩
  · intro hv hL
    rw [hm, SetInitialPosition_LFDiff_plain env _ _ hv hL, hsum]
  · intro OldMove
    constructor
    · obtain ⟨l, hl, _⟩ := record_log env (CombineMove env A B s).1 OldMove
        (ReplicateMoveToServer_local env (CombineMove env A B s).1 (CombineMove env A B s).2)
      refine ⟨l, ?_⟩
      unfold ReplicateMoveToServer_perform
      rw [hl, local_log, hdt, List.append_assoc]
      rfl
    · intro hr
      refine ⟨env.PostUpdate (CombineMove env A B s).1
        (ReplicateMoveToServer_local env (CombineMove env A B s).1
          (CombineMove env A B s).2).comp, ?_, ?_⟩
      · unfold ReplicateMoveToServer_perform
        rw [record_saved env _ OldMove _ hr, List.getLast?_append]
        rfl
      · rw [hP, hdt]

/-- Witness for C4 amended: `moveA` (10 ms) merged into `moveB` (20 ms) gives 30 ms. -/
theorem merged_move_adds_time_witness :
    (ReplicateMoveToServer_merge combiningClient moveB { comp := mergingComp }).1.DeltaTime
      = 1 / 100 + 1 / 50 :=
  (merged_move_adds_time combiningClient moveA moveB { comp := mergingComp }
    (fun _ _ => rfl) (fun _ _ => rfl) rfl
    (by simp [ShouldCombine, combiningClient, mergingComp, moveA])).1

theorem combiningClient_keeps : combiningClient.KeepsClientData :=
  ⟨fun _ _ _ => rfl, fun _ _ _ => rfl, fun _ _ _ => rfl, fun _ => rfl, fun _ _ => rfl,
    fun _ => rfl, fun _ _ => rfl⟩

/-- C5, the claim as stated fails. On the component as the constructor configures it
(`bAllowMovementMerging = false`) a pending move that the new move can combine with
(`CanCombineWith` holds, start location free of overlaps) is not merged: after the tick
both moves are in `SavedMoves`, nothing was freed, and both are sent in one dual RPC. -/
theorem constructed_component_does_not_merge :
    (constructedComp.Client.PendingMove = some moveA
      ∧ constructedComp.Client.SavedMoves = [moveA]
      ∧ (∀ m, combiningClient.CanCombineWith moveA m 0 constructedComp = true)
      ∧ (∀ l r sh, combiningClient.OverlapTest l r sh constructedComp = false))
    ∧ (ReplicateMoveToServer combiningClient (1 / 50) {} { comp := constructedComp }
        ).comp.Client.SavedMoves.length = 2
    ∧ (ReplicateMoveToServer combiningClient (1 / 50) {} { comp := constructedComp }
        ).log.filterMap Call.newMoveVariant = [MoveVariant.DualLight]
    ∧ Call.FreeMove 1 ∉
        (ReplicateMoveToServer combiningClient (1 / 50) {} { comp := constructedComp }).log := by
  refine ⟨⟨rfl, rfl, fun _ => rfl, fun _ _ _ => rfl⟩, ?_⟩
  have hs : ReplicateMoveToServer_setup combiningClient (1 / 50) {} constructedComp
      = (some ({ id := 2, DeltaTime := 1 / 50, TimeStamp := 2 }, none), constructedComp) := by
    simp [ReplicateMoveToServer_setup, combiningClient, constructedComp, constructed, mergingComp]
  have hm : ReplicateMoveToServer_merge combiningClient
      { id := 2, DeltaTime := 1 / 50, TimeStamp := 2 } { comp := constructedComp }
      = ({ id := 2, DeltaTime := 1 / 50, TimeStamp := 2 }, { comp := constructedComp }) :=
    merge_when_not_combinable _ moveA _ _ rfl
      (by simp [ShouldCombine, constructedComp, constructed])
  have hr : ReplicateMoveToServer combiningClient (1 / 50) {} { comp := constructedComp }
      = ReplicateMoveToServer_perform combiningClient
          { id := 2, DeltaTime := 1 / 50, TimeStamp := 2 } none { comp := constructedComp } := by
    unfold ReplicateMoveToServer
    simp only [hs, hm]
  rw [hr]
  have hsaved := record_saved combiningClient { id := 2, DeltaTime := 1 / 50, TimeStamp := 2 }
    none (ReplicateMoveToServer_local combiningClient
      { id := 2, DeltaTime := 1 / 50, TimeStamp := 2 } { comp := constructedComp }) rfl
  refine ⟨?_, ?_⟩
  · unfold ReplicateMoveToServer_perform
    rw [hsaved]
    rfl
  · have hlog : (ReplicateMoveToServer_perform combiningClient
        { id := 2, DeltaTime := 1 / 50, TimeStamp := 2 } none { comp := constructedComp }).log
        = [Call.PerformMovement (1 / 50),
            CallServerMove_rpc combiningClient
              (stampClientUpdateTime combiningClient
                (pushSavedMove { id := 2, DeltaTime := 1 / 50, TimeStamp := 2 } constructedComp))
              { id := 2, DeltaTime := 1 / 50, TimeStamp := 2 }] := by
      simp [ReplicateMoveToServer_perform, ReplicateMoveToServer_record,
        ReplicateMoveToServer_local, Sim.call, combiningClient, clearPendingMove, CallServerMove,
        pushSavedMove, stampClientUpdateTime, constructedComp, constructed, mergingComp]
    rw [hlog]
    constructor
    · simp only [List.filterMap_cons, List.filterMap_nil, CallServerMove_rpc_variant]
      simp [Call.newMoveVariant, specVariant, stampClientUpdateTime, pushSavedMove,
        constructedComp, constructed, mergingComp, moveA, FVector.ZeroVector]
    · intro h
      rcases List.mem_cons.1 h with h | h
      · cases h
      · rcases List.mem_cons.1 h with h | h
        · have := congrArg Call.newMoveVariant h
          rw [CallServerMove_rpc_variant] at this
          cases this
        · cases h

theorem specVariant_none_single (M : SavedMove) :
    specVariant none M = MoveVariant.Light ∨ specVariant none M = MoveVariant.Full := by
  unfold specVariant
  simp only
  split_ifs
  · exact Or.inl rfl
  · exact Or.inr rfl

/-- C5, amended. When movement merging is enabled (`bAllowMovementMerging`, which the
constructor turns off), the pending move is not from before a time stamp reset, it can
be combined with the new move and its start location is free of overlaps
(`ShouldCombine`), and the pending move is the last of `SavedMoves`, then
`ReplicateMoveToServer` merges: the pending move is taken off `SavedMoves` and freed,
`PendingMove` is cleared, and after the tick one record stands for the two moves; what
is sent, if anything is sent this tick, is one single-move RPC (light or full), never a
dual one. The engine calls in between are taken to leave the prediction data alone. -/
theorem combinable_pending_move_is_merged (env : Engine) (A B : SavedMove)
    (rest : List SavedMove) (s : Sim) (hK : env.KeepsClientData)
    (hp : s.comp.Client.PendingMove = some A)
    (hl : s.comp.Client.SavedMoves = rest ++ [A])
    (hc : ShouldCombine env A B s.comp = true) :
    (ReplicateMoveToServer_merge env B s).2.comp.Client.SavedMoves = rest
    ∧ (ReplicateMoveToServer_merge env B s).2.comp.Client.PendingMove = none
    ∧ (ReplicateMoveToServer_merge env B s).2.log = s.log ++ [Call.FreeMove A.id]
    ∧ ∀ OldMove,
        ((ReplicateMoveToServer_local env (ReplicateMoveToServer_merge env B s).1
              (ReplicateMoveToServer_merge env B s).2).comp.bReplicateMovement = true →
          ∃ M, (ReplicateMoveToServer_perform env (ReplicateMoveToServer_merge env B s).1
              OldMove (ReplicateMoveToServer_merge env B s).2).comp.Client.SavedMoves
            = rest ++ [M])
        ∧ ∃ l, (ReplicateMoveToServer_perform env (ReplicateMoveToServer_merge env B s).1
              OldMove (ReplicateMoveToServer_merge env B s).2).log
            = s.log ++ [Call.FreeMove A.id] ++ l
          ∧ (l.filterMap Call.newMoveVariant = []
            ∨ l.filterMap Call.newMoveVariant = [MoveVariant.Light]
            ∨ l.filterMap Call.newMoveVariant = [MoveVariant.Full]) := by
  rw [merge_when_combinable env A B s hp hc]
  have hsv := CombineMove_saved env A B rest s hK hl
  refine ⟨hsv, rfl, rfl, fun OldMove => ⟨?_, ?_⟩⟩
  · intro hr
    refine ⟨env.PostUpdate (CombineMove env A B s).1
      (ReplicateMoveToServer_local env (CombineMove env A B s).1
        (CombineMove env A B s).2).comp, ?_⟩
    unfold ReplicateMoveToServer_perform
    rw [record_saved env _ OldMove _ hr, local_client env _ _ hK, hsv]
  · obtain ⟨l, hlog, hv⟩ := record_log env (CombineMove env A B s).1 OldMove
      (ReplicateMoveToServer_local env (CombineMove env A B s).1 (CombineMove env A B s).2)
    refine ⟨Call.PerformMovement (CombineMove env A B s).1.DeltaTime :: l, ?_, ?_⟩
    · unfold ReplicateMoveToServer_perform
      rw [hlog, local_log, CombineMove_log, List.append_assoc (s.log ++ [Call.FreeMove A.id])]
      rfl
    · have hcons : (Call.PerformMovement (CombineMove env A B s).1.DeltaTime :: l).filterMap
          Call.newMoveVariant = l.filterMap Call.newMoveVariant := rfl
      rw [hcons]
      rcases hv with hv | hv
      · exact Or.inl hv
      · rw [local_client env _ _ hK, CombineMove_pending] at hv
        rcases specVariant_none_single (env.PostUpdate (CombineMove env A B s).1
          (ReplicateMoveToServer_local env (CombineMove env A B s).1
            (CombineMove env A B s).2).comp) with h | h
        · exact Or.inr (Or.inl (by rw [hv, h]))
        · exact Or.inr (Or.inr (by rw [hv, h]))

/-- Witness for C5 amended: with merging on, pending `moveA` is merged with `moveB`. -/
theorem combinable_pending_move_is_merged_witness :
    (ReplicateMoveToServer_merge combiningClient moveB { comp := mergingComp }
        ).2.comp.Client.SavedMoves = []
    ∧ (ReplicateMoveToServer_merge combiningClient moveB { comp := mergingComp }
        ).2.comp.Client.PendingMove = none
    ∧ (ReplicateMoveToServer_merge combiningClient moveB { comp := mergingComp }).2.log
        = [] ++ [Call.FreeMove moveA.id] :=
  have h := combinable_pending_move_is_merged combiningClient moveA moveB []
    { comp := mergingComp } combiningClient_keeps rfl rfl
    (by simp [ShouldCombine, combiningClient, mergingComp, moveA])
  ⟨h.1, h.2.1, h.2.2.1⟩

/-! ## Landing -/

/-- The trace of `ProcessLanded`: the entry, the `Landed` notification when
`ShouldNotifyLanded` holds, `SetPostLandedPhysics` when the character is still falling
after it, the path following notification, and `StartNewPhysics` with the remaining
time and iteration count the function was given. -/
theorem ProcessLanded_log (env : Engine) (Hit : FHitResult) (rt : ℚ) (it : Int) (s : Sim) :
    (ProcessLanded env Hit rt it s).log
      = s.log ++ [Call.ProcessLanded Hit rt it]
        ++ (if env.ShouldNotifyLanded Hit s.comp then [Call.Landed Hit] else [])
        ++ (if (ProcessLanded_notify env Hit
              (s.call (Call.ProcessLanded Hit rt it) id)).comp.IsFalling
            then [Call.SetPostLandedPhysics Hit] else [])
        ++ (if (ProcessLanded_postLanded env Hit (ProcessLanded_notify env Hit
              (s.call (Call.ProcessLanded Hit rt it) id))).comp.HasPathFollowingComp
            then [Call.OnLanded] else [])
        ++ [Call.StartNewPhysics rt it] := by
  have hn : ∀ t : Sim, (ProcessLanded_notify env Hit t).log
      = t.log ++ (if env.ShouldNotifyLanded Hit t.comp then [Call.Landed Hit] else []) := by
    intro t
    unfold ProcessLanded_notify
    split_ifs <;> simp [Sim.call]
  have hq : ∀ t : Sim, (ProcessLanded_postLanded env Hit t).log
      = t.log ++ (if t.comp.IsFalling then [Call.SetPostLandedPhysics Hit] else []) := by
    intro t
    unfold ProcessLanded_postLanded
    split_ifs <;> simp [Sim.call]
  have hp : ∀ t : Sim, (if t.comp.HasPathFollowingComp then
        t.call Call.OnLanded env.PathFollowingOnLanded else t).log
      = t.log ++ (if t.comp.HasPathFollowingComp then [Call.OnLanded] else []) := by
    intro t
    split_ifs <;> simp [Sim.call]
  unfold ProcessLanded
  show (_ : Sim).log ++ [Call.StartNewPhysics rt it] = _
  rw [hp, hq, hn]
  rfl

theorem ProcessLanded_postLanded_not_falling (env : Engine) (Hit : FHitResult) (s : Sim)
    (hPost : ∀ h c, (env.SetPostLandedPhysics h c).IsFalling = false) :
    (ProcessLanded_postLanded env Hit s).comp.IsFalling = false := by
  unfold ProcessLanded_postLanded
  by_cases h : s.comp.IsFalling = true
  · rw [if_pos h]
    exact hPost _ _
  · rw [if_neg h]
    simpa using h

theorem PhysFalling_afterMove_lands (env : Engine) (bHasAirControl : Bool) (st : FallingStep)
    (Hit : FHitResult) (s : Sim) (root : UVRRootComponent)
    (hv : env.HasValidData s.comp = true) (hsw : s.comp.IsSwimming = false)
    (hb : Hit.bBlockingHit = true) (hroot : s.comp.VRRootCapsule = some root)
    (hland : env.IsValidLandingSpot root.OffsetComponentToWorld Hit s.comp = true) :
    PhysFalling_afterMove env bHasAirControl st Hit s
      = LoopStep.returned (ProcessLanded env Hit
          (st.remainingTime + st.timeTick * (1 - Hit.Time)) st.Iterations s) := by
  unfold PhysFalling_afterMove
  simp only [hv, hsw, hb, hroot, hland, Bool.not_true, Bool.false_eq_true, if_false, if_true]

/-- C6. A falling sub-step whose sweep ends on a blocking hit that `IsValidLandingSpot`
accepts (the component still valid and not swimming, the VR root capsule set) makes
`PhysFalling` return after one call of `ProcessLanded`, with the remaining time of the
loop increased by `timeTick * (1 - Hit.Time)`. `ProcessLanded` then notifies `Landed`
once when `ShouldNotifyLanded` holds and not at all otherwise, calls
`SetPostLandedPhysics` when the character is still falling, after which it is not
falling (given that `SetPostLandedPhysics` leaves Falling), and last calls
`StartNewPhysics` with that same remaining time and iteration count. -/
theorem falling_landing_lands_once (env : Engine) (deltaTime : ℚ) (bHasAirControl : Bool)
    (FallAcceleration : FVector) (remainingTime : ℚ) (Iterations : Int) (s : Sim)
    (root : UVRRootComponent)
    (hloop : remainingTime ≥ MIN_TICK_TIME ∧ Iterations < env.MaxSimulationIterations)
    (hv : env.HasValidData (PhysFalling_sweep env deltaTime bHasAirControl FallAcceleration
      remainingTime Iterations s.comp).2.2 = true)
    (hsw : (PhysFalling_sweep env deltaTime bHasAirControl FallAcceleration
      remainingTime Iterations s.comp).2.2.IsSwimming = false)
    (hb : (PhysFalling_sweep env deltaTime bHasAirControl FallAcceleration
      remainingTime Iterations s.comp).2.1.bBlockingHit = true)
    (hroot : (PhysFalling_sweep env deltaTime bHasAirControl FallAcceleration
      remainingTime Iterations s.comp).2.2.VRRootCapsule = some root)
    (hland : env.IsValidLandingSpot root.OffsetComponentToWorld
      (PhysFalling_sweep env deltaTime bHasAirControl FallAcceleration
        remainingTime Iterations s.comp).2.1
      (PhysFalling_sweep env deltaTime bHasAirControl FallAcceleration
        remainingTime Iterations s.comp).2.2 = true)
    (hPost : ∀ h c, (env.SetPostLandedPhysics h c).IsFalling = false) :
    ∃ (Hit : FHitResult) (timeTick : ℚ) (s1 : Sim),
      Hit = (PhysFalling_sweep env deltaTime bHasAirControl FallAcceleration
        remainingTime Iterations s.comp).2.1
      ∧ timeTick = env.GetSimulationTimeStep remainingTime (Iterations + 1) s.comp
      ∧ s1 = { s with comp := (PhysFalling_sweep env deltaTime bHasAirControl FallAcceleration
        remainingTime Iterations s.comp).2.2 }
      ∧ PhysFalling_loop env deltaTime bHasAirControl FallAcceleration remainingTime
          Iterations s
        = some (ProcessLanded env Hit (remainingTime - timeTick + timeTick * (1 - Hit.Time))
            (Iterations + 1) s1)
      ∧ (ProcessLanded env Hit (remainingTime - timeTick + timeTick * (1 - Hit.Time))
            (Iterations + 1) s1).log
        = s.log
          ++ [Call.ProcessLanded Hit (remainingTime - timeTick + timeTick * (1 - Hit.Time))
              (Iterations + 1)]
          ++ (if env.ShouldNotifyLanded Hit s1.comp then [Call.Landed Hit] else [])
          ++ (if (ProcessLanded_notify env Hit (s1.call (Call.ProcessLanded Hit
                (remainingTime - timeTick + timeTick * (1 - Hit.Time)) (Iterations + 1))
                id)).comp.IsFalling
              then [Call.SetPostLandedPhysics Hit] else [])
          ++ (if (ProcessLanded_postLanded env Hit (ProcessLanded_notify env Hit
                (s1.call (Call.ProcessLanded Hit
                  (remainingTime - timeTick + timeTick * (1 - Hit.Time)) (Iterations + 1))
                  id))).comp.HasPathFollowingComp
              then [Call.OnLanded] else [])
          ++ [Call.StartNewPhysics (remainingTime - timeTick + timeTick * (1 - Hit.Time))
              (Iterations + 1)]
      ∧ (((ProcessLanded env Hit (remainingTime - timeTick + timeTick * (1 - Hit.Time))
            (Iterations + 1) s1).log.drop s.log.length).filter Call.isProcessLanded).length = 1
      ∧ (((ProcessLanded env Hit (remainingTime - timeTick + timeTick * (1 - Hit.Time))
            (Iterations + 1) s1).log.drop s.log.length).filter Call.isLanded).length
          = (if env.ShouldNotifyLanded Hit s1.comp then 1 else 0)
      ∧ (ProcessLanded_postLanded env Hit (ProcessLanded_notify env Hit
            (s1.call (Call.ProcessLanded Hit
              (remainingTime - timeTick + timeTick * (1 - Hit.Time)) (Iterations + 1))
              id))).comp.IsFalling = false := by
  refine ⟨_, _, _, rfl, rfl, rfl, ?_, ?_, ?_, ?_, ?_⟩
  · rw [PhysFalling_loop, dif_pos hloop]
    unfold PhysFalling_step
    simp only []
    rw [PhysFalling_afterMove_lands env bHasAirControl _ _ _ root hv hsw hb hroot hland]
    rfl
  · rw [ProcessLanded_log]
  · rw [ProcessLanded_log]
    simp only [List.append_assoc, List.drop_left]
    split_ifs <;> simp [List.filter_cons, Call.isProcessLanded]
  · rw [ProcessLanded_log]
    simp only [List.append_assoc, List.drop_left]
    split_ifs <;> simp [List.filter_cons, Call.isLanded]
  · exact ProcessLanded_postLanded_not_falling env _ _ hPost

theorem landingWorld_sweep :
    (PhysFalling_sweep landingWorld (2 / 125) false {} (2 / 125) 0 fallingComp).2.1.bBlockingHit
      = true
    ∧ (PhysFalling_sweep landingWorld (2 / 125) false {} (2 / 125) 0 fallingComp).2.2.IsSwimming
      = false
    ∧ (PhysFalling_sweep landingWorld (2 / 125) false {} (2 / 125) 0
        fallingComp).2.2.VRRootCapsule = some {} := by
  simp [PhysFalling_sweep, PhysFalling_integrate, PhysFalling_input, SafeMoveUpdatedComponent,
    landingWorld, fallingComp, Comp.IsSwimming]

/-- Witness for C6: a character falling at 500 units per second hits a valid landing
spot half way through a 16 ms tick; `PhysFalling` returns through `ProcessLanded`. -/
theorem falling_landing_lands_once_witness :
    ∃ (Hit : FHitResult) (rt : ℚ) (s1 : Sim),
      PhysFalling_loop landingWorld (2 / 125) false {} (2 / 125) 0 { comp := fallingComp }
        = some (ProcessLanded landingWorld Hit rt 1 s1) :=
  have h := falling_landing_lands_once landingWorld (2 / 125) false {} (2 / 125) 0
    { comp := fallingComp } {}
    ⟨by norm_num [MIN_TICK_TIME], by decide⟩ rfl landingWorld_sweep.2.1 landingWorld_sweep.1
    landingWorld_sweep.2.2 landingWorld_sweep.1
    (fun _ _ => by simp [landingWorld, Comp.IsFalling])
  match h with
  | ⟨Hit, _, s1, _, _, _, hl, _⟩ => ⟨Hit, _, s1, hl⟩


/-! ## PhysWalking at rest -/

theorem Comp.clearTeleported_eq (c : Comp) (h : c.bJustTeleported = false) :
    { c with bJustTeleported := false } = c := by
  cases c
  simp only at h
  subst h
  rfl

theorem Comp.flatAcceleration_eq (c : Comp) (h : c.Acceleration = FVector.ZeroVector) :
    { c with Acceleration := { c.Acceleration with Z := 0 } } = c := by
  cases c
  simp only at h
  subst h
  rfl

theorem FindFloor_sweep_frame (env : Engine) (L : FVector) (a b : ℚ) (O : FFindFloorResult)
    (z : Bool) (d : Option FHitResult) (c : Comp) :
    ∃ f, (FindFloor_sweep env L a b O z d c).2.2 = { c with bForceNextFloorCheck := f } := by
  have hc : c = { c with bForceNextFloorCheck := c.bForceNextFloorCheck } := by cases c; rfl
  unfold FindFloor_sweep
  simp only []
  split_ifs
  · exact ⟨_, rfl⟩
  · split <;> first | exact ⟨_, hc⟩ | exact ⟨_, rfl⟩
  · split <;> exact ⟨_, rfl⟩
  · exact ⟨_, hc⟩

theorem FindFloor_frame (env : Engine) (L : FVector) (O : FFindFloorResult) (z : Bool)
    (d : Option FHitResult) (c : Comp) :
    ∃ f, (FindFloor env L O z d c).2 = { c with bForceNextFloorCheck := f } := by
  unfold FindFloor
  by_cases h : (!env.HasValidData c || !env.IsQueryCollisionEnabled c) = true
  · rw [if_pos h]
    exact ⟨c.bForceNextFloorCheck, by cases c; rfl⟩
  · rw [if_neg h]
    exact FindFloor_sweep_frame _ _ _ _ _ _ _ _

theorem velocity_at_rest (env : Engine) (hL : RestLaws env) (rt : ℚ) (it : Int) (s : Sim)
    (hvel : s.comp.Velocity = FVector.ZeroVector)
    (hacc : s.comp.Acceleration = FVector.ZeroVector)
    (hhmd : s.comp.AdditionalVRInputVector = FVector.ZeroVector)
    (hreq : s.comp.bHasRequestedVelocity = false)
    (htel : s.comp.bJustTeleported = false) :
    (PhysWalking_velocity env rt it s).2.comp = s.comp
    ∧ (PhysWalking_velocity env rt it s).1.OldLocation = s.comp.Location
    ∧ (PhysWalking_velocity env rt it s).1.OldFloor = s.comp.CurrentFloor := by
  unfold PhysWalking_velocity
  simp only [Sim.call]
  rw [Comp.clearTeleported_eq _ htel, hL.maintainLaw _ (by rw [hvel]; rfl),
    Comp.flatAcceleration_eq _ hacc]
  refine ⟨?_, trivial, trivial⟩
  split_ifs
  · rw [hL.calcLaw _ _ _ _ hvel hacc hreq, hL.applyLaw _ _ hhmd]
  · rw [hL.applyLaw _ _ hhmd]

theorem Comp.setVelocity_eq (c : Comp) (v : FVector) (h : v = c.Velocity) :
    { c with Velocity := v } = c := by
  cases c
  simp only at h
  subst h
  rfl

theorem restoreVRVelocity_comp (env : Engine) (hL : RestLaws env) (s : Sim)
    (hhmd : s.comp.AdditionalVRInputVector = FVector.ZeroVector) :
    (restoreVRVelocity env s).comp = s.comp := by
  unfold restoreVRVelocity Sim.call
  exact hL.restoreLaw _ hhmd

theorem finish_at_rest (env : Engine) (hL : RestLaws env) (st : WalkingStep) (rt : ℚ)
    (b1 b2 : Bool) (s : Sim)
    (hvel : s.comp.Velocity = FVector.ZeroVector)
    (hhmd : s.comp.AdditionalVRInputVector = FVector.ZeroVector)
    (hloc : s.comp.Location = st.OldLocation) :
    ∃ s1, PhysWalking_finish env st rt b1 b2 s = WalkStep.leave s1 ∧ s1.comp = s.comp := by
  have hv : (s.comp.Location - st.OldLocation).div st.timeTick = s.comp.Velocity := by
    rw [hloc, hvel]
    show FVector.div ⟨st.OldLocation.X - st.OldLocation.X, st.OldLocation.Y - st.OldLocation.Y,
      st.OldLocation.Z - st.OldLocation.Z⟩ st.timeTick = FVector.ZeroVector
    simp [FVector.div, FVector.ZeroVector]
  unfold PhysWalking_finish
  simp only []
  rw [Comp.setVelocity_eq _ _ hv]
  have hs : ({ s with comp := s.comp } : Sim) = s := by cases s; rfl
  rw [hs]
  by_cases h1 : (s.comp.IsMovingOnGround
        && (!s.comp.bJustTeleported && !env.HasAnimRootMotion s.comp
          && !env.HasOverrideVelocity s.comp && decide (st.timeTick ≥ MIN_TICK_TIME))) = true
  · rw [if_pos h1]
    have h2 : (restoreVRVelocity env s).comp.Location = st.OldLocation := by
      rw [restoreVRVelocity_comp env hL s hhmd]
      exact hloc
    rw [if_pos h2]
    refine ⟨_, rfl, ?_⟩
    rw [restoreVRVelocity_comp env hL _ (by rw [restoreVRVelocity_comp env hL s hhmd]; exact hhmd),
      restoreVRVelocity_comp env hL s hhmd]
  · rw [if_neg h1, if_pos hloc]
    exact ⟨_, rfl, restoreVRVelocity_comp env hL s hhmd⟩

theorem validateFloor_at_rest (env : Engine) (hL : RestLaws env) (st : WalkingStep)
    (Delta : FVector) (bz : Bool) (rt : ℚ) (b1 b2 : Bool) (s : Sim)
    (hvel : s.comp.Velocity = FVector.ZeroVector)
    (hhmd : s.comp.AdditionalVRInputVector = FVector.ZeroVector)
    (hmode : s.comp.MovementMode = EMovementMode.MOVE_Walking)
    (hloc : s.comp.Location = st.OldLocation)
    (hwalk : s.comp.CurrentFloor.IsWalkableFloor = true)
    (hline : s.comp.CurrentFloor.bLineTrace = false)
    (hmin : MIN_FLOOR_DIST ≤ s.comp.CurrentFloor.FloorDist)
    (hmax : s.comp.CurrentFloor.FloorDist ≤ MAX_FLOOR_DIST) :
    ∃ s1, PhysWalking_validateFloor env st Delta bz rt b1 b2 s = WalkStep.leave s1
      ∧ s1.comp = { s.comp with MovementBase := s.comp.CurrentFloor.HitResult.Component } := by
  have hcaught : (s.comp.CurrentFloor.IsWalkableFloor
      && env.ShouldCatchAir st.OldFloor s.comp.CurrentFloor s.comp) = false := by
    rw [hL.catchAirLaw]
    simp
  unfold PhysWalking_validateFloor
  simp only []
  rw [hcaught, if_neg (by simp), if_pos hwalk, hL.adjustLaw _ hwalk hline hmin hmax,
    hL.setBaseLaw]
  have hsw : Comp.IsSwimming
      { s.comp with MovementBase := s.comp.CurrentFloor.HitResult.Component } = false := by
    simp [Comp.IsSwimming, hmode]
  rw [hsw, if_neg (by simp)]
  have hw2 : (!({ s.comp with MovementBase := s.comp.CurrentFloor.HitResult.Component }
      : Comp).CurrentFloor.IsWalkableFloor
      && !({ s.comp with MovementBase := s.comp.CurrentFloor.HitResult.Component }
      : Comp).CurrentFloor.HitResult.bStartPenetrating) = false := by
    show (!s.comp.CurrentFloor.IsWalkableFloor
      && !s.comp.CurrentFloor.HitResult.bStartPenetrating) = false
    rw [hwalk]
    rfl
  rw [hw2, if_neg (by simp)]
  exact finish_at_rest env hL st rt b1 b2 _ hvel hhmd hloc

theorem floor_at_rest (env : Engine) (hL : RestLaws env) (st : WalkingStep)
    (Delta : FVector) (rt : ℚ) (b1 b2 : Bool) (s : Sim)
    (hvel : s.comp.Velocity = FVector.ZeroVector)
    (hhmd : s.comp.AdditionalVRInputVector = FVector.ZeroVector)
    (hmode : s.comp.MovementMode = EMovementMode.MOVE_Walking)
    (hloc : s.comp.Location = st.OldLocation)
    (hwalk : (FindFloor env s.comp.Location s.comp.CurrentFloor true none
      s.comp).1.IsWalkableFloor = true)
    (hline : (FindFloor env s.comp.Location s.comp.CurrentFloor true none
      s.comp).1.bLineTrace = false)
    (hmin : MIN_FLOOR_DIST ≤ (FindFloor env s.comp.Location s.comp.CurrentFloor true none
      s.comp).1.FloorDist)
    (hmax : (FindFloor env s.comp.Location s.comp.CurrentFloor true none
      s.comp).1.FloorDist ≤ MAX_FLOOR_DIST) :
    ∃ s1, PhysWalking_floor env st Delta true {} rt b1 b2 s = WalkStep.leave s1
      ∧ s1.comp.Velocity = FVector.ZeroVector
      ∧ s1.comp.MovementMode = EMovementMode.MOVE_Walking
      ∧ s1.comp.CurrentFloor
        = (FindFloor env s.comp.Location s.comp.CurrentFloor true none s.comp).1 := by
  obtain ⟨f, hf⟩ := FindFloor_frame env s.comp.Location s.comp.CurrentFloor true none s.comp
  unfold PhysWalking_floor
  simp only []
  rw [if_neg (show ¬ ({} : FStepDownResult).bComputedFloor = true by simp)]
  generalize hF : (FindFloor env s.comp.Location s.comp.CurrentFloor true none s.comp).1 = F
    at hwalk hline hmin hmax ⊢
  rw [hf]
  have hc : (!env.CanWalkOffLedges
        { ({ s.comp with bForceNextFloorCheck := f } : Comp) with CurrentFloor := F }
      && !({ ({ s.comp with bForceNextFloorCheck := f } : Comp) with
        CurrentFloor := F } : Comp).CurrentFloor.IsWalkableFloor) = false := by
    show (!env.CanWalkOffLedges _ && !F.IsWalkableFloor) = false
    rw [hwalk]
    simp
  rw [hc, if_neg (by simp)]
  obtain ⟨s1, h1, h2⟩ := validateFloor_at_rest env hL st Delta true rt b1 b2
    { s with comp :=
      { ({ s.comp with bForceNextFloorCheck := f } : Comp) with CurrentFloor := F } }
    hvel hhmd hmode hloc hwalk hline hmin hmax
  refine ⟨s1, h1, ?_, ?_, ?_⟩
  · rw [h2]
    exact hvel
  · rw [h2]
    exact hmode
  · rw [h2]

theorem move_at_rest (env : Engine) (hL : RestLaws env) (st : WalkingStep)
    (rt : ℚ) (b1 b2 : Bool) (s : Sim)
    (hvel : s.comp.Velocity = FVector.ZeroVector)
    (hhmd : s.comp.AdditionalVRInputVector = FVector.ZeroVector)
    (hmode : s.comp.MovementMode = EMovementMode.MOVE_Walking)
    (hloc : s.comp.Location = st.OldLocation)
    (hwalk : (FindFloor env s.comp.Location s.comp.CurrentFloor true none
      s.comp).1.IsWalkableFloor = true)
    (hline : (FindFloor env s.comp.Location s.comp.CurrentFloor true none
      s.comp).1.bLineTrace = false)
    (hmin : MIN_FLOOR_DIST ≤ (FindFloor env s.comp.Location s.comp.CurrentFloor true none
      s.comp).1.FloorDist)
    (hmax : (FindFloor env s.comp.Location s.comp.CurrentFloor true none
      s.comp).1.FloorDist ≤ MAX_FLOOR_DIST) :
    ∃ s1, PhysWalking_move env st rt b1 b2 s = WalkStep.leave s1
      ∧ s1.comp.Velocity = FVector.ZeroVector
      ∧ s1.comp.MovementMode = EMovementMode.MOVE_Walking
      ∧ s1.comp.CurrentFloor
        = (FindFloor env s.comp.Location s.comp.CurrentFloor true none s.comp).1 := by
  have hfall : s.comp.IsFalling = false := by simp [Comp.IsFalling, hmode]
  have hz : (s.comp.Velocity.scale st.timeTick).IsNearlyZero KINDA_SMALL_NUMBER = true := by
    rw [hvel]
    simp [FVector.scale, FVector.ZeroVector, FVector.IsNearlyZero, KINDA_SMALL_NUMBER]
  unfold PhysWalking_move
  simp only []
  rw [hfall, if_neg (by simp), hz, if_pos rfl]
  exact floor_at_rest env hL st _ 0 b1 b2 s hvel hhmd hmode hloc hwalk hline hmin hmax

theorem step_at_rest (env : Engine) (hL : RestLaws env) (rt : ℚ) (it : Int) (b1 b2 : Bool)
    (s : Sim)
    (hvel : s.comp.Velocity = FVector.ZeroVector)
    (hacc : s.comp.Acceleration = FVector.ZeroVector)
    (hhmd : s.comp.AdditionalVRInputVector = FVector.ZeroVector)
    (hreq : s.comp.bHasRequestedVelocity = false)
    (htel : s.comp.bJustTeleported = false)
    (hmode : s.comp.MovementMode = EMovementMode.MOVE_Walking)
    (hwalk : (FindFloor env s.comp.Location s.comp.CurrentFloor true none
      s.comp).1.IsWalkableFloor = true)
    (hline : (FindFloor env s.comp.Location s.comp.CurrentFloor true none
      s.comp).1.bLineTrace = false)
    (hmin : MIN_FLOOR_DIST ≤ (FindFloor env s.comp.Location s.comp.CurrentFloor true none
      s.comp).1.FloorDist)
    (hmax : (FindFloor env s.comp.Location s.comp.CurrentFloor true none
      s.comp).1.FloorDist ≤ MAX_FLOOR_DIST) :
    ∃ s1, PhysWalking_step env rt it b1 b2 s = WalkStep.leave s1
      ∧ s1.comp.Velocity = FVector.ZeroVector
      ∧ s1.comp.MovementMode = EMovementMode.MOVE_Walking
      ∧ s1.comp.CurrentFloor
        = (FindFloor env s.comp.Location s.comp.CurrentFloor true none s.comp).1 := by
  obtain ⟨hc, hO, _⟩ := velocity_at_rest env hL rt it s hvel hacc hhmd hreq htel
  unfold PhysWalking_step
  simp only []
  rw [← hc] at hvel hhmd hmode hwalk hline hmin hmax ⊢
  exact move_at_rest env hL _ rt b1 b2 _ hvel hhmd hmode (by rw [hO, hc]) hwalk hline hmin hmax

theorem end_at_rest (env : Engine) (hL : RestLaws env) (s : Sim)
    (hvel : s.comp.Velocity = FVector.ZeroVector) :
    (PhysWalking_end env s).comp = s.comp := by
  unfold PhysWalking_end
  split_ifs
  · exact hL.maintainLaw _ (by rw [hvel]; rfl)
  · rfl

theorem PhysWalking_at_rest (env : Engine) (hL : RestLaws env) (deltaTime : ℚ)
    (Iterations : Int) (s : Sim)
    (hdt : MIN_TICK_TIME ≤ deltaTime)
    (hit : Iterations < env.MaxSimulationIterations)
    (hsim : PhysWalking_canSimulate env s.comp = true)
    (hq : env.IsQueryCollisionEnabled s.comp = true)
    (hvel : s.comp.Velocity = FVector.ZeroVector)
    (hacc : s.comp.Acceleration = FVector.ZeroVector)
    (hhmd : s.comp.AdditionalVRInputVector = FVector.ZeroVector)
    (hreq : s.comp.bHasRequestedVelocity = false)
    (htel : s.comp.bJustTeleported = false)
    (hmode : s.comp.MovementMode = EMovementMode.MOVE_Walking)
    (hwalk : (FindFloor env s.comp.Location s.comp.CurrentFloor true none
      s.comp).1.IsWalkableFloor = true)
    (hline : (FindFloor env s.comp.Location s.comp.CurrentFloor true none
      s.comp).1.bLineTrace = false)
    (hmin : MIN_FLOOR_DIST ≤ (FindFloor env s.comp.Location s.comp.CurrentFloor true none
      s.comp).1.FloorDist)
    (hmax : (FindFloor env s.comp.Location s.comp.CurrentFloor true none
      s.comp).1.FloorDist ≤ MAX_FLOOR_DIST) :
    (PhysWalking env deltaTime Iterations s).comp.Velocity = FVector.ZeroVector
      ∧ (PhysWalking env deltaTime Iterations s).comp.MovementMode = EMovementMode.MOVE_Walking
      ∧ (PhysWalking env deltaTime Iterations s).comp.CurrentFloor
        = (FindFloor env s.comp.Location s.comp.CurrentFloor true none s.comp).1 := by
  have hs2 : (({ s with comp := { s.comp with bJustTeleported := false } } : Sim).call
      Call.RewindVRRelativeMovement env.RewindVRRelativeMovement).comp = s.comp := by
    show env.RewindVRRelativeMovement { s.comp with bJustTeleported := false } = s.comp
    rw [Comp.clearTeleported_eq _ htel]
    exact hL.rewindLaw _ hhmd
  unfold PhysWalking
  rw [if_neg (not_lt.mpr hdt), hsim, if_neg (by simp), hq, if_neg (by simp)]
  simp only []
  generalize ({ s with comp := { s.comp with bJustTeleported := false } } : Sim).call
      Call.RewindVRRelativeMovement env.RewindVRRelativeMovement = s2 at hs2
  rw [← hs2] at hsim hvel hacc hhmd hreq htel hmode hwalk hline hmin hmax ⊢
  obtain ⟨s1, h1, h2, h3, h4⟩ := step_at_rest env hL deltaTime Iterations false false s2
    hvel hacc hhmd hreq htel hmode hwalk hline hmin hmax
  rw [PhysWalking_loop, dif_pos ⟨⟨hdt, hit⟩, hsim⟩, h1]
  simp only []
  rw [end_at_rest env hL s1 h2]
  exact ⟨h2, h3, h4⟩

/-- C7. A character in Walking mode at rest (zero velocity, zero acceleration, zero HMD
delta `AdditionalVRInputVector`, no requested velocity, not just teleported) that
`PhysWalking` simulates, whose floor check finds a swept walkable floor at a distance
within `[MIN_FLOOR_DIST, MAX_FLOOR_DIST]`: one `PhysWalking` call with deltaTime 0.016
ends with zero velocity, still in Walking mode, and with that floor as the current
floor, so walkable and with its distance in the range. The engine functions the source
calls are taken to obey `RestLaws`. -/
theorem PhysWalking_rest_stays_at_rest (env : Engine) (hL : RestLaws env)
    (Iterations : Int) (s : Sim)
    (hit : Iterations < env.MaxSimulationIterations)
    (hsim : PhysWalking_canSimulate env s.comp = true)
    (hq : env.IsQueryCollisionEnabled s.comp = true)
    (hmode : s.comp.MovementMode = EMovementMode.MOVE_Walking)
    (hvel : s.comp.Velocity = FVector.ZeroVector)
    (hacc : s.comp.Acceleration = FVector.ZeroVector)
    (hhmd : s.comp.AdditionalVRInputVector = FVector.ZeroVector)
    (hreq : s.comp.bHasRequestedVelocity = false)
    (htel : s.comp.bJustTeleported = false)
    (hwalk : (FindFloor env s.comp.Location s.comp.CurrentFloor true none
      s.comp).1.IsWalkableFloor = true)
    (hline : (FindFloor env s.comp.Location s.comp.CurrentFloor true none
      s.comp).1.bLineTrace = false)
    (hmin : MIN_FLOOR_DIST ≤ (FindFloor env s.comp.Location s.comp.CurrentFloor true none
      s.comp).1.FloorDist)
    (hmax : (FindFloor env s.comp.Location s.comp.CurrentFloor true none
      s.comp).1.FloorDist ≤ MAX_FLOOR_DIST) :
    (PhysWalking env (2 / 125) Iterations s).comp.Velocity = FVector.ZeroVector
      ∧ (PhysWalking env (2 / 125) Iterations s).comp.MovementMode
        = EMovementMode.MOVE_Walking
      ∧ (PhysWalking env (2 / 125) Iterations s).comp.CurrentFloor
        = (FindFloor env s.comp.Location s.comp.CurrentFloor true none s.comp).1
      ∧ (PhysWalking env (2 / 125) Iterations s).comp.CurrentFloor.IsWalkableFloor = true
      ∧ MIN_FLOOR_DIST ≤ (PhysWalking env (2 / 125) Iterations s).comp.CurrentFloor.FloorDist
      ∧ (PhysWalking env (2 / 125) Iterations s).comp.CurrentFloor.FloorDist
        ≤ MAX_FLOOR_DIST := by
  obtain ⟨h1, h2, h3⟩ := PhysWalking_at_rest env hL (2 / 125) Iterations s
    (by norm_num [MIN_TICK_TIME]) hit hsim hq hvel hacc hhmd hreq htel hmode hwalk hline
    hmin hmax
  refine ⟨h1, h2, h3, ?_, ?_, ?_⟩
  · rw [h3]
    exact hwalk
  · rw [h3]
    exact hmin
  · rw [h3]
    exact hmax

theorem restWorld_laws : RestLaws restWorld where
  rewindLaw := fun _ _ => rfl
  maintainLaw := fun c h => by
    show ({ c with Velocity := { c.Velocity with Z := 0 } } : Comp) = c
    apply Comp.setVelocity_eq
    rw [← h]
  calcLaw := fun dt _ _ c hv ha _ => by
    show ({ c with Velocity := c.Velocity + c.Acceleration.scale dt } : Comp) = c
    apply Comp.setVelocity_eq
    rw [hv, ha]
    show (⟨0 + 0 * dt, 0 + 0 * dt, 0 + 0 * dt⟩ : FVector) = ⟨0, 0, 0⟩
    simp
  applyLaw := fun _ _ _ => rfl
  restoreLaw := fun _ _ => rfl
  catchAirLaw := fun _ _ _ => rfl
  adjustLaw := fun _ _ _ _ _ => rfl
  setBaseLaw := fun _ _ _ => rfl

theorem restWorld_floor :
    (FindFloor restWorld restingComp.Location restingComp.CurrentFloor true none
      restingComp).1 = flatFloor := by
  norm_num [FindFloor, FindFloor_sweep, FindFloor_override, FindFloor_perch, restWorld,
    restingComp, flatFloor, MAX_FLOOR_DIST, KINDA_SMALL_NUMBER, Comp.IsMovingOnGround]

/-- Witness for C7: the controlled character at rest on the flat floor of `restWorld`
is at rest on that floor after a 16 ms `PhysWalking` call. -/
theorem PhysWalking_rest_stays_at_rest_witness :
    (PhysWalking restWorld (2 / 125) 0 { comp := restingComp }).comp.Velocity
        = FVector.ZeroVector
      ∧ (PhysWalking restWorld (2 / 125) 0 { comp := restingComp }).comp.MovementMode
        = EMovementMode.MOVE_Walking
      ∧ (PhysWalking restWorld (2 / 125) 0 { comp := restingComp }).comp.CurrentFloor
        = flatFloor := by
  have h := PhysWalking_rest_stays_at_rest restWorld restWorld_laws 0 { comp := restingComp }
    (by decide) (by simp [PhysWalking_canSimulate, restingComp]) rfl rfl rfl rfl rfl rfl rfl
    (by rw [restWorld_floor]; rfl) (by rw [restWorld_floor]; rfl)
    (by rw [restWorld_floor]; norm_num [flatFloor, MIN_FLOOR_DIST])
    (by rw [restWorld_floor]; norm_num [flatFloor, MAX_FLOOR_DIST])
  exact ⟨h.1, h.2.1, h.2.2.1.trans restWorld_floor⟩


/-! ## StepUp: sweeps, entry checks and landing -/

theorem StepUp_of_entryRejects (env : Engine) (GravDir Delta : FVector) (InHit : FHitResult)
    (out : Bool) (c : Comp) (h : StepUp_entryRejects env GravDir InHit c = true) :
    StepUp env GravDir Delta InHit out c = (false, none, c) := by
  unfold StepUp_entryRejects at h
  unfold StepUp
  simp only []
  by_cases h1 : (!env.CanStepUp InHit c || decide (c.MaxStepHeight ≤ 0)) = true
  · rw [if_pos h1]
  · rw [if_neg h1]
    by_cases h2 : InHit.ImpactPoint.Z
        > (StepUp_OldLocation c).Z + (c.GetScaledCapsuleHalfHeight - c.GetScaledCapsuleRadius)
    · rw [if_pos h2]
    · rw [if_neg h2]
      by_cases h3 : InHit.ImpactPoint.Z ≤ (StepUp_OldLocation c).Z - c.GetScaledCapsuleHalfHeight
      · rw [if_pos h3]
      · rw [if_neg h3]
        by_cases h4 : GravDir.IsZero = true
        · rw [if_pos h4]
        · exfalso
          simp only [Bool.or_eq_true, decide_eq_true_eq] at h h1
          tauto

theorem StepUp_of_beforeDown (env : Engine) (GravDir Delta : FVector) (InHit : FHitResult)
    (out : Bool) (c : Comp) (Hit : FHitResult) (c3 : Comp)
    (h : StepUp_beforeDown env GravDir Delta InHit c = some (Hit, c3)) :
    StepUp env GravDir Delta InHit out c
      = StepUp_down env (ScopedMovementUpdate.start c) IsWithinEdgeTolerance GravDir Delta
          (StepUp_heights c InHit (StepUp_OldLocation c) c.GetScaledCapsuleRadius
            c.GetScaledCapsuleHalfHeight).2.1
          c.GetScaledCapsuleRadius
          (StepUp_heights c InHit (StepUp_OldLocation c) c.GetScaledCapsuleRadius
            c.GetScaledCapsuleHalfHeight).2.2
          (-1 * InHit.ImpactNormal.dot GravDir) (StepUp_OldLocation c) out Hit c3 := by
  unfold StepUp_beforeDown at h
  by_cases he : StepUp_entryRejects env GravDir InHit c = true
  · rw [if_pos he] at h
    exact absurd h (by simp)
  · rw [if_neg he] at h
    unfold StepUp_entryRejects at he
    simp only [Bool.or_eq_true, decide_eq_true_eq, not_or] at he
    obtain ⟨⟨⟨he1, he2⟩, he3⟩, he4⟩ := he
    unfold StepUp
    simp only [] at h ⊢
    rw [if_neg (by simpa using he1), if_neg he2, if_neg he3, if_neg he4]
    split_ifs at h ⊢ with hp
    generalize hf : StepUp_forward env _ Delta _ _ _ = o at h ⊢
    cases o with
    | done r c4 => exact absurd h (by simp)
    | goOn Hit1 c4 =>
      simp only [Option.some.injEq, Prod.mk.injEq] at h
      obtain ⟨h1, h2⟩ := h
      subst h1 h2
      rfl

theorem StepUp_validateLanding_accepts (env : Engine) (edgeOk : Bool) (Delta : FVector)
    (Hit : FHitResult) (OldLocation : FVector) (PawnFloorPointZ StepSideZ : ℚ) (out : Bool)
    (c : Comp) (r : FStepDownResult)
    (h : (StepUp_validateLanding env edgeOk Delta Hit OldLocation PawnFloorPointZ StepSideZ out
      c).1 = some r) :
    Hit.ImpactPoint.Z - PawnFloorPointZ ≤ c.MaxStepHeight
      ∧ (env.IsWalkable Hit c = true
        ∨ (¬ Delta.dot Hit.ImpactNormal < 0 ∧ Hit.Location.Z ≤ OldLocation.Z))
      ∧ edgeOk = true := by
  unfold StepUp_validateLanding at h
  simp only [] at h
  by_cases h1 : Hit.ImpactPoint.Z - PawnFloorPointZ > c.MaxStepHeight
  · rw [if_pos h1] at h
    exact absurd h (by simp)
  · rw [if_neg h1] at h
    refine ⟨not_lt.mp h1, ?_, ?_⟩
    · by_cases hw : env.IsWalkable Hit c = true
      · exact Or.inl hw
      · right
        simp only [hw, Bool.not_false, Bool.not_true, ↓reduceIte, decide_eq_true_eq] at h
        by_cases hn : Delta.dot Hit.ImpactNormal < 0
        · simp [hn] at h
        · refine ⟨hn, ?_⟩
          by_contra hz
          simp [hn, not_le.mp hz] at h
    · by_contra he
      have he2 : edgeOk = false := by simpa using he
      subst he2
      split_ifs at h <;> simp_all

theorem StepUp_down_accepts (env : Engine) (sc : ScopedMovementUpdate)
    (edgeTest : Comp → FVector → FVector → ℚ → Bool) (GravDir Delta : FVector)
    (D R P S : ℚ) (OldLocation : FVector) (out : Bool) (Hit : FHitResult) (c : Comp)
    (hv : (env.MoveUpdatedComponent (GravDir.scale D) c.Rotation true Hit
      c).2.1.IsValidBlockingHit = true)
    (ht : (StepUp_down env sc edgeTest GravDir Delta D R P S OldLocation out Hit c).1 = true) :
    ∃ r, (StepUp_validateLanding env
        (edgeTest (env.MoveUpdatedComponent (GravDir.scale D) c.Rotation true Hit c).2.2
          (env.MoveUpdatedComponent (GravDir.scale D) c.Rotation true Hit c).2.1.Location
          (env.MoveUpdatedComponent (GravDir.scale D) c.Rotation true Hit c).2.1.ImpactPoint R)
        Delta (env.MoveUpdatedComponent (GravDir.scale D) c.Rotation true Hit c).2.1
        OldLocation P S out
        (env.MoveUpdatedComponent (GravDir.scale D) c.Rotation true Hit c).2.2).1 = some r := by
  unfold StepUp_down at ht
  simp only [] at ht
  generalize env.MoveUpdatedComponent (GravDir.scale D) c.Rotation true Hit c = dn at hv ht ⊢
  by_cases hp : dn.2.1.bStartPenetrating = true
  · rw [if_pos hp] at ht
    exact absurd ht (by simp)
  · rw [if_neg hp, if_pos hv] at ht
    generalize hl : StepUp_validateLanding env _ Delta dn.2.1 OldLocation P S out dn.2.2 = l
      at ht ⊢
    obtain ⟨l1, l2⟩ := l
    cases l1 with
    | none => exact absurd ht (by simp)
    | some r => exact ⟨r, rfl⟩

/-- C13. When a `StepUp` call returns true and its downward sweep reported a valid
blocking hit, that landing passed the acceptance tests: the height gain
`Hit.ImpactPoint.Z - PawnFloorPointZ` is at most `MaxStepHeight`; the landing is
walkable, or its impact normal is not opposed to `Delta` and `Hit.Location.Z` is not
above the Z of the capsule location the call started from; and the impact point is
within edge tolerance of `Hit.Location` for the capsule radius. -/
theorem StepUp_accepted_landing (env : Engine) (GravDir Delta : FVector) (InHit : FHitResult)
    (out : Bool) (c : Comp) (Hit : FHitResult) (cd : Comp)
    (hd : StepUp_downSweep env GravDir Delta InHit c = some (Hit, cd))
    (hv : Hit.IsValidBlockingHit = true)
    (ht : (StepUp env GravDir Delta InHit out c).1 = true) :
    Hit.ImpactPoint.Z
        - (StepUp_heights c InHit (StepUp_OldLocation c) c.GetScaledCapsuleRadius
            c.GetScaledCapsuleHalfHeight).2.2 ≤ cd.MaxStepHeight
      ∧ (env.IsWalkable Hit cd = true
        ∨ (¬ Delta.dot Hit.ImpactNormal < 0 ∧ Hit.Location.Z ≤ (StepUp_OldLocation c).Z))
      ∧ IsWithinEdgeTolerance cd Hit.Location Hit.ImpactPoint c.GetScaledCapsuleRadius
        = true := by
  unfold StepUp_downSweep at hd
  generalize hb : StepUp_beforeDown env GravDir Delta InHit c = b at hd
  cases b with
  | none => exact absurd hd (by simp)
  | some p =>
    obtain ⟨Hit0, c3⟩ := p
    simp only [Option.some.injEq] at hd
    rw [StepUp_of_beforeDown env GravDir Delta InHit out c Hit0 c3 hb] at ht
    have hv2 : (env.MoveUpdatedComponent (GravDir.scale
        (StepUp_heights c InHit (StepUp_OldLocation c) c.GetScaledCapsuleRadius
          c.GetScaledCapsuleHalfHeight).2.1) c3.Rotation true Hit0
        c3).2.1.IsValidBlockingHit = true := by
      rw [hd]
      exact hv
    obtain ⟨r, hr⟩ := StepUp_down_accepts env _ _ GravDir Delta _ _ _ _ _ out Hit0 c3 hv2 ht
    rw [hd] at hr
    exact StepUp_validateLanding_accepts env _ Delta Hit _ _ _ out cd r hr

theorem FVector.mk_add_mk (x y z a b d : ℚ) :
    (⟨x, y, z⟩ : FVector) + ⟨a, b, d⟩ = ⟨x + a, y + b, z + d⟩ := rfl

theorem FVector.mk_sub_mk (x y z a b d : ℚ) :
    (⟨x, y, z⟩ : FVector) - ⟨a, b, d⟩ = ⟨x - a, y - b, z - d⟩ := rfl

theorem FVector.neg_mk (x y z : ℚ) : -(⟨x, y, z⟩ : FVector) = ⟨-x, -y, -z⟩ := rfl

theorem stepWorld_downSweep :
    StepUp_downSweep stepWorld ⟨0, 0, -1⟩ ⟨10, 0, 0⟩ { ImpactPoint := ⟨20, 0, -60⟩ } restingComp
      = some ({ bBlockingHit := true, Time := 1 / 2, Normal := ⟨0, 0, 1⟩,
                ImpactNormal := ⟨0, 0, 1⟩, Location := ⟨10, 0, 181 / 10⟩,
                ImpactPoint := ⟨10, 0, 181 / 10 - 90⟩ },
              { restingComp with Location := ⟨10, 0, 181 / 10⟩ }) := by
  norm_num [StepUp_downSweep, StepUp_beforeDown, StepUp_entryRejects, StepUp_forward,
    StepUp_heights, stepWorld, restingComp, flatFloor, StepUp_OldLocation,
    Comp.GetScaledCapsuleRadius, Comp.GetScaledCapsuleHalfHeight, FVector.IsZero,
    Comp.IsMovingOnGround, FFindFloorResult.IsWalkableFloor, IsWithinEdgeTolerance,
    F32.SizeSquared2D, F32.vsub, F32.add, F32.sub, F32.mul, ↓F32.round_KINDA_SMALL_NUMBER,
    F32.round_kinda_small_value, F32.round_ofNat, F32.round_zero,
    FVector.SizeSquared2D, FVector.scale, MAX_FLOOR_DIST, KINDA_SMALL_NUMBER,
    FVector.mk_add_mk, FVector.mk_sub_mk, FVector.neg_mk]

theorem stepWorld_StepUp :
    (StepUp stepWorld ⟨0, 0, -1⟩ ⟨10, 0, 0⟩ { ImpactPoint := ⟨20, 0, -60⟩ } false
      restingComp).1 = true := by
  norm_num [StepUp, StepUp_down, StepUp_validateLanding, StepUp_forward,
    StepUp_heights, stepWorld, restingComp, flatFloor, StepUp_OldLocation,
    Comp.GetScaledCapsuleRadius, Comp.GetScaledCapsuleHalfHeight, FVector.IsZero,
    Comp.IsMovingOnGround, FFindFloorResult.IsWalkableFloor, IsWithinEdgeTolerance,
    F32.SizeSquared2D, F32.vsub, F32.add, F32.sub, F32.mul, ↓F32.round_KINDA_SMALL_NUMBER,
    F32.round_kinda_small_value, F32.round_ofNat, F32.round_zero,
    FVector.SizeSquared2D, FVector.scale, MAX_FLOOR_DIST, KINDA_SMALL_NUMBER,
    FVector.mk_add_mk, FVector.mk_sub_mk, FVector.neg_mk, FHitResult.IsValidBlockingHit]

/-- Witness for C13: stepping onto a ledge in `stepWorld`, the accepted landing is 20
units above the floor point, which is below the step height of 45. -/
theorem StepUp_accepted_landing_witness :
    ({ bBlockingHit := true, Time := 1 / 2, Normal := ⟨0, 0, 1⟩,
       ImpactNormal := ⟨0, 0, 1⟩, Location := ⟨10, 0, 181 / 10⟩,
       ImpactPoint := ⟨10, 0, 181 / 10 - 90⟩ } : FHitResult).ImpactPoint.Z
      - (StepUp_heights restingComp { ImpactPoint := ⟨20, 0, -60⟩ }
          (StepUp_OldLocation restingComp) restingComp.GetScaledCapsuleRadius
          restingComp.GetScaledCapsuleHalfHeight).2.2 ≤ 45 :=
  (StepUp_accepted_landing stepWorld ⟨0, 0, -1⟩ ⟨10, 0, 0⟩ { ImpactPoint := ⟨20, 0, -60⟩ } false
    restingComp _ _ stepWorld_downSweep rfl stepWorld_StepUp).1

theorem StepUp_heights_up (c : Comp) (InHit : FHitResult) (O : FVector) (R H : ℚ) :
    (StepUp_heights c InHit O R H).1
      = if (c.IsMovingOnGround && c.CurrentFloor.IsWalkableFloor) = true then
          max (c.MaxStepHeight - max 0 c.CurrentFloor.FloorDist) 0
        else c.MaxStepHeight := by
  unfold StepUp_heights
  simp only []
  split_ifs <;> rfl

theorem StepUp_heights_down (c : Comp) (InHit : FHitResult) (O : FVector) (R H : ℚ) :
    (StepUp_heights c InHit O R H).2.1
      = if (c.IsMovingOnGround && c.CurrentFloor.IsWalkableFloor) = true then
          c.MaxStepHeight + MAX_FLOOR_DIST * 2
        else c.MaxStepHeight := by
  unfold StepUp_heights
  simp only []
  split_ifs <;> rfl

theorem StepUp_down_eq_land (env : Engine) (sc : ScopedMovementUpdate)
    (edgeTest : Comp → FVector → FVector → ℚ → Bool) (GravDir Delta : FVector)
    (D R P S : ℚ) (OldLocation : FVector) (out : Bool) (Hit : FHitResult) (c : Comp) :
    StepUp_down env sc edgeTest GravDir Delta D R P S OldLocation out Hit c
      = StepUp_land env sc edgeTest Delta R P S OldLocation out
          (env.MoveUpdatedComponent (GravDir.scale D) c.Rotation true Hit c) := rfl

theorem StepUp_of_entry_passed (env : Engine) (GravDir Delta : FVector) (InHit : FHitResult)
    (out : Bool) (c : Comp) (he : StepUp_entryRejects env GravDir InHit c = false) :
    StepUp env GravDir Delta InHit out c
      = if (env.MoveUpdatedComponent ((-GravDir).scale
              (StepUp_heights c InHit (StepUp_OldLocation c) c.GetScaledCapsuleRadius
                c.GetScaledCapsuleHalfHeight).1) c.Rotation true { Time := 1 }
              c).2.1.bStartPenetrating = true then
          (false, none, (ScopedMovementUpdate.start c).RevertMove
            (env.MoveUpdatedComponent ((-GravDir).scale
              (StepUp_heights c InHit (StepUp_OldLocation c) c.GetScaledCapsuleRadius
                c.GetScaledCapsuleHalfHeight).1) c.Rotation true { Time := 1 } c).2.2)
        else
          match StepUp_forward env (ScopedMovementUpdate.start c) Delta
            (env.MoveUpdatedComponent ((-GravDir).scale
              (StepUp_heights c InHit (StepUp_OldLocation c) c.GetScaledCapsuleRadius
                c.GetScaledCapsuleHalfHeight).1) c.Rotation true { Time := 1 } c).2.1
            (env.MoveUpdatedComponent Delta c.Rotation true { Time := 1 }
              (env.MoveUpdatedComponent ((-GravDir).scale
                (StepUp_heights c InHit (StepUp_OldLocation c) c.GetScaledCapsuleRadius
                  c.GetScaledCapsuleHalfHeight).1) c.Rotation true { Time := 1 } c).2.2).2.1
            (env.MoveUpdatedComponent Delta c.Rotation true { Time := 1 }
              (env.MoveUpdatedComponent ((-GravDir).scale
                (StepUp_heights c InHit (StepUp_OldLocation c) c.GetScaledCapsuleRadius
                  c.GetScaledCapsuleHalfHeight).1) c.Rotation true { Time := 1 } c).2.2).2.2
          with
          | StepOutcome.done r c3 => (r, none, c3)
          | StepOutcome.goOn Hit c3 =>
            StepUp_land env (ScopedMovementUpdate.start c) IsWithinEdgeTolerance Delta
              c.GetScaledCapsuleRadius
              (StepUp_heights c InHit (StepUp_OldLocation c) c.GetScaledCapsuleRadius
                c.GetScaledCapsuleHalfHeight).2.2
              (-1 * InHit.ImpactNormal.dot GravDir) (StepUp_OldLocation c) out
              (env.MoveUpdatedComponent (GravDir.scale
                (StepUp_heights c InHit (StepUp_OldLocation c) c.GetScaledCapsuleRadius
                  c.GetScaledCapsuleHalfHeight).2.1) c3.Rotation true Hit c3) := by
  unfold StepUp_entryRejects at he
  simp only [Bool.or_eq_false_iff, decide_eq_false_iff_not] at he
  obtain ⟨⟨⟨he1, he2⟩, he3⟩, he4⟩ := he
  unfold StepUp
  simp only []
  rw [if_neg (by simpa using he1), if_neg he2, if_neg he3, if_neg (by simpa using he4)]
  rfl

theorem StepUp_sweeps_of_entry_passed (env : Engine) (GravDir Delta : FVector)
    (InHit : FHitResult) (c : Comp) (he : StepUp_entryRejects env GravDir InHit c = false) :
    StepUp_sweeps env GravDir Delta InHit c
      = if (env.MoveUpdatedComponent ((-GravDir).scale
              (StepUp_heights c InHit (StepUp_OldLocation c) c.GetScaledCapsuleRadius
                c.GetScaledCapsuleHalfHeight).1) c.Rotation true { Time := 1 }
              c).2.1.bStartPenetrating = true then
          [(-GravDir).scale (StepUp_heights c InHit (StepUp_OldLocation c)
            c.GetScaledCapsuleRadius c.GetScaledCapsuleHalfHeight).1]
        else
          match StepUp_forward env (ScopedMovementUpdate.start c) Delta
            (env.MoveUpdatedComponent ((-GravDir).scale
              (StepUp_heights c InHit (StepUp_OldLocation c) c.GetScaledCapsuleRadius
                c.GetScaledCapsuleHalfHeight).1) c.Rotation true { Time := 1 } c).2.1
            (env.MoveUpdatedComponent Delta c.Rotation true { Time := 1 }
              (env.MoveUpdatedComponent ((-GravDir).scale
                (StepUp_heights c InHit (StepUp_OldLocation c) c.GetScaledCapsuleRadius
                  c.GetScaledCapsuleHalfHeight).1) c.Rotation true { Time := 1 } c).2.2).2.1
            (env.MoveUpdatedComponent Delta c.Rotation true { Time := 1 }
              (env.MoveUpdatedComponent ((-GravDir).scale
                (StepUp_heights c InHit (StepUp_OldLocation c) c.GetScaledCapsuleRadius
                  c.GetScaledCapsuleHalfHeight).1) c.Rotation true { Time := 1 } c).2.2).2.2
          with
          | StepOutcome.done _ _ =>
            [(-GravDir).scale (StepUp_heights c InHit (StepUp_OldLocation c)
              c.GetScaledCapsuleRadius c.GetScaledCapsuleHalfHeight).1, Delta]
          | StepOutcome.goOn _ _ =>
            [(-GravDir).scale (StepUp_heights c InHit (StepUp_OldLocation c)
              c.GetScaledCapsuleRadius c.GetScaledCapsuleHalfHeight).1, Delta,
              GravDir.scale (StepUp_heights c InHit (StepUp_OldLocation c)
                c.GetScaledCapsuleRadius c.GetScaledCapsuleHalfHeight).2.1] := by
  unfold StepUp_sweeps StepUp_beforeDown
  rw [he]
  simp only [Bool.false_eq_true, ↓reduceIte]
  split_ifs with hp
  · rfl
  · generalize StepUp_forward env _ Delta _ _ _ = o
    cases o <;> rfl

/-- C14, as the code has it. A `StepUp` call that passes its entry checks sweeps the
capsule against gravity by `U`: `MaxStepHeight`, less the current floor distance (not
below zero) when the pawn moves on ground over a walkable floor. If that sweep started in
penetration the call reverts and returns false. Else it sweeps forward by `Delta`, from
where the upward sweep left the capsule; when the handling of the forward hit ends the
call, that is its result. Else it sweeps along gravity by `D`, `MaxStepHeight` plus
`2 * MAX_FLOOR_DIST` when the pawn moves on ground over a walkable floor, from where the
forward handling left the capsule, and the result of the call is what the landing code
makes of that sweep. The call makes no other sweep of its own. -/
theorem StepUp_sweep_sequence (env : Engine) (GravDir Delta : FVector) (InHit : FHitResult)
    (out : Bool) (c : Comp) (h : StepUp_entryRejects env GravDir InHit c = false)
    (U D : ℚ)
    (hU : U = if (c.IsMovingOnGround && c.CurrentFloor.IsWalkableFloor) = true then
        max (c.MaxStepHeight - max 0 c.CurrentFloor.FloorDist) 0
      else c.MaxStepHeight)
    (hD : D = if (c.IsMovingOnGround && c.CurrentFloor.IsWalkableFloor) = true then
        c.MaxStepHeight + MAX_FLOOR_DIST * 2
      else c.MaxStepHeight)
    (up fwd : Bool × FHitResult × Comp)
    (hup : up = env.MoveUpdatedComponent ((-GravDir).scale U) c.Rotation true { Time := 1 } c)
    (hfwd : fwd = env.MoveUpdatedComponent Delta c.Rotation true { Time := 1 } up.2.2) :
    (up.2.1.bStartPenetrating = true →
        StepUp env GravDir Delta InHit out c
            = (false, none, (ScopedMovementUpdate.start c).RevertMove up.2.2)
          ∧ StepUp_sweeps env GravDir Delta InHit c = [(-GravDir).scale U])
      ∧ (up.2.1.bStartPenetrating = false →
          (∀ r c3,
            StepUp_forward env (ScopedMovementUpdate.start c) Delta up.2.1 fwd.2.1 fwd.2.2
              = StepOutcome.done r c3 →
            StepUp env GravDir Delta InHit out c = (r, none, c3)
              ∧ StepUp_sweeps env GravDir Delta InHit c = [(-GravDir).scale U, Delta])
          ∧ (∀ Hit c3,
            StepUp_forward env (ScopedMovementUpdate.start c) Delta up.2.1 fwd.2.1 fwd.2.2
              = StepOutcome.goOn Hit c3 →
            StepUp env GravDir Delta InHit out c
                = StepUp_land env (ScopedMovementUpdate.start c) IsWithinEdgeTolerance Delta
                    c.GetScaledCapsuleRadius
                    (StepUp_heights c InHit (StepUp_OldLocation c) c.GetScaledCapsuleRadius
                      c.GetScaledCapsuleHalfHeight).2.2
                    (-1 * InHit.ImpactNormal.dot GravDir) (StepUp_OldLocation c) out
                    (env.MoveUpdatedComponent (GravDir.scale D) c3.Rotation true Hit c3)
              ∧ StepUp_sweeps env GravDir Delta InHit c
                = [(-GravDir).scale U, Delta, GravDir.scale D])) := by
  rw [← StepUp_heights_up c InHit (StepUp_OldLocation c) c.GetScaledCapsuleRadius
    c.GetScaledCapsuleHalfHeight] at hU
  rw [← StepUp_heights_down c InHit (StepUp_OldLocation c) c.GetScaledCapsuleRadius
    c.GetScaledCapsuleHalfHeight] at hD
  subst hU hD hfwd hup
  rw [StepUp_of_entry_passed env GravDir Delta InHit out c h,
    StepUp_sweeps_of_entry_passed env GravDir Delta InHit c h]
  refine ⟨fun hp => ?_, fun hp => ⟨fun r c3 hf => ?_, fun Hit c3 hf => ?_⟩⟩
  · rw [if_pos hp, if_pos hp]
    exact ⟨rfl, rfl⟩
  · rw [if_neg (by rw [hp]; simp), if_neg (by rw [hp]; simp), hf]
    exact ⟨rfl, rfl⟩
  · rw [if_neg (by rw [hp]; simp), if_neg (by rw [hp]; simp), hf]
    exact ⟨rfl, rfl⟩

theorem knockingWorld_entry :
    StepUp_entryRejects knockingWorld ⟨0, 0, -1⟩ { ImpactPoint := ⟨20, 0, -60⟩ } restingComp
      = false := by
  norm_num [StepUp_entryRejects, knockingWorld, restingComp, StepUp_OldLocation,
    Comp.GetScaledCapsuleRadius, Comp.GetScaledCapsuleHalfHeight, FVector.IsZero]

theorem restingComp_up :
    (if (restingComp.IsMovingOnGround && restingComp.CurrentFloor.IsWalkableFloor) = true then
        max (restingComp.MaxStepHeight - max 0 restingComp.CurrentFloor.FloorDist) 0
      else restingComp.MaxStepHeight) = 43 := by
  norm_num [restingComp, flatFloor, Comp.IsMovingOnGround, FFindFloorResult.IsWalkableFloor]

theorem restingComp_down :
    (if (restingComp.IsMovingOnGround && restingComp.CurrentFloor.IsWalkableFloor) = true then
        restingComp.MaxStepHeight + MAX_FLOOR_DIST * 2
      else restingComp.MaxStepHeight) = 249 / 5 := by
  norm_num [restingComp, flatFloor, Comp.IsMovingOnGround, FFindFloorResult.IsWalkableFloor,
    MAX_FLOOR_DIST]

theorem knockingWorld_StepUp :
    StepUp knockingWorld ⟨0, 0, -1⟩ ⟨10, 0, 0⟩ { ImpactPoint := ⟨20, 0, -60⟩ } false restingComp
      = (true, none,
          { restingComp with Location := ⟨5, 0, 43⟩,
                             MovementMode := EMovementMode.MOVE_Falling }) := by
  rw [StepUp_of_entry_passed _ _ _ _ _ _ knockingWorld_entry]
  norm_num [StepUp_forward, StepUp_heights, knockingWorld, restingComp, flatFloor,
    StepUp_OldLocation, Comp.GetScaledCapsuleRadius, Comp.GetScaledCapsuleHalfHeight,
    Comp.IsMovingOnGround, Comp.IsFalling, FFindFloorResult.IsWalkableFloor,
    IsWithinEdgeTolerance, F32.SizeSquared2D, F32.vsub, F32.add, F32.sub, F32.mul,
    ↓F32.round_KINDA_SMALL_NUMBER, F32.round_kinda_small_value, F32.round_ofNat, F32.round_zero,
    FVector.scale, MAX_FLOOR_DIST, KINDA_SMALL_NUMBER, FVector.mk_add_mk, FVector.mk_sub_mk,
    FVector.neg_mk]

/-- Counterexample to C14 as stated: a pawn walking on a floor two units below it, with
`MaxStepHeight` 45, in a world where vertical sweeps are free and the forward sweep is
stopped half way by a wall that knocks the pawn into Falling. A sweep up by `MaxStepHeight`
would leave the capsule at Z = 45; `StepUp` returns with the capsule at (5, 0, 43): it
was swept up by 43. -/
theorem StepUp_on_floor_sweeps_up_less :
    restingComp.MaxStepHeight = 45
      ∧ restingComp.Location = ⟨0, 0, 0⟩
      ∧ StepUp_entryRejects knockingWorld ⟨0, 0, -1⟩ { ImpactPoint := ⟨20, 0, -60⟩ } restingComp
          = false
      ∧ (knockingWorld.MoveUpdatedComponent
          ((-(⟨0, 0, -1⟩ : FVector)).scale restingComp.MaxStepHeight) restingComp.Rotation true
          { Time := 1 } restingComp).2.2.Location = ⟨0, 0, 45⟩
      ∧ (StepUp knockingWorld ⟨0, 0, -1⟩ ⟨10, 0, 0⟩ { ImpactPoint := ⟨20, 0, -60⟩ } false
          restingComp).2.2.Location = ⟨5, 0, 43⟩
      ∧ StepUp_sweeps knockingWorld ⟨0, 0, -1⟩ ⟨10, 0, 0⟩ { ImpactPoint := ⟨20, 0, -60⟩ }
          restingComp = [⟨0, 0, 43⟩, ⟨10, 0, 0⟩] := by
  refine ⟨rfl, rfl, knockingWorld_entry, ?_, ?_, ?_⟩
  · norm_num [knockingWorld, restingComp, FVector.scale, FVector.neg_mk, FVector.mk_add_mk]
  · rw [knockingWorld_StepUp]
  · rw [StepUp_sweeps_of_entry_passed _ _ _ _ _ knockingWorld_entry]
    norm_num [StepUp_forward, StepUp_heights, knockingWorld, restingComp, flatFloor,
      StepUp_OldLocation, Comp.GetScaledCapsuleRadius, Comp.GetScaledCapsuleHalfHeight,
      Comp.IsMovingOnGround, Comp.IsFalling, FFindFloorResult.IsWalkableFloor,
      IsWithinEdgeTolerance, F32.SizeSquared2D, F32.vsub, F32.add, F32.sub, F32.mul,
      ↓F32.round_KINDA_SMALL_NUMBER, F32.round_kinda_small_value, F32.round_ofNat,
      F32.round_zero, FVector.scale, MAX_FLOOR_DIST, KINDA_SMALL_NUMBER, FVector.mk_add_mk,
      FVector.mk_sub_mk, FVector.neg_mk]

theorem stepWorld_entry :
    StepUp_entryRejects stepWorld ⟨0, 0, -1⟩ { ImpactPoint := ⟨20, 0, -60⟩ } restingComp
      = false := by
  norm_num [StepUp_entryRejects, stepWorld, restingComp, StepUp_OldLocation,
    Comp.GetScaledCapsuleRadius, Comp.GetScaledCapsuleHalfHeight, FVector.IsZero]

/-- Witness for C14 as the code has it: stepping onto a ledge in `stepWorld`, the pawn of
the counterexample is swept up by 43, forward by 10 and down by 49.8, and the result of
`StepUp` is what the landing code makes of the downward sweep from (10, 0, 43). -/
theorem StepUp_sweep_sequence_witness :
    StepUp stepWorld ⟨0, 0, -1⟩ ⟨10, 0, 0⟩ { ImpactPoint := ⟨20, 0, -60⟩ } false restingComp
        = StepUp_land stepWorld (ScopedMovementUpdate.start restingComp) IsWithinEdgeTolerance
            ⟨10, 0, 0⟩ restingComp.GetScaledCapsuleRadius
            (StepUp_heights restingComp { ImpactPoint := ⟨20, 0, -60⟩ }
              (StepUp_OldLocation restingComp) restingComp.GetScaledCapsuleRadius
              restingComp.GetScaledCapsuleHalfHeight).2.2
            (-1 * (({ ImpactPoint := ⟨20, 0, -60⟩ } : FHitResult).ImpactNormal.dot ⟨0, 0, -1⟩))
            (StepUp_OldLocation restingComp) false
            (stepWorld.MoveUpdatedComponent ((⟨0, 0, -1⟩ : FVector).scale (249 / 5))
              restingComp.Rotation true { Time := 1 }
              { restingComp with Location := ⟨10, 0, 43⟩ })
      ∧ StepUp_sweeps stepWorld ⟨0, 0, -1⟩ ⟨10, 0, 0⟩ { ImpactPoint := ⟨20, 0, -60⟩ }
          restingComp
        = [(-(⟨0, 0, -1⟩ : FVector)).scale 43, ⟨10, 0, 0⟩,
            (⟨0, 0, -1⟩ : FVector).scale (249 / 5)] :=
  ((StepUp_sweep_sequence stepWorld ⟨0, 0, -1⟩ ⟨10, 0, 0⟩ { ImpactPoint := ⟨20, 0, -60⟩ } false
    restingComp stepWorld_entry 43 (249 / 5) restingComp_up.symm restingComp_down.symm
    _ _ rfl rfl).2
    (by norm_num [stepWorld, FVector.scale, FVector.neg_mk])).2 { Time := 1 }
    { restingComp with Location := ⟨10, 0, 43⟩ }
    (by
      norm_num [StepUp_forward, stepWorld, restingComp, FVector.scale, FVector.neg_mk,
        FVector.mk_add_mk])

/-- C15. `StepUp` returns false, makes no sweep and leaves the component as it was when
`CanStepUp(InHit)` is false, `MaxStepHeight <= 0`, the impact point is above the height
the capsule can reach (`ImpactPoint.Z > Z + HalfHeight - Radius`), the impact point is at
or below the capsule base (`ImpactPoint.Z <= Z - HalfHeight`), or the gravity direction
is the zero vector; `Z` is that of the capsule location the call works with. -/
theorem StepUp_entry_rejection (env : Engine) (GravDir Delta : FVector) (InHit : FHitResult)
    (out : Bool) (c : Comp)
    (h : env.CanStepUp InHit c = false ∨ c.MaxStepHeight ≤ 0
      ∨ InHit.ImpactPoint.Z
          > (StepUp_OldLocation c).Z + (c.GetScaledCapsuleHalfHeight - c.GetScaledCapsuleRadius)
      ∨ InHit.ImpactPoint.Z ≤ (StepUp_OldLocation c).Z - c.GetScaledCapsuleHalfHeight
      ∨ GravDir = FVector.ZeroVector) :
    StepUp env GravDir Delta InHit out c = (false, none, c)
      ∧ StepUp_sweeps env GravDir Delta InHit c = [] := by
  have he : StepUp_entryRejects env GravDir InHit c = true := by
    unfold StepUp_entryRejects
    simp only [Bool.or_eq_true, decide_eq_true_eq, Bool.not_eq_true']
    rcases h with h | h | h | h | h
    · exact Or.inl (Or.inl (Or.inl (Or.inl h)))
    · exact Or.inl (Or.inl (Or.inl (Or.inr h)))
    · exact Or.inl (Or.inl (Or.inr h))
    · exact Or.inl (Or.inr h)
    · exact Or.inr ((FVector.IsZero_iff _).2 h)
  refine ⟨StepUp_of_entryRejects env GravDir Delta InHit out c he, ?_⟩
  unfold StepUp_sweeps
  rw [if_pos he]

/-- Witness for C15: a call with the zero vector as gravity direction. -/
theorem StepUp_entry_rejection_witness :
    StepUp stepWorld ⟨0, 0, 0⟩ ⟨10, 0, 0⟩ { ImpactPoint := ⟨20, 0, -60⟩ } true restingComp
        = (false, none, restingComp)
      ∧ StepUp_sweeps stepWorld ⟨0, 0, 0⟩ ⟨10, 0, 0⟩ { ImpactPoint := ⟨20, 0, -60⟩ }
          restingComp = [] :=
  StepUp_entry_rejection stepWorld ⟨0, 0, 0⟩ ⟨10, 0, 0⟩ { ImpactPoint := ⟨20, 0, -60⟩ } true
    restingComp (Or.inr (Or.inr (Or.inr (Or.inr rfl))))


/-! ## FindFloor on an unstable base -/

theorem FindFloor_sweep_unstable_base (env : Engine) (U : FVector) (FL FS : ℚ)
    (O : FFindFloorResult) (d : Option FHitResult) (c : Comp) (b : Nat)
    (hd : FL > 0 ∨ FS > 0)
    (halways : c.bAlwaysCheckFloor = false) (hforce : c.bForceNextFloorCheck = false)
    (htel : c.bJustTeleported = false) (hbase : c.MovementBase = some b)
    (hun : env.BaseQueryCollisionEnabled b c = false
      ∨ env.BaseResponseToChannel b c ≠ ECollisionResponse.ECR_Block
      ∨ env.IsDynamicBase b c = true) :
    FindFloor_sweep env U FL FS O true d c
      = (env.ComputeFloorDist U FL FS O c.GetScaledCapsuleRadius d
          { c with bForceNextFloorCheck := false }, true,
          { c with bForceNextFloorCheck := false }) := by
  have hflag : (!env.BaseQueryCollisionEnabled b c
      || decide (env.BaseResponseToChannel b c ≠ ECollisionResponse.ECR_Block)
      || env.IsDynamicBase b c) = true := by
    rcases hun with h | h | h
    · simp [h]
    · simp [h]
    · simp [h]
  unfold FindFloor_sweep
  rw [if_pos hd]
  simp only [halways, hforce, htel, hbase, hflag, Bool.not_true, Bool.or_self, Bool.false_eq_true,
    ↓reduceIte, Bool.not_true, Bool.false_and, Bool.and_false]
  rfl

/-- C16, as the code has it. When `FindFloor` is called for a trivial move (`bZeroDelta`,
no forced check, not just teleported, `bAlwaysCheckFloor` off) and the standing base is
dynamic, does not block the capsule's channel, or has query collision disabled,
`FindFloor` does not reuse the cached floor: its sweep stage makes the full floor check
(`ComputeFloorDist`) in that same call, and `bForceNextFloorCheck` is false when it
returns. -/
theorem FindFloor_unstable_base_rechecks (env : Engine) (L : FVector) (O : FFindFloorResult)
    (d : Option FHitResult) (c : Comp) (b : Nat)
    (hvalid : env.HasValidData c = true) (hq : env.IsQueryCollisionEnabled c = true)
    (halways : c.bAlwaysCheckFloor = false) (hforce : c.bForceNextFloorCheck = false)
    (htel : c.bJustTeleported = false) (hbase : c.MovementBase = some b)
    (hun : env.BaseQueryCollisionEnabled b c = false
      ∨ env.BaseResponseToChannel b c ≠ ECollisionResponse.ECR_Block
      ∨ env.IsDynamicBase b c = true) :
    (FindFloor env L O true d c).2.bForceNextFloorCheck = false
      ∧ ∀ (U : FVector) (FL FS : ℚ), (FL > 0 ∨ FS > 0) →
          FindFloor_sweep env U FL FS O true d c
            = (env.ComputeFloorDist U FL FS O c.GetScaledCapsuleRadius d
                { c with bForceNextFloorCheck := false }, true,
                { c with bForceNextFloorCheck := false }) := by
  refine ⟨?_, fun U FL FS hd =>
    FindFloor_sweep_unstable_base env U FL FS O d c b hd halways hforce htel hbase hun⟩
  unfold FindFloor
  rw [if_neg (by simp [hvalid, hq])]
  simp only []
  rw [FindFloor_sweep_unstable_base env _ _ _ O d c b
    (Or.inr (lt_of_lt_of_le (by norm_num [MAX_FLOOR_DIST]) (le_max_left _ _)))
    halways hforce htel hbase hun]

/-- Counterexample to C16 as stated: a trivial-move floor check of a character standing
on a dynamic base returns with `bForceNextFloorCheck` false. -/
theorem FindFloor_dynamic_base_flag_is_false :
    dynamicBaseWorld.IsDynamicBase 7 basedComp = true
      ∧ basedComp.MovementBase = some 7
      ∧ basedComp.bAlwaysCheckFloor = false ∧ basedComp.bForceNextFloorCheck = false
      ∧ basedComp.bJustTeleported = false
      ∧ (FindFloor dynamicBaseWorld basedComp.Location basedComp.CurrentFloor true none
          basedComp).2.bForceNextFloorCheck = false := by
  refine ⟨rfl, rfl, rfl, rfl, rfl, ?_⟩
  norm_num [FindFloor, FindFloor_sweep, dynamicBaseWorld, basedComp, MAX_FLOOR_DIST,
    KINDA_SMALL_NUMBER, Comp.IsMovingOnGround]

/-- Witness for C16 as the code has it, on the dynamic base. -/
theorem FindFloor_unstable_base_rechecks_witness :
    (FindFloor dynamicBaseWorld basedComp.Location basedComp.CurrentFloor true none
      basedComp).2.bForceNextFloorCheck = false :=
  (FindFloor_unstable_base_rechecks dynamicBaseWorld basedComp.Location basedComp.CurrentFloor
    none basedComp 7 rfl rfl rfl rfl rfl rfl (Or.inr (Or.inr rfl))).1


/-! ## The delta time of an accepted server move -/

theorem ServerMoveVR_accepted_eq (env : Engine) (TimeStamp : ℚ)
    (InAccel ClientLoc CapsuleLoc : FVector) (ConditionalReps : FVRConditionalMoveRep)
    (LFDiff : FVector) (CapsuleYaw MoveFlags : Nat) (MoveReps : FVRConditionalMoveRep2)
    (ClientMovementMode : Nat) (s : Sim)
    (hvalid : env.HasValidData s.comp = true) (htick : env.IsComponentTickEnabled s.comp = true)
    (hacc : (env.VerifyClientTimeStamp TimeStamp s.comp).1 = true) :
    ServerMoveVR_Implementation env TimeStamp InAccel ClientLoc CapsuleLoc ConditionalReps
        LFDiff CapsuleYaw MoveFlags MoveReps ClientMovementMode s
      = if (ServerMoveVR_received env TimeStamp s.comp).1 = false then
          ServerMoveVR_stamped env TimeStamp MoveReps s
        else
          (if (!env.IsPaused (ServerMoveVR_stamped env TimeStamp MoveReps s).comp
              && decide (ServerMoveVR_DeltaTime env TimeStamp s.comp > 0)) = true then
            ({ ((ServerMoveVR_prepare env (ServerMoveVR_DeltaTime env TimeStamp s.comp)
                  (env.VerifyClientTimeStamp TimeStamp s.comp).2.HasPlayerController CapsuleLoc
                  ConditionalReps LFDiff CapsuleYaw
                  (ServerMoveVR_stamped env TimeStamp MoveReps s)).call
                (Call.MoveAutonomous TimeStamp (ServerMoveVR_DeltaTime env TimeStamp s.comp)
                  MoveFlags InAccel)
                (env.MoveAutonomous TimeStamp (ServerMoveVR_DeltaTime env TimeStamp s.comp)
                  MoveFlags InAccel)) with
              comp := { ((ServerMoveVR_prepare env (ServerMoveVR_DeltaTime env TimeStamp s.comp)
                  (env.VerifyClientTimeStamp TimeStamp s.comp).2.HasPlayerController CapsuleLoc
                  ConditionalReps LFDiff CapsuleYaw
                  (ServerMoveVR_stamped env TimeStamp MoveReps s)).call
                (Call.MoveAutonomous TimeStamp (ServerMoveVR_DeltaTime env TimeStamp s.comp)
                  MoveFlags InAccel)
                (env.MoveAutonomous TimeStamp (ServerMoveVR_DeltaTime env TimeStamp s.comp)
                  MoveFlags InAccel)).comp with bHasRequestedVelocity := false } } : Sim)
          else ServerMoveVR_stamped env TimeStamp MoveReps s).call
            (Call.ServerMoveHandleClientError TimeStamp
              (ServerMoveVR_DeltaTime env TimeStamp s.comp) InAccel ClientLoc
              MoveReps.ClientMovementBase MoveReps.ClientBaseBoneName ClientMovementMode)
            (env.ServerMoveHandleClientError TimeStamp
              (ServerMoveVR_DeltaTime env TimeStamp s.comp) InAccel ClientLoc
              MoveReps.ClientMovementBase MoveReps.ClientBaseBoneName ClientMovementMode) := by
  unfold ServerMoveVR_Implementation
  rw [if_neg (by simp [hvalid, htick])]
  simp only []
  rw [if_neg (by simp [hacc])]
  by_cases hr : (ServerMoveVR_received env TimeStamp s.comp).1 = false
  · rw [if_pos hr]
    unfold ServerMoveVR_received at hr
    simp only [] at hr
    rw [if_pos (by simp [hr])]
    rfl
  · rw [if_neg hr]
    have hr1 : (ServerMoveVR_received env TimeStamp s.comp).1 = true := by simpa using hr
    unfold ServerMoveVR_received at hr1
    simp only [] at hr1
    rw [if_neg (by simp [hr1])]
    simp only [hr1, Bool.not_true, Bool.and_false, Bool.false_eq_true, ↓reduceIte]
    rfl

theorem ServerMoveVR_stamped_stamp (env : Engine) (hk : env.KeepsClientTimeStamp)
    (TimeStamp : ℚ) (MoveReps : FVRConditionalMoveRep2) (s : Sim) :
    (ServerMoveVR_stamped env TimeStamp MoveReps s).comp.Server.CurrentClientTimeStamp
      = TimeStamp := by
  unfold ServerMoveVR_stamped
  simp only []
  split_ifs
  · simp only [Sim.call]
    rw [hk.1]
  · rfl

theorem ServerMoveVR_stamped_log (env : Engine) (TimeStamp : ℚ)
    (MoveReps : FVRConditionalMoveRep2) (s : Sim) :
    (ServerMoveVR_stamped env TimeStamp MoveReps s).log.filter Call.isMoveAutonomous
      = s.log.filter Call.isMoveAutonomous := by
  unfold ServerMoveVR_stamped
  simp only []
  split_ifs
  · simp [Sim.call, Call.isMoveAutonomous]
  · rfl

theorem ServerMoveVR_prepare_stamp (env : Engine) (hk : env.KeepsClientTimeStamp)
    (DeltaTime : ℚ) (PC : Bool) (CapsuleLoc : FVector)
    (ConditionalReps : FVRConditionalMoveRep) (LFDiff : FVector) (CapsuleYaw : Nat) (s : Sim) :
    (ServerMoveVR_prepare env DeltaTime PC CapsuleLoc ConditionalReps LFDiff
        CapsuleYaw s).comp.Server.CurrentClientTimeStamp
      = s.comp.Server.CurrentClientTimeStamp := by
  have h1 : (if PC = true then s.call (Call.UpdateRotation DeltaTime)
      (env.UpdateRotation DeltaTime) else s).comp.Server.CurrentClientTimeStamp
      = s.comp.Server.CurrentClientTimeStamp := by
    cases PC
    · rfl
    · exact hk.2.1 _ _
  unfold ServerMoveVR_prepare
  simp only []
  generalize (if PC = true then s.call (Call.UpdateRotation DeltaTime)
      (env.UpdateRotation DeltaTime) else s) = s1 at h1 ⊢
  rw [← h1]
  split
  · rw [hk.2.2.1]
    split_ifs <;> rfl
  · split_ifs <;> rfl

/-- C20. For a move whose time stamp `VerifyClientTimeStamp` accepted, the server's
`CurrentClientTimeStamp` is `TimeStamp` when the handler returns. When the server is
also ready for the client, the delta time of the move is
`GetServerMoveDeltaTime(TimeStamp, ..)` evaluated on the server data as it was before
`CurrentClientTimeStamp` was overwritten (`ServerMoveVR_DeltaTime`; the RPC carries no
delta time): `MoveAutonomous` is called, once and with that delta time, exactly when
the world is not paused and the delta time is positive, and the same delta time goes
to `ServerMoveHandleClientError`, the last call made. -/
theorem ServerMoveVR_authoritative_delta (env : Engine) (hk : env.KeepsClientTimeStamp)
    (TimeStamp : ℚ)
    (InAccel ClientLoc CapsuleLoc : FVector) (ConditionalReps : FVRConditionalMoveRep)
    (LFDiff : FVector) (CapsuleYaw MoveFlags : Nat) (MoveReps : FVRConditionalMoveRep2)
    (ClientMovementMode : Nat) (s : Sim)
    (hvalid : env.HasValidData s.comp = true) (htick : env.IsComponentTickEnabled s.comp = true)
    (hacc : (env.VerifyClientTimeStamp TimeStamp s.comp).1 = true) :
    (ServerMoveVR_Implementation env TimeStamp InAccel ClientLoc CapsuleLoc ConditionalReps
        LFDiff CapsuleYaw MoveFlags MoveReps ClientMovementMode
        s).comp.Server.CurrentClientTimeStamp = TimeStamp
      ∧ ((ServerMoveVR_received env TimeStamp s.comp).1 = true →
        (ServerMoveVR_Implementation env TimeStamp InAccel ClientLoc CapsuleLoc ConditionalReps
            LFDiff CapsuleYaw MoveFlags MoveReps ClientMovementMode
            s).log.filter Call.isMoveAutonomous
          = s.log.filter Call.isMoveAutonomous
            ++ (if env.IsPaused (ServerMoveVR_stamped env TimeStamp MoveReps s).comp = false
                  ∧ ServerMoveVR_DeltaTime env TimeStamp s.comp > 0 then
                [Call.MoveAutonomous TimeStamp (ServerMoveVR_DeltaTime env TimeStamp s.comp)
                  MoveFlags InAccel]
              else [])
        ∧ (ServerMoveVR_Implementation env TimeStamp InAccel ClientLoc CapsuleLoc
            ConditionalReps LFDiff CapsuleYaw MoveFlags MoveReps ClientMovementMode
            s).log.getLast?
          = some (Call.ServerMoveHandleClientError TimeStamp
              (ServerMoveVR_DeltaTime env TimeStamp s.comp) InAccel ClientLoc
              MoveReps.ClientMovementBase MoveReps.ClientBaseBoneName ClientMovementMode)) := by
  rw [ServerMoveVR_accepted_eq env TimeStamp InAccel ClientLoc CapsuleLoc ConditionalReps
    LFDiff CapsuleYaw MoveFlags MoveReps ClientMovementMode s hvalid htick hacc]
  by_cases hr : (ServerMoveVR_received env TimeStamp s.comp).1 = false
  · rw [if_pos hr]
    refine ⟨ServerMoveVR_stamped_stamp env hk _ _ _, ?_⟩
    intro h
    rw [hr] at h
    exact absurd h (by simp)
  · rw [if_neg hr]
    by_cases hm : (!env.IsPaused (ServerMoveVR_stamped env TimeStamp MoveReps s).comp
        && decide (ServerMoveVR_DeltaTime env TimeStamp s.comp > 0)) = true
    · rw [if_pos hm]
      have hm2 : env.IsPaused (ServerMoveVR_stamped env TimeStamp MoveReps s).comp = false
          ∧ ServerMoveVR_DeltaTime env TimeStamp s.comp > 0 := by simpa using hm
      refine ⟨?_, fun _ => ⟨?_, ?_⟩⟩
      · simp only [Sim.call]
        rw [hk.2.2.2.2]
        show (env.MoveAutonomous _ _ _ _ _).Server.CurrentClientTimeStamp = TimeStamp
        rw [hk.2.2.2.1, ServerMoveVR_prepare_stamp env hk, ServerMoveVR_stamped_stamp env hk]
      · rw [if_pos hm2]
        simp only [Sim.call, ServerMoveVR_prepare_log, List.filter_append,
          ServerMoveVR_stamped_log]
        cases (env.VerifyClientTimeStamp TimeStamp s.comp).2.HasPlayerController <;>
          simp [Call.isMoveAutonomous]
      · simp [Sim.call]
    · rw [if_neg hm]
      have hm2 : ¬ (env.IsPaused (ServerMoveVR_stamped env TimeStamp MoveReps s).comp = false
          ∧ ServerMoveVR_DeltaTime env TimeStamp s.comp > 0) := by simpa using hm
      refine ⟨?_, fun _ => ⟨?_, ?_⟩⟩
      · simp only [Sim.call]
        rw [hk.2.2.2.2, ServerMoveVR_stamped_stamp env hk]
      · rw [if_neg hm2]
        simp [Sim.call, List.filter_append, ServerMoveVR_stamped_log, Call.isMoveAutonomous]
      · simp [Sim.call]

theorem monotoneServer_keeps : monotoneServer.KeepsClientTimeStamp :=
  ⟨fun _ _ => rfl, fun _ _ => rfl, fun _ => rfl, fun _ _ _ _ _ => rfl,
    fun _ _ _ _ _ _ _ _ => rfl⟩

/-- Witness for C20: the server that last accepted time stamp 5 handles a move stamped
7; it records 7 and calls `MoveAutonomous` once, with its own delta time `1 / 60`. -/
theorem ServerMoveVR_authoritative_delta_witness :
    (ServerMoveVR_Implementation monotoneServer 7 ⟨100, 0, 0⟩ ⟨7, 8, 9⟩ ⟨1, 1, 1⟩ {}
        ⟨2, 2, 40⟩ 100 1 {} 1 { comp := serverComp }).comp.Server.CurrentClientTimeStamp = 7
      ∧ (ServerMoveVR_Implementation monotoneServer 7 ⟨100, 0, 0⟩ ⟨7, 8, 9⟩ ⟨1, 1, 1⟩ {}
          ⟨2, 2, 40⟩ 100 1 {} 1 { comp := serverComp }).log.filter Call.isMoveAutonomous
        = [Call.MoveAutonomous 7 (1 / 60) 1 ⟨100, 0, 0⟩] := by
  have h := ServerMoveVR_authoritative_delta monotoneServer monotoneServer_keeps 7 ⟨100, 0, 0⟩
    ⟨7, 8, 9⟩ ⟨1, 1, 1⟩ {} ⟨2, 2, 40⟩ 100 1 {} 1 { comp := serverComp } rfl rfl
    (by norm_num [monotoneServer, serverComp])
  refine ⟨h.1, ?_⟩
  rw [(h.2 (by simp [ServerMoveVR_received, monotoneServer, serverComp])).1]
  norm_num [ServerMoveVR_DeltaTime, ServerMoveVR_received, monotoneServer, serverComp,
    ServerMoveVR_stamped, Sim.call]


/-! ## The replicated capsule height -/

theorem SetCapsuleHalfHeight_value (c : Comp) (h : ℚ) :
    (c.SetCapsuleHalfHeight h).CapsuleHalfHeight = max 0 (max h c.CapsuleRadius) := rfl

theorem SetCapsuleHalfHeight_valid (c : Comp) (h : ℚ) (hr : 0 ≤ c.CapsuleRadius)
    (hh : c.CapsuleRadius ≤ h) : (c.SetCapsuleHalfHeight h).CapsuleHalfHeight = h := by
  rw [SetCapsuleHalfHeight_value, max_eq_left hh, max_eq_right (le_trans hr hh)]

theorem ServerMoveVR_prepare_height (env : Engine) (DeltaTime : ℚ) (PC : Bool)
    (CapsuleLoc : FVector) (ConditionalReps : FVRConditionalMoveRep) (LFDiff : FVector)
    (CapsuleYaw : Nat) (s : Sim) (root : UVRRootComponent)
    (hroot : (if PC = true then env.UpdateRotation DeltaTime s.comp else s.comp).VRRootCapsule
      = some root) :
    ∃ c6, (ServerMoveVR_prepare env DeltaTime PC CapsuleLoc ConditionalReps LFDiff CapsuleYaw
          s).comp = env.GenerateOffsetToWorld c6
      ∧ c6.CapsuleHalfHeight
        = if ((if PC = true then env.UpdateRotation DeltaTime s.comp
                else s.comp).VRReplicateCapsuleHeight
              && !IsNearlyEqual LFDiff.Z (if PC = true then env.UpdateRotation DeltaTime s.comp
                else s.comp).CapsuleHalfHeight) = true then
            ((if PC = true then env.UpdateRotation DeltaTime s.comp
              else s.comp).SetCapsuleHalfHeight LFDiff.Z).CapsuleHalfHeight
          else (if PC = true then env.UpdateRotation DeltaTime s.comp
              else s.comp).CapsuleHalfHeight := by
  have h1 : (if PC = true then s.call (Call.UpdateRotation DeltaTime)
      (env.UpdateRotation DeltaTime) else s).comp
      = (if PC = true then env.UpdateRotation DeltaTime s.comp else s.comp) := by
    cases PC <;> rfl
  unfold ServerMoveVR_prepare
  simp only []
  rw [h1]
  generalize (if PC = true then env.UpdateRotation DeltaTime s.comp else s.comp) = pre at hroot ⊢
  have hr2 : ∀ c2 : Comp, c2.VRRootCapsule = pre.VRRootCapsule →
      ({ c2 with CustomVRInputVector := ConditionalReps.CustomVRInputVector
                 MoveAction := ConditionalReps.MoveAction } : Comp).VRRootCapsule = some root :=
    fun c2 h => h.trans hroot
  split
  · rename_i root2 hm
    refine ⟨_, rfl, ?_⟩
    split_ifs <;> rfl
  · rename_i hm
    exfalso
    split_ifs at hm
    · rw [hr2 _ rfl] at hm
      exact absurd hm (by simp)
    · rw [hr2 _ rfl] at hm
      exact absurd hm (by simp)

theorem PrepMoveFor_height (env : Engine) (m : SavedMove) (c : Comp) (root : UVRRootComponent)
    (hroot : c.VRRootCapsule = some root) :
    ∃ c6, m.PrepMoveFor env c = env.Super_PrepMoveFor m (env.GenerateOffsetToWorld c6)
      ∧ c6.CapsuleHalfHeight
        = if (c.VRReplicateCapsuleHeight && !IsNearlyEqual m.LFDiff.Z c.CapsuleHalfHeight)
              = true then
            (c.SetCapsuleHalfHeight m.LFDiff.Z).CapsuleHalfHeight
          else c.CapsuleHalfHeight := by
  unfold SavedMove.PrepMoveFor
  simp only []
  split
  · refine ⟨_, rfl, ?_⟩
    split_ifs <;> rfl
  · rename_i hm
    rw [hroot] at hm
    exact absurd hm (by simp)

/-- C19. Where the server applies a received move (`ServerMoveVR_Implementation`, whose
capsule block belongs to `ServerMoveVR_prepare`) and where the client replays a saved
move (`PrepMoveFor`), with a VR root capsule: the component handed to
`GenerateOffsetToWorld` has had `SetCapsuleHalfHeight(LFDiff.Z)` applied when
`VRReplicateCapsuleHeight` is on and `LFDiff.Z` is not nearly equal to the unscaled half
height, so its half height is `LFDiff.Z` whenever that is a half height the capsule can
take (not below the radius); when `VRReplicateCapsuleHeight` is off its half height is
the one before. `pre` is the component entering the server's capsule block. -/
theorem replicated_capsule_height_applied (env : Engine) (DeltaTime : ℚ) (PC : Bool)
    (CapsuleLoc : FVector) (ConditionalReps : FVRConditionalMoveRep) (LFDiff : FVector)
    (CapsuleYaw : Nat) (s : Sim) (pre : Comp) (root : UVRRootComponent)
    (hpre : pre = if PC = true then env.UpdateRotation DeltaTime s.comp else s.comp)
    (hroot : pre.VRRootCapsule = some root)
    (m : SavedMove) (c : Comp) (rootc : UVRRootComponent)
    (hrootc : c.VRRootCapsule = some rootc) :
    (∃ c6, (ServerMoveVR_prepare env DeltaTime PC CapsuleLoc ConditionalReps LFDiff CapsuleYaw
          s).comp = env.GenerateOffsetToWorld c6
      ∧ (pre.VRReplicateCapsuleHeight = true →
          IsNearlyEqual LFDiff.Z pre.CapsuleHalfHeight = false →
          c6.CapsuleHalfHeight = max 0 (max LFDiff.Z pre.CapsuleRadius)
          ∧ (0 ≤ pre.CapsuleRadius → pre.CapsuleRadius ≤ LFDiff.Z →
              c6.CapsuleHalfHeight = LFDiff.Z))
      ∧ (pre.VRReplicateCapsuleHeight = false →
          c6.CapsuleHalfHeight = pre.CapsuleHalfHeight))
    ∧ (∃ c6, m.PrepMoveFor env c = env.Super_PrepMoveFor m (env.GenerateOffsetToWorld c6)
      ∧ (c.VRReplicateCapsuleHeight = true →
          IsNearlyEqual m.LFDiff.Z c.CapsuleHalfHeight = false →
          c6.CapsuleHalfHeight = max 0 (max m.LFDiff.Z c.CapsuleRadius)
          ∧ (0 ≤ c.CapsuleRadius → c.CapsuleRadius ≤ m.LFDiff.Z →
              c6.CapsuleHalfHeight = m.LFDiff.Z))
      ∧ (c.VRReplicateCapsuleHeight = false →
          c6.CapsuleHalfHeight = c.CapsuleHalfHeight)) := by
  constructor
  · subst hpre
    obtain ⟨c6, h1, h2⟩ := ServerMoveVR_prepare_height env DeltaTime PC CapsuleLoc
      ConditionalReps LFDiff CapsuleYaw s root hroot
    refine ⟨c6, h1, ?_, ?_⟩
    · intro he hn
      rw [he, hn] at h2
      simp only [Bool.not_false, Bool.and_self, ↓reduceIte] at h2
      exact ⟨h2, fun hr hh => h2.trans (SetCapsuleHalfHeight_valid _ _ hr hh)⟩
    · intro he
      rw [he] at h2
      simpa using h2
  · obtain ⟨c6, h1, h2⟩ := PrepMoveFor_height env m c rootc hrootc
    refine ⟨c6, h1, ?_, ?_⟩
    · intro he hn
      rw [he, hn] at h2
      simp only [Bool.not_false, Bool.and_self, ↓reduceIte] at h2
      exact ⟨h2, fun hr hh => h2.trans (SetCapsuleHalfHeight_valid _ _ hr hh)⟩
    · intro he
      rw [he] at h2
      simpa using h2

/-- Witness for C19: a move carrying the height 60 for a 20 x 90 capsule that replicates
its height; on the server and in the replay the offset is regenerated on a capsule of
half height 60. -/
theorem replicated_capsule_height_applied_witness :
    (∃ c6, (ServerMoveVR_prepare monotoneServer (1 / 60) false ⟨1, 1, 1⟩ {} ⟨2, 2, 60⟩ 100
          { comp := heightReplicatingComp }).comp = monotoneServer.GenerateOffsetToWorld c6
      ∧ c6.CapsuleHalfHeight = 60)
    ∧ (∃ c6, SavedMove.PrepMoveFor monotoneServer { LFDiff := ⟨2, 2, 60⟩ } heightReplicatingComp
          = monotoneServer.Super_PrepMoveFor { LFDiff := ⟨2, 2, 60⟩ }
              (monotoneServer.GenerateOffsetToWorld c6)
      ∧ c6.CapsuleHalfHeight = 60) := by
  have hn : IsNearlyEqual (60 : ℚ) heightReplicatingComp.CapsuleHalfHeight = false := by
    norm_num [IsNearlyEqual, heightReplicatingComp, SMALL_NUMBER, abs_of_neg]
  have hr : (0 : ℚ) ≤ heightReplicatingComp.CapsuleRadius := by
    norm_num [heightReplicatingComp]
  have hh : heightReplicatingComp.CapsuleRadius ≤ (60 : ℚ) := by
    norm_num [heightReplicatingComp]
  obtain ⟨⟨a, ha1, ha2, _⟩, ⟨b, hb1, hb2, _⟩⟩ :=
    replicated_capsule_height_applied monotoneServer (1 / 60) false ⟨1, 1, 1⟩ {} ⟨2, 2, 60⟩ 100
      { comp := heightReplicatingComp } heightReplicatingComp {} rfl rfl
      { LFDiff := ⟨2, 2, 60⟩ } heightReplicatingComp {} rfl
  exact ⟨⟨a, ha1, (ha2 rfl hn).2 hr hh⟩, ⟨b, hb1, (hb2 rfl hn).2 hr hh⟩⟩


/-! ## Termination of the time-slicing loops -/

theorem PhysWalking_iterations_le (env : Engine) :
    ∀ (n : Nat) (Iterations : Int), (env.MaxSimulationIterations - Iterations).toNat = n →
      ∀ (remainingTime : ℚ) (b1 b2 : Bool) (s : Sim),
        PhysWalking_iterations env remainingTime Iterations b1 b2 s ≤ n := by
  intro n
  induction n with
  | zero =>
    intro it hn rt b1 b2 s
    rw [PhysWalking_iterations]
    rw [dif_neg]
    intro h
    have := h.1.2
    omega
  | succ k ih =>
    intro it hn rt b1 b2 s
    rw [PhysWalking_iterations]
    split_ifs with h
    · split
      · omega
      · omega
      · rename_i rt1 c1 t1 s1 _
        have := ih (it + 1) (by omega) rt1 c1 t1 s1
        omega
    · omega

theorem PhysFalling_iterations_le (env : Engine) (deltaTime : ℚ) (a : Bool) (F : FVector) :
    ∀ (n : Nat) (Iterations : Int), (env.MaxSimulationIterations - Iterations).toNat = n →
      ∀ (remainingTime : ℚ) (s : Sim),
        PhysFalling_iterations env deltaTime a F remainingTime Iterations s ≤ n := by
  intro n
  induction n with
  | zero =>
    intro it hn rt s
    rw [PhysFalling_iterations]
    rw [dif_neg]
    intro h
    have := h.2
    omega
  | succ k ih =>
    intro it hn rt s
    rw [PhysFalling_iterations]
    split_ifs with h
    · split
      · omega
      · omega
      · omega
      · rename_i rt1 s1 _
        have := ih (it + 1) (by omega) rt1 s1
        omega
    · omega

theorem PhysWalking_loop_at_limit (env : Engine) (remainingTime : ℚ) (Iterations : Int)
    (b1 b2 : Bool) (s : Sim) (h : env.MaxSimulationIterations ≤ Iterations) :
    PhysWalking_loop env remainingTime Iterations b1 b2 s = PhysWalking_end env s := by
  rw [PhysWalking_loop, dif_neg]
  intro hg
  have := hg.1.2
  omega

theorem PhysFalling_loop_at_limit (env : Engine) (deltaTime : ℚ) (a : Bool) (F : FVector)
    (remainingTime : ℚ) (Iterations : Int) (s : Sim)
    (h : env.MaxSimulationIterations ≤ Iterations) :
    PhysFalling_loop env deltaTime a F remainingTime Iterations s = some s := by
  rw [PhysFalling_loop, dif_neg]
  intro hg
  have := hg.2
  omega

/-- C17. The time-slicing loops of `PhysWalking` and `PhysFalling` are total functions of
their state, and started with the iteration counter `i0` each makes at most
`max(0, MaxSimulationIterations - i0)` passes through its body, whatever happens to the
remaining time (a ledge move adds the consumed time back to it). When the counter has
reached the limit the loop makes no pass, however much time remains: `PhysWalking` goes
on to its closing statement and `PhysFalling` returns, the state as it is. -/
theorem time_slicing_loops_terminate (env : Engine) (i0 : Int) :
    (∀ (remainingTime : ℚ) (b1 b2 : Bool) (s : Sim),
        (PhysWalking_iterations env remainingTime i0 b1 b2 s : Int)
          ≤ max 0 (env.MaxSimulationIterations - i0))
      ∧ (∀ (deltaTime : ℚ) (a : Bool) (F : FVector) (remainingTime : ℚ) (s : Sim),
        (PhysFalling_iterations env deltaTime a F remainingTime i0 s : Int)
          ≤ max 0 (env.MaxSimulationIterations - i0))
      ∧ (env.MaxSimulationIterations ≤ i0 →
        (∀ (remainingTime : ℚ) (b1 b2 : Bool) (s : Sim),
          PhysWalking_loop env remainingTime i0 b1 b2 s = PhysWalking_end env s)
        ∧ (∀ (deltaTime : ℚ) (a : Bool) (F : FVector) (remainingTime : ℚ) (s : Sim),
          PhysFalling_loop env deltaTime a F remainingTime i0 s = some s)) := by
  refine ⟨?_, ?_, fun h => ⟨?_, ?_⟩⟩
  · intro rt b1 b2 s
    have := PhysWalking_iterations_le env _ i0 rfl rt b1 b2 s
    have h2 := Int.toNat_eq_max (env.MaxSimulationIterations - i0)
    rw [max_comm]
    omega
  · intro dt a F rt s
    have := PhysFalling_iterations_le env dt a F _ i0 rfl rt s
    have h2 := Int.toNat_eq_max (env.MaxSimulationIterations - i0)
    rw [max_comm]
    omega
  · intro rt b1 b2 s
    exact PhysWalking_loop_at_limit env rt i0 b1 b2 s h
  · intro dt a F rt s
    exact PhysFalling_loop_at_limit env dt a F rt i0 s h

/-- Witness for C17: at the default limit of 8 iterations, a loop entered with the
counter at 8 and a whole second left makes no pass. -/
theorem time_slicing_loops_terminate_witness :
    PhysWalking_loop {} 1 8 false false {} = PhysWalking_end {} {}
      ∧ PhysFalling_loop {} 1 false {} 1 8 {} = some {} :=
  ⟨((time_slicing_loops_terminate {} 8).2.2 (by decide)).1 1 false false {},
    ((time_slicing_loops_terminate {} 8).2.2 (by decide)).2 1 false {} 1 {}⟩


/-! ## PhysWalking under root motion -/

theorem EMovementMode.Walking_ne_Falling :
    EMovementMode.MOVE_Walking ≠ EMovementMode.MOVE_Falling := by decide

theorem EMovementMode.Walking_ne_Swimming :
    EMovementMode.MOVE_Walking ≠ EMovementMode.MOVE_Swimming := by decide

theorem rootMotionWorld_velocity (l : List Call) :
    PhysWalking_velocity rootMotionWorld (2 / 125) 0 { comp := hmdWalkingComp, log := l }
      = ({ timeTick := 2 / 125, Iterations := 1, OldBase := none, PreviousBaseLocation := {},
           OldLocation := {}, OldCapsuleLocation := {}, OldFloor := flatFloor,
           OldVelocity := {} },
         { comp := { hmdWalkingComp with Velocity := ⟨125, 0, 0⟩ },
           log := l ++ [Call.ApplyVRMotionToVelocity (2 / 125)] }) := by
  norm_num [PhysWalking_velocity, rootMotionWorld, hmdWalkingComp, Sim.call, FVector.div,
    FVector.mk_add_mk, FVector.ZeroVector]

theorem rootMotionWorld_MoveAlongFloor :
    MoveAlongFloor rootMotionWorld ⟨125, 0, 0⟩ (2 / 125) {}
        { hmdWalkingComp with Velocity := ⟨125, 0, 0⟩ }
      = ({}, { hmdWalkingComp with Velocity := ⟨125, 0, 0⟩, Location := ⟨2, 0, 0⟩ }) := by
  norm_num [MoveAlongFloor, SafeMoveUpdatedComponent, rootMotionWorld, hmdWalkingComp,
    flatFloor, FFindFloorResult.IsWalkableFloor, FHitResult.IsValidBlockingHit, FVector.scale,
    FVector.mk_add_mk]

theorem rootMotionWorld_FindFloor :
    FindFloor rootMotionWorld ⟨2, 0, 0⟩ flatFloor false none
        { hmdWalkingComp with Velocity := ⟨125, 0, 0⟩, Location := ⟨2, 0, 0⟩ }
      = (flatFloor, { hmdWalkingComp with Velocity := ⟨125, 0, 0⟩, Location := ⟨2, 0, 0⟩ }) := by
  norm_num [FindFloor, FindFloor_sweep, FindFloor_override, FindFloor_perch, rootMotionWorld,
    hmdWalkingComp, flatFloor, MAX_FLOOR_DIST, KINDA_SMALL_NUMBER, Comp.IsMovingOnGround]

theorem rootMotionWorld_validateFloor (st : WalkingStep) (Delta : FVector) (c : Comp)
    (l : List Call) (hO : st.OldLocation = {}) (hm : c.MovementMode = EMovementMode.MOVE_Walking)
    (hf : c.CurrentFloor = flatFloor) (hl : c.Location = ⟨2, 0, 0⟩) :
    PhysWalking_validateFloor rootMotionWorld st Delta false 0 false false
        { comp := c, log := l }
      = WalkStep.again 0 false false
          { comp := { c with MovementBase := some 1 }, log := l } := by
  have hw : c.CurrentFloor.IsWalkableFloor = true := by rw [hf]; rfl
  have hcomp : c.CurrentFloor.HitResult.Component = some 1 := by rw [hf]; rfl
  have hbone : c.CurrentFloor.HitResult.BoneName = 0 := by rw [hf]; rfl
  have hcatch : ∀ a b d, rootMotionWorld.ShouldCatchAir a b d = false := fun _ _ _ => rfl
  have hadj : rootMotionWorld.AdjustFloorHeight c = c := rfl
  have hbase : ∀ b n d, rootMotionWorld.SetBase b n d = { d with MovementBase := b } :=
    fun _ _ _ => rfl
  have hroot : ∀ d, rootMotionWorld.HasAnimRootMotion d = true := fun _ => rfl
  unfold PhysWalking_validateFloor
  simp only []
  rw [hcatch, hw]
  simp only [Bool.and_false, Bool.false_eq_true, ↓reduceIte]
  rw [hadj, hbase, hcomp]
  have hsw : Comp.IsSwimming { c with MovementBase := some 1 } = false := by
    simp [Comp.IsSwimming, hm]
  have hw2 : ({ c with MovementBase := some 1 } : Comp).CurrentFloor.IsWalkableFloor = true := hw
  rw [hsw, hw2]
  simp only [Bool.false_eq_true, ↓reduceIte, Bool.not_true, Bool.false_and]
  unfold PhysWalking_finish
  simp only []
  rw [hroot]
  simp only [Bool.not_true, Bool.false_and, Bool.and_false, Bool.false_eq_true, ↓reduceIte]
  rw [if_neg]
  show ({ c with MovementBase := some 1 } : Comp).Location ≠ st.OldLocation
  rw [hO]
  show c.Location ≠ _
  rw [hl]
  simp

theorem rootMotionWorld_floor (st : WalkingStep) (Delta : FVector) (c : Comp) (l : List Call)
    (hO : st.OldLocation = {}) (hm : c.MovementMode = EMovementMode.MOVE_Walking)
    (hl : c.Location = ⟨2, 0, 0⟩)
    (hff : FindFloor rootMotionWorld c.Location c.CurrentFloor false none c = (flatFloor, c)) :
    PhysWalking_floor rootMotionWorld st Delta false {} 0 false false { comp := c, log := l }
      = WalkStep.again 0 false false
          { comp := { c with CurrentFloor := flatFloor, MovementBase := some 1 }, log := l } := by
  unfold PhysWalking_floor
  simp only []
  rw [if_neg (show ¬ ({} : FStepDownResult).bComputedFloor = true by simp), hff]
  have hledge : ∀ d, rootMotionWorld.CanWalkOffLedges d = true := fun _ => rfl
  rw [hledge]
  simp only [Bool.not_true, Bool.false_and, Bool.false_eq_true, ↓reduceIte]
  exact rootMotionWorld_validateFloor st Delta _ l hO hm rfl hl

theorem rootMotionWorld_move (st : WalkingStep) (c1 c2 : Comp) (l : List Call)
    (ht : st.timeTick = 2 / 125) (hO : st.OldLocation = {})
    (hv : c1.Velocity = ⟨125, 0, 0⟩) (hm1 : c1.MovementMode = EMovementMode.MOVE_Walking)
    (hmv : MoveAlongFloor rootMotionWorld ⟨125, 0, 0⟩ (2 / 125) {} c1 = ({}, c2))
    (hm : c2.MovementMode = EMovementMode.MOVE_Walking) (hl : c2.Location = ⟨2, 0, 0⟩)
    (hff : FindFloor rootMotionWorld c2.Location c2.CurrentFloor false none c2
      = (flatFloor, c2)) :
    PhysWalking_move rootMotionWorld st (2 / 125) false false { comp := c1, log := l }
      = WalkStep.again 0 false false
          { comp := { c2 with CurrentFloor := flatFloor, MovementBase := some 1 },
            log := l } := by
  have hf1 : c1.IsFalling = false := by simp [Comp.IsFalling, hm1]
  have hf2 : c2.IsFalling = false := by simp [Comp.IsFalling, hm]
  have hs2 : c2.IsSwimming = false := by simp [Comp.IsSwimming, hm]
  have hz : (c1.Velocity.scale st.timeTick).IsNearlyZero KINDA_SMALL_NUMBER = false := by
    rw [hv, ht]
    norm_num [FVector.scale, FVector.IsNearlyZero, KINDA_SMALL_NUMBER]
  have hd : ((2 : ℚ) / 125 - st.timeTick) = 0 := by rw [ht]; norm_num
  unfold PhysWalking_move
  simp only []
  rw [hf1, hz, hv, ht, hmv]
  simp only [Bool.false_eq_true, ↓reduceIte]
  rw [hf2, hs2]
  simp only [Bool.false_eq_true, ↓reduceIte]
  rw [show ((2 : ℚ) / 125 - 2 / 125) = 0 by norm_num]
  exact rootMotionWorld_floor st _ c2 l hO hm hl hff

theorem rootMotionWorld_step (l : List Call) :
    PhysWalking_step rootMotionWorld (2 / 125) 0 false false { comp := hmdWalkingComp, log := l }
      = WalkStep.again 0 false false
          { comp := { hmdWalkingComp with
              Location := ⟨2, 0, 0⟩, Velocity := ⟨125, 0, 0⟩, MovementBase := some 1 },
            log := l ++ [Call.ApplyVRMotionToVelocity (2 / 125)] } := by
  unfold PhysWalking_step
  simp only []
  rw [rootMotionWorld_velocity]
  exact rootMotionWorld_move _ _ _ _ rfl rfl rfl rfl rootMotionWorld_MoveAlongFloor rfl rfl
    rootMotionWorld_FindFloor

/-- The trace and velocity `PhysWalking` leaves at the failing input of C12: under root
motion the HMD offset is added to the velocity (`ApplyVRMotionToVelocity`), the pawn
moves, and the function returns without `RestorePreAdditiveVRMotionVelocity`; the
velocity, zero before the call, is the HMD offset divided by the tick time. -/
theorem PhysWalking_root_motion_keeps_hmd_velocity :
    hmdWalkingComp.Velocity = FVector.ZeroVector
      ∧ (PhysWalking rootMotionWorld (2 / 125) 0 { comp := hmdWalkingComp }).log
        = [Call.RewindVRRelativeMovement, Call.ApplyVRMotionToVelocity (2 / 125)]
      ∧ (PhysWalking rootMotionWorld (2 / 125) 0 { comp := hmdWalkingComp }).comp.Velocity
        = ⟨125, 0, 0⟩ := by
  have hp : PhysWalking rootMotionWorld (2 / 125) 0 { comp := hmdWalkingComp }
      = { comp := { hmdWalkingComp with
            Location := ⟨2, 0, 0⟩, Velocity := ⟨125, 0, 0⟩, MovementBase := some 1 },
          log := [Call.RewindVRRelativeMovement, Call.ApplyVRMotionToVelocity (2 / 125)] } := by
    unfold PhysWalking
    rw [if_neg (by norm_num [MIN_TICK_TIME]),
      if_neg (by simp [PhysWalking_canSimulate, hmdWalkingComp]),
      if_neg (by simp [rootMotionWorld])]
    simp only []
    have hs : ({ comp := { hmdWalkingComp with bJustTeleported := false }, log := [] } : Sim).call
        Call.RewindVRRelativeMovement rootMotionWorld.RewindVRRelativeMovement
        = { comp := hmdWalkingComp, log := [Call.RewindVRRelativeMovement] } := rfl
    rw [hs, PhysWalking_loop, dif_pos ⟨⟨by norm_num [MIN_TICK_TIME], by decide⟩,
      by simp [PhysWalking_canSimulate, hmdWalkingComp]⟩, rootMotionWorld_step]
    simp only []
    rw [PhysWalking_loop, dif_neg (by norm_num [MIN_TICK_TIME])]
    rfl
  rw [hp]
  exact ⟨rfl, rfl, rfl⟩


/-! ## The rewind of the HMD offset -/

theorem Sim.NoRewindSince.refl (s : Sim) : s.NoRewindSince s :=
  ⟨[], (List.append_nil _).symm, fun _ h => absurd h (List.not_mem_nil _)⟩

theorem Sim.NoRewindSince.trans {s s1 s2 : Sim} (h1 : s.NoRewindSince s1)
    (h2 : s1.NoRewindSince s2) : s.NoRewindSince s2 := by
  obtain ⟨l1, e1, n1⟩ := h1
  obtain ⟨l2, e2, n2⟩ := h2
  refine ⟨l1 ++ l2, by rw [e2, e1, List.append_assoc], ?_⟩
  intro e he
  rcases List.mem_append.mp he with h | h
  · exact n1 e h
  · exact n2 e h

theorem Sim.NoRewindSince.call {s s1 : Sim} (h : s.NoRewindSince s1) (ev : Call)
    (f : Comp → Comp) (hev : Call.isRewind ev = false) : s.NoRewindSince (s1.call ev f) := by
  obtain ⟨l, e, n⟩ := h
  refine ⟨l ++ [ev], ?_, ?_⟩
  · show s1.log ++ [ev] = _
    rw [e, List.append_assoc]
  · intro x hx
    rcases List.mem_append.mp hx with h | h
    · exact n x h
    · rw [List.mem_singleton.mp h]
      exact hev

theorem Sim.NoRewindSince.comp {s s1 : Sim} (h : s.NoRewindSince s1) (c : Comp) :
    s.NoRewindSince { comp := c, log := s1.log } := h

theorem Sim.NoRewindSince.restore {s s1 : Sim} (h : s.NoRewindSince s1) (env : Engine) :
    s.NoRewindSince (restoreVRVelocity env s1) :=
  h.call _ _ rfl

theorem Sim.NoRewindSince.walk_ite {s0 : Sim} {c : Prop} [Decidable c] {a b : WalkStep}
    (ha : s0.NoRewindSince a.sim) (hb : s0.NoRewindSince b.sim) :
    s0.NoRewindSince (if c then a else b).sim := by
  split_ifs
  · exact ha
  · exact hb

theorem Sim.NoRewindSince.sim_ite {s0 : Sim} {c : Prop} [Decidable c] {a b : Sim}
    (ha : s0.NoRewindSince a) (hb : s0.NoRewindSince b) :
    s0.NoRewindSince (if c then a else b) := by
  split_ifs
  · exact ha
  · exact hb

theorem PhysWalking_finish_since (env : Engine) (st : WalkingStep) (rt : ℚ) (b1 b2 : Bool)
    (s0 s : Sim) (h : s0.NoRewindSince s) :
    s0.NoRewindSince (PhysWalking_finish env st rt b1 b2 s).sim := by
  have h1 : s0.NoRewindSince (if (s.comp.IsMovingOnGround
        && (!s.comp.bJustTeleported && !env.HasAnimRootMotion s.comp
          && !env.HasOverrideVelocity s.comp && decide (st.timeTick ≥ MIN_TICK_TIME))) = true then
      restoreVRVelocity env
        { s with comp := { s.comp with
            Velocity := (s.comp.Location - st.OldLocation).div st.timeTick } }
      else s) :=
    Sim.NoRewindSince.sim_ite ((h.comp _).restore env) h
  unfold PhysWalking_finish
  exact Sim.NoRewindSince.walk_ite (h1.restore env) h1

theorem PhysWalking_ledge_since (env : Engine) (st : WalkingStep) (Delta : FVector) (bz : Bool)
    (rt : ℚ) (b1 b2 : Bool) (s0 s : Sim) (h : s0.NoRewindSince s) :
    s0.NoRewindSince (PhysWalking_ledge env st Delta bz rt b1 b2 s).sim := by
  unfold PhysWalking_ledge
  exact Sim.NoRewindSince.walk_ite ((h.comp _).restore env)
    (Sim.NoRewindSince.walk_ite ((h.comp _).restore env) ((h.comp _).restore env))

theorem PhysWalking_validateFloor_since (env : Engine) (st : WalkingStep) (Delta : FVector)
    (bz : Bool) (rt : ℚ) (b1 b2 : Bool) (s0 s : Sim) (h : s0.NoRewindSince s) :
    s0.NoRewindSince (PhysWalking_validateFloor env st Delta bz rt b1 b2 s).sim := by
  unfold PhysWalking_validateFloor
  refine Sim.NoRewindSince.walk_ite
    (Sim.NoRewindSince.walk_ite (((h.restore env).comp _).call _ _ rfl)
      ((h.restore env).comp _))
    (Sim.NoRewindSince.walk_ite (((h.comp _).restore env).call _ _ rfl)
      (Sim.NoRewindSince.walk_ite
        (Sim.NoRewindSince.walk_ite ((h.comp _).restore env)
          (PhysWalking_finish_since env st rt _ _ s0 _ (h.comp _)))
        (PhysWalking_finish_since env st rt _ _ s0 _ (h.comp _))))

theorem PhysWalking_floor_since (env : Engine) (st : WalkingStep) (Delta : FVector) (bz : Bool)
    (sd : FStepDownResult) (rt : ℚ) (b1 b2 : Bool) (s0 s : Sim) (h : s0.NoRewindSince s) :
    s0.NoRewindSince (PhysWalking_floor env st Delta bz sd rt b1 b2 s).sim := by
  unfold PhysWalking_floor
  exact Sim.NoRewindSince.walk_ite
    (PhysWalking_ledge_since env st Delta bz rt b1 b2 s0 _ (h.comp _))
    (PhysWalking_validateFloor_since env st Delta bz rt b1 b2 s0 _ (h.comp _))

theorem PhysWalking_move_since (env : Engine) (st : WalkingStep) (rt : ℚ) (b1 b2 : Bool)
    (s0 s : Sim) (h : s0.NoRewindSince s) :
    s0.NoRewindSince (PhysWalking_move env st rt b1 b2 s).sim := by
  unfold PhysWalking_move
  exact Sim.NoRewindSince.walk_ite (h.call _ _ rfl)
    (Sim.NoRewindSince.walk_ite (PhysWalking_floor_since env st _ _ _ _ b1 b2 s0 _ h)
      (Sim.NoRewindSince.walk_ite (((h.comp _).restore env).call _ _ rfl)
        (Sim.NoRewindSince.walk_ite (((h.comp _).restore env).call _ _ rfl)
          (PhysWalking_floor_since env st _ _ _ _ b1 b2 s0 _ (h.comp _)))))

theorem PhysWalking_velocity_since (env : Engine) (rt : ℚ) (it : Int) (s0 s : Sim)
    (h : s0.NoRewindSince s) : s0.NoRewindSince (PhysWalking_velocity env rt it s).2 := by
  unfold PhysWalking_velocity
  exact (h.comp _).call _ _ rfl

theorem PhysWalking_step_since (env : Engine) (rt : ℚ) (it : Int) (b1 b2 : Bool) (s0 s : Sim)
    (h : s0.NoRewindSince s) : s0.NoRewindSince (PhysWalking_step env rt it b1 b2 s).sim := by
  unfold PhysWalking_step
  exact PhysWalking_move_since env _ rt b1 b2 s0 _ (PhysWalking_velocity_since env rt it s0 s h)

theorem PhysWalking_end_since (env : Engine) (s0 s : Sim) (h : s0.NoRewindSince s) :
    s0.NoRewindSince (PhysWalking_end env s) := by
  unfold PhysWalking_end
  exact Sim.NoRewindSince.sim_ite (h.comp _) h

theorem PhysWalking_loop_since (env : Engine) :
    ∀ (n : Nat) (it : Int), (env.MaxSimulationIterations - it).toNat = n →
      ∀ (rt : ℚ) (b1 b2 : Bool) (s0 s : Sim), s0.NoRewindSince s →
        s0.NoRewindSince (PhysWalking_loop env rt it b1 b2 s) := by
  intro n
  induction n with
  | zero =>
    intro it hn rt b1 b2 s0 s h
    rw [PhysWalking_loop, dif_neg]
    · exact PhysWalking_end_since env s0 s h
    · intro hg
      have := hg.1.2
      omega
  | succ k ih =>
    intro it hn rt b1 b2 s0 s h
    rw [PhysWalking_loop]
    split_ifs with hg
    · have hs := PhysWalking_step_since env rt it b1 b2 s0 s h
      generalize PhysWalking_step env rt it b1 b2 s = w at hs ⊢
      cases w with
      | returned s1 => exact hs
      | leave s1 => exact PhysWalking_end_since env s0 s1 hs
      | again rt1 c1 t1 s1 => exact ih (it + 1) (by have := hg.1.2; omega) rt1 c1 t1 s0 s1 hs
    · exact PhysWalking_end_since env s0 s h

theorem Sim.NoRewindSince.loop_ite {s0 d : Sim} {c : Prop} [Decidable c] {a b : LoopStep}
    (ha : s0.NoRewindSince (a.simOr d)) (hb : s0.NoRewindSince (b.simOr d)) :
    s0.NoRewindSince ((if c then a else b).simOr d) := by
  split_ifs
  · exact ha
  · exact hb

theorem Sim.NoRewindSince.loop_root {s0 d : Sim} {o : Option UVRRootComponent}
    {b : UVRRootComponent → LoopStep} (hd : s0.NoRewindSince d)
    (hb : ∀ r, s0.NoRewindSince ((b r).simOr d)) :
    s0.NoRewindSince ((match o with
      | none => LoopStep.nullRoot
      | some r => b r).simOr d) := by
  cases o with
  | none => exact hd
  | some r => exact hb r

theorem ProcessLanded_since (env : Engine) (Hit : FHitResult) (rt : ℚ) (it : Int) (s0 s : Sim)
    (h : s0.NoRewindSince s) : s0.NoRewindSince (ProcessLanded env Hit rt it s) := by
  have hn : ∀ t : Sim, s0.NoRewindSince t → s0.NoRewindSince (ProcessLanded_notify env Hit t) := by
    intro t ht
    unfold ProcessLanded_notify
    exact Sim.NoRewindSince.sim_ite (ht.call _ _ rfl) ht
  have hq : ∀ t : Sim, s0.NoRewindSince t →
      s0.NoRewindSince (ProcessLanded_postLanded env Hit t) := by
    intro t ht
    unfold ProcessLanded_postLanded
    exact Sim.NoRewindSince.sim_ite ((ht.comp _).call _ _ rfl) ht
  have h2 := hq _ (hn _ (h.call (Call.ProcessLanded Hit rt it) id rfl))
  unfold ProcessLanded
  exact (Sim.NoRewindSince.sim_ite (h2.call Call.OnLanded env.PathFollowingOnLanded rfl)
    h2).call _ _ rfl

theorem PhysFalling_endOfStep_since (rt : ℚ) (s0 d s : Sim) (h : s0.NoRewindSince s) :
    s0.NoRewindSince ((PhysFalling_endOfStep rt s).simOr d) := by
  unfold PhysFalling_endOfStep
  exact Sim.NoRewindSince.loop_ite (h.comp _) h

theorem PhysFalling_secondWall_since (env : Engine) (a : Bool) (st : FallingStep)
    (N1 N2 Delta : FVector) (sub : ℚ) (Hit : FHitResult) (s0 d s : Sim)
    (hd : s0.NoRewindSince d) (h : s0.NoRewindSince s) :
    s0.NoRewindSince ((PhysFalling_secondWall env a st N1 N2 Delta sub Hit s).simOr d) := by
  unfold PhysFalling_secondWall
  refine Sim.NoRewindSince.loop_root hd (fun root => ?_)
  refine Sim.NoRewindSince.loop_ite (ProcessLanded_since env _ _ _ s0 s h) ?_
  refine Sim.NoRewindSince.loop_ite (h.comp _) ?_
  refine Sim.NoRewindSince.loop_ite (ProcessLanded_since env _ _ _ s0 _ (h.comp _)) ?_
  refine Sim.NoRewindSince.loop_root hd (fun root2 => ?_)
  refine Sim.NoRewindSince.loop_ite (ProcessLanded_since env _ _ _ s0 _ (h.comp _)) ?_
  refine Sim.NoRewindSince.loop_ite ?_ (PhysFalling_endOfStep_since _ s0 d _ (h.comp _))
  exact Sim.NoRewindSince.loop_ite (PhysFalling_endOfStep_since _ s0 d _ (h.comp _))
    (PhysFalling_endOfStep_since _ s0 d _ (h.comp _))

theorem Sim.NoRewindSince.loop_converted {s0 d : Sim} {o : Option (FHitResult × Comp)}
    {a : FHitResult → Comp → LoopStep} {b : LoopStep}
    (ha : ∀ x y, s0.NoRewindSince ((a x y).simOr d)) (hb : s0.NoRewindSince (b.simOr d)) :
    s0.NoRewindSince ((match o with
      | some (x, y) => a x y
      | none => b).simOr d) := by
  cases o with
  | none => exact hb
  | some p => exact ha p.1 p.2

theorem PhysFalling_deflect_since (env : Engine) (a : Bool) (st : FallingStep) (sub : ℚ)
    (Hit : FHitResult) (s0 d s : Sim) (hd : s0.NoRewindSince d) (h : s0.NoRewindSince s) :
    s0.NoRewindSince ((PhysFalling_deflect env a st sub Hit s).simOr d) := by
  unfold PhysFalling_deflect
  refine Sim.NoRewindSince.loop_converted
    (fun x y => ProcessLanded_since env _ _ _ s0 _ (h.comp _)) ?_
  refine Sim.NoRewindSince.loop_ite (h.comp _) ?_
  refine Sim.NoRewindSince.loop_ite ?_ (PhysFalling_endOfStep_since _ s0 d _ (h.comp _))
  exact Sim.NoRewindSince.loop_ite
    (PhysFalling_secondWall_since env a st _ _ _ _ _ s0 d _ hd (h.comp _))
    (PhysFalling_endOfStep_since _ s0 d _ (h.comp _))

theorem PhysFalling_afterMove_since (env : Engine) (a : Bool) (st : FallingStep)
    (Hit : FHitResult) (s0 d s : Sim) (hd : s0.NoRewindSince d) (h : s0.NoRewindSince s) :
    s0.NoRewindSince ((PhysFalling_afterMove env a st Hit s).simOr d) := by
  unfold PhysFalling_afterMove
  refine Sim.NoRewindSince.loop_ite h ?_
  refine Sim.NoRewindSince.loop_ite (h.call _ _ rfl) ?_
  refine Sim.NoRewindSince.loop_ite ?_ (PhysFalling_endOfStep_since _ s0 d _ (h.comp _))
  refine Sim.NoRewindSince.loop_root hd (fun root => ?_)
  exact Sim.NoRewindSince.loop_ite (ProcessLanded_since env _ _ _ s0 s h)
    (PhysFalling_deflect_since env a st _ Hit s0 d s hd h)

theorem PhysFalling_step_since (env : Engine) (dt : ℚ) (a : Bool) (F : FVector) (rt : ℚ)
    (it : Int) (s0 d s : Sim) (hd : s0.NoRewindSince d) (h : s0.NoRewindSince s) :
    s0.NoRewindSince ((PhysFalling_step env dt a F rt it s).simOr d) := by
  unfold PhysFalling_step
  exact PhysFalling_afterMove_since env a _ _ s0 d _ hd (h.comp _)

theorem PhysFalling_loop_since (env : Engine) (dt : ℚ) (a : Bool) (F : FVector) :
    ∀ (n : Nat) (it : Int), (env.MaxSimulationIterations - it).toNat = n →
      ∀ (rt : ℚ) (s0 s s1 : Sim), s0.NoRewindSince s →
        PhysFalling_loop env dt a F rt it s = some s1 → s0.NoRewindSince s1 := by
  intro n
  induction n with
  | zero =>
    intro it hn rt s0 s s1 h he
    rw [PhysFalling_loop, dif_neg] at he
    · rw [← Option.some.inj he]
      exact h
    · intro hg
      have := hg.2
      omega
  | succ k ih =>
    intro it hn rt s0 s s1 h he
    rw [PhysFalling_loop] at he
    split_ifs at he with hg
    · have hs := PhysFalling_step_since env dt a F rt it s0 s s h h
      generalize PhysFalling_step env dt a F rt it s = w at hs he
      cases w with
      | returned s2 =>
        rw [← Option.some.inj he]
        exact hs
      | leave rt2 s2 =>
        rw [← Option.some.inj he]
        exact hs
      | nullRoot => exact absurd he (by simp)
      | again rt1 s2 => exact ih (it + 1) (by have := hg.2; omega) rt1 s0 s2 s1 hs he
    · rw [← Option.some.inj he]
      exact h

theorem Sim.NoRewindSince.after_call {s s1 : Sim} (f : Comp → Comp)
    (h : (s.call Call.RewindVRRelativeMovement f).NoRewindSince s1) :
    ∃ l, s1.log = s.log ++ Call.RewindVRRelativeMovement :: l
      ∧ ∀ e ∈ l, Call.isRewind e = false := by
  obtain ⟨l, e, n⟩ := h
  refine ⟨l, ?_, n⟩
  rw [e]
  show s.log ++ [Call.RewindVRRelativeMovement] ++ l = _
  rw [List.append_assoc]
  rfl

theorem PhysWalking_rewinds_once (env : Engine) (deltaTime : ℚ) (Iterations : Int) (s : Sim)
    (hdt : MIN_TICK_TIME ≤ deltaTime) (hsim : PhysWalking_canSimulate env s.comp = true)
    (hq : env.IsQueryCollisionEnabled s.comp = true) :
    ∃ l, (PhysWalking env deltaTime Iterations s).log
        = s.log ++ Call.RewindVRRelativeMovement :: l
      ∧ ∀ e ∈ l, Call.isRewind e = false := by
  unfold PhysWalking
  rw [if_neg (not_lt.mpr hdt), hsim, if_neg (by simp), hq, if_neg (by simp)]
  simp only []
  exact Sim.NoRewindSince.after_call (s := { s with comp := { s.comp with bJustTeleported := false } })
    _ (PhysWalking_loop_since env _ _ rfl _ _ _ _ _ (Sim.NoRewindSince.refl _))

theorem PhysFalling_rewinds_once (env : Engine) (deltaTime : ℚ) (Iterations : Int) (s s1 : Sim)
    (hdt : MIN_TICK_TIME ≤ deltaTime) (h : PhysFalling env deltaTime Iterations s = some s1) :
    ∃ l, s1.log = s.log ++ Call.RewindVRRelativeMovement :: l
      ∧ ∀ e ∈ l, Call.isRewind e = false := by
  unfold PhysFalling at h
  rw [if_neg (not_lt.mpr hdt)] at h
  simp only [] at h
  exact Sim.NoRewindSince.after_call _
    (PhysFalling_loop_since env _ _ _ _ _ rfl _ _ _ _ (Sim.NoRewindSince.refl _) h)

theorem landingWorld_ProcessLanded (Hit : FHitResult) (rt : ℚ) (it : Int) (s : Sim)
    (hf : s.comp.MovementMode = EMovementMode.MOVE_Falling)
    (hg : s.comp.GroundMovementMode = EMovementMode.MOVE_Walking)
    (hp : s.comp.HasPathFollowingComp = false) :
    ProcessLanded landingWorld Hit rt it s
      = { comp := { s.comp with MovementMode := EMovementMode.MOVE_Walking },
          log := s.log ++ [Call.ProcessLanded Hit rt it, Call.Landed Hit,
            Call.SetPostLandedPhysics Hit, Call.StartNewPhysics rt it] } := by
  simp [ProcessLanded, ProcessLanded_notify, ProcessLanded_postLanded, landingWorld, Sim.call,
    Comp.IsFalling, hf, hg, hp]

theorem landingWorld_sweep_state :
    (PhysFalling_sweep landingWorld (2 / 125) false {} (2 / 125) 0 fallingComp).2.2.MovementMode
      = EMovementMode.MOVE_Falling
    ∧ (PhysFalling_sweep landingWorld (2 / 125) false {} (2 / 125) 0
        fallingComp).2.2.GroundMovementMode = EMovementMode.MOVE_Walking
    ∧ (PhysFalling_sweep landingWorld (2 / 125) false {} (2 / 125) 0
        fallingComp).2.2.HasPathFollowingComp = false
    ∧ (PhysFalling_sweep landingWorld (2 / 125) false {} (2 / 125) 0
        fallingComp).2.2.HasController = true
    ∧ (PhysFalling_sweep landingWorld (2 / 125) false {} (2 / 125) 0 fallingComp).2.1.Time
      = 1 / 2
    ∧ (PhysFalling_sweep landingWorld (2 / 125) false {} (2 / 125) 0 fallingComp).1.timeTick
      = 2 / 125
    ∧ (PhysFalling_sweep landingWorld (2 / 125) false {} (2 / 125) 0
        fallingComp).1.remainingTime = 0
    ∧ (PhysFalling_sweep landingWorld (2 / 125) false {} (2 / 125) 0 fallingComp).1.Iterations
      = 1 := by
  simp [PhysFalling_sweep, PhysFalling_integrate, PhysFalling_input, SafeMoveUpdatedComponent,
    landingWorld, fallingComp]

theorem landingWorld_PhysFalling :
    PhysFalling landingWorld (2 / 125) 0 { comp := fallingComp }
      = some (ProcessLanded landingWorld
          (PhysFalling_sweep landingWorld (2 / 125) false {} (2 / 125) 0 fallingComp).2.1
          (1 / 125) 1
          { comp := (PhysFalling_sweep landingWorld (2 / 125) false {} (2 / 125) 0
              fallingComp).2.2,
            log := [Call.RewindVRRelativeMovement] }) := by
  have hF : ({ (landingWorld.GetFallingLateralAcceleration (2 / 125) fallingComp) with
      Z := 0 } : FVector) = {} := rfl
  have ha : decide (({} : FVector).SizeSquared2D > 0) = false := by
    simp [FVector.SizeSquared2D]
  have hs : ({ comp := fallingComp } : Sim).call Call.RewindVRRelativeMovement
      landingWorld.RewindVRRelativeMovement
      = { comp := fallingComp, log := [Call.RewindVRRelativeMovement] } := rfl
  obtain ⟨h1, h2, h3, h4, h5, h6, h7, h8⟩ := landingWorld_sweep_state
  unfold PhysFalling
  rw [if_neg (by norm_num [MIN_TICK_TIME])]
  simp only []
  rw [hF, ha, hs, PhysFalling_loop, dif_pos ⟨by norm_num [MIN_TICK_TIME], by decide⟩]
  unfold PhysFalling_step
  simp only []
  rw [PhysFalling_afterMove_lands landingWorld false _ _ _ {} rfl landingWorld_sweep.2.1
    landingWorld_sweep.1 landingWorld_sweep.2.2 landingWorld_sweep.1]
  simp only []
  rw [h5, h6, h7, h8]
  norm_num

/-- Counterexample to C11 as stated: a character falling at 500 units per second lands
half way through a 16 ms tick. `PhysFalling` rewinds the HMD offset, lands through
`ProcessLanded`, whose last statement hands the remaining 8 ms over to
`StartNewPhysics`; in Walking mode that runs `PhysWalking`, which rewinds again: the
trace of the tick holds two `RewindVRRelativeMovement`. -/
theorem landing_handover_rewinds_again :
    ∃ (sL s2 : Sim),
      PhysFalling landingWorld (2 / 125) 0 { comp := fallingComp } = some sL
      ∧ sL.log.getLast? = some (Call.StartNewPhysics (1 / 125) 1)
      ∧ sL.comp.MovementMode = EMovementMode.MOVE_Walking
      ∧ StartNewPhysics landingWorld (1 / 125) 1 sL = some s2
      ∧ (s2.log.filter Call.isRewind).length = 2 := by
  obtain ⟨h1, h2, h3, h4, _, _, _, _⟩ := landingWorld_sweep_state
  have hPF := landingWorld_PhysFalling
  have hL := landingWorld_ProcessLanded
    (PhysFalling_sweep landingWorld (2 / 125) false {} (2 / 125) 0 fallingComp).2.1
    (1 / 125) 1
    { comp := (PhysFalling_sweep landingWorld (2 / 125) false {} (2 / 125) 0 fallingComp).2.2,
      log := [Call.RewindVRRelativeMovement] } h1 h2 h3
  generalize (PhysFalling_sweep landingWorld (2 / 125) false {} (2 / 125) 0 fallingComp).2.1
    = Hit at hL hPF
  generalize (PhysFalling_sweep landingWorld (2 / 125) false {} (2 / 125) 0
    fallingComp).2.2 = c at hL hPF h1 h2 h3 h4
  have hm : (ProcessLanded landingWorld Hit (1 / 125) 1
      { comp := c, log := [Call.RewindVRRelativeMovement] }).comp.MovementMode
      = EMovementMode.MOVE_Walking := by rw [hL]
  have hctl : (ProcessLanded landingWorld Hit (1 / 125) 1
      { comp := c, log := [Call.RewindVRRelativeMovement] }).comp.HasController = true := by
    rw [hL]
    exact h4
  have hlog : (ProcessLanded landingWorld Hit (1 / 125) 1
      { comp := c, log := [Call.RewindVRRelativeMovement] }).log
      = [Call.RewindVRRelativeMovement, Call.ProcessLanded Hit (1 / 125) 1, Call.Landed Hit,
        Call.SetPostLandedPhysics Hit, Call.StartNewPhysics (1 / 125) 1] := by rw [hL]; rfl
  generalize ProcessLanded landingWorld Hit (1 / 125) 1
    { comp := c, log := [Call.RewindVRRelativeMovement] } = sL at hPF hm hctl hlog
  obtain ⟨l, hl, hn⟩ := PhysWalking_rewinds_once landingWorld (1 / 125) 1 sL
    (by norm_num [MIN_TICK_TIME]) (by simp [PhysWalking_canSimulate, hctl]) rfl
  refine ⟨sL, PhysWalking landingWorld (1 / 125) 1 sL, hPF, ?_, hm, ?_, ?_⟩
  · rw [hlog]
    rfl
  · unfold StartNewPhysics
    rw [if_neg (by norm_num [MIN_TICK_TIME, landingWorld]), hm]
  · have hz : l.filter Call.isRewind = [] := by
      rw [List.filter_eq_nil_iff]
      intro e he
      rw [hn e he]
      simp
    rw [hl, hlog]
    simp [List.filter_append, List.filter_cons, Call.isRewind, hz]

/-- C11, as the code has it. Each call of `PhysWalking` or `PhysFalling` that gets past
its entry checks applies `RewindVRRelativeMovement` exactly once itself: the rewind is
the first call the function adds to the trace, its loop (which makes all its movement
sweeps) runs on the rewound state, and no later call of the function is a rewind. That is
once per Phys function and not once per tick: a mode hand-over inside the tick goes
through `StartNewPhysics`, which in Walking mode runs `PhysWalking`, rewind included. -/
theorem Phys_call_rewinds_once (env : Engine) (deltaTime : ℚ) (Iterations : Int) (s : Sim)
    (hdt : MIN_TICK_TIME ≤ deltaTime) :
    (PhysWalking_canSimulate env s.comp = true → env.IsQueryCollisionEnabled s.comp = true →
      PhysWalking env deltaTime Iterations s
          = PhysWalking_loop env deltaTime Iterations false false
              (({ s with comp := { s.comp with bJustTeleported := false } } : Sim).call
                Call.RewindVRRelativeMovement env.RewindVRRelativeMovement)
        ∧ (∃ l, (PhysWalking env deltaTime Iterations s).log
              = s.log ++ Call.RewindVRRelativeMovement :: l
            ∧ ∀ e ∈ l, Call.isRewind e = false)
        ∧ (s.comp.MovementMode = EMovementMode.MOVE_Walking →
            Iterations < env.MaxSimulationIterations → env.HasValidData s.comp = true →
            StartNewPhysics env deltaTime Iterations s
              = some (PhysWalking env deltaTime Iterations s)))
      ∧ (∀ s1, PhysFalling env deltaTime Iterations s = some s1 →
          ∃ l, s1.log = s.log ++ Call.RewindVRRelativeMovement :: l
            ∧ ∀ e ∈ l, Call.isRewind e = false) := by
  refine ⟨fun hsim hq => ⟨?_, PhysWalking_rewinds_once env deltaTime Iterations s hdt hsim hq,
    ?_⟩, fun s1 h => PhysFalling_rewinds_once env deltaTime Iterations s s1 hdt h⟩
  · unfold PhysWalking
    rw [if_neg (not_lt.mpr hdt), hsim, if_neg (by simp), hq, if_neg (by simp)]
  · intro hm hit hv
    unfold StartNewPhysics
    rw [if_neg (by
      intro h
      rcases h with h | h | h
      · exact absurd hdt (not_le.mpr h)
      · exact absurd hit (not_lt.mpr h)
      · rw [hv] at h
        exact absurd h (by simp)), hm]

/-- Witness for C11 as the code has it: the walking tick of the character at rest. -/
theorem Phys_call_rewinds_once_witness :
    ∃ l, (PhysWalking restWorld (2 / 125) 0 { comp := restingComp }).log
        = Call.RewindVRRelativeMovement :: l
      ∧ ∀ e ∈ l, Call.isRewind e = false :=
  ((Phys_call_rewinds_once restWorld (2 / 125) 0 { comp := restingComp }
    (by norm_num [MIN_TICK_TIME])).1
    (by simp [PhysWalking_canSimulate, restingComp]) rfl).2.1


/-! ## PhysNavWalking without navigation data -/

theorem PhysNavWalking_velocity_log (env : Engine) (deltaTime : ℚ) (s : Sim) :
    (PhysNavWalking_velocity env deltaTime s).log
      = s.log ++ [Call.RewindVRRelativeMovement, Call.ApplyVRMotionToVelocity deltaTime] := by
  simp [PhysNavWalking_velocity, Sim.call]

theorem PhysNavWalking_velocity_keeps (env : Engine) (hl : NavFallbackLaws env) (deltaTime : ℚ)
    (s : Sim) :
    (PhysNavWalking_velocity env deltaTime s).comp.CachedNavLocation = s.comp.CachedNavLocation
      ∧ (PhysNavWalking_velocity env deltaTime s).comp.Location
        = (env.RewindVRRelativeMovement s.comp).Location := by
  unfold PhysNavWalking_velocity Sim.call
  simp only []
  rw [(hl.applyKeeps _ _).1, (hl.applyKeeps _ _).2, (hl.calcKeeps _ _ _ _ _).1,
    (hl.calcKeeps _ _ _ _ _).2]
  simp only []
  rw [(hl.maintainKeeps _).1, (hl.maintainKeeps _).2, hl.rewindNav]
  exact ⟨rfl, rfl⟩

theorem PhysNavWalking_no_nav_data_eq (env : Engine) (deltaTime : ℚ) (Iterations : Int) (s : Sim)
    (hdt : MIN_TICK_TIME ≤ deltaTime)
    (hctl : s.comp.HasController = true ∨ s.comp.bRunPhysicsWithNoController = true)
    (hneed : (PhysNavWalking_plan env deltaTime
          (PhysNavWalking_velocity env deltaTime s).comp).DeltaMove.IsNearlyZero
            KINDA_SMALL_NUMBER = false
        ∨ (PhysNavWalking_plan env deltaTime
          (PhysNavWalking_velocity env deltaTime s).comp).bSameNavLocation = false)
    (hno : (env.FindNavFloor
        (PhysNavWalking_queryDest
          (PhysNavWalking_plan env deltaTime (PhysNavWalking_velocity env deltaTime s).comp)
          (PhysNavWalking_velocity env deltaTime s).comp)
        (PhysNavWalking_velocity env deltaTime s).comp).1 = false) :
    PhysNavWalking env deltaTime Iterations s
      = { comp := env.SetMovementMode EMovementMode.MOVE_Walking
            (env.RestorePreAdditiveVRMotionVelocity
              (PhysNavWalking_velocity env deltaTime s).comp)
          log := (PhysNavWalking_velocity env deltaTime s).log
            ++ [Call.RestorePreAdditiveVRMotionVelocity] } := by
  unfold PhysNavWalking
  rw [if_neg (not_lt.mpr hdt)]
  rw [if_neg (by rcases hctl with h | h <;> simp [h])]
  simp only []
  rw [if_neg (by rcases hneed with h | h <;> simp [h]), hno]
  rfl

theorem default_navFallbackLaws : NavFallbackLaws {} where
  rewindNav := fun _ => rfl
  maintainKeeps := fun _ => ⟨rfl, rfl⟩
  calcKeeps := fun _ _ _ _ _ => ⟨rfl, rfl⟩
  applyKeeps := fun _ _ => ⟨rfl, rfl⟩
  restoreKeeps := fun _ => ⟨rfl, rfl⟩
  setModeKeeps := fun _ _ => ⟨rfl, rfl, rfl⟩

/-- C18. When `PhysNavWalking` simulates, needs a nav-floor query (the move of the tick
is not nearly zero, or the feet are not on the cached navigation location) and
`FindNavFloor` reports no navigation data, it does nothing after the velocity stage but
`RestorePreAdditiveVRMotionVelocity` and `SetMovementMode(MOVE_Walking)`: the trace of the
call is the rewind, the HMD motion added to the velocity, and its restore; no move of the
updated component and no assignment to `CachedNavLocation` is made. With helpers that
keep their frame, the mode left is Walking, the cached navigation location is the one at
entry, and the updated component is where the rewind of the HMD offset put it. -/
theorem PhysNavWalking_no_nav_data_fallback (env : Engine) (deltaTime : ℚ) (Iterations : Int)
    (s : Sim) (hdt : MIN_TICK_TIME ≤ deltaTime)
    (hctl : s.comp.HasController = true ∨ s.comp.bRunPhysicsWithNoController = true)
    (hneed : (PhysNavWalking_plan env deltaTime
          (PhysNavWalking_velocity env deltaTime s).comp).DeltaMove.IsNearlyZero
            KINDA_SMALL_NUMBER = false
        ∨ (PhysNavWalking_plan env deltaTime
          (PhysNavWalking_velocity env deltaTime s).comp).bSameNavLocation = false)
    (hno : (env.FindNavFloor
        (PhysNavWalking_queryDest
          (PhysNavWalking_plan env deltaTime (PhysNavWalking_velocity env deltaTime s).comp)
          (PhysNavWalking_velocity env deltaTime s).comp)
        (PhysNavWalking_velocity env deltaTime s).comp).1 = false) :
    (PhysNavWalking env deltaTime Iterations s).comp
        = env.SetMovementMode EMovementMode.MOVE_Walking
            (env.RestorePreAdditiveVRMotionVelocity
              (PhysNavWalking_velocity env deltaTime s).comp)
      ∧ (PhysNavWalking env deltaTime Iterations s).log
        = s.log ++ [Call.RewindVRRelativeMovement, Call.ApplyVRMotionToVelocity deltaTime,
            Call.RestorePreAdditiveVRMotionVelocity]
      ∧ (NavFallbackLaws env →
          (PhysNavWalking env deltaTime Iterations s).comp.MovementMode
              = EMovementMode.MOVE_Walking
            ∧ (PhysNavWalking env deltaTime Iterations s).comp.CachedNavLocation
              = s.comp.CachedNavLocation
            ∧ (PhysNavWalking env deltaTime Iterations s).comp.Location
              = (env.RewindVRRelativeMovement s.comp).Location) := by
  rw [PhysNavWalking_no_nav_data_eq env deltaTime Iterations s hdt hctl hneed hno]
  refine ⟨rfl, ?_, fun hl => ⟨?_, ?_, ?_⟩⟩
  · simp only [PhysNavWalking_velocity_log, List.append_assoc, List.cons_append,
      List.nil_append]
  · exact (hl.setModeKeeps _ _).2.2
  · rw [(hl.setModeKeeps _ _).1, (hl.restoreKeeps _).1,
      (PhysNavWalking_velocity_keeps env hl deltaTime s).1]
  · rw [(hl.setModeKeeps _ _).2.1, (hl.restoreKeeps _).2,
      (PhysNavWalking_velocity_keeps env hl deltaTime s).2]

/-- Witness for C18: a moving nav-walking character with no cached navigation location
in a world without navigation data. -/
theorem PhysNavWalking_no_nav_data_fallback_witness :
    (PhysNavWalking {} (2 / 125) 0 { comp := navWalkingComp }).log
        = [Call.RewindVRRelativeMovement, Call.ApplyVRMotionToVelocity (2 / 125),
            Call.RestorePreAdditiveVRMotionVelocity]
      ∧ (PhysNavWalking {} (2 / 125) 0 { comp := navWalkingComp }).comp.MovementMode
        = EMovementMode.MOVE_Walking
      ∧ (PhysNavWalking {} (2 / 125) 0 { comp := navWalkingComp }).comp.CachedNavLocation
        = navWalkingComp.CachedNavLocation
      ∧ (PhysNavWalking {} (2 / 125) 0 { comp := navWalkingComp }).comp.Location
        = navWalkingComp.Location :=
  have h := PhysNavWalking_no_nav_data_fallback {} (2 / 125) 0 { comp := navWalkingComp }
    (by norm_num [MIN_TICK_TIME]) (Or.inl rfl) (Or.inr rfl) rfl
  ⟨h.2.1, (h.2.2 default_navFallbackLaws).1, (h.2.2 default_navFallbackLaws).2.1,
    (h.2.2 default_navFallbackLaws).2.2⟩


/-! ## The edge tolerance test -/

theorem F32.lt_of_round_lt {x y : ℚ} (h : F32.round x < F32.round y) : x < y := by
  by_contra hn
  exact absurd (F32.round_mono (not_lt.mp hn)) (not_le.mpr h)

theorem F32.round_pos_of_ge {x : ℚ} (h : (1 : ℚ) / 134217728 ≤ x) : 0 < F32.round x := by
  have h1 := F32.round_mono h
  have h2 := F32.round_representable 1 (-27) (by norm_num) (by norm_num) (by norm_num)
  have e : ((1 : ℤ) : ℚ) * 2 ^ (-27 : ℤ) = 1 / 134217728 := by norm_num
  rw [e] at h2
  rw [h2] at h1
  exact lt_of_lt_of_le (by norm_num) h1

theorem IsWithinEdgeTolerance_eq (c : Comp) (L P : FVector) (R : ℚ) :
    IsWithinEdgeTolerance c L P R
      = decide (F32.add (F32.mul (F32.sub P.X L.X) (F32.sub P.X L.X))
            (F32.mul (F32.sub P.Y L.Y) (F32.sub P.Y L.Y))
          < F32.mul
              (max (F32.add c.VREdgeRejectDistance (F32.round KINDA_SMALL_NUMBER))
                (F32.sub R c.VREdgeRejectDistance))
              (max (F32.add c.VREdgeRejectDistance (F32.round KINDA_SMALL_NUMBER))
                (F32.sub R c.VREdgeRejectDistance))) := rfl

theorem F32.near_twelve : F32.round (12582911 / 1048576) = 12582911 / 1048576 := by
  have h := F32.round_representable 12582911 (-20) (by norm_num) (by norm_num) (by norm_num)
  have e : ((12582911 : ℤ) : ℚ) * 2 ^ (-20 : ℤ) = 12582911 / 1048576 := by norm_num
  rw [e] at h
  exact h

theorem F32.sq_near_twelve :
    F32.round (158329649233921 / 1099511627776) = 9437183 / 65536 := by
  have h := F32.round_eval (158329649233921 / 1099511627776) 7 9437183 (by norm_num)
    (by norm_num) (by norm_num) (by norm_num)
    (F32.rne_eq_of_near _ _ (by norm_num) (by norm_num)) (by norm_num)
  rw [h]
  norm_num

theorem F32.sum_near_400 : F32.round (26214399 / 65536) = 400 := by
  have h := F32.round_eval (26214399 / 65536) 8 13107200 (by norm_num)
    (by norm_num) (by norm_num) (by norm_num)
    (F32.rne_tie_up _ _ (by norm_num) (by norm_num)) (by norm_num)
  rw [h]
  norm_num

/-- Counterexample to C24 as stated: the impact point (12 - 2^-20, 16) is less than 20
units from the axis of a capsule of radius 20 with reject distance 0, so the squared
distance is below the square of `max(0 + KINDA_SMALL_NUMBER, 20 - 0)`; in single precision
the squared distance rounds to 400, which is not below 400, and the test fails. -/
theorem IsWithinEdgeTolerance_rounds_up_to_the_radius :
    standingComp.VREdgeRejectDistance = 0
      ∧ ((⟨12582911 / 1048576, 16, 0⟩ : FVector) - ⟨0, 0, 0⟩).SizeSquared2D
          < (max (standingComp.VREdgeRejectDistance + KINDA_SMALL_NUMBER)
              (20 - standingComp.VREdgeRejectDistance)) ^ 2
      ∧ IsWithinEdgeTolerance standingComp ⟨0, 0, 0⟩ ⟨12582911 / 1048576, 16, 0⟩ 20 = false := by
  refine ⟨rfl, ?_, ?_⟩
  · norm_num [FVector.SizeSquared2D, FVector.mk_sub_mk, standingComp, KINDA_SMALL_NUMBER]
  · rw [IsWithinEdgeTolerance_eq]
    norm_num [F32.add, F32.sub, F32.mul, F32.round_KINDA_SMALL_NUMBER,
      F32.round_kinda_small_value, F32.round_ofNat, F32.round_zero, F32.near_twelve,
      F32.sq_near_twelve, F32.sum_near_400, standingComp]

/-- C24, as the code computes it. `IsWithinEdgeTolerance(CapsuleLocation, TestImpactPoint,
CapsuleRadius)` is true iff the squared horizontal (XY) distance in single precision (the
two differences, their squares and the sum of the squares each rounded) is strictly less
than the single-precision square of `max(VREdgeRejectDistance + KINDA_SMALL_NUMBER,
CapsuleRadius - VREdgeRejectDistance)`, sum and difference rounded too; a true result
implies that the exact sum of the two rounded squares is strictly below the exact square
of that maximum, not the other way round; the Z of neither point matters; and with
`VREdgeRejectDistance >= 0` a point on the vertical axis of the capsule is within
tolerance. -/
theorem IsWithinEdgeTolerance_single_precision (c : Comp)
    (CapsuleLocation TestImpactPoint : FVector) (CapsuleRadius : ℚ) :
    (IsWithinEdgeTolerance c CapsuleLocation TestImpactPoint CapsuleRadius = true ↔
        F32.round
            (F32.round (F32.round (TestImpactPoint.X - CapsuleLocation.X)
                * F32.round (TestImpactPoint.X - CapsuleLocation.X))
              + F32.round (F32.round (TestImpactPoint.Y - CapsuleLocation.Y)
                * F32.round (TestImpactPoint.Y - CapsuleLocation.Y)))
          < F32.round
              (max (F32.round (c.VREdgeRejectDistance + F32.round KINDA_SMALL_NUMBER))
                  (F32.round (CapsuleRadius - c.VREdgeRejectDistance))
                * max (F32.round (c.VREdgeRejectDistance + F32.round KINDA_SMALL_NUMBER))
                  (F32.round (CapsuleRadius - c.VREdgeRejectDistance))))
      ∧ (IsWithinEdgeTolerance c CapsuleLocation TestImpactPoint CapsuleRadius = true →
          F32.round (F32.round (TestImpactPoint.X - CapsuleLocation.X)
                * F32.round (TestImpactPoint.X - CapsuleLocation.X))
              + F32.round (F32.round (TestImpactPoint.Y - CapsuleLocation.Y)
                * F32.round (TestImpactPoint.Y - CapsuleLocation.Y))
            < (max (F32.round (c.VREdgeRejectDistance + F32.round KINDA_SMALL_NUMBER))
                (F32.round (CapsuleRadius - c.VREdgeRejectDistance))) ^ 2)
      ∧ (∀ z1 z2 : ℚ,
          IsWithinEdgeTolerance c { CapsuleLocation with Z := z1 }
              { TestImpactPoint with Z := z2 } CapsuleRadius
            = IsWithinEdgeTolerance c CapsuleLocation TestImpactPoint CapsuleRadius)
      ∧ (0 ≤ c.VREdgeRejectDistance → ∀ z : ℚ,
          IsWithinEdgeTolerance c CapsuleLocation ⟨CapsuleLocation.X, CapsuleLocation.Y, z⟩
            CapsuleRadius = true) := by
  have h1 : IsWithinEdgeTolerance c CapsuleLocation TestImpactPoint CapsuleRadius = true ↔
        F32.round
            (F32.round (F32.round (TestImpactPoint.X - CapsuleLocation.X)
                * F32.round (TestImpactPoint.X - CapsuleLocation.X))
              + F32.round (F32.round (TestImpactPoint.Y - CapsuleLocation.Y)
                * F32.round (TestImpactPoint.Y - CapsuleLocation.Y)))
          < F32.round
              (max (F32.round (c.VREdgeRejectDistance + F32.round KINDA_SMALL_NUMBER))
                  (F32.round (CapsuleRadius - c.VREdgeRejectDistance))
                * max (F32.round (c.VREdgeRejectDistance + F32.round KINDA_SMALL_NUMBER))
                  (F32.round (CapsuleRadius - c.VREdgeRejectDistance))) := by
    rw [IsWithinEdgeTolerance_eq, decide_eq_true_eq]
    rfl
  refine ⟨h1, fun h => ?_, fun z1 z2 => rfl, fun hv z => ?_⟩
  · rw [pow_two]
    exact F32.lt_of_round_lt (h1.1 h)
  · rw [IsWithinEdgeTolerance_eq, decide_eq_true_eq]
    have hx : F32.sub CapsuleLocation.X CapsuleLocation.X = 0 := by
      unfold F32.sub
      rw [sub_self, F32.round_zero]
    have hy : F32.sub CapsuleLocation.Y CapsuleLocation.Y = 0 := by
      unfold F32.sub
      rw [sub_self, F32.round_zero]
    show F32.add (F32.mul (F32.sub CapsuleLocation.X CapsuleLocation.X)
        (F32.sub CapsuleLocation.X CapsuleLocation.X))
        (F32.mul (F32.sub CapsuleLocation.Y CapsuleLocation.Y)
          (F32.sub CapsuleLocation.Y CapsuleLocation.Y)) < _
    rw [hx, hy]
    have h0 : F32.add (F32.mul 0 0) (F32.mul 0 0) = 0 := by
      unfold F32.add F32.mul
      rw [mul_zero, F32.round_zero, add_zero, F32.round_zero]
    rw [h0]
    have hk : (13743895 : ℚ) / 137438953472
        ≤ F32.add c.VREdgeRejectDistance (F32.round KINDA_SMALL_NUMBER) := by
      unfold F32.add
      rw [F32.round_KINDA_SMALL_NUMBER]
      have := F32.round_mono (show (13743895 : ℚ) / 137438953472
        ≤ c.VREdgeRejectDistance + 13743895 / 137438953472 by linarith)
      rw [F32.round_kinda_small_value] at this
      exact this
    have hm := le_trans hk (le_max_left _ (F32.sub CapsuleRadius c.VREdgeRejectDistance))
    unfold F32.mul
    apply F32.round_pos_of_ge
    have hpos : (0 : ℚ) ≤ 13743895 / 137438953472 := by norm_num
    calc (1 : ℚ) / 134217728 ≤ 13743895 / 137438953472 * (13743895 / 137438953472) := by
          norm_num
      _ ≤ _ := mul_le_mul hm hm hpos (le_trans hpos hm)

/-- Witness for C24: with a reject distance of 4 and a radius of 20, a point on the axis
of the capsule, 100 units below its centre, is within tolerance. -/
theorem IsWithinEdgeTolerance_single_precision_witness :
    IsWithinEdgeTolerance { VREdgeRejectDistance := 4 } ⟨1, 2, 3⟩ ⟨1, 2, -97⟩ 20 = true :=
  (IsWithinEdgeTolerance_single_precision { VREdgeRejectDistance := 4 } ⟨1, 2, 3⟩ ⟨5, 6, 7⟩
    20).2.2.2 (by norm_num) (-97)

/-! ## The forced floor check flag -/

theorem FindFloor_sweep_clears_flag (env : Engine) (U : FVector) (FL FS : ℚ)
    (O : FFindFloorResult) (z : Bool) (d : Option FHitResult) (c : Comp)
    (hd : FL > 0 ∨ FS > 0) :
    (FindFloor_sweep env U FL FS O z d c).2.2.bForceNextFloorCheck = false
      ∧ ((FindFloor_sweep env U FL FS O z d c).2.1 = false →
          c.bForceNextFloorCheck = false
            ∧ (FindFloor_sweep env U FL FS O z d c).1 = c.CurrentFloor) := by
  unfold FindFloor_sweep
  rw [if_pos hd]
  by_cases h1 : (c.bAlwaysCheckFloor || !z || c.bForceNextFloorCheck || c.bJustTeleported) = true
  · rw [if_pos h1]
    exact ⟨rfl, fun h => absurd h (by simp)⟩
  · rw [if_neg h1]
    have hf : c.bForceNextFloorCheck = false := by
      cases hb : c.bForceNextFloorCheck
      · rfl
      · rw [hb] at h1
        simp at h1
    cases hmb : c.MovementBase with
    | none =>
      simp
    | some b =>
      simp only []
      split_ifs with h2
      · refine ⟨?_, fun _ => ⟨hf, rfl⟩⟩
        simp only [Bool.and_eq_true, Bool.not_eq_true'] at h2
        exact h2.1.1
      · exact ⟨rfl, fun h => absurd h (by simp)⟩

/-- C25. Every `FindFloor` call with valid data and query collision enabled returns with
`bForceNextFloorCheck` false, whatever the flag was at entry and whatever the movement
base is: the sweep stage either clears the flag before its `ComputeFloorDist`, or it
reuses the cached floor (no validation needed), and then the flag was false at entry
already. -/
theorem FindFloor_returns_flag_cleared (env : Engine) (L : FVector) (O : FFindFloorResult)
    (z : Bool) (d : Option FHitResult) (c : Comp)
    (hvalid : env.HasValidData c = true) (hq : env.IsQueryCollisionEnabled c = true) :
    (FindFloor env L O z d c).2.bForceNextFloorCheck = false
      ∧ ∀ (U : FVector) (FL FS : ℚ), (FL > 0 ∨ FS > 0) →
          (FindFloor_sweep env U FL FS O z d c).2.2.bForceNextFloorCheck = false
            ∧ ((FindFloor_sweep env U FL FS O z d c).2.1 = false →
                c.bForceNextFloorCheck = false
                  ∧ (FindFloor_sweep env U FL FS O z d c).1 = c.CurrentFloor) := by
  refine ⟨?_, fun U FL FS hd => FindFloor_sweep_clears_flag env U FL FS O z d c hd⟩
  unfold FindFloor
  rw [if_neg (by simp [hvalid, hq])]
  exact (FindFloor_sweep_clears_flag env _ _ _ O z d c
    (Or.inr (lt_of_lt_of_le (by norm_num [MAX_FLOOR_DIST]) (le_max_left _ _)))).1

/-- Witness for C25: a trivial-move floor check of a character without a movement base
that enters with the flag set. -/
theorem FindFloor_returns_flag_cleared_witness :
    forcedCheckComp.bForceNextFloorCheck = true
      ∧ (FindFloor {} forcedCheckComp.Location forcedCheckComp.CurrentFloor true none
          forcedCheckComp).2.bForceNextFloorCheck = false :=
  ⟨rfl, (FindFloor_returns_flag_cleared {} forcedCheckComp.Location forcedCheckComp.CurrentFloor
    true none forcedCheckComp rfl rfl).1⟩

/-! ## StepUp ended by a forward impact -/

theorem StepUp_forward_falling (env : Engine) (sc : ScopedMovementUpdate) (Delta : FVector)
    (SweepUpHit Hit : FHitResult) (c : Comp)
    (hb : Hit.bBlockingHit = true) (hp : Hit.bStartPenetrating = false)
    (hfall : (env.HandleImpact Hit 0 {}
        (if SweepUpHit.bBlockingHit = true then env.HandleImpact SweepUpHit 0 {} c
          else c)).IsFalling = true) :
    StepUp_forward env sc Delta SweepUpHit Hit c
      = StepOutcome.done true
          (env.HandleImpact Hit 0 {}
            (if SweepUpHit.bBlockingHit = true then env.HandleImpact SweepUpHit 0 {} c
              else c)) := by
  unfold StepUp_forward
  rw [if_pos hb, hp]
  simp only [Bool.false_eq_true, ↓reduceIte, hb, Bool.and_true]
  rw [if_pos hfall]

theorem StepUp_entry_passed (env : Engine) (GravDir : FVector) (InHit : FHitResult) (c : Comp)
    (he : StepUp_entryRejects env GravDir InHit c = false) :
    ¬ (!env.CanStepUp InHit c || decide (c.MaxStepHeight ≤ 0)) = true
      ∧ ¬ InHit.ImpactPoint.Z
          > (StepUp_OldLocation c).Z + (c.GetScaledCapsuleHalfHeight - c.GetScaledCapsuleRadius)
      ∧ ¬ InHit.ImpactPoint.Z ≤ (StepUp_OldLocation c).Z - c.GetScaledCapsuleHalfHeight
      ∧ ¬ GravDir.IsZero = true := by
  unfold StepUp_entryRejects at he
  simp only [Bool.or_eq_false_iff, decide_eq_false_iff_not] at he
  obtain ⟨⟨⟨he1, he2⟩, he3⟩, he4⟩ := he
  exact ⟨by simpa using he1, he2, he3, by simpa using he4⟩

theorem StepUp_beforeDown_falling (env : Engine) (GravDir Delta : FVector) (InHit : FHitResult)
    (c : Comp)
    (hb : (StepUp_forwardSweep env GravDir Delta InHit c).2.1.bBlockingHit = true)
    (hp : (StepUp_forwardSweep env GravDir Delta InHit c).2.1.bStartPenetrating = false)
    (hfall : (StepUp_afterImpact env GravDir Delta InHit c).IsFalling = true) :
    StepUp_beforeDown env GravDir Delta InHit c = none := by
  have hf := StepUp_forward_falling env (ScopedMovementUpdate.start c) Delta
    (StepUp_upSweep env GravDir InHit c).2.1
    (StepUp_forwardSweep env GravDir Delta InHit c).2.1
    (StepUp_forwardSweep env GravDir Delta InHit c).2.2 hb hp hfall
  unfold StepUp_forwardSweep StepUp_upSweep at hf
  unfold StepUp_beforeDown
  by_cases he : StepUp_entryRejects env GravDir InHit c = true
  · rw [if_pos he]
  · rw [if_neg he]
    simp only [] at hf ⊢
    split_ifs
    · rfl
    · rw [hf]

/-- C29. There are inputs on which `StepUp` returns true without its downward sweep and
without any landing validation: whenever the call gets past its entry checks, the upward
sweep does not start in penetration, the forward sweep reports a blocking hit that does
not start in penetration, and `HandleImpact` on that hit leaves the character in Falling
mode, `StepUp` returns true with the component as the two sweeps and the impact left it
(no `RevertMove`), writes no step-down result, and makes exactly two sweeps, up and
forward. -/
theorem StepUp_forward_impact_returns_true (env : Engine) (GravDir Delta : FVector)
    (InHit : FHitResult) (out : Bool) (c : Comp)
    (hentry : StepUp_entryRejects env GravDir InHit c = false)
    (hup : (StepUp_upSweep env GravDir InHit c).2.1.bStartPenetrating = false)
    (hb : (StepUp_forwardSweep env GravDir Delta InHit c).2.1.bBlockingHit = true)
    (hp : (StepUp_forwardSweep env GravDir Delta InHit c).2.1.bStartPenetrating = false)
    (hfall : (StepUp_afterImpact env GravDir Delta InHit c).IsFalling = true) :
    StepUp env GravDir Delta InHit out c
        = (true, none, StepUp_afterImpact env GravDir Delta InHit c)
      ∧ StepUp_downSweep env GravDir Delta InHit c = none
      ∧ StepUp_sweeps env GravDir Delta InHit c
        = [(-GravDir).scale (StepUp_heights c InHit (StepUp_OldLocation c)
              c.GetScaledCapsuleRadius c.GetScaledCapsuleHalfHeight).1, Delta] := by
  have hbd := StepUp_beforeDown_falling env GravDir Delta InHit c hb hp hfall
  obtain ⟨he1, he2, he3, he4⟩ := StepUp_entry_passed env GravDir InHit c hentry
  have hup2 : ¬ (StepUp_upSweep env GravDir InHit c).2.1.bStartPenetrating = true := by
    rw [hup]
    simp
  refine ⟨?_, ?_, ?_⟩
  · have hf := StepUp_forward_falling env (ScopedMovementUpdate.start c) Delta
      (StepUp_upSweep env GravDir InHit c).2.1
      (StepUp_forwardSweep env GravDir Delta InHit c).2.1
      (StepUp_forwardSweep env GravDir Delta InHit c).2.2 hb hp hfall
    unfold StepUp_forwardSweep StepUp_upSweep at hf hup2
    unfold StepUp
    simp only [] at hf hup2 ⊢
    rw [if_neg he1, if_neg he2, if_neg he3, if_neg he4, if_neg hup2, hf]
    rfl
  · unfold StepUp_downSweep
    rw [hbd]
  · unfold StepUp_sweeps
    unfold StepUp_upSweep at hup2
    simp only [] at hup2 ⊢
    rw [if_neg (by rw [hentry]; simp), if_neg hup2, hbd]

theorem knockingWorld_sweeps :
    (StepUp_upSweep knockingWorld ⟨0, 0, -1⟩ { ImpactPoint := ⟨20, 0, -60⟩ }
        standingComp).2.1.bStartPenetrating
        = false
      ∧ (StepUp_forwardSweep knockingWorld ⟨0, 0, -1⟩ ⟨10, 0, 0⟩ { ImpactPoint := ⟨20, 0, -60⟩ }
          standingComp).2.1.bBlockingHit = true
      ∧ (StepUp_forwardSweep knockingWorld ⟨0, 0, -1⟩ ⟨10, 0, 0⟩ { ImpactPoint := ⟨20, 0, -60⟩ }
          standingComp).2.1.bStartPenetrating = false
      ∧ (StepUp_afterImpact knockingWorld ⟨0, 0, -1⟩ ⟨10, 0, 0⟩ { ImpactPoint := ⟨20, 0, -60⟩ }
          standingComp).IsFalling = true
      ∧ (StepUp_afterImpact knockingWorld ⟨0, 0, -1⟩ ⟨10, 0, 0⟩ { ImpactPoint := ⟨20, 0, -60⟩ }
          standingComp).Location = ⟨5, 0, 45⟩ := by
  norm_num [StepUp_upSweep, StepUp_forwardSweep, StepUp_afterImpact, knockingWorld,
    standingComp, StepUp_heights, StepUp_OldLocation, Comp.IsFalling, Comp.IsMovingOnGround,
    FFindFloorResult.IsWalkableFloor, FVector.scale, FVector.mk_add_mk, FVector.neg_mk]

/-- Witness for C29: a standing character steps against a wall in a world where the
impact throws it into Falling; `StepUp` returns true, two sweeps were made, nothing was
written to the step-down result, and the capsule stays where the sweeps put it, 45 up and
5 forward. -/
theorem StepUp_forward_impact_returns_true_witness :
    StepUp_entryRejects knockingWorld ⟨0, 0, -1⟩ { ImpactPoint := ⟨20, 0, -60⟩ } standingComp
        = false
      ∧ (StepUp knockingWorld ⟨0, 0, -1⟩ ⟨10, 0, 0⟩ { ImpactPoint := ⟨20, 0, -60⟩ } true
          standingComp).1 = true
      ∧ (StepUp knockingWorld ⟨0, 0, -1⟩ ⟨10, 0, 0⟩ { ImpactPoint := ⟨20, 0, -60⟩ } true
          standingComp).2.1 = none
      ∧ (StepUp knockingWorld ⟨0, 0, -1⟩ ⟨10, 0, 0⟩ { ImpactPoint := ⟨20, 0, -60⟩ } true
          standingComp).2.2.Location = ⟨5, 0, 45⟩
      ∧ standingComp.Location = ⟨0, 0, 0⟩
      ∧ StepUp_sweeps knockingWorld ⟨0, 0, -1⟩ ⟨10, 0, 0⟩ { ImpactPoint := ⟨20, 0, -60⟩ }
          standingComp = [⟨0, 0, 45⟩, ⟨10, 0, 0⟩] := by
  have he : StepUp_entryRejects knockingWorld ⟨0, 0, -1⟩ { ImpactPoint := ⟨20, 0, -60⟩ }
      standingComp = false := by
    norm_num [StepUp_entryRejects, knockingWorld, standingComp, StepUp_OldLocation,
      Comp.GetScaledCapsuleRadius, Comp.GetScaledCapsuleHalfHeight, FVector.IsZero]
  obtain ⟨h1, h2, h3, h4, h5⟩ := knockingWorld_sweeps
  have h := StepUp_forward_impact_returns_true knockingWorld ⟨0, 0, -1⟩ ⟨10, 0, 0⟩
    { ImpactPoint := ⟨20, 0, -60⟩ } true standingComp he h1 h2 h3 h4
  refine ⟨he, ?_, ?_, ?_, rfl, ?_⟩
  · rw [h.1]
  · rw [h.1]
  · rw [h.1]
    exact h5
  · rw [h.2.2]
    norm_num [StepUp_heights, standingComp, StepUp_OldLocation, Comp.IsMovingOnGround,
      FFindFloorResult.IsWalkableFloor, FVector.scale, FVector.neg_mk]


/-! ## The perch check of FindFloor -/

theorem FindFloor_eq_perch (env : Engine) (L : FVector) (O : FFindFloorResult) (z : Bool)
    (d : Option FHitResult) (c : Comp)
    (hvalid : env.HasValidData c = true) (hq : env.IsQueryCollisionEnabled c = true) :
    FindFloor env L O z d c
      = (FindFloor_perch env (FindFloor_HeightCheckAdjust env c)
          (FindFloor_beforePerch env L O z d c).2.1 (FindFloor_beforePerch env L O z d c).1
          (FindFloor_beforePerch env L O z d c).2.2,
        (FindFloor_beforePerch env L O z d c).2.2) := by
  unfold FindFloor
  rw [if_neg (by simp [hvalid, hq])]
  rfl

theorem FindFloor_perch_failed (env : Engine) (H : ℚ) (Out : FFindFloorResult) (c : Comp)
    (hb : Out.bBlockingHit = true) (hl : Out.bLineTrace = false)
    (hs : env.ShouldComputePerchResult Out.HitResult true c = true)
    (hf : (env.ComputePerchResult (env.GetValidPerchRadius c) Out.HitResult
      (FindFloor_MaxPerchFloorDist env H c) c).1 = false) :
    FindFloor_perch env H true Out c = { Out with bWalkableFloor := false } := by
  unfold FindFloor_MaxPerchFloorDist at hf
  unfold FindFloor_perch
  rw [if_pos (by simp [hb, hl]), if_pos hs]
  simp only []
  by_cases hg : (c.IsMovingOnGround || env.IsClimbing c) = true
  · rw [if_pos hg] at hf ⊢
    rw [hf]
    simp
  · rw [if_neg hg] at hf ⊢
    rw [hf]
    simp

theorem FindFloor_perch_succeeded (env : Engine) (H : ℚ) (Out : FFindFloorResult) (c : Comp)
    (hb : Out.bBlockingHit = true) (hl : Out.bLineTrace = false)
    (hs : env.ShouldComputePerchResult Out.HitResult true c = true)
    (hf : (env.ComputePerchResult (env.GetValidPerchRadius c) Out.HitResult
      (FindFloor_MaxPerchFloorDist env H c) c).1 = true) :
    ∃ fd : ℚ,
      (fd = Out.FloorDist ∨ fd = (MIN_FLOOR_DIST + MAX_FLOOR_DIST) * (1 / 2))
      ∧ FindFloor_perch env H true Out c
        = if Out.bWalkableFloor = true then { Out with FloorDist := fd }
          else ({ Out with FloorDist := fd } : FFindFloorResult).SetFromLineTrace
            (env.ComputePerchResult (env.GetValidPerchRadius c) Out.HitResult
              (FindFloor_MaxPerchFloorDist env H c) c).2.HitResult fd
            (min (env.ComputePerchResult (env.GetValidPerchRadius c) Out.HitResult
                (FindFloor_MaxPerchFloorDist env H c) c).2.FloorDist
              (env.ComputePerchResult (env.GetValidPerchRadius c) Out.HitResult
                (FindFloor_MaxPerchFloorDist env H c) c).2.LineDist) true := by
  unfold FindFloor_MaxPerchFloorDist at hf ⊢
  unfold FindFloor_perch
  rw [if_pos (by simp [hb, hl]), if_pos hs]
  simp only []
  by_cases hg : (c.IsMovingOnGround || env.IsClimbing c) = true
  · rw [if_pos hg] at hf ⊢
    rw [if_pos hf]
    split_ifs <;> first
      | exact ⟨_, Or.inr rfl, rfl⟩
      | exact ⟨Out.FloorDist, Or.inl rfl, rfl⟩
      | (exfalso; simp_all)
  · rw [if_neg hg] at hf ⊢
    rw [if_pos hf]
    split_ifs <;> first
      | exact ⟨_, Or.inr rfl, rfl⟩
      | exact ⟨Out.FloorDist, Or.inl rfl, rfl⟩
      | (exfalso; simp_all)

theorem FindFloor_checksPerch_cases (env : Engine) (L : FVector) (O : FFindFloorResult)
    (z : Bool) (d : Option FHitResult) (c : Comp)
    (h : FindFloor_checksPerch env L O z d c = true) :
    (FindFloor_beforePerch env L O z d c).2.1 = true
      ∧ (FindFloor_beforePerch env L O z d c).1.bBlockingHit = true
      ∧ (FindFloor_beforePerch env L O z d c).1.bLineTrace = false
      ∧ env.ShouldComputePerchResult (FindFloor_beforePerch env L O z d c).1.HitResult true
          (FindFloor_beforePerch env L O z d c).2.2 = true := by
  unfold FindFloor_checksPerch at h
  simp only [Bool.and_eq_true, Bool.not_eq_true'] at h
  exact ⟨h.1.1.1, h.1.1.2, h.1.2, h.2⟩

/-- C21. Whenever `FindFloor` makes the perch check (valid data, the floor result needs
validation, is a blocking hit of the sweep, and `ShouldComputePerchResult` holds), the
floor it returns is walkable iff `ComputePerchResult` at the valid perch radius
succeeded: after a failed perch check the result is the floor found with
`bWalkableFloor` false; after a successful one an unwalkable floor is replaced through
`SetFromLineTrace` by a walkable line-trace result that has the normals and component of
the perch hit and the smaller of the perch distances as line distance, and a walkable
floor stays walkable with its own hit. The floor result and the perch result are the
engine's: a blocking floor result carries a blocking hit, and so does a successful perch
result. -/
theorem FindFloor_perch_decides_walkable (env : Engine) (L : FVector) (O : FFindFloorResult)
    (z : Bool) (d : Option FHitResult) (c : Comp)
    (hvalid : env.HasValidData c = true) (hq : env.IsQueryCollisionEnabled c = true)
    (hcheck : FindFloor_checksPerch env L O z d c = true)
    (hfloorHit : (FindFloor_beforePerch env L O z d c).1.HitResult.bBlockingHit = true)
    (hperchHit : (FindFloor_perchResult env L O z d c).1 = true →
      (FindFloor_perchResult env L O z d c).2.HitResult.bBlockingHit = true) :
    (FindFloor env L O z d c).1.IsWalkableFloor = (FindFloor_perchResult env L O z d c).1
      ∧ ((FindFloor_perchResult env L O z d c).1 = false →
          (FindFloor env L O z d c).1
            = { (FindFloor_beforePerch env L O z d c).1 with bWalkableFloor := false })
      ∧ ((FindFloor_perchResult env L O z d c).1 = true →
          (FindFloor_beforePerch env L O z d c).1.bWalkableFloor = false →
          (FindFloor env L O z d c).1.bWalkableFloor = true
            ∧ (FindFloor env L O z d c).1.bLineTrace = true
            ∧ (FindFloor env L O z d c).1.HitResult.ImpactNormal
              = (FindFloor_perchResult env L O z d c).2.HitResult.ImpactNormal
            ∧ (FindFloor env L O z d c).1.HitResult.Normal
              = (FindFloor_perchResult env L O z d c).2.HitResult.Normal
            ∧ (FindFloor env L O z d c).1.HitResult.Component
              = (FindFloor_perchResult env L O z d c).2.HitResult.Component
            ∧ (FindFloor env L O z d c).1.LineDist
              = min (FindFloor_perchResult env L O z d c).2.FloorDist
                  (FindFloor_perchResult env L O z d c).2.LineDist)
      ∧ ((FindFloor_perchResult env L O z d c).1 = true →
          (FindFloor_beforePerch env L O z d c).1.bWalkableFloor = true →
          (FindFloor env L O z d c).1.bWalkableFloor = true
            ∧ (FindFloor env L O z d c).1.bLineTrace = false
            ∧ (FindFloor env L O z d c).1.HitResult
              = (FindFloor_beforePerch env L O z d c).1.HitResult) := by
  obtain ⟨hn, hb, hl, hs⟩ := FindFloor_checksPerch_cases env L O z d c hcheck
  rw [FindFloor_eq_perch env L O z d c hvalid hq, hn]
  unfold FindFloor_perchResult at hperchHit ⊢
  simp only [] at hperchHit ⊢
  have hfail := FindFloor_perch_failed env (FindFloor_HeightCheckAdjust env c)
    (FindFloor_beforePerch env L O z d c).1 (FindFloor_beforePerch env L O z d c).2.2 hb hl hs
  have hsucc := FindFloor_perch_succeeded env (FindFloor_HeightCheckAdjust env c)
    (FindFloor_beforePerch env L O z d c).1 (FindFloor_beforePerch env L O z d c).2.2 hb hl hs
  generalize (FindFloor_beforePerch env L O z d c).1 = Out at *
  generalize (FindFloor_beforePerch env L O z d c).2.2 = c1 at *
  generalize env.ComputePerchResult (env.GetValidPerchRadius c1) Out.HitResult
    (FindFloor_MaxPerchFloorDist env (FindFloor_HeightCheckAdjust env c) c1) c1 = perch at *
  cases hp : perch.1 with
  | false =>
    rw [hfail hp]
    refine ⟨?_, fun _ => rfl, fun h => absurd h (by simp), fun h => absurd h (by simp)⟩
    simp [FFindFloorResult.IsWalkableFloor]
  | true =>
    obtain ⟨fd, _, he⟩ := hsucc hp
    rw [he]
    cases hw : Out.bWalkableFloor with
    | true =>
      refine ⟨?_, fun h => absurd h (by simp), fun _ h => absurd h (by simp),
        fun _ _ => ?_⟩
      · simp [FFindFloorResult.IsWalkableFloor, hb, hw]
      · simp [hw, hl]
    | false =>
      have hset : (({ Out with FloorDist := fd } : FFindFloorResult).HitResult.bBlockingHit
          && perch.2.HitResult.bBlockingHit) = true := by
        simp [hfloorHit, hperchHit hp]
      refine ⟨?_, fun h => absurd h (by simp), fun _ _ => ?_, fun _ h => absurd h (by simp)⟩
      · simp [FFindFloorResult.IsWalkableFloor, FFindFloorResult.SetFromLineTrace, hset, hb]
      · simp [FFindFloorResult.SetFromLineTrace, hset]

theorem perchWorld_checks :
    FindFloor_checksPerch perchWorld restingComp.Location {} false none restingComp = true
      ∧ (FindFloor_beforePerch perchWorld restingComp.Location {} false none restingComp).1
        = ledgeRimFloor
      ∧ FindFloor_perchResult perchWorld restingComp.Location {} false none restingComp
        = (true, ledgeTopFloor) := by
  norm_num [FindFloor_checksPerch, FindFloor_beforePerch, FindFloor_perchResult,
    FindFloor_sweep, FindFloor_override, perchWorld, restingComp, ledgeRimFloor,
    MAX_FLOOR_DIST, KINDA_SMALL_NUMBER, FindFloor_HeightCheckAdjust, Comp.IsMovingOnGround]

/-- Witness for C21: on the rim of a ledge where the perch check succeeds, the floor
returned is walkable and is the line-trace result with the normal of the ledge top. -/
theorem FindFloor_perch_decides_walkable_witness :
    ledgeRimFloor.bWalkableFloor = false
      ∧ (FindFloor perchWorld restingComp.Location {} false none restingComp).1.IsWalkableFloor
        = true
      ∧ (FindFloor perchWorld restingComp.Location {} false none restingComp).1.bLineTrace
        = true
      ∧ (FindFloor perchWorld restingComp.Location {} false none
          restingComp).1.HitResult.ImpactNormal = ⟨0, 0, 1⟩ := by
  obtain ⟨h1, h2, h3⟩ := perchWorld_checks
  have h := FindFloor_perch_decides_walkable perchWorld restingComp.Location {} false none
    restingComp rfl rfl h1 (by rw [h2]; rfl) (fun _ => by rw [h3]; rfl)
  rw [h3, h2] at h
  exact ⟨rfl, h.1, (h.2.2.1 rfl rfl).2.1, (h.2.2.1 rfl rfl).2.2.1⟩


/-! ## The HMD state installed from a move -/

theorem SetCapsuleHalfHeight_keeps_hmd (h : ℚ) (c : Comp) :
    (c.SetCapsuleHalfHeight h).VRRootCapsule = c.VRRootCapsule
      ∧ (c.SetCapsuleHalfHeight h).AdditionalVRInputVector = c.AdditionalVRInputVector :=
  ⟨rfl, rfl⟩

theorem ServerMoveVR_prepare_hmd (env : Engine) (DeltaTime : ℚ) (PC : Bool)
    (CapsuleLoc : FVector) (ConditionalReps : FVRConditionalMoveRep) (LFDiff : FVector)
    (CapsuleYaw : Nat) (s : Sim) (root : UVRRootComponent)
    (hroot : (if PC = true then env.UpdateRotation DeltaTime s.comp else s.comp).VRRootCapsule
      = some root) :
    ∃ c6, (ServerMoveVR_prepare env DeltaTime PC CapsuleLoc ConditionalReps LFDiff CapsuleYaw
          s).comp = env.GenerateOffsetToWorld c6
      ∧ c6.VRRootCapsule
        = some { root with
            curCameraLoc := CapsuleLoc
            curCameraRot := ⟨0, DecompressAxisFromShort CapsuleYaw, 0⟩
            DifferenceFromLastFrame := ⟨LFDiff.X, LFDiff.Y, 0⟩ }
      ∧ c6.AdditionalVRInputVector = ⟨LFDiff.X, LFDiff.Y, 0⟩ := by
  have h1 : (if PC = true then s.call (Call.UpdateRotation DeltaTime)
      (env.UpdateRotation DeltaTime) else s).comp
      = (if PC = true then env.UpdateRotation DeltaTime s.comp else s.comp) := by
    cases PC <;> rfl
  unfold ServerMoveVR_prepare
  simp only []
  rw [h1]
  generalize (if PC = true then env.UpdateRotation DeltaTime s.comp else s.comp) = pre at hroot ⊢
  have hr2 : ∀ c2 : Comp, c2.VRRootCapsule = pre.VRRootCapsule →
      ({ c2 with CustomVRInputVector := ConditionalReps.CustomVRInputVector
                 MoveAction := ConditionalReps.MoveAction } : Comp).VRRootCapsule = some root :=
    fun c2 h => h.trans hroot
  split
  · rename_i root2 hm
    have hr : root2 = root := by
      split_ifs at hm
      · rw [hr2 _ rfl] at hm
        exact (Option.some.inj hm).symm
      · rw [hr2 _ rfl] at hm
        exact (Option.some.inj hm).symm
    subst hr
    refine ⟨_, rfl, ?_, ?_⟩
    · split_ifs <;> rfl
    · split_ifs <;> rfl
  · rename_i hm
    exfalso
    split_ifs at hm
    · rw [hr2 _ rfl] at hm
      exact absurd hm (by simp)
    · rw [hr2 _ rfl] at hm
      exact absurd hm (by simp)

theorem PrepMoveFor_hmd (env : Engine) (m : SavedMove) (c : Comp) (root : UVRRootComponent)
    (hroot : c.VRRootCapsule = some root) :
    ∃ c6, m.PrepMoveFor env c = env.Super_PrepMoveFor m (env.GenerateOffsetToWorld c6)
      ∧ c6.VRRootCapsule
        = some { root with
            curCameraLoc := m.VRCapsuleLocation
            curCameraRot := m.VRCapsuleRotation
            DifferenceFromLastFrame := ⟨m.LFDiff.X, m.LFDiff.Y, 0⟩ }
      ∧ c6.AdditionalVRInputVector = ⟨m.LFDiff.X, m.LFDiff.Y, 0⟩ := by
  unfold SavedMove.PrepMoveFor
  simp only []
  split
  · rename_i root2 hm
    have hr : root2 = root := by
      rw [hroot] at hm
      exact (Option.some.inj hm).symm
    subst hr
    refine ⟨_, rfl, ?_, ?_⟩
    · split_ifs <;> rfl
    · split_ifs <;> rfl
  · rename_i hm
    rw [hroot] at hm
    exact absurd hm (by simp)

/-- C30. With a VR root capsule, the server's capsule block of
`ServerMoveVR_Implementation` (in `ServerMoveVR_prepare`, run when the move is performed)
and the client's replay `PrepMoveFor` hand to `GenerateOffsetToWorld` a component with the
same HMD state for the same move fields: `curCameraLoc` is the capsule location of the
move, `DifferenceFromLastFrame` is `(LFDiff.X, LFDiff.Y, 0)` and `AdditionalVRInputVector`
equals it, so the Z of the HMD delta used for the movement is 0 whatever `LFDiff.Z` is.
`pre` is the component entering the server's capsule block. -/
theorem server_and_replay_install_same_hmd_state (env : Engine) (DeltaTime : ℚ) (PC : Bool)
    (CapsuleLoc : FVector) (ConditionalReps : FVRConditionalMoveRep) (LFDiff : FVector)
    (CapsuleYaw : Nat) (s : Sim) (pre : Comp) (root : UVRRootComponent)
    (hpre : pre = if PC = true then env.UpdateRotation DeltaTime s.comp else s.comp)
    (hroot : pre.VRRootCapsule = some root)
    (m : SavedMove) (c : Comp) (rootc : UVRRootComponent)
    (hrootc : c.VRRootCapsule = some rootc)
    (hloc : m.VRCapsuleLocation = CapsuleLoc) (hdiff : m.LFDiff = LFDiff) :
    ∃ cs cr rs rr,
      (ServerMoveVR_prepare env DeltaTime PC CapsuleLoc ConditionalReps LFDiff CapsuleYaw
          s).comp = env.GenerateOffsetToWorld cs
        ∧ m.PrepMoveFor env c = env.Super_PrepMoveFor m (env.GenerateOffsetToWorld cr)
        ∧ cs.VRRootCapsule = some rs ∧ cr.VRRootCapsule = some rr
        ∧ rs.curCameraLoc = CapsuleLoc ∧ rr.curCameraLoc = CapsuleLoc
        ∧ rs.DifferenceFromLastFrame = ⟨LFDiff.X, LFDiff.Y, 0⟩
        ∧ rr.DifferenceFromLastFrame = ⟨LFDiff.X, LFDiff.Y, 0⟩
        ∧ cs.AdditionalVRInputVector = rs.DifferenceFromLastFrame
        ∧ cr.AdditionalVRInputVector = rr.DifferenceFromLastFrame
        ∧ cs.AdditionalVRInputVector.Z = 0 ∧ cr.AdditionalVRInputVector.Z = 0 := by
  subst hpre
  obtain ⟨cs, h1, h2, h3⟩ := ServerMoveVR_prepare_hmd env DeltaTime PC CapsuleLoc ConditionalReps
    LFDiff CapsuleYaw s root hroot
  obtain ⟨cr, h4, h5, h6⟩ := PrepMoveFor_hmd env m c rootc hrootc
  rw [hloc, hdiff] at h5
  rw [hdiff] at h6
  refine ⟨cs, cr, _, _, h1, h4, h2, h5, rfl, rfl, rfl, rfl, h3, h6, ?_, ?_⟩
  · rw [h3]
  · rw [h6]

/-- Witness for C30: the move with capsule location (1, 1, 1) and `LFDiff` (2, 2, 60), on
the server and in the replay. -/
theorem server_and_replay_install_same_hmd_state_witness :
    ∃ cs cr,
      (ServerMoveVR_prepare monotoneServer (1 / 60) false ⟨1, 1, 1⟩ {} ⟨2, 2, 60⟩ 100
          { comp := heightReplicatingComp }).comp = monotoneServer.GenerateOffsetToWorld cs
        ∧ SavedMove.PrepMoveFor monotoneServer
            { VRCapsuleLocation := ⟨1, 1, 1⟩, LFDiff := ⟨2, 2, 60⟩ } heightReplicatingComp
          = monotoneServer.Super_PrepMoveFor
              { VRCapsuleLocation := ⟨1, 1, 1⟩, LFDiff := ⟨2, 2, 60⟩ }
              (monotoneServer.GenerateOffsetToWorld cr)
        ∧ cs.AdditionalVRInputVector = ⟨2, 2, 0⟩ ∧ cr.AdditionalVRInputVector = ⟨2, 2, 0⟩ := by
  obtain ⟨cs, cr, rs, rr, h1, h2, _, _, _, _, h7, h8, h9, h10, _, _⟩ :=
    server_and_replay_install_same_hmd_state monotoneServer (1 / 60) false ⟨1, 1, 1⟩ {}
      ⟨2, 2, 60⟩ 100 { comp := heightReplicatingComp } heightReplicatingComp {} rfl rfl
      { VRCapsuleLocation := ⟨1, 1, 1⟩, LFDiff := ⟨2, 2, 60⟩ } heightReplicatingComp {} rfl
      rfl rfl
  exact ⟨cs, cr, h1, h2, h9.trans h7, h10.trans h8⟩


/-! ## ReplicateMoveToServer with merging switched off -/

theorem ShouldCombine_merging_off (env : Engine) (P N : SavedMove) (c : Comp)
    (h : c.bAllowMovementMerging = false) : ShouldCombine env P N c = false := by
  unfold ShouldCombine
  rw [h]
  simp

theorem merge_merging_off (env : Engine) (N : SavedMove) (s : Sim)
    (h : s.comp.bAllowMovementMerging = false) :
    ReplicateMoveToServer_merge env N s = (N, s) := by
  unfold ReplicateMoveToServer_merge
  cases hp : s.comp.Client.PendingMove with
  | none => rfl
  | some P =>
    simp only []
    rw [ShouldCombine_merging_off env P N s.comp h]
    simp

theorem setup_keeps_merging_flag (env : Engine) (hK : env.KeepsMergingFlag) (dt : ℚ)
    (a : FVector) (c : Comp) :
    (ReplicateMoveToServer_setup env dt a c).2.bAllowMovementMerging
      = c.bAllowMovementMerging := by
  unfold ReplicateMoveToServer_setup
  simp only []
  split_ifs
  · rfl
  · rfl
  · rfl
  · split
    · rw [hK.2.1, hK.1]
    · rw [hK.2.1, hK.1]

theorem setup_move_DeltaTime (env : Engine) (hK : env.KeepsMergingFlag) (dt : ℚ)
    (a : FVector) (c : Comp) (N : SavedMove) (O : Option SavedMove)
    (h : (ReplicateMoveToServer_setup env dt a c).1 = some (N, O)) :
    N.DeltaTime = (env.UpdateTimeStampAndDeltaTime dt c).1 := by
  unfold ReplicateMoveToServer_setup at h
  simp only [] at h
  split_ifs at h
  split at h
  · exact absurd h (by simp)
  · simp only [Option.some.injEq, Prod.mk.injEq] at h
    rw [← h.1, hK.2.2]

theorem ReplicateMoveToServer_of_setup (env : Engine) (dt : ℚ) (a : FVector) (s : Sim)
    (N : SavedMove) (O : Option SavedMove)
    (h : (ReplicateMoveToServer_setup env dt a s.comp).1 = some (N, O)) :
    ReplicateMoveToServer env dt a s
      = ReplicateMoveToServer_perform env
          (ReplicateMoveToServer_merge env N
            { s with comp := (ReplicateMoveToServer_setup env dt a s.comp).2 }).1 O
          (ReplicateMoveToServer_merge env N
            { s with comp := (ReplicateMoveToServer_setup env dt a s.comp).2 }).2 := by
  unfold ReplicateMoveToServer
  simp only []
  rw [h]

theorem perform_log (env : Engine) (N : SavedMove) (O : Option SavedMove) (s : Sim) :
    ∃ l, (ReplicateMoveToServer_perform env N O s).log
      = s.log ++ Call.PerformMovement N.DeltaTime :: l := by
  unfold ReplicateMoveToServer_perform
  obtain ⟨l, hl, _⟩ := record_log env N O (ReplicateMoveToServer_local env N s)
  refine ⟨l, ?_⟩
  rw [hl, local_log]
  simp

theorem combiningClient_keeps_flag : combiningClient.KeepsMergingFlag :=
  ⟨fun _ _ => rfl, fun _ => rfl, fun _ _ _ _ => rfl⟩

/-- C26. The constructor switches `bAllowMovementMerging` off, and with the flag off
`ReplicateMoveToServer` never merges: on every tick that gets a new move, the merge step
returns the new move and the state as they are (no revert of the capsule to the pending
move's start, no removal of the pending move from `SavedMoves`, no `FreeMove`), the move
performed and recorded is the new move with the tick's own delta time, and the saved
moves held before, the pending move among them, are all still there with the new move
appended. -/
theorem constructed_never_merges (env : Engine) (DeltaTime : ℚ) (NewAcceleration : FVector)
    (s : Sim) (NewMove : SavedMove) (OldMove : Option SavedMove)
    (hflag : s.comp.bAllowMovementMerging = false) (hK : env.KeepsMergingFlag)
    (hsetup : (ReplicateMoveToServer_setup env DeltaTime NewAcceleration s.comp).1
      = some (NewMove, OldMove)) :
    (∀ c0 : Comp, (constructed c0).bAllowMovementMerging = false)
      ∧ ReplicateMoveToServer_merge env NewMove
          { s with comp := (ReplicateMoveToServer_setup env DeltaTime NewAcceleration s.comp).2 }
        = (NewMove,
          { s with comp := (ReplicateMoveToServer_setup env DeltaTime NewAcceleration s.comp).2 })
      ∧ ReplicateMoveToServer env DeltaTime NewAcceleration s
        = ReplicateMoveToServer_perform env NewMove OldMove
            { s with comp := (ReplicateMoveToServer_setup env DeltaTime NewAcceleration s.comp).2 }
      ∧ NewMove.DeltaTime = (env.UpdateTimeStampAndDeltaTime DeltaTime s.comp).1
      ∧ (∃ l, (ReplicateMoveToServer env DeltaTime NewAcceleration s).log
          = s.log ++ Call.PerformMovement (env.UpdateTimeStampAndDeltaTime DeltaTime s.comp).1
              :: l)
      ∧ (env.KeepsClientData →
          (ReplicateMoveToServer_local env NewMove
            { s with comp := (ReplicateMoveToServer_setup env DeltaTime NewAcceleration
                s.comp).2 }).comp.bReplicateMovement = true →
          (ReplicateMoveToServer env DeltaTime NewAcceleration s).comp.Client.SavedMoves
            = (ReplicateMoveToServer_setup env DeltaTime NewAcceleration
                s.comp).2.Client.SavedMoves
              ++ [env.PostUpdate NewMove
                  (ReplicateMoveToServer_local env NewMove
                    { s with comp := (ReplicateMoveToServer_setup env DeltaTime NewAcceleration
                        s.comp).2 }).comp]) := by
  have hm := merge_merging_off env NewMove
    { s with comp := (ReplicateMoveToServer_setup env DeltaTime NewAcceleration s.comp).2 }
    ((setup_keeps_merging_flag env hK DeltaTime NewAcceleration s.comp).trans hflag)
  have hd := setup_move_DeltaTime env hK DeltaTime NewAcceleration s.comp NewMove OldMove hsetup
  have he := ReplicateMoveToServer_of_setup env DeltaTime NewAcceleration s NewMove OldMove
    hsetup
  rw [hm] at he
  refine ⟨fun _ => rfl, hm, he, hd, ?_, fun hC hr => ?_⟩
  · rw [he, ← hd]
    exact perform_log env NewMove OldMove _
  · rw [he]
    unfold ReplicateMoveToServer_perform
    rw [record_saved env NewMove OldMove _ hr, local_client env NewMove _ hC]

/-- Witness for C26: the constructed component that holds `moveA` as pending move, on a
client where every pending move could be combined: the tick of 20 ms is performed with
its own delta time and `moveA` stays the first saved move. -/
theorem constructed_never_merges_witness :
    (∃ l, (ReplicateMoveToServer combiningClient (1 / 50) {} { comp := constructedComp }).log
        = Call.PerformMovement (1 / 50) :: l)
      ∧ (ReplicateMoveToServer combiningClient (1 / 50) {}
          { comp := constructedComp }).comp.Client.SavedMoves
        = [moveA, { id := 2, DeltaTime := 1 / 50, TimeStamp := 2 }] := by
  have h := constructed_never_merges combiningClient (1 / 50) {} { comp := constructedComp }
    { id := 2, DeltaTime := 1 / 50, TimeStamp := 2 } none rfl combiningClient_keeps_flag rfl
  exact ⟨h.2.2.2.2.1, h.2.2.2.2.2 combiningClient_keeps rfl⟩


/-! ## Recovery from a floor check that started in penetration -/

theorem PhysWalking_validateFloor_recovers (env : Engine) (st : WalkingStep) (Delta : FVector)
    (bZeroDelta : Bool) (remainingTime : ℚ) (b1 b2 : Bool) (s : Sim)
    (hw : s.comp.CurrentFloor.IsWalkableFloor = false)
    (hp : s.comp.CurrentFloor.HitResult.bStartPenetrating = true)
    (ht : remainingTime ≤ 0)
    (hsw : (penetrationRecovery env s.comp).IsSwimming = false)
    (hp2 : (penetrationRecovery env s.comp).CurrentFloor.HitResult.bStartPenetrating = true) :
    PhysWalking_validateFloor env st Delta bZeroDelta remainingTime b1 b2 s
      = PhysWalking_finish env st remainingTime b1 b2
          { s with comp := penetrationRecovery env s.comp } := by
  have hc : (if s.comp.CurrentFloor.IsWalkableFloor = true then
        env.SetBase (env.AdjustFloorHeight s.comp).CurrentFloor.HitResult.Component
          (env.AdjustFloorHeight s.comp).CurrentFloor.HitResult.BoneName
          (env.AdjustFloorHeight s.comp)
      else if (s.comp.CurrentFloor.HitResult.bStartPenetrating
          && decide (remainingTime ≤ 0)) = true then
        ({ (env.ResolvePenetration
            (env.GetPenetrationAdjustment
              { s.comp.CurrentFloor.HitResult with
                TraceEnd := s.comp.CurrentFloor.HitResult.TraceStart + ⟨0, 0, MAX_FLOOR_DIST⟩ }
              s.comp)
            { s.comp.CurrentFloor.HitResult with
              TraceEnd := s.comp.CurrentFloor.HitResult.TraceStart + ⟨0, 0, MAX_FLOOR_DIST⟩ }
            s.comp.Rotation s.comp).2 with bForceNextFloorCheck := true } : Comp)
      else s.comp) = penetrationRecovery env s.comp := by
    rw [if_neg (by rw [hw]; simp), if_pos (by simp [hp, ht])]
    rfl
  unfold PhysWalking_validateFloor
  simp only []
  rw [if_neg (by rw [hw]; simp)]
  simp only [hc, hsw, hp2, Bool.false_eq_true, if_false, Bool.not_true, Bool.and_false]

theorem PhysFalling_floor_penetrating (env : Engine) (Hit : FHitResult) (c : Comp)
    (hw : (FindFloor env c.Location c.CurrentFloor false none c).1.IsWalkableFloor = false)
    (hp : (FindFloor env c.Location c.CurrentFloor false none c).1.HitResult.bStartPenetrating
      = true) :
    PhysFalling_floor env Hit c
      = { (env.ResolvePenetration
            (env.GetPenetrationAdjustment
              { Hit with TraceEnd := Hit.TraceStart + ⟨0, 0, MAX_FLOOR_DIST⟩ }
              { (FindFloor env c.Location c.CurrentFloor false none c).2 with
                CurrentFloor := (FindFloor env c.Location c.CurrentFloor false none c).1 })
            (FindFloor env c.Location c.CurrentFloor false none c).1.HitResult
            (FindFloor env c.Location c.CurrentFloor false none c).2.Rotation
            { (FindFloor env c.Location c.CurrentFloor false none c).2 with
              CurrentFloor := (FindFloor env c.Location c.CurrentFloor false none c).1 }).2 with
          bForceNextFloorCheck := true } := by
  unfold PhysFalling_floor
  simp only []
  rw [if_neg (by rw [hw]; simp), if_pos hp]

theorem PhysFalling_afterMove_floor (env : Engine) (a : Bool) (st : FallingStep)
    (Hit : FHitResult) (s : Sim)
    (hv : env.HasValidData s.comp = true) (hsw : s.comp.IsSwimming = false)
    (hb : Hit.bBlockingHit = false) :
    PhysFalling_afterMove env a st Hit s
      = PhysFalling_endOfStep st.remainingTime
          { s with comp := PhysFalling_floor env Hit s.comp } := by
  unfold PhysFalling_afterMove
  rw [if_neg (by rw [hv]; simp)]
  simp only []
  rw [if_neg (by rw [hsw]; simp), if_neg (by rw [hb]; simp)]

theorem PhysFalling_afterMove_nullRoot (env : Engine) (a : Bool) (st : FallingStep)
    (Hit : FHitResult) (s : Sim)
    (hv : env.HasValidData s.comp = true) (hsw : s.comp.IsSwimming = false)
    (hb : Hit.bBlockingHit = true) (hroot : s.comp.VRRootCapsule = none) :
    PhysFalling_afterMove env a st Hit s = LoopStep.nullRoot := by
  unfold PhysFalling_afterMove
  rw [if_neg (by rw [hv]; simp)]
  simp only []
  rw [if_neg (by rw [hsw]; simp), if_pos hb, hroot]

theorem sunkWorld_FindFloor :
    FindFloor sunkWorld sunkComp.Location sunkComp.CurrentFloor false none sunkComp
      = (sunkFloor, sunkComp) := by
  norm_num [FindFloor, FindFloor_sweep, FindFloor_override, FindFloor_perch, sunkWorld, sunkComp,
    sunkFloor, MAX_FLOOR_DIST, KINDA_SMALL_NUMBER, Comp.IsMovingOnGround]

theorem sunkWorld_floor :
    PhysFalling_floor sunkWorld { Time := 1 } sunkComp
      = { sunkComp with CurrentFloor := sunkFloor, bForceNextFloorCheck := true } := by
  rw [PhysFalling_floor_penetrating sunkWorld { Time := 1 } sunkComp
    (by rw [sunkWorld_FindFloor]; rfl) (by rw [sunkWorld_FindFloor]; rfl), sunkWorld_FindFloor]
  norm_num [sunkWorld, sunkComp, sunkFloor, FVector.ZeroVector, FVector.mk_add_mk]

theorem sunkWorld_recovery :
    penetrationRecovery sunkWorld { sunkComp with CurrentFloor := sunkFloor }
      = { sunkComp with CurrentFloor := sunkFloor, bForceNextFloorCheck := true,
                        Location := ⟨0, 0, 5⟩ } := by
  norm_num [penetrationRecovery, sunkWorld, sunkComp, sunkFloor, FVector.scale,
    FVector.mk_add_mk]

theorem sunkWorld_sweep :
    PhysFalling_sweep sunkWorld (2 / 125) false {} (2 / 125) 0 sunkComp
      = ({ timeTick := 2 / 125, remainingTime := 0, Iterations := 1, OldLocation := {},
           PawnRotation := {}, OldVelocity := {}, VelocityNoAirControl := {},
           AirControlAccel := {} }, { Time := 1 }, sunkComp) := by
  norm_num [PhysFalling_sweep, PhysFalling_integrate, PhysFalling_input,
    SafeMoveUpdatedComponent, sunkWorld, sunkComp, FVector.scale, FVector.div,
    FVector.mk_add_mk, FVector.mk_sub_mk, FVector.ZeroVector]

theorem sunkWorld_PhysFalling :
    PhysFalling sunkWorld (2 / 125) 0 { comp := sunkComp }
      = some { comp := { sunkComp with CurrentFloor := sunkFloor, bForceNextFloorCheck := true },
               log := [Call.RewindVRRelativeMovement] } := by
  have hF : ({ (sunkWorld.GetFallingLateralAcceleration (2 / 125) sunkComp) with
      Z := 0 } : FVector) = {} := rfl
  have ha : decide (({} : FVector).SizeSquared2D > 0) = false := by
    simp [FVector.SizeSquared2D]
  have hs : ({ comp := sunkComp } : Sim).call Call.RewindVRRelativeMovement
      sunkWorld.RewindVRRelativeMovement
      = { comp := sunkComp, log := [Call.RewindVRRelativeMovement] } := rfl
  unfold PhysFalling
  rw [if_neg (by norm_num [MIN_TICK_TIME])]
  simp only []
  rw [hF, ha, hs, PhysFalling_loop, dif_pos ⟨by norm_num [MIN_TICK_TIME], by decide⟩]
  unfold PhysFalling_step
  simp only []
  rw [sunkWorld_sweep]
  simp only []
  rw [PhysFalling_afterMove_floor sunkWorld false _ { Time := 1 }
    { comp := sunkComp, log := [Call.RewindVRRelativeMovement] } rfl rfl rfl]
  simp only []
  rw [sunkWorld_floor]
  have he : PhysFalling_endOfStep 0
      { comp := { sunkComp with CurrentFloor := sunkFloor, bForceNextFloorCheck := true },
        log := [Call.RewindVRRelativeMovement] }
      = LoopStep.again 0
          { comp := { sunkComp with CurrentFloor := sunkFloor, bForceNextFloorCheck := true },
            log := [Call.RewindVRRelativeMovement] } := by
    norm_num [PhysFalling_endOfStep, sunkComp, FVector.SizeSquared2D, KINDA_SMALL_NUMBER]
  rw [he]
  simp only []
  rw [PhysFalling_loop, dif_neg (by norm_num [MIN_TICK_TIME])]

/-- The recovery of `PhysFalling` at the failing input of C27: a character at rest in
Falling mode whose floor check starts in penetration. The free move of the sub-step
reports no hit; the floor block then asks `GetPenetrationAdjustment` for that sweep hit
(its trace end raised) and not for the copy `Hitt` of the floor hit it hands to
`ResolvePenetration`: the adjustment is zero and the capsule stays sunk, where the
recovery on the floor hit, which `PhysWalking` makes in the same state, lifts it by five
units. -/
theorem PhysFalling_recovery_asks_the_sweep_hit :
    (PhysFalling_sweep sunkWorld (2 / 125) false {} (2 / 125) 0 sunkComp).2.1 = { Time := 1 }
      ∧ (FindFloor sunkWorld sunkComp.Location sunkComp.CurrentFloor false none sunkComp).1
        = sunkFloor
      ∧ sunkFloor.HitResult.bStartPenetrating = true
      ∧ PhysFalling sunkWorld (2 / 125) 0 { comp := sunkComp }
        = some { comp := { sunkComp with CurrentFloor := sunkFloor,
                                         bForceNextFloorCheck := true },
                 log := [Call.RewindVRRelativeMovement] }
      ∧ ({ sunkComp with CurrentFloor := sunkFloor,
                         bForceNextFloorCheck := true } : Comp).Location = ⟨0, 0, 0⟩
      ∧ (penetrationRecovery sunkWorld { sunkComp with CurrentFloor := sunkFloor }).Location
        = ⟨0, 0, 5⟩
      ∧ ∀ (st : WalkingStep) (Delta : FVector) (bZeroDelta b1 b2 : Bool) (l : List Call),
          PhysWalking_validateFloor sunkWorld st Delta bZeroDelta 0 b1 b2
              { comp := { sunkComp with CurrentFloor := sunkFloor }, log := l }
            = PhysWalking_finish sunkWorld st 0 b1 b2
                { comp := penetrationRecovery sunkWorld
                    { sunkComp with CurrentFloor := sunkFloor }, log := l } := by
  refine ⟨by rw [sunkWorld_sweep], by rw [sunkWorld_FindFloor], rfl, sunkWorld_PhysFalling, rfl,
    by rw [sunkWorld_recovery], fun st Delta bz b1 b2 l => ?_⟩
  exact PhysWalking_validateFloor_recovers sunkWorld st Delta bz 0 b1 b2
    { comp := { sunkComp with CurrentFloor := sunkFloor }, log := l } rfl rfl le_rfl
    (by rw [sunkWorld_recovery]; rfl) (by rw [sunkWorld_recovery]; rfl)

theorem rootless_sweep :
    (PhysFalling_sweep landingWorld (2 / 125) false {} (2 / 125) 0
        rootlessFallingComp).2.1.bBlockingHit = true
    ∧ (PhysFalling_sweep landingWorld (2 / 125) false {} (2 / 125) 0
        rootlessFallingComp).2.2.IsSwimming = false
    ∧ (PhysFalling_sweep landingWorld (2 / 125) false {} (2 / 125) 0
        rootlessFallingComp).2.2.VRRootCapsule = none := by
  simp [PhysFalling_sweep, PhysFalling_integrate, PhysFalling_input, SafeMoveUpdatedComponent,
    landingWorld, rootlessFallingComp, Comp.IsSwimming]

/-- The landing check of `PhysFalling` at the failing input of C28: a falling character
whose updated component is not a VR root capsule (`VRRootCapsule` null, as
`SetUpdatedComponent` leaves it when the cast fails) and whose sweep ends on a blocking
hit. Line 2963 reads `VRRootCapsule->OffsetComponentToWorld` without a null check: the
call has no defined result (`none`), where `StepUp`, `FindFloor` and
`ShouldCheckForValidLandingSpot` fall back to the location of the updated component. -/
theorem PhysFalling_without_VR_root_reads_null :
    rootlessFallingComp.VRRootCapsule = none
      ∧ (PhysFalling_sweep landingWorld (2 / 125) false {} (2 / 125) 0
          rootlessFallingComp).2.1.bBlockingHit = true
      ∧ PhysFalling landingWorld (2 / 125) 0 { comp := rootlessFallingComp } = none
      ∧ StepUp_OldLocation rootlessFallingComp = rootlessFallingComp.Location := by
  refine ⟨rfl, rootless_sweep.1, ?_, rfl⟩
  have hF : ({ (landingWorld.GetFallingLateralAcceleration (2 / 125) rootlessFallingComp) with
      Z := 0 } : FVector) = {} := rfl
  have ha : decide (({} : FVector).SizeSquared2D > 0) = false := by
    simp [FVector.SizeSquared2D]
  have hs : ({ comp := rootlessFallingComp } : Sim).call Call.RewindVRRelativeMovement
      landingWorld.RewindVRRelativeMovement
      = { comp := rootlessFallingComp, log := [Call.RewindVRRelativeMovement] } := rfl
  unfold PhysFalling
  rw [if_neg (by norm_num [MIN_TICK_TIME])]
  simp only []
  rw [hF, ha, hs, PhysFalling_loop, dif_pos ⟨by norm_num [MIN_TICK_TIME], by decide⟩]
  unfold PhysFalling_step
  simp only []
  rw [PhysFalling_afterMove_nullRoot landingWorld false _ _ _ rfl rootless_sweep.2.1
    rootless_sweep.1 rootless_sweep.2.2]

/-! ## PhysFlying and the HMD offset -/

theorem FVector.ext_iff3 (a b : FVector) : a = b ↔ a.X = b.X ∧ a.Y = b.Y ∧ a.Z = b.Z := by
  cases a
  cases b
  simp

theorem F32.round_MIN_TICK_TIME_pos : 0 < F32.round MIN_TICK_TIME :=
  F32.round_pos_of_ge (by norm_num [MIN_TICK_TIME])

theorem F32.flown_component (l0 l v a dt : ℚ) (hdt : dt ≠ 0) (hl : l - l0 = F32.add (F32.mul v dt) a)
    (hv : F32.IsFloat v) (hm : F32.IsFloat (v * dt)) (ha : F32.IsFloat (v * dt + a))
    (hi : F32.IsFloat (1 / dt)) :
    F32.mul (F32.sub (F32.sub l l0) a) (F32.div 1 dt) = v := by
  unfold F32.IsFloat at hv hm ha hi
  unfold F32.add F32.mul at hl
  unfold F32.mul F32.sub F32.div
  rw [hm, ha] at hl
  rw [hl, ha, add_sub_cancel_right, hm, hi]
  have e : v * dt * (1 / dt) = v := by field_simp
  rw [e, hv]

theorem PhysFlying_blocked_free (env : Engine) (dt : ℚ) (Adjusted OldLocation : FVector)
    (Hit : FHitResult) (c : Comp) (h : Hit.Time = 1) :
    PhysFlying_blocked env dt Adjusted OldLocation Hit c = (OldLocation, c) := by
  unfold PhysFlying_blocked
  rw [if_neg (by rw [h]; norm_num)]

theorem PhysFlying_free (env : Engine) (deltaTime : ℚ) (Iterations : Int) (s : Sim)
    (hdt : F32.round MIN_TICK_TIME ≤ deltaTime)
    (hfree : (PhysFlying_sweep env deltaTime s).2.1.Time = 1)
    (htel : (PhysFlying_sweep env deltaTime s).2.2.bJustTeleported = false)
    (hroot : env.HasAnimRootMotion (PhysFlying_sweep env deltaTime s).2.2 = false)
    (hover : env.HasOverrideVelocity (PhysFlying_sweep env deltaTime s).2.2 = false) :
    PhysFlying env deltaTime Iterations s
      = { PhysFlying_velocity env deltaTime s with
          comp := { (PhysFlying_sweep env deltaTime s).2.2 with
            Velocity :=
              F32.vdiv
                (F32.vsub
                  (F32.vsub (PhysFlying_sweep env deltaTime s).2.2.Location
                    (PhysFlying_velocity env deltaTime s).comp.Location)
                  (PhysFlying_sweep env deltaTime s).2.2.AdditionalVRInputVector)
                deltaTime } } := by
  unfold PhysFlying
  rw [if_neg (not_lt.mpr hdt)]
  simp only []
  rw [PhysFlying_blocked_free env deltaTime _ _ _ _ hfree]
  simp only []
  rw [if_pos (by simp [htel, hroot, hover])]

/-- C23, as the code computes it. In `PhysFlying` with `deltaTime >= MIN_TICK_TIME`, when
the sweep is unobstructed (hit time 1, the capsule displaced by exactly the requested
delta, the single-precision `Velocity * deltaTime + AdditionalVRInputVector`, the HMD
vector left as it is) and at the end the character was not teleported and is driven
neither by root motion nor by an override velocity, the velocity after the call is the
velocity the velocity stage computed before the move (that of `CalcVelocity` when it ran)
for every `AdditionalVRInputVector` with which the single-precision arithmetic is exact:
the products `Velocity * deltaTime`, their sums with the HMD offset and the reciprocal
of `deltaTime` are single-precision values. The HMD offset then displaces the capsule and
is taken out again before the velocity is derived from the displacement. -/
theorem PhysFlying_velocity_without_hmd_offset (env : Engine) (deltaTime : ℚ)
    (Iterations : Int) (s : Sim) (hdt : F32.round MIN_TICK_TIME ≤ deltaTime)
    (hfree : (PhysFlying_sweep env deltaTime s).2.1.Time = 1)
    (hloc : (PhysFlying_sweep env deltaTime s).2.2.Location
        - (PhysFlying_velocity env deltaTime s).comp.Location
      = F32.vadd (F32.vscale (PhysFlying_velocity env deltaTime s).comp.Velocity deltaTime)
          (PhysFlying_velocity env deltaTime s).comp.AdditionalVRInputVector)
    (hhmd : (PhysFlying_sweep env deltaTime s).2.2.AdditionalVRInputVector
      = (PhysFlying_velocity env deltaTime s).comp.AdditionalVRInputVector)
    (htel : (PhysFlying_sweep env deltaTime s).2.2.bJustTeleported = false)
    (hroot : env.HasAnimRootMotion (PhysFlying_sweep env deltaTime s).2.2 = false)
    (hover : env.HasOverrideVelocity (PhysFlying_sweep env deltaTime s).2.2 = false)
    (hV : F32.IsFloatVector (PhysFlying_velocity env deltaTime s).comp.Velocity)
    (hmul : F32.IsFloatVector
      ((PhysFlying_velocity env deltaTime s).comp.Velocity.scale deltaTime))
    (hadd : F32.IsFloatVector
      ((PhysFlying_velocity env deltaTime s).comp.Velocity.scale deltaTime
        + (PhysFlying_velocity env deltaTime s).comp.AdditionalVRInputVector))
    (hinv : F32.IsFloat (1 / deltaTime)) :
    (PhysFlying env deltaTime Iterations s).comp.Velocity
        = (PhysFlying_velocity env deltaTime s).comp.Velocity
      ∧ (PhysFlying env deltaTime Iterations s).comp.Location
        = (PhysFlying_sweep env deltaTime s).2.2.Location
      ∧ (PhysFlying env deltaTime Iterations s).log
        = s.log ++ [Call.RewindVRRelativeMovement] := by
  have hpos : deltaTime ≠ 0 := ne_of_gt (lt_of_lt_of_le F32.round_MIN_TICK_TIME_pos hdt)
  rw [PhysFlying_free env deltaTime Iterations s hdt hfree htel hroot hover]
  refine ⟨?_, rfl, rfl⟩
  show F32.vdiv (F32.vsub (F32.vsub (PhysFlying_sweep env deltaTime s).2.2.Location
      (PhysFlying_velocity env deltaTime s).comp.Location)
      (PhysFlying_sweep env deltaTime s).2.2.AdditionalVRInputVector) deltaTime = _
  rw [hhmd, FVector.ext_iff3]
  exact ⟨F32.flown_component _ _ _ _ _ hpos (congrArg FVector.X hloc) hV.1 hmul.1 hadd.1 hinv,
    F32.flown_component _ _ _ _ _ hpos (congrArg FVector.Y hloc) hV.2.1 hmul.2.1 hadd.2.1 hinv,
    F32.flown_component _ _ _ _ _ hpos (congrArg FVector.Z hloc) hV.2.2 hmul.2.2 hadd.2.2 hinv⟩

theorem F32.round_13_8 : F32.round (13 / 8) = 13 / 8 := by
  have h := F32.round_representable 13 (-3) (by norm_num) (by norm_num) (by norm_num)
  have e : ((13 : ℤ) : ℚ) * 2 ^ (-3 : ℤ) = 13 / 8 := by norm_num
  rw [e] at h
  exact h

theorem F32.round_37_8 : F32.round (37 / 8) = 37 / 8 := by
  have h := F32.round_representable 37 (-3) (by norm_num) (by norm_num) (by norm_num)
  have e : ((37 : ℤ) : ℚ) * 2 ^ (-3 : ℤ) = 37 / 8 := by norm_num
  rw [e] at h
  exact h

theorem F32.round_past_2_24 : F32.round (134217741 / 8) = 16777218 := by
  have h := F32.round_eval (134217741 / 8) 24 8388609 (by norm_num) (by norm_num)
    (by norm_num) (by norm_num) (F32.rne_eq_of_near _ _ (by norm_num) (by norm_num))
    (by norm_num)
  rw [h]
  norm_num

theorem F32.round_past_2_24_more : F32.round (134217747 / 8) = 16777218 := by
  have h := F32.round_eval (134217747 / 8) 24 8388609 (by norm_num) (by norm_num)
    (by norm_num) (by norm_num) (F32.rne_eq_of_near _ _ (by norm_num) (by norm_num))
    (by norm_num)
  rw [h]
  norm_num

theorem F32.round_MIN_TICK_TIME_le : F32.round MIN_TICK_TIME ≤ 1 / 64 := by
  have h := F32.round_mono (show MIN_TICK_TIME ≤ 1 / 64 by norm_num [MIN_TICK_TIME])
  have h2 := F32.round_representable 1 (-6) (by norm_num) (by norm_num) (by norm_num)
  have e : ((1 : ℤ) : ℚ) * 2 ^ (-6 : ℤ) = 1 / 64 := by norm_num
  rw [e] at h2
  rw [h2] at h
  exact h

theorem flyWorld_velocity (c : Comp) (hc : c = flyingComp ∨ c = farHmdComp) :
    (PhysFlying_velocity flyWorld (1 / 64) { comp := c }).comp
      = { c with Velocity := ⟨104, 0, 0⟩ } := by
  rcases hc with h | h <;> subst h <;>
    norm_num [PhysFlying_velocity, Sim.call, flyWorld, flyingComp, farHmdComp, FVector.IsZero,
      FVector.scale, FVector.mk_add_mk]

theorem flyWorld_sweep :
    PhysFlying_sweep flyWorld (1 / 64) { comp := flyingComp }
      = (true, { Time := 1 },
          { flyingComp with Velocity := ⟨104, 0, 0⟩, Location := ⟨37 / 8, 4, 0⟩ }) := by
  unfold PhysFlying_sweep
  simp only []
  rw [flyWorld_velocity _ (Or.inl rfl)]
  norm_num [SafeMoveUpdatedComponent, flyWorld, flyingComp, F32.vadd, F32.vscale, F32.add,
    F32.mul, F32.round_ofNat, F32.round_zero, F32.round_13_8, F32.round_37_8]

theorem flyWorld_far_sweep :
    PhysFlying_sweep flyWorld (1 / 64) { comp := farHmdComp }
      = (true, { Time := 1 },
          { farHmdComp with Velocity := ⟨104, 0, 0⟩, Location := ⟨16777218, 0, 0⟩ }) := by
  unfold PhysFlying_sweep
  simp only []
  rw [flyWorld_velocity _ (Or.inr rfl)]
  norm_num [SafeMoveUpdatedComponent, flyWorld, flyingComp, farHmdComp, F32.vadd, F32.vscale,
    F32.add, F32.mul, F32.round_ofNat, F32.round_zero, F32.round_13_8, F32.round_past_2_24,
    F32.round_past_2_24_more]

/-- Counterexample to C23 as stated: a character at X = 0.375 flying at 104 units per second
after `CalcVelocity`, in a tick of 1/64 s in which the HMD moved by 2^24 units along X.
The sweep is unobstructed and the capsule moves by exactly `Velocity * deltaTime +
AdditionalVRInputVector` = 16777217.625, from 0.375 to 16777218; the displacement measured
in single precision is 16777218, and the velocity after the call is (128, 0, 0), not
(104, 0, 0). -/
theorem PhysFlying_velocity_keeps_rounding_of_hmd_offset :
    F32.round MIN_TICK_TIME ≤ 1 / 64
      ∧ flyWorld.HasAnimRootMotion
          (PhysFlying_sweep flyWorld (1 / 64) { comp := farHmdComp }).2.2 = false
      ∧ (PhysFlying_sweep flyWorld (1 / 64) { comp := farHmdComp }).2.2.bJustTeleported = false
      ∧ (PhysFlying_velocity flyWorld (1 / 64) { comp := farHmdComp }).comp.Velocity
          = ⟨104, 0, 0⟩
      ∧ (PhysFlying_sweep flyWorld (1 / 64) { comp := farHmdComp }).2.1.Time = 1
      ∧ (PhysFlying_sweep flyWorld (1 / 64) { comp := farHmdComp }).2.2.Location
            - (PhysFlying_velocity flyWorld (1 / 64) { comp := farHmdComp }).comp.Location
          = (PhysFlying_velocity flyWorld (1 / 64) { comp := farHmdComp }).comp.Velocity.scale
              (1 / 64)
            + (PhysFlying_velocity flyWorld (1 / 64)
                { comp := farHmdComp }).comp.AdditionalVRInputVector
      ∧ (PhysFlying flyWorld (1 / 64) 0 { comp := farHmdComp }).comp.Velocity = ⟨128, 0, 0⟩ := by
  refine ⟨F32.round_MIN_TICK_TIME_le, ?_, ?_, ?_, ?_, ?_, ?_⟩
  · rfl
  · rw [flyWorld_far_sweep]
    rfl
  · rw [flyWorld_velocity _ (Or.inr rfl)]
  · rw [flyWorld_far_sweep]
  · rw [flyWorld_far_sweep, flyWorld_velocity _ (Or.inr rfl)]
    norm_num [farHmdComp, flyingComp, FVector.scale, FVector.mk_add_mk, FVector.mk_sub_mk]
  · rw [PhysFlying_free flyWorld (1 / 64) 0 { comp := farHmdComp } F32.round_MIN_TICK_TIME_le
      (by rw [flyWorld_far_sweep]) (by rw [flyWorld_far_sweep]; rfl) rfl rfl]
    simp only []
    rw [flyWorld_far_sweep, flyWorld_velocity _ (Or.inr rfl)]
    norm_num [farHmdComp, flyingComp, F32.vdiv, F32.vsub, F32.sub, F32.mul, F32.div,
      F32.round_ofNat, F32.round_zero, F32.round_past_2_24]

/-- Witness for C23 as the code computes it: a flying character accelerated from 100 to
104 units per second in a tick of 1/64 s in which the HMD moved by (3, 4): the capsule
moves by 1.625 + 3 along X and 4 along Y, all sums being exact in single precision, and
the velocity left is (104, 0, 0). -/
theorem PhysFlying_velocity_without_hmd_offset_witness :
    (PhysFlying flyWorld (1 / 64) 0 { comp := flyingComp }).comp.Velocity = ⟨104, 0, 0⟩
      ∧ (PhysFlying flyWorld (1 / 64) 0 { comp := flyingComp }).comp.Location
        = ⟨37 / 8, 4, 0⟩ := by
  have h := PhysFlying_velocity_without_hmd_offset flyWorld (1 / 64) 0 { comp := flyingComp }
    F32.round_MIN_TICK_TIME_le (by rw [flyWorld_sweep])
    (by
      rw [flyWorld_sweep, flyWorld_velocity _ (Or.inl rfl)]
      norm_num [flyingComp, F32.vadd, F32.vscale, F32.add, F32.mul, FVector.mk_sub_mk,
        F32.round_ofNat, F32.round_zero, F32.round_13_8, F32.round_37_8])
    (by rw [flyWorld_sweep, flyWorld_velocity _ (Or.inl rfl)])
    (by rw [flyWorld_sweep]; rfl) rfl rfl
    (by
      rw [flyWorld_velocity _ (Or.inl rfl)]
      norm_num [F32.IsFloatVector, F32.IsFloat, F32.round_ofNat, F32.round_zero])
    (by
      rw [flyWorld_velocity _ (Or.inl rfl)]
      norm_num [F32.IsFloatVector, F32.IsFloat, FVector.scale, F32.round_ofNat, F32.round_zero,
        F32.round_13_8])
    (by
      rw [flyWorld_velocity _ (Or.inl rfl)]
      norm_num [F32.IsFloatVector, F32.IsFloat, FVector.scale, flyingComp, FVector.mk_add_mk,
        F32.round_ofNat, F32.round_zero, F32.round_37_8])
    (by norm_num [F32.IsFloat, F32.round_ofNat])
  rw [flyWorld_velocity _ (Or.inl rfl), flyWorld_sweep] at h
  exact ⟨h.1, h.2.1⟩

/-! ## Walkability and edge tolerance -/

theorem UCharacterMovementComponent.IsWalkable_iff (env : Engine) (Hit : FHitResult)
    (c : Comp) :
    UCharacterMovementComponent.IsWalkable env Hit c = true
      ↔ Hit.bBlockingHit = true ∧ Hit.bStartPenetrating = false
        ∧ F32.round KINDA_SMALL_NUMBER ≤ Hit.ImpactNormal.Z
        ∧ UCharacterMovementComponent.TestWalkableZ env Hit c ≤ Hit.ImpactNormal.Z := by
  unfold UCharacterMovementComponent.IsWalkable FHitResult.IsValidBlockingHit
  constructor
  · intro h
    split_ifs at h with h1 h2 h3
    simp only [Bool.not_eq_true', Bool.and_eq_false_iff, Bool.not_eq_false',
      not_or, Bool.not_eq_false, Bool.not_eq_true] at h1
    exact ⟨h1.1, h1.2, not_lt.mp h2, not_lt.mp h3⟩
  · rintro ⟨h1, h2, h3, h4⟩
    rw [if_neg (by simp [h1, h2]), if_neg (not_lt.mpr h3), if_neg (not_lt.mpr h4)]

theorem StepUp_validateLanding_outside_tolerance (env : Engine) (Delta : FVector)
    (Hit : FHitResult) (OldLocation : FVector) (PawnFloorPointZ StepSideZ : ℚ) (out : Bool)
    (c : Comp) :
    (StepUp_validateLanding env false Delta Hit OldLocation PawnFloorPointZ StepSideZ out c).1
      = none := by
  unfold StepUp_validateLanding
  simp only []
  split_ifs <;> first | rfl | (exfalso; simp_all)

theorem StepUp_down_outside_tolerance (env : Engine) (sc : ScopedMovementUpdate)
    (edgeTest : Comp → FVector → FVector → ℚ → Bool) (GravDir Delta : FVector)
    (D R P S : ℚ) (OldLocation : FVector) (out : Bool) (Hit : FHitResult) (c : Comp)
    (hv : (env.MoveUpdatedComponent (GravDir.scale D) c.Rotation true Hit
      c).2.1.IsValidBlockingHit = true)
    (he : edgeTest (env.MoveUpdatedComponent (GravDir.scale D) c.Rotation true Hit c).2.2
        (env.MoveUpdatedComponent (GravDir.scale D) c.Rotation true Hit c).2.1.Location
        (env.MoveUpdatedComponent (GravDir.scale D) c.Rotation true Hit c).2.1.ImpactPoint R
      = false) :
    (StepUp_down env sc edgeTest GravDir Delta D R P S OldLocation out Hit c).1 = false := by
  unfold StepUp_down
  simp only []
  generalize env.MoveUpdatedComponent (GravDir.scale D) c.Rotation true Hit c = dn at hv he ⊢
  by_cases hp : dn.2.1.bStartPenetrating = true
  · rw [if_pos hp]
  · rw [if_neg hp, if_pos hv, he]
    have hn := StepUp_validateLanding_outside_tolerance env Delta dn.2.1 OldLocation P S out
      dn.2.2
    generalize StepUp_validateLanding env false Delta dn.2.1 OldLocation P S out dn.2.2 = l
      at hn ⊢
    obtain ⟨l1, l2⟩ := l
    simp only at hn
    subst hn
    rfl

theorem rimHit_facts :
    UCharacterMovementComponent.IsWalkable slopeWorld rimHit standingComp = true
      ∧ IsWithinEdgeTolerance standingComp rimHit.Location rimHit.ImpactPoint
          standingComp.GetScaledCapsuleRadius = false := by
  constructor
  · rw [UCharacterMovementComponent.IsWalkable_iff, F32.round_KINDA_SMALL_NUMBER]
    norm_num [UCharacterMovementComponent.TestWalkableZ, rimHit, slopeWorld]
  · rw [IsWithinEdgeTolerance_eq]
    norm_num [F32.add, F32.sub, F32.mul, F32.round_KINDA_SMALL_NUMBER,
      F32.round_kinda_small_value, F32.round_ofNat, F32.round_zero, rimHit, standingComp,
      Comp.GetScaledCapsuleRadius]

/-- Counterexample to C22 as stated: a blocking hit on a flat floor (normal straight up,
above the walkable floor Z of 0.71) whose impact point is on the rim of the capsule, 20
units from its axis, is walkable for `IsWalkable` and is outside the edge tolerance. -/
theorem IsWalkable_holds_outside_edge_tolerance :
    rimHit.bBlockingHit = true
      ∧ slopeWorld.GetWalkableFloorZ standingComp ≤ rimHit.ImpactNormal.Z
      ∧ UCharacterMovementComponent.IsWalkable slopeWorld rimHit standingComp = true
      ∧ slopeWorld.IsWalkable rimHit standingComp = true
      ∧ IsWithinEdgeTolerance standingComp rimHit.Location rimHit.ImpactPoint
          standingComp.GetScaledCapsuleRadius = false
      ∧ ¬ (UCharacterMovementComponent.IsWalkable slopeWorld rimHit standingComp = true
          ↔ (rimHit.bBlockingHit = true
            ∧ slopeWorld.GetWalkableFloorZ standingComp ≤ rimHit.ImpactNormal.Z
            ∧ IsWithinEdgeTolerance standingComp rimHit.Location rimHit.ImpactPoint
                standingComp.GetScaledCapsuleRadius = true)) := by
  obtain ⟨h1, h2⟩ := rimHit_facts
  refine ⟨rfl, by norm_num [slopeWorld, rimHit], h1, h1, h2, ?_⟩
  rw [h1, h2]
  simp

/-- C22, as the code has it. Walkability and edge tolerance are two tests. `IsWalkable`
is the engine's: true iff the hit is a valid blocking hit (blocking, not started in
penetration) and the up-component of its impact normal is at least the walkable floor Z
for the hit (and not below `KINDA_SMALL_NUMBER`); the edge tolerance is not part of it.
`StepUp` applies the edge tolerance on its own: a call whose downward sweep ends on a
valid blocking hit with the impact point outside the edge tolerance of the capsule
returns false, whatever `IsWalkable` says of the hit. -/
theorem walkability_and_edge_tolerance_are_separate (env : Engine) (GravDir Delta : FVector)
    (InHit : FHitResult) (out : Bool) (c : Comp) (Hit : FHitResult) (cd : Comp) :
    (UCharacterMovementComponent.IsWalkable env Hit cd = true
        ↔ Hit.bBlockingHit = true ∧ Hit.bStartPenetrating = false
          ∧ F32.round KINDA_SMALL_NUMBER ≤ Hit.ImpactNormal.Z
          ∧ UCharacterMovementComponent.TestWalkableZ env Hit cd ≤ Hit.ImpactNormal.Z)
      ∧ (StepUp_downSweep env GravDir Delta InHit c = some (Hit, cd) →
          Hit.IsValidBlockingHit = true →
          IsWithinEdgeTolerance cd Hit.Location Hit.ImpactPoint c.GetScaledCapsuleRadius
            = false →
          (StepUp env GravDir Delta InHit out c).1 = false) := by
  refine ⟨UCharacterMovementComponent.IsWalkable_iff env Hit cd, fun hd hv he => ?_⟩
  unfold StepUp_downSweep at hd
  generalize hb : StepUp_beforeDown env GravDir Delta InHit c = b at hd
  cases b with
  | none => exact absurd hd (by simp)
  | some p =>
    obtain ⟨Hit0, c3⟩ := p
    simp only [Option.some.injEq] at hd
    rw [StepUp_of_beforeDown env GravDir Delta InHit out c Hit0 c3 hb]
    apply StepUp_down_outside_tolerance
    · rw [hd]
      exact hv
    · rw [hd]
      exact he

theorem rimWorld_IsWalkable (Hit : FHitResult) (c : Comp) :
    rimWorld.IsWalkable Hit c = UCharacterMovementComponent.IsWalkable {} Hit c := rfl

theorem rimWorld_downSweep :
    StepUp_downSweep rimWorld ⟨0, 0, -1⟩ ⟨10, 0, 0⟩ { ImpactPoint := ⟨20, 0, -60⟩ } restingComp
      = some ({ bBlockingHit := true, Time := 1 / 2, Normal := ⟨0, 0, 1⟩,
                ImpactNormal := ⟨0, 0, 1⟩, Location := ⟨10, 0, 181 / 10⟩,
                ImpactPoint := ⟨30, 0, 181 / 10 - 90⟩ },
              { restingComp with Location := ⟨10, 0, 181 / 10⟩ }) := by
  norm_num [StepUp_downSweep, StepUp_beforeDown, StepUp_entryRejects, StepUp_forward,
    StepUp_heights, rimWorld, restingComp, flatFloor, StepUp_OldLocation,
    Comp.GetScaledCapsuleRadius, Comp.GetScaledCapsuleHalfHeight, FVector.IsZero,
    Comp.IsMovingOnGround, FFindFloorResult.IsWalkableFloor, IsWithinEdgeTolerance,
    F32.SizeSquared2D, F32.vsub, F32.add, F32.sub, F32.mul, ↓F32.round_KINDA_SMALL_NUMBER,
    F32.round_kinda_small_value, F32.round_ofNat, F32.round_zero,
    FVector.SizeSquared2D, FVector.scale, MAX_FLOOR_DIST, KINDA_SMALL_NUMBER,
    FVector.mk_add_mk, FVector.mk_sub_mk, FVector.neg_mk]

/-- Witness for C22 as the code has it: in `rimWorld` the downward sweep of a step-up ends
on a flat ledge touching the rim of the capsule; the hit is walkable and `StepUp` returns
false. -/
theorem walkability_and_edge_tolerance_are_separate_witness :
    rimWorld.IsWalkable
        { bBlockingHit := true, Time := 1 / 2, Normal := ⟨0, 0, 1⟩, ImpactNormal := ⟨0, 0, 1⟩,
          Location := ⟨10, 0, 181 / 10⟩, ImpactPoint := ⟨30, 0, 181 / 10 - 90⟩ }
        { restingComp with Location := ⟨10, 0, 181 / 10⟩ } = true
      ∧ (StepUp rimWorld ⟨0, 0, -1⟩ ⟨10, 0, 0⟩ { ImpactPoint := ⟨20, 0, -60⟩ } false
          restingComp).1 = false := by
  have h := walkability_and_edge_tolerance_are_separate rimWorld ⟨0, 0, -1⟩ ⟨10, 0, 0⟩
    { ImpactPoint := ⟨20, 0, -60⟩ } false restingComp
    { bBlockingHit := true, Time := 1 / 2, Normal := ⟨0, 0, 1⟩, ImpactNormal := ⟨0, 0, 1⟩,
      Location := ⟨10, 0, 181 / 10⟩, ImpactPoint := ⟨30, 0, 181 / 10 - 90⟩ }
    { restingComp with Location := ⟨10, 0, 181 / 10⟩ }
  refine ⟨?_, h.2 rimWorld_downSweep rfl ?_⟩
  · rw [rimWorld_IsWalkable, UCharacterMovementComponent.IsWalkable_iff,
      F32.round_KINDA_SMALL_NUMBER]
    norm_num [UCharacterMovementComponent.TestWalkableZ]
  · rw [IsWithinEdgeTolerance_eq]
    norm_num [F32.add, F32.sub, F32.mul, F32.round_KINDA_SMALL_NUMBER,
      F32.round_kinda_small_value, F32.round_ofNat, F32.round_zero, restingComp,
      Comp.GetScaledCapsuleRadius]

/-! ## UnCrouch under something overhead -/

/-- Counterexample to C3 as stated: a crouched character two units above its floor under
something overhead. The overlap test of `UnCrouch` at the standing location (line 262,
centre at Z = 50.001) reports a blocking overlap; the retry 1.999 units lower (line 272)
fits, and the call ends with the capsule grown from half height 40 to 90 and
`bIsCrouched` cleared. -/
theorem UnCrouch_fits_after_retry :
    lowCeilingWorld.OverlapBlockingTestByChannel
        (CrouchCapLocation lowCeilingComp
          + ⟨0, 0, (lowCeilingWorld.GetPawnCapsuleCollisionShape
              EShrinkCapsuleExtent.SHRINK_HeightCustom
              (-(KINDA_SMALL_NUMBER * 10)
                - (lowCeilingComp.DefaultCapsuleHalfHeight - lowCeilingComp.CapsuleHalfHeight)
                  * lowCeilingComp.ShapeScale) lowCeilingComp).HalfHeight
            - lowCeilingComp.GetScaledCapsuleHalfHeight⟩)
        (lowCeilingWorld.GetPawnCapsuleCollisionShape EShrinkCapsuleExtent.SHRINK_HeightCustom
          (-(KINDA_SMALL_NUMBER * 10)
            - (lowCeilingComp.DefaultCapsuleHalfHeight - lowCeilingComp.CapsuleHalfHeight)
              * lowCeilingComp.ShapeScale) lowCeilingComp)
        lowCeilingComp = true
      ∧ lowCeilingComp.CapsuleHalfHeight = 40
      ∧ lowCeilingComp.bIsCrouched = true
      ∧ (UnCrouch lowCeilingWorld false lowCeilingComp).1 = some false
      ∧ (UnCrouch lowCeilingWorld false lowCeilingComp).2.CapsuleHalfHeight = 90
      ∧ (UnCrouch lowCeilingWorld false lowCeilingComp).2.bIsCrouched = false := by
  refine ⟨?_, rfl, rfl, ?_, ?_, ?_⟩
  · norm_num [lowCeilingWorld, lowCeilingComp, CrouchCapLocation, KINDA_SMALL_NUMBER,
      Comp.GetScaledCapsuleHalfHeight, Comp.GetScaledCapsuleRadius, FVector.mk_add_mk]
  all_goals
    norm_num [UnCrouch, UnCrouch_encroached, UnCrouch_finish, CrouchMeshAdjust,
      lowCeilingWorld, lowCeilingComp, flatFloor, CrouchCapLocation, KINDA_SMALL_NUMBER,
      Comp.GetScaledCapsuleHalfHeight, Comp.GetScaledCapsuleRadius, Comp.IsMovingOnGround,
      Comp.SetCapsuleSize, FVector.mk_add_mk]

end VRMove
